import Mathlib

/-!
# USB notify layer (drivers/usb/notify/usb_notify.c): a shallow embedding

The development embeds the cable/role state machine of `usb_notify.c` as pure
functions on an explicit state record and proves properties of it.

Conventions of the embedding.

* `unsigned long event` is a `Nat`; C `int` values (`enable`, `virtual`,
  `start`, counters, flags stored in `struct usb_notify`) are `Int`, and a C
  truth test `if (x)` is `x ≠ 0`.  An `int` expression whose value can leave
  the 32-bit range (the product `pre_peri_delay_us * 1000`, the arithmetic of
  the thermistor lookup) is wrapped with `to_int`.
* Enumerations whose members are only assigned and compared (status, modes,
  lock state, ...) are inductive types.
* `struct usb_notify` and the `struct otg_notify` it points to are one record,
  `usb_notify`, with the `otg_notify` part in the field `o_notify`.
  Every function takes the record and returns the updated record.
* Calls that leave the file (hardware hooks of `struct otg_notify`, GPIO,
  uevents, external notifications, the usb log, sleeps, work scheduling) are
  appended, in program order, to the field `trace`.  A hook that is a NULL
  pointer is a `false` flag in `otg_notify`; the embedding keeps the NULL
  checks of the source.
* The single threaded work queue `notifier_wq` is the list `notifier_wq` of
  pending `otg_state_work` items; `flush_workqueue` runs them in order.
* The code is embedded as built without
  `CONFIG_DISABLE_LOCKSCREEN_USB_RESTRICTION` and without
  `CONFIG_USB_HW_PARAM` (the lock screen restriction branch).
* Locks (`mutex`, `spinlock`) and waits have no effect on a sequential run and
  are left out; `wake_up_interruptible` is kept in the trace.
* A C string is the list of its bytes before the terminator (`none` for a NULL
  pointer); an `int` array is the function from an index to the entry read
  there.
* A `while` loop with a bounded number of passes is a recursive function with
  a counter of the passes that are left; the theorems about it show that the
  counter handed in is never used up.
* The scanning thread `ovc_scan_thread` is run over the list of its wake-ups.
* `set_otg_notify` is embedded with the answers of the services it calls as a
  parameter; its result is the return value and the label at which it leaves.
* The table lookup of `drivers/samsung/pm/sec_thermistor/sec_thermistor.c` is
  embedded in the last section of the definitions; a lookup returns a value
  or the fault at which the C code has no defined result.
-/

namespace UsbNotify

/-! ## Constants of `include/linux/usb_notify.h` -/

/-- Modelled from the spec: `enum otg_notify_events` of
`include/linux/usb_notify.h`, which is not among the sources. The spec lists a
closed set of event identifiers with a virtual tag on top; the members are
numbered from zero in the order in which `event_string` lists them, with
`NOTIFY_EVENT_VBUSPOWER` the last real identifier (the notifier callbacks use
`VIRT_EVENT(NOTIFY_EVENT_VBUSPOWER)` as the largest valid value) and
`NOTIFY_EVENT_VIRTUAL` right after it. -/
@[match_pattern] def NOTIFY_EVENT_NONE : Nat := 0
@[match_pattern] def NOTIFY_EVENT_VBUS : Nat := 1
@[match_pattern] def NOTIFY_EVENT_HOST : Nat := 2
@[match_pattern] def NOTIFY_EVENT_CHARGER : Nat := 3
@[match_pattern] def NOTIFY_EVENT_SMARTDOCK_TA : Nat := 4
@[match_pattern] def NOTIFY_EVENT_SMARTDOCK_USB : Nat := 5
@[match_pattern] def NOTIFY_EVENT_AUDIODOCK : Nat := 6
@[match_pattern] def NOTIFY_EVENT_LANHUB : Nat := 7
@[match_pattern] def NOTIFY_EVENT_LANHUB_TA : Nat := 8
@[match_pattern] def NOTIFY_EVENT_MMDOCK : Nat := 9
@[match_pattern] def NOTIFY_EVENT_HMT : Nat := 10
@[match_pattern] def NOTIFY_EVENT_GAMEPAD : Nat := 11
@[match_pattern] def NOTIFY_EVENT_POGO : Nat := 12
@[match_pattern] def NOTIFY_EVENT_HOST_RELOAD : Nat := 13
@[match_pattern] def NOTIFY_EVENT_DRIVE_VBUS : Nat := 14
@[match_pattern] def NOTIFY_EVENT_ALL_DISABLE : Nat := 15
@[match_pattern] def NOTIFY_EVENT_HOST_DISABLE : Nat := 16
@[match_pattern] def NOTIFY_EVENT_CLIENT_DISABLE : Nat := 17
@[match_pattern] def NOTIFY_EVENT_MDM_ON_OFF : Nat := 18
@[match_pattern] def NOTIFY_EVENT_MDM_ON_OFF_FOR_ID : Nat := 19
@[match_pattern] def NOTIFY_EVENT_MDM_ON_OFF_FOR_SERIAL : Nat := 20
@[match_pattern] def NOTIFY_EVENT_OVERCURRENT : Nat := 21
@[match_pattern] def NOTIFY_EVENT_SMSC_OVC : Nat := 22
@[match_pattern] def NOTIFY_EVENT_SMTD_EXT_CURRENT : Nat := 23
@[match_pattern] def NOTIFY_EVENT_MMD_EXT_CURRENT : Nat := 24
@[match_pattern] def NOTIFY_EVENT_HMD_EXT_CURRENT : Nat := 25
@[match_pattern] def NOTIFY_EVENT_DEVICE_CONNECT : Nat := 26
@[match_pattern] def NOTIFY_EVENT_GAMEPAD_CONNECT : Nat := 27
@[match_pattern] def NOTIFY_EVENT_LANHUB_CONNECT : Nat := 28
@[match_pattern] def NOTIFY_EVENT_POWER_SOURCE : Nat := 29
@[match_pattern] def NOTIFY_EVENT_PD_CONTRACT : Nat := 30
@[match_pattern] def NOTIFY_EVENT_VBUS_RESET : Nat := 31
@[match_pattern] def NOTIFY_EVENT_RESERVE_BOOSTER : Nat := 32
@[match_pattern] def NOTIFY_EVENT_USB_CABLE : Nat := 33
@[match_pattern] def NOTIFY_EVENT_USBD_SUSPENDED : Nat := 34
@[match_pattern] def NOTIFY_EVENT_USBD_UNCONFIGURED : Nat := 35
@[match_pattern] def NOTIFY_EVENT_USBD_CONFIGURED : Nat := 36
@[match_pattern] def NOTIFY_EVENT_DR_SWAP : Nat := 37
@[match_pattern] def NOTIFY_EVENT_REVERSE_BYPASS_DEVICE_CONNECT : Nat := 38
@[match_pattern] def NOTIFY_EVENT_REVERSE_BYPASS_DEVICE_ATTACH : Nat := 39
@[match_pattern] def NOTIFY_EVENT_VBUSPOWER : Nat := 40
@[match_pattern] def NOTIFY_EVENT_VIRTUAL : Nat := 41

/-- Modelled from the spec: the macro `VIRT_EVENT` of the missing header; it
puts the virtual tag on an event identifier. -/
def VIRT_EVENT (a : Nat) : Nat := a + NOTIFY_EVENT_VIRTUAL

/-- Modelled from the spec: the macro `PHY_EVENT` of the missing header; it
strips the virtual tag and gives the base (physical) identifier. -/
def PHY_EVENT (a : Nat) : Nat := a % NOTIFY_EVENT_VIRTUAL

/-- Modelled from the spec: the macro `IS_VIRTUAL` of the missing header; 1
when the value carries the virtual tag, 0 otherwise. -/
def IS_VIRTUAL (a : Nat) : Int := if a ≥ NOTIFY_EVENT_VIRTUAL then 1 else 0

/-- Modelled from the spec: `enum otg_notify_event_type` of the missing header,
the capability bitmask {Extra, State, Delay, NeedVbusDrive, NoBlocking, NoSave,
NeedHost, NeedClient}; every flag is one bit of its own. -/
def NOTIFY_EVENT_EXTRA : Nat := 1
def NOTIFY_EVENT_STATE : Nat := 2
def NOTIFY_EVENT_DELAY : Nat := 4
def NOTIFY_EVENT_NEED_VBUSDRIVE : Nat := 8
def NOTIFY_EVENT_NOBLOCKING : Nat := 16
def NOTIFY_EVENT_NOSAVE : Nat := 32
def NOTIFY_EVENT_NEED_HOST : Nat := 64
def NOTIFY_EVENT_NEED_CLIENT : Nat := 128

/-- Modelled from the spec: `enum otg_notify_block_type` of the missing header
(none, host, client, all = host and client together). The same constants are
the bit numbers handed to `test_bit` / `set_bit` / `clear_bit` on
`udev.disable_state`. -/
def NOTIFY_BLOCK_TYPE_NONE : Nat := 0
def NOTIFY_BLOCK_TYPE_HOST : Nat := 1
def NOTIFY_BLOCK_TYPE_CLIENT : Nat := 2
def NOTIFY_BLOCK_TYPE_ALL : Nat := 3

/-- Kernel bit operation `test_bit(nr, addr)` on one word. -/
def test_bit (nr : Nat) (word : Nat) : Bool := word.testBit nr

/-- Kernel bit operation `set_bit(nr, addr)` on one word. -/
def set_bit (nr : Nat) (word : Nat) : Nat := word ||| (1 <<< nr)

/-- Kernel bit operation `clear_bit(nr, addr)` on one word. -/
def clear_bit (nr : Nat) (word : Nat) : Nat :=
  if word.testBit nr then word - (1 <<< nr) else word

/-! ## Event classification -/

/-- `static int check_event_type(enum otg_notify_events event)`. -/
def check_event_type (event : Nat) : Nat :=
  match event with
  | NOTIFY_EVENT_OVERCURRENT
  | NOTIFY_EVENT_VBUSPOWER
  | NOTIFY_EVENT_SMSC_OVC
  | NOTIFY_EVENT_SMTD_EXT_CURRENT
  | NOTIFY_EVENT_MMD_EXT_CURRENT
  | NOTIFY_EVENT_HMD_EXT_CURRENT
  | NOTIFY_EVENT_DEVICE_CONNECT
  | NOTIFY_EVENT_GAMEPAD_CONNECT
  | NOTIFY_EVENT_LANHUB_CONNECT
  | NOTIFY_EVENT_POWER_SOURCE
  | NOTIFY_EVENT_PD_CONTRACT
  | NOTIFY_EVENT_VBUS_RESET
  | NOTIFY_EVENT_RESERVE_BOOSTER
  | NOTIFY_EVENT_USB_CABLE
  | NOTIFY_EVENT_USBD_SUSPENDED
  | NOTIFY_EVENT_USBD_UNCONFIGURED
  | NOTIFY_EVENT_USBD_CONFIGURED
  | NOTIFY_EVENT_DR_SWAP
  | NOTIFY_EVENT_REVERSE_BYPASS_DEVICE_CONNECT
  | NOTIFY_EVENT_REVERSE_BYPASS_DEVICE_ATTACH =>
      0 ||| NOTIFY_EVENT_EXTRA
  | NOTIFY_EVENT_VBUS
  | NOTIFY_EVENT_SMARTDOCK_USB =>
      0 ||| (NOTIFY_EVENT_STATE ||| NOTIFY_EVENT_DELAY ||| NOTIFY_EVENT_NEED_CLIENT)
  | NOTIFY_EVENT_HOST
  | NOTIFY_EVENT_HMT
  | NOTIFY_EVENT_GAMEPAD =>
      0 ||| (NOTIFY_EVENT_STATE ||| NOTIFY_EVENT_NEED_VBUSDRIVE
              ||| NOTIFY_EVENT_DELAY ||| NOTIFY_EVENT_NEED_HOST)
  | NOTIFY_EVENT_POGO =>
      0 ||| (NOTIFY_EVENT_STATE ||| NOTIFY_EVENT_DELAY ||| NOTIFY_EVENT_NEED_HOST)
  | NOTIFY_EVENT_HOST_RELOAD =>
      0 ||| (NOTIFY_EVENT_STATE ||| NOTIFY_EVENT_NEED_HOST ||| NOTIFY_EVENT_NOSAVE)
  | NOTIFY_EVENT_ALL_DISABLE
  | NOTIFY_EVENT_HOST_DISABLE
  | NOTIFY_EVENT_CLIENT_DISABLE
  | NOTIFY_EVENT_MDM_ON_OFF
  | NOTIFY_EVENT_MDM_ON_OFF_FOR_ID
  | NOTIFY_EVENT_MDM_ON_OFF_FOR_SERIAL =>
      0 ||| (NOTIFY_EVENT_STATE ||| NOTIFY_EVENT_NOBLOCKING ||| NOTIFY_EVENT_NOSAVE)
  | NOTIFY_EVENT_DRIVE_VBUS
  | NOTIFY_EVENT_LANHUB_TA =>
      0 ||| (NOTIFY_EVENT_STATE ||| NOTIFY_EVENT_NOSAVE ||| NOTIFY_EVENT_NEED_HOST)
  | NOTIFY_EVENT_SMARTDOCK_TA
  | NOTIFY_EVENT_AUDIODOCK
  | NOTIFY_EVENT_LANHUB
  | NOTIFY_EVENT_MMDOCK =>
      -- falls through into the default arm
      (0 ||| (NOTIFY_EVENT_DELAY ||| NOTIFY_EVENT_NEED_HOST)) ||| NOTIFY_EVENT_STATE
  | _ =>
      -- NOTIFY_EVENT_CHARGER, NOTIFY_EVENT_NONE, default
      0 ||| NOTIFY_EVENT_STATE

/-- `static int check_same_event_type(event1, event2)`. -/
def check_same_event_type (event1 event2 : Nat) : Bool :=
  check_event_type event1 == check_event_type event2

/-- The classification table as the specification documents it, written
independently of the `switch`: a list of identifiers per capability set and
`{State}` for everything else. -/
def documented_event_type (e : Nat) : Nat :=
  if e ∈ [NOTIFY_EVENT_OVERCURRENT, NOTIFY_EVENT_VBUSPOWER, NOTIFY_EVENT_SMSC_OVC,
          NOTIFY_EVENT_SMTD_EXT_CURRENT, NOTIFY_EVENT_MMD_EXT_CURRENT,
          NOTIFY_EVENT_HMD_EXT_CURRENT, NOTIFY_EVENT_DEVICE_CONNECT,
          NOTIFY_EVENT_GAMEPAD_CONNECT, NOTIFY_EVENT_LANHUB_CONNECT,
          NOTIFY_EVENT_POWER_SOURCE, NOTIFY_EVENT_PD_CONTRACT, NOTIFY_EVENT_VBUS_RESET,
          NOTIFY_EVENT_RESERVE_BOOSTER, NOTIFY_EVENT_USB_CABLE,
          NOTIFY_EVENT_USBD_SUSPENDED, NOTIFY_EVENT_USBD_UNCONFIGURED,
          NOTIFY_EVENT_USBD_CONFIGURED, NOTIFY_EVENT_DR_SWAP,
          NOTIFY_EVENT_REVERSE_BYPASS_DEVICE_CONNECT,
          NOTIFY_EVENT_REVERSE_BYPASS_DEVICE_ATTACH] then
    NOTIFY_EVENT_EXTRA
  else if e ∈ [NOTIFY_EVENT_VBUS, NOTIFY_EVENT_SMARTDOCK_USB] then
    NOTIFY_EVENT_STATE + NOTIFY_EVENT_DELAY + NOTIFY_EVENT_NEED_CLIENT
  else if e ∈ [NOTIFY_EVENT_HOST, NOTIFY_EVENT_HMT, NOTIFY_EVENT_GAMEPAD] then
    NOTIFY_EVENT_STATE + NOTIFY_EVENT_NEED_VBUSDRIVE + NOTIFY_EVENT_DELAY
      + NOTIFY_EVENT_NEED_HOST
  else if e = NOTIFY_EVENT_POGO then
    NOTIFY_EVENT_STATE + NOTIFY_EVENT_DELAY + NOTIFY_EVENT_NEED_HOST
  else if e = NOTIFY_EVENT_HOST_RELOAD then
    NOTIFY_EVENT_STATE + NOTIFY_EVENT_NEED_HOST + NOTIFY_EVENT_NOSAVE
  else if e ∈ [NOTIFY_EVENT_ALL_DISABLE, NOTIFY_EVENT_HOST_DISABLE,
               NOTIFY_EVENT_CLIENT_DISABLE, NOTIFY_EVENT_MDM_ON_OFF,
               NOTIFY_EVENT_MDM_ON_OFF_FOR_ID, NOTIFY_EVENT_MDM_ON_OFF_FOR_SERIAL] then
    NOTIFY_EVENT_STATE + NOTIFY_EVENT_NOBLOCKING + NOTIFY_EVENT_NOSAVE
  else if e ∈ [NOTIFY_EVENT_DRIVE_VBUS, NOTIFY_EVENT_LANHUB_TA] then
    NOTIFY_EVENT_STATE + NOTIFY_EVENT_NOSAVE + NOTIFY_EVENT_NEED_HOST
  else if e ∈ [NOTIFY_EVENT_SMARTDOCK_TA, NOTIFY_EVENT_AUDIODOCK, NOTIFY_EVENT_LANHUB,
               NOTIFY_EVENT_MMDOCK] then
    NOTIFY_EVENT_STATE + NOTIFY_EVENT_DELAY + NOTIFY_EVENT_NEED_HOST
  else
    NOTIFY_EVENT_STATE

/-! ## Enumerations of the missing headers -/

/-- Modelled from the spec: `enum otg_notify_event_status`
(Disabled, Disabling, Enabled, Enabling, Blocked, Blocking). -/
inductive otg_notify_event_status
  | NOTIFY_EVENT_DISABLED
  | NOTIFY_EVENT_DISABLING
  | NOTIFY_EVENT_ENABLED
  | NOTIFY_EVENT_ENABLING
  | NOTIFY_EVENT_BLOCKED
  | NOTIFY_EVENT_BLOCKING
  deriving DecidableEq, Repr

/-- Modelled from the spec: `enum otg_hostnotify_mode` of
`host_notify_class.h`, the values `ndev.mode` takes in this file. -/
inductive otg_hostnotify_mode
  | NOTIFY_NONE_MODE
  | NOTIFY_HOST_MODE
  | NOTIFY_PERIPHERAL_MODE
  deriving DecidableEq, Repr

/-- Modelled from the spec: `enum booster_power` of `host_notify_class.h`. -/
inductive booster_power
  | NOTIFY_POWER_OFF
  | NOTIFY_POWER_ON
  deriving DecidableEq, Repr

/-- Modelled from the spec: `enum host_uevent_state` of `host_notify_class.h`,
the argument of the external sink `host_state_notify`. -/
inductive host_uevent_state
  | NOTIFY_HOST_NONE
  | NOTIFY_HOST_ADD
  | NOTIFY_HOST_REMOVE
  | NOTIFY_HOST_OVERCURRENT
  | NOTIFY_HOST_BLOCK
  | NOTIFY_HOST_SOURCE
  | NOTIFY_HOST_SINK
  deriving DecidableEq, Repr

/-- Modelled from the spec: `enum otg_op_pos`, the configured phase of the
automatic vbus drive (Off / Pre / Post). -/
inductive otg_op_pos
  | NOTIFY_OP_OFF
  | NOTIFY_OP_POST
  | NOTIFY_OP_PRE
  deriving DecidableEq, Repr

/-- Modelled from the spec: the lock state (Init, Unlocked, WorkInProgress,
Restricted). -/
inductive usb_lock_state
  | USB_NOTIFY_INIT_STATE
  | USB_NOTIFY_UNLOCK
  | USB_NOTIFY_LOCK_USB_WORK
  | USB_NOTIFY_LOCK_USB_RESTRICT
  deriving DecidableEq, Repr

/-- Modelled from the spec: the gadget bus state
(Unconfigured, Suspended, Configured). -/
inductive usb_bus_state
  | NOTIFY_USB_UNCONFIGURED
  | NOTIFY_USB_SUSPENDED
  | NOTIFY_USB_CONFIGURED
  deriving DecidableEq, Repr

/-- Modelled from the spec: the reverse bypass status (Off, Prepare, On). -/
inductive reverse_bypass_status_t
  | NOTIFY_EVENT_REVERSE_BYPASS_OFF
  | NOTIFY_EVENT_REVERSE_BYPASS_PREPARE
  | NOTIFY_EVENT_REVERSE_BYPASS_ON
  deriving DecidableEq, Repr

/-- Modelled from the spec: the argument of `send_usb_restrict_uevent`. -/
inductive usb_restrict_type
  | USB_SECURE_RESTRICTED
  | USB_TIME_SECURE_RESTRICTED
  | USB_SECURE_RELEASE
  deriving DecidableEq, Repr

/-- Modelled from the spec: the commands of the external notifier
(`send_external_notify`) used in this file. -/
inductive external_notify_cmd
  | EXTERNAL_NOTIFY_3S_NODEVICE
  | EXTERNAL_NOTIFY_DEVICE_CONNECT
  | EXTERNAL_NOTIFY_HOSTBLOCK_PRE
  | EXTERNAL_NOTIFY_HOSTBLOCK_POST
  | EXTERNAL_NOTIFY_HOSTBLOCK_EARLY
  | EXTERNAL_NOTIFY_MDMBLOCK_PRE
  | EXTERNAL_NOTIFY_MDMBLOCK_POST
  | EXTERNAL_NOTIFY_POWERROLE
  | EXTERNAL_NOTIFY_DEVICEADD
  | EXTERNAL_NOTIFY_VBUS_RESET
  | EXTERNAL_NOTIFY_POSSIBLE_USB
  deriving DecidableEq, Repr

/-- The type-C power role; the source documents `SINK == 0, SOURCE == 1`. -/
def HNOTIFY_SINK : Int := 0
def HNOTIFY_SOURCE : Int := 1

/-- Second argument of `EXTERNAL_NOTIFY_DEVICE_CONNECT`, from the missing
header: which kind of device connected. -/
def EXTERNAL_NOTIFY_GPAD : Int := 1
def EXTERNAL_NOTIFY_LANHUB : Int := 2

/-- Kernel errno values. -/
def ESRCH : Int := 3
def ENOMEM : Int := 12
def EFAULT : Int := 14

/-- Levels an overcurrent check function reports (missing header). -/
def HNOTIFY_LOW : Int := 0
def HNOTIFY_HIGH : Int := 1
def HNOTIFY_INITIAL : Int := 2

def DEFAULT_OVC_POLL_SEC : Int := 3
def MAX_SECURE_CONNECTION : Nat := 10
def MAX_VAL : Int := 0x7FFFFFFF

/-! ## Effects and state -/

/-- The value of an `int` expression: the kernel is built with wrapping signed
arithmetic, and a conversion to `int` keeps the low 32 bits. -/
def to_int (x : Int) : Int := (x + 2 ^ 31) % 2 ^ 32 - 2 ^ 31

/-- One call that leaves `usb_notify.c`, as recorded in the trace. -/
inductive Effect
  | set_host (value : Bool)
  | set_peripheral (value : Bool)
  | vbus_drive (value : Bool)
  | set_charger (enable : Int)
  | set_lanhubta (enable : Int)
  | reverse_bypass_drive (value : Int)
  | set_chg_current (state : usb_bus_state)
  | set_battcall (event : Nat) (enable : Int)
  | gpio_direction_output_redriver (value : Int)
  | pm_stay_awake
  | pm_relax
  | usleep_range (us : Int)
  | msleep (ms : Nat)
  | host_state_notify (state : host_uevent_state)
  | send_external_notify (cmd : external_notify_cmd) (data : Int)
  | send_usb_restrict_uevent (kind : usb_restrict_type)
  | store_usblog_notify_event (event : Nat) (status : otg_notify_event_status)
  | store_usblog_notify_extra_overcurrent
  | store_usblog_notify_port_class_block (device_class : Nat) (intf_class : Nat)
  | schedule_check_work (delay_sec : Int)
  | cancel_check_work_sync
  | wake_up_init_delay
  | kthread_run_ovc_scan
  | complete_scanning_done
  | ovc_stop_wait
  | atomic_notifier_call_chain (event : Nat) (enable : Int)
  | blocking_notifier_call_chain (event : Nat) (enable : Int)
  deriving DecidableEq, Repr

/-- `struct otg_state_work`: one queued request. -/
structure otg_state_work where
  event : Nat
  enable : Int
  deriving DecidableEq, Repr

/-- `struct otg_notify` (missing header), the fields this file reads. A hook
field is `true` when the function pointer is set. -/
structure otg_notify where
  redriver_en_gpio_valid : Bool := false
  vbus_detect_gpio_valid : Bool := false
  is_wakelock : Int := 0
  unsupport_host : Int := 0
  smsc_ovc_poll_sec : Int := 0
  auto_drive_vbus : otg_op_pos := otg_op_pos.NOTIFY_OP_OFF
  booting_delay_sec : Int := 0
  booting_delay_sync_usb : Int := 0
  disable_control : Int := 0
  device_check_sec : Int := 0
  pre_peri_delay_us : Int := 0
  set_host : Bool := false
  set_peripheral : Bool := false
  vbus_drive : Bool := false
  set_charger : Bool := false
  set_lanhubta : Bool := false
  reverse_bypass_drive : Bool := false
  set_chg_current : Bool := false
  set_battcall : Bool := false
  deriving DecidableEq, Repr

/-- `struct usb_notify`, with the nested structs flattened
(`ndev.mode` is `ndev_mode`, `udev.disable_state` is `udev_disable_state`, ...),
the `otg_notify` it belongs to, the pending work of `notifier_wq`, the outcome
of the next `kmalloc(GFP_ATOMIC)` and the trace of outside calls. -/
structure usb_notify where
  o_notify : otg_notify := {}
  ndev_mode : otg_hostnotify_mode := otg_hostnotify_mode.NOTIFY_NONE_MODE
  ndev_booster : booster_power := booster_power.NOTIFY_POWER_OFF
  ndev_dev : Bool := true
  udev_disable_state : Nat := 0
  udev_whitelist_array_for_mdm : Nat → Int := fun _ => 0
  udev_whitelist_array_for_mdm_for_id : Nat → Int := fun _ => 0
  udev_whitelist_array_for_mdm_for_serial : List Nat := []
  udev_allowlist_array_lockscreen_enabled_id : Nat → Int := fun _ => 0
  b_delay_reserve_state : Nat := 0
  typec_status_power_role : Int := 0
  typec_status_pd : Int := 0
  typec_status_doing_drswap : Int := 0
  gadget_status_bus_state : usb_bus_state := usb_bus_state.NOTIFY_USB_UNCONFIGURED
  gadget_status_usb_cable_connect : Int := 0
  ovc_info_can_ovc : Int := 0
  ovc_info_poll_period : Int := 0
  ovc_info_prev_state : Int := 0
  ovc_info_thread_remove : Int := 0
  ovc_info_check_state : Bool := false
  ovc_info_data : Bool := false
  is_device : Int := 0
  check_work_complete : Int := 0
  oc_noti : Int := 0
  disable_v_drive : Int := 0
  c_type : Nat := 0
  c_status : otg_notify_event_status := otg_notify_event_status.NOTIFY_EVENT_DISABLED
  sec_whitelist_enable : Int := 0
  sec_whitelist_enable_for_id : Int := 0
  sec_whitelist_enable_for_serial : Int := 0
  reserve_vbus_booster : Int := 0
  disable_state : Int := 0
  reverse_bypass_status : reverse_bypass_status_t :=
    reverse_bypass_status_t.NOTIFY_EVENT_REVERSE_BYPASS_OFF
  lock_state : usb_lock_state := usb_lock_state.USB_NOTIFY_INIT_STATE
  restricted : Int := 0
  allowlist_restricted : Int := 0
  cond_sshub : Int := 0
  cond_hshub : Int := 0
  skip_possible_usb : Int := 0
  secure_connect_group : List Nat := []
  notifier_wq : List otg_state_work := []
  kmalloc_ok : Bool := true
  trace : List Effect := []

/-- Record one outside call at the end of the trace. -/
def usb_notify.emit (u : usb_notify) (e : Effect) : usb_notify :=
  { u with trace := u.trace ++ [e] }

/-- The outside calls made between the state `u` and the later state `v`. -/
def effects_since (u v : usb_notify) : List Effect :=
  v.trace.drop u.trace.length

open otg_notify_event_status otg_hostnotify_mode host_uevent_state otg_op_pos
open usb_lock_state usb_bus_state reverse_bypass_status_t usb_restrict_type
open external_notify_cmd booster_power

/-- `void send_usb_restrict_uevent(int usb_restrict)`: builds the
`TYPE=usbrestrict` uevent and hands it to the uevent transport. -/
def send_usb_restrict_uevent (u : usb_notify) (usb_restrict : usb_restrict_type) :
    usb_notify :=
  u.emit (Effect.send_usb_restrict_uevent usb_restrict)

/-- The external `send_external_notify(cmd, data)`. -/
def send_external_notify (u : usb_notify) (cmd : external_notify_cmd) (data : Int) :
    usb_notify :=
  u.emit (Effect.send_external_notify cmd data)

/-- The external `host_state_notify(&u_notify->ndev, state)`. -/
def host_state_notify (u : usb_notify) (state : host_uevent_state) : usb_notify :=
  u.emit (Effect.host_state_notify state)

/-! ## Block policy -/

/-- `static bool is_host_cable_block(struct otg_notify *n)`. -/
def is_host_cable_block (u : usb_notify) : Bool :=
  decide ((check_event_type u.c_type &&& NOTIFY_EVENT_NEED_HOST ≠ 0) ∧
    (u.c_status = NOTIFY_EVENT_BLOCKED ∨ u.c_status = NOTIFY_EVENT_BLOCKING))

/-- `static bool is_host_cable_enable(struct otg_notify *n)`. -/
def is_host_cable_enable (u : usb_notify) : Bool :=
  decide ((check_event_type u.c_type &&& NOTIFY_EVENT_NEED_HOST ≠ 0) ∧
    (u.c_status = NOTIFY_EVENT_ENABLED ∨ u.c_status = NOTIFY_EVENT_ENABLING))

/-- `static bool is_client_cable_block(struct otg_notify *n)`. -/
def is_client_cable_block (u : usb_notify) : Bool :=
  decide ((check_event_type u.c_type &&& NOTIFY_EVENT_NEED_CLIENT ≠ 0) ∧
    (u.c_status = NOTIFY_EVENT_BLOCKED ∨ u.c_status = NOTIFY_EVENT_BLOCKING))

/-- `static bool is_client_cable_enable(struct otg_notify *n)`. -/
def is_client_cable_enable (u : usb_notify) : Bool :=
  decide ((check_event_type u.c_type &&& NOTIFY_EVENT_NEED_CLIENT ≠ 0) ∧
    (u.c_status = NOTIFY_EVENT_ENABLED ∨ u.c_status = NOTIFY_EVENT_ENABLING))

/-- `static bool check_block_event(struct otg_notify *n, unsigned long event)`. -/
def check_block_event (u : usb_notify) (event : Nat) : Bool :=
  decide ((test_bit NOTIFY_BLOCK_TYPE_HOST u.udev_disable_state = true
      ∧ check_event_type event &&& NOTIFY_EVENT_NEED_HOST ≠ 0)
    ∨ (test_bit NOTIFY_BLOCK_TYPE_CLIENT u.udev_disable_state = true
      ∧ check_event_type event &&& NOTIFY_EVENT_NEED_CLIENT ≠ 0))

/-- `bool is_blocked(struct otg_notify *n, int type)`, for a registered
notify (the NULL checks and the lazy creation of the core pass). -/
def is_blocked (u : usb_notify) (type : Nat) : Bool :=
  if type = NOTIFY_BLOCK_TYPE_HOST then
    test_bit NOTIFY_BLOCK_TYPE_HOST u.udev_disable_state
  else if type = NOTIFY_BLOCK_TYPE_CLIENT then
    test_bit NOTIFY_BLOCK_TYPE_CLIENT u.udev_disable_state
  else if type = NOTIFY_BLOCK_TYPE_ALL then
    test_bit NOTIFY_BLOCK_TYPE_HOST u.udev_disable_state
      && test_bit NOTIFY_BLOCK_TYPE_CLIENT u.udev_disable_state
  else false

/-- `int do_notify_blockstate(n, event, type, enable)`: the handler of a
blocked request; returns the state and `ret`. -/
def do_notify_blockstate (u : usb_notify) (event : Nat) (_type : Nat) (enable : Int) :
    usb_notify × Int :=
  match event with
  | NOTIFY_EVENT_NONE
  | NOTIFY_EVENT_CHARGER => (u, 0)
  | NOTIFY_EVENT_SMARTDOCK_USB
  | NOTIFY_EVENT_VBUS =>
      let u := if enable ≠ 0 ∧ u.lock_state = USB_NOTIFY_LOCK_USB_RESTRICT then
                 send_usb_restrict_uevent u USB_TIME_SECURE_RESTRICTED else u
      let u := if enable ≠ 0 then
                 (if u.o_notify.set_chg_current then
                    u.emit (Effect.set_chg_current NOTIFY_USB_CONFIGURED) else u)
               else u
      (u, 0)
  | NOTIFY_EVENT_LANHUB
  | NOTIFY_EVENT_HMT
  | NOTIFY_EVENT_HOST
  | NOTIFY_EVENT_MMDOCK
  | NOTIFY_EVENT_SMARTDOCK_TA
  | NOTIFY_EVENT_AUDIODOCK
  | NOTIFY_EVENT_GAMEPAD
  | NOTIFY_EVENT_POGO =>
      if u.o_notify.unsupport_host ≠ 0 then (u, 0)   -- goto skip
      else
        let u := if enable ≠ 0 ∧ u.lock_state = USB_NOTIFY_LOCK_USB_RESTRICT then
                   send_usb_restrict_uevent u USB_TIME_SECURE_RESTRICTED else u
        let u := if enable ≠ 0 then host_state_notify u NOTIFY_HOST_BLOCK
                 else host_state_notify u NOTIFY_HOST_NONE
        (u, 0)
  | NOTIFY_EVENT_DRIVE_VBUS => (u, -ESRCH)
  | _ => (u, 0)

/-- `static void update_cable_status(n, event, virtual, enable, start)`. -/
def update_cable_status (u : usb_notify) (event : Nat) (virtual enable start : Int) :
    usb_notify :=
  if enable ≠ 0 then
    let u := { u with c_type := event }
    if check_block_event u event = true ∨
        (check_event_type u.c_type &&& NOTIFY_EVENT_NEED_HOST ≠ 0 ∧
          (u.o_notify.unsupport_host ≠ 0 ∨ u.restricted ≠ 0)) then
      { u with c_status := if start ≠ 0 then NOTIFY_EVENT_BLOCKING else NOTIFY_EVENT_BLOCKED }
    else
      { u with c_status := if start ≠ 0 then NOTIFY_EVENT_ENABLING else NOTIFY_EVENT_ENABLED }
  else
    if virtual ≠ 0 then
      { u with c_status := if start ≠ 0 then NOTIFY_EVENT_BLOCKING else NOTIFY_EVENT_BLOCKED }
    else
      let u := { u with c_type := NOTIFY_EVENT_NONE }
      let u := { u with c_status :=
                   if start ≠ 0 then NOTIFY_EVENT_DISABLING else NOTIFY_EVENT_DISABLED }
      if ¬ (start ≠ 0) then send_usb_restrict_uevent u USB_SECURE_RELEASE else u

/-! ## The state machine core: `otg_notify_state` -/

/-- How the `switch` of `otg_notify_state` is left: by `break` (control goes to
the statement after the `switch`), by `goto err` or by `goto no_save_event`. -/
inductive switch_exit
  | brk
  | err
  | no_save_event
  deriving DecidableEq, Repr

/-- The statement `switch (event) {...}` of `otg_notify_state`
(one arm per `case` group, in source order). The effect `usleep_range` holds
the value of the argument expression `n->pre_peri_delay_us * 1000`, a product
of two `int`, handed in as both bounds of the sleep. -/
def otg_notify_state_switch (u : usb_notify) (event : Nat) (enable virtual : Int)
    (prev_c_type : Nat) : usb_notify × switch_exit :=
  let n := u.o_notify
  match event with
  | NOTIFY_EVENT_NONE => (u, switch_exit.brk)
  | NOTIFY_EVENT_SMARTDOCK_USB
  | NOTIFY_EVENT_VBUS =>
      if enable ≠ 0 then
        let u := { u with ndev_mode := NOTIFY_PERIPHERAL_MODE, typec_status_doing_drswap := 0 }
        let u := if n.is_wakelock ≠ 0 then u.emit Effect.pm_stay_awake else u
        let u := if n.redriver_en_gpio_valid then
                   u.emit (Effect.gpio_direction_output_redriver 1) else u
        let u := if n.pre_peri_delay_us ≠ 0 then
                   u.emit (Effect.usleep_range (to_int (n.pre_peri_delay_us * 1000))) else u
        let u := if n.set_peripheral then u.emit (Effect.set_peripheral true) else u
        (u, switch_exit.brk)
      else
        let u := { u with ndev_mode := NOTIFY_NONE_MODE,
                          gadget_status_bus_state := NOTIFY_USB_UNCONFIGURED }
        let u := if n.set_peripheral then u.emit (Effect.set_peripheral false) else u
        let u := if n.redriver_en_gpio_valid then
                   u.emit (Effect.gpio_direction_output_redriver 0) else u
        let u := if n.is_wakelock ≠ 0 then u.emit Effect.pm_relax else u
        (u, switch_exit.brk)
  | NOTIFY_EVENT_LANHUB_TA =>
      let u := { u with disable_v_drive := enable }
      let u := if enable ≠ 0 then { u with oc_noti := 0 } else u
      let u := if n.set_lanhubta then u.emit (Effect.set_lanhubta enable) else u
      (u, switch_exit.brk)
  | NOTIFY_EVENT_LANHUB =>
      if n.unsupport_host ≠ 0 then (u, switch_exit.err)
      else
        let u := { u with disable_v_drive := enable }
        if enable ≠ 0 then
          let u := { u with oc_noti := 0, ndev_mode := NOTIFY_HOST_MODE }
          let u := host_state_notify u NOTIFY_HOST_ADD
          let u := if n.redriver_en_gpio_valid then
                     u.emit (Effect.gpio_direction_output_redriver 1) else u
          let u := if n.set_host then u.emit (Effect.set_host true) else u
          (u, switch_exit.brk)
        else
          let u := { u with ndev_mode := NOTIFY_NONE_MODE }
          let u := if n.set_host then u.emit (Effect.set_host false) else u
          let u := if n.redriver_en_gpio_valid then
                     u.emit (Effect.gpio_direction_output_redriver 0) else u
          let u := host_state_notify u NOTIFY_HOST_REMOVE
          (u, switch_exit.brk)
  | NOTIFY_EVENT_HMT
  | NOTIFY_EVENT_HOST
  | NOTIFY_EVENT_GAMEPAD =>
      if n.unsupport_host ≠ 0 then (u, switch_exit.err)
      else
        let u := { u with disable_v_drive := 0 }
        if enable ≠ 0 then
          if check_same_event_type prev_c_type event = true ∧ ¬ (virtual ≠ 0) then
            (u, switch_exit.err)
          else if u.restricted ≠ 0 then
            (send_usb_restrict_uevent u USB_SECURE_RESTRICTED, switch_exit.err)
          else
            let u := { u with ndev_mode := NOTIFY_HOST_MODE, typec_status_doing_drswap := 0 }
            let u := host_state_notify u NOTIFY_HOST_ADD
            let u := if n.redriver_en_gpio_valid then
                       u.emit (Effect.gpio_direction_output_redriver 1) else u
            let u := if n.auto_drive_vbus = NOTIFY_OP_PRE then
                       let u := { u with oc_noti := 1 }
                       let u := if n.vbus_drive then u.emit (Effect.vbus_drive true) else u
                       { u with typec_status_power_role := HNOTIFY_SOURCE }
                     else u
            let u := if n.set_host then u.emit (Effect.set_host true) else u
            let u := if n.auto_drive_vbus = NOTIFY_OP_POST then
                       let u := { u with oc_noti := 1 }
                       let u := if n.vbus_drive then u.emit (Effect.vbus_drive true) else u
                       { u with typec_status_power_role := HNOTIFY_SOURCE }
                     else u
            let u := if n.auto_drive_vbus = NOTIFY_OP_OFF then
                       (if u.typec_status_power_role = HNOTIFY_SOURCE
                            ∧ u.reserve_vbus_booster ≠ 0
                            ∧ ¬ (is_blocked u NOTIFY_BLOCK_TYPE_HOST = true) then
                          let u := if n.vbus_drive then u.emit (Effect.vbus_drive true) else u
                          { u with reserve_vbus_booster := 0 }
                        else u)
                     else u
            (u, switch_exit.brk)
        else
          let u := { u with ndev_mode := NOTIFY_NONE_MODE }
          let u := if n.auto_drive_vbus = NOTIFY_OP_POST then
                     let u := { u with oc_noti := 0 }
                     let u := if n.vbus_drive then u.emit (Effect.vbus_drive false) else u
                     { u with typec_status_power_role := HNOTIFY_SINK }
                   else u
          let u := if n.set_host then u.emit (Effect.set_host false) else u
          let u := if n.auto_drive_vbus = NOTIFY_OP_PRE then
                     let u := { u with oc_noti := 0 }
                     let u := if n.vbus_drive then u.emit (Effect.vbus_drive false) else u
                     { u with typec_status_power_role := HNOTIFY_SINK }
                   else u
          let u := if n.redriver_en_gpio_valid then
                     u.emit (Effect.gpio_direction_output_redriver 0) else u
          let u := host_state_notify u NOTIFY_HOST_REMOVE
          let u := { u with allowlist_restricted := 0 }
          (u, switch_exit.brk)
  | NOTIFY_EVENT_CHARGER =>
      let u := if n.set_charger then u.emit (Effect.set_charger enable) else u
      (u, switch_exit.brk)
  | NOTIFY_EVENT_MMDOCK
  | NOTIFY_EVENT_POGO
  | NOTIFY_EVENT_SMARTDOCK_TA
  | NOTIFY_EVENT_AUDIODOCK =>
      -- the MMDOCK arm runs its prologue and falls through
      let u := if event = NOTIFY_EVENT_MMDOCK then
                 let u := { u with ovc_info_can_ovc := enable }   -- enable_ovc
                 if enable ≠ 0 then host_state_notify u NOTIFY_HOST_NONE else u
               else u
      if n.unsupport_host ≠ 0 then (u, switch_exit.err)
      else
        let u := { u with disable_v_drive := enable }
        if enable ≠ 0 then
          let u := { u with ndev_mode := NOTIFY_HOST_MODE }
          let u := if n.set_host then u.emit (Effect.set_host true) else u
          (u, switch_exit.brk)
        else
          let u := { u with ndev_mode := NOTIFY_NONE_MODE }
          let u := if n.set_host then u.emit (Effect.set_host false) else u
          (u, switch_exit.brk)
  | NOTIFY_EVENT_HOST_RELOAD =>
      if u.ndev_mode ≠ NOTIFY_HOST_MODE then (u, switch_exit.no_save_event)
      else if n.unsupport_host ≠ 0 then (u, switch_exit.no_save_event)
      else
        let u := if n.set_host then
                   ((u.emit (Effect.set_host false)).emit (Effect.msleep 100)).emit
                     (Effect.set_host true)
                 else u
        (u, switch_exit.no_save_event)
  | NOTIFY_EVENT_DRIVE_VBUS =>
      if n.unsupport_host ≠ 0 then (u, switch_exit.no_save_event)
      else if u.disable_v_drive ≠ 0 then (u, switch_exit.no_save_event)
      else
        let u := { u with oc_noti := enable }
        let u := if n.vbus_drive then u.emit (Effect.vbus_drive (decide (enable ≠ 0))) else u
        let u := if n.reverse_bypass_drive = true ∧ ¬ (enable ≠ 0) then
                   { u.emit (Effect.reverse_bypass_drive 0) with
                     reverse_bypass_status := NOTIFY_EVENT_REVERSE_BYPASS_PREPARE }
                 else u
        (u, switch_exit.no_save_event)
  | NOTIFY_EVENT_ALL_DISABLE =>
      if ¬ (n.disable_control ≠ 0) then (u, switch_exit.no_save_event)
      else if enable ≠ 0 then
        let u := send_external_notify u EXTERNAL_NOTIFY_HOSTBLOCK_PRE 1
        let u := { u with udev_disable_state := set_bit NOTIFY_BLOCK_TYPE_HOST u.udev_disable_state }
        let u := { u with udev_disable_state :=
                     set_bit NOTIFY_BLOCK_TYPE_CLIENT u.udev_disable_state }
        let u := send_external_notify u EXTERNAL_NOTIFY_HOSTBLOCK_POST 1
        (u, switch_exit.no_save_event)
      else
        let u := send_external_notify u EXTERNAL_NOTIFY_HOSTBLOCK_PRE 0
        let u := { u with udev_disable_state :=
                     clear_bit NOTIFY_BLOCK_TYPE_HOST u.udev_disable_state }
        let u := { u with udev_disable_state :=
                     clear_bit NOTIFY_BLOCK_TYPE_CLIENT u.udev_disable_state }
        let u := send_external_notify u EXTERNAL_NOTIFY_HOSTBLOCK_POST 0
        (u, switch_exit.no_save_event)
  | NOTIFY_EVENT_HOST_DISABLE =>
      if ¬ (n.disable_control ≠ 0) then (u, switch_exit.no_save_event)
      else if enable ≠ 0 then
        let u := send_external_notify u EXTERNAL_NOTIFY_HOSTBLOCK_PRE 1
        let u := { u with udev_disable_state :=
                     clear_bit NOTIFY_BLOCK_TYPE_CLIENT u.udev_disable_state }
        let u := { u with udev_disable_state := set_bit NOTIFY_BLOCK_TYPE_HOST u.udev_disable_state }
        let u := send_external_notify u EXTERNAL_NOTIFY_HOSTBLOCK_POST 1
        (u, switch_exit.no_save_event)
      else (u, switch_exit.no_save_event)
  | NOTIFY_EVENT_CLIENT_DISABLE =>
      if ¬ (n.disable_control ≠ 0) then (u, switch_exit.no_save_event)
      else if enable ≠ 0 then
        let u := { u with udev_disable_state :=
                     clear_bit NOTIFY_BLOCK_TYPE_HOST u.udev_disable_state }
        let u := { u with udev_disable_state :=
                     set_bit NOTIFY_BLOCK_TYPE_CLIENT u.udev_disable_state }
        (u, switch_exit.no_save_event)
      else (u, switch_exit.no_save_event)
  | NOTIFY_EVENT_MDM_ON_OFF =>
      if enable ≠ 0 then
        let u := send_external_notify u EXTERNAL_NOTIFY_MDMBLOCK_PRE 1
        let u := { u with sec_whitelist_enable := 1 }
        let u := send_external_notify u EXTERNAL_NOTIFY_MDMBLOCK_POST 1
        (u, switch_exit.no_save_event)
      else ({ u with sec_whitelist_enable := 0 }, switch_exit.no_save_event)
  | NOTIFY_EVENT_MDM_ON_OFF_FOR_ID =>
      if enable ≠ 0 then
        let u := send_external_notify u EXTERNAL_NOTIFY_MDMBLOCK_PRE 1
        let u := { u with sec_whitelist_enable_for_id := 1 }
        let u := send_external_notify u EXTERNAL_NOTIFY_MDMBLOCK_POST 1
        (u, switch_exit.no_save_event)
      else ({ u with sec_whitelist_enable_for_id := 0 }, switch_exit.no_save_event)
  | NOTIFY_EVENT_MDM_ON_OFF_FOR_SERIAL =>
      if enable ≠ 0 then
        let u := send_external_notify u EXTERNAL_NOTIFY_MDMBLOCK_PRE 1
        let u := { u with sec_whitelist_enable_for_serial := 1 }
        let u := send_external_notify u EXTERNAL_NOTIFY_MDMBLOCK_POST 1
        (u, switch_exit.no_save_event)
      else ({ u with sec_whitelist_enable_for_serial := 0 }, switch_exit.no_save_event)
  | _ => (u, switch_exit.brk)

/-- The statements of `otg_notify_state` between the `switch` and the label
`err`: the device-connect check and the host teardown bookkeeping. -/
def otg_notify_state_after_switch (u : usb_notify) (event : Nat) (type : Nat)
    (enable : Int) (prev_c_type : Nat) : usb_notify :=
  let n := u.o_notify
  let u :=
    if (type &&& NOTIFY_EVENT_NEED_VBUSDRIVE ≠ 0 ∧ event ≠ NOTIFY_EVENT_HOST)
        ∨ event = NOTIFY_EVENT_POGO then
      if enable ≠ 0 then
        if n.device_check_sec ≠ 0 then
          let u := if prev_c_type ≠ NOTIFY_EVENT_HOST then { u with is_device := 0 } else u
          let u := { u with check_work_complete := 0 }
          u.emit (Effect.schedule_check_work n.device_check_sec)
        else u
      else
        let u := if n.device_check_sec ≠ 0 ∧ ¬ (u.check_work_complete ≠ 0) then
                   u.emit Effect.cancel_check_work_sync else u
        { u with is_device := 0 }
    else u
  if type &&& NOTIFY_EVENT_NEED_HOST ≠ 0 then
    if ¬ (enable ≠ 0) then
      let u := { u with allowlist_restricted := 0, cond_hshub := 0, cond_sshub := 0 }
      let u := { u with is_device := 0 }
      send_external_notify u EXTERNAL_NOTIFY_DEVICEADD 0
    else u
  else u

/-- The start phase of `otg_notify_state` (the `if (!(type & NOTIFY_EVENT_NOSAVE))`
statement before the block check): the provisional status is stored unless the
event is NoSave, and the request is written to the usb log either way. -/
def otg_notify_state_start (u : usb_notify) (event : Nat) (type : Nat)
    (virtual enable : Int) : usb_notify :=
  if ¬ (type &&& NOTIFY_EVENT_NOSAVE ≠ 0) then
    let u := update_cable_status u event virtual enable 1
    u.emit (Effect.store_usblog_notify_event event u.c_status)
  else
    let status := if enable ≠ 0 then NOTIFY_EVENT_ENABLING else NOTIFY_EVENT_DISABLING
    u.emit (Effect.store_usblog_notify_event event status)

/-- `static void otg_notify_state(struct otg_notify *n, unsigned long event,
int enable)`. -/
def otg_notify_state (u : usb_notify) (event : Nat) (enable : Int) : usb_notify :=
  let prev_c_type := u.c_type
  let virtual := IS_VIRTUAL event
  let event := PHY_EVENT event
  let type := check_event_type event
  if virtual ≠ 0 ∧ enable ≠ 0
      ∧ check_event_type event &&& NOTIFY_EVENT_NEED_HOST ≠ 0
      ∧ ¬ (check_event_type u.c_type &&& NOTIFY_EVENT_NEED_HOST ≠ 0) then
    u                                             -- goto no_save_event
  else
    let u := otg_notify_state_start u event type virtual enable
    if check_block_event u event = true ∧ ¬ (type &&& NOTIFY_EVENT_NOBLOCKING ≠ 0) then
      let r := do_notify_blockstate u event type enable
      if r.2 ≠ 0 then r.1                         -- goto no_save_event
      else update_cable_status r.1 event virtual enable 0   -- goto err
    else
      let r := otg_notify_state_switch u event enable virtual prev_c_type
      match r.2 with
      | switch_exit.no_save_event => r.1
      | switch_exit.err => update_cable_status r.1 event virtual enable 0
      | switch_exit.brk =>
          update_cable_status
            (otg_notify_state_after_switch r.1 event type enable prev_c_type)
            event virtual enable 0

/-! ## Work queue, notifier chains and `send_otg_notify` -/

/-- Return value of a notifier callback (`NOTIFY_DONE`, `NOTIFY_OK`, or
`notifier_from_errno(err)`). -/
inductive notifier_ret
  | NOTIFY_DONE
  | NOTIFY_OK
  | from_errno (err : Int)
  deriving DecidableEq, Repr

/-- `static void otg_notify_work(struct work_struct *data)`: runs one queued
request. -/
def otg_notify_work (u : usb_notify) (state_work : otg_state_work) : usb_notify :=
  otg_notify_state u state_work.event state_work.enable

/-- Kernel `flush_workqueue(notifier_wq)`: the single worker runs every pending
item in queue order (`otg_notify_state` queues nothing itself). -/
def flush_workqueue (u : usb_notify) : usb_notify :=
  u.notifier_wq.foldl otg_notify_work { u with notifier_wq := [] }

/-- `static int otg_notifier_callback(nb, event, param)`; `param` is the
value of `*(int *)param`. -/
def otg_notifier_callback (u : usb_notify) (event : Nat) (param : Int) :
    usb_notify × notifier_ret :=
  if event > VIRT_EVENT NOTIFY_EVENT_VBUSPOWER then (u, notifier_ret.NOTIFY_DONE)
  else if ¬ (u.kmalloc_ok = true) then (u, notifier_ret.from_errno (-ENOMEM))
  else
    ({ u with notifier_wq := u.notifier_wq ++ [{ event := event, enable := param }] },
      notifier_ret.NOTIFY_OK)

/-- Kernel `atomic_notifier_call_chain(&u_notify->otg_notifier, event, &enable)`
with the one block `otg_nb` that `set_otg_notify` registers on the chain. -/
def atomic_notifier_call_chain (u : usb_notify) (event : Nat) (enable : Int) : usb_notify :=
  (otg_notifier_callback (u.emit (Effect.atomic_notifier_call_chain event enable))
    event enable).1

/-- `void send_otg_notify(n, event, enable)` for a registered notify (the NULL
checks pass), with the callback registered on the blocking chain
`extra_notifier` as a parameter: the chain call is an indirect call. -/
def send_otg_notify_chain (extra_nb : usb_notify → Nat → Int → usb_notify × notifier_ret)
    (u : usb_notify) (event : Nat) (enable : Int) : usb_notify :=
  let type := check_event_type event
  if (type &&& NOTIFY_EVENT_DELAY ≠ 0 ∧ type &&& NOTIFY_EVENT_STATE ≠ 0)
      ∧ u.o_notify.booting_delay_sec ≠ 0 then
    let u := { u with b_delay_reserve_state := if enable ≠ 0 then event else NOTIFY_EVENT_NONE }
    let u := if enable ≠ 0 ∧ check_event_type event &&& NOTIFY_EVENT_NEED_CLIENT ≠ 0 then
               u.emit Effect.wake_up_init_delay else u
    let noti : Int := if u.lock_state = USB_NOTIFY_LOCK_USB_RESTRICT then 1 else 0
    -- goto before_unlock
    if noti ≠ 0 then
      if enable ≠ 0 then send_usb_restrict_uevent u USB_TIME_SECURE_RESTRICTED
      else send_usb_restrict_uevent u USB_SECURE_RELEASE
    else u
  else
    if type &&& NOTIFY_EVENT_EXTRA ≠ 0 then
      (extra_nb (u.emit (Effect.blocking_notifier_call_chain event enable)) event enable).1
    else if type &&& NOTIFY_EVENT_STATE ≠ 0 then
      atomic_notifier_call_chain u event enable
    else u

/-- Modelled from the spec: the argument of `detect_illegal_condition`
(constants of the missing header); `other` is any value without a `case`. -/
inductive illegal_condition_type
  | NOTIFY_EVENT_AUDIO_DESCRIPTOR
  | NOTIFY_EVENT_SECURE_DISCONNECTION
  | other
  deriving DecidableEq, Repr

/-- `static int check_secure_connection(struct usb_notify *u_notify)`. -/
def check_secure_connection (u : usb_notify) : Bool :=
  u.secure_connect_group.any (fun c => decide (c ≥ MAX_SECURE_CONNECTION))

/-- `int detect_illegal_condition(int type)` for a registered notify. The
nested `send_otg_notify` is handed a virtual event, which `check_event_type`
never classifies as Extra, so the blocking chain is not reached from here and
its callback is left empty (see `check_event_type_of_ge_virtual`). -/
def detect_illegal_condition (u : usb_notify) (type : illegal_condition_type) : usb_notify :=
  let restricted : Int :=
    match type with
    | illegal_condition_type.NOTIFY_EVENT_AUDIO_DESCRIPTOR => 1
    | illegal_condition_type.NOTIFY_EVENT_SECURE_DISCONNECTION =>
        if check_secure_connection u = true then 1 else 0
    | illegal_condition_type.other => 0
  if restricted ≠ 0 then
    let u := { u with restricted := 1 }
    let u := if is_host_cable_enable u = true then
               send_otg_notify_chain (fun v _ _ => (v, notifier_ret.NOTIFY_DONE)) u
                 (VIRT_EVENT u.c_type) 0
             else u
    let u := send_external_notify u EXTERNAL_NOTIFY_HOSTBLOCK_PRE 1
    send_external_notify u EXTERNAL_NOTIFY_HOSTBLOCK_POST 1
  else u

/-- `void ovc_start(struct usb_notify *u_noti)`; the scanning thread is started
(`kthread_run` succeeds) and runs on its own. -/
def ovc_start (u : usb_notify) : usb_notify :=
  if ¬ (u.ovc_info_can_ovc ≠ 0) then u.emit Effect.complete_scanning_done
  else
    let u := { u with ovc_info_prev_state := HNOTIFY_INITIAL }
    let u := { u with ovc_info_poll_period :=
                 if u.o_notify.smsc_ovc_poll_sec ≠ 0 then u.o_notify.smsc_ovc_poll_sec
                 else DEFAULT_OVC_POLL_SEC }
    let u := { u with ovc_info_thread_remove := 0 }
    u.emit Effect.kthread_run_ovc_scan

/-- `void ovc_stop(struct usb_notify *u_noti)`. -/
def ovc_stop (u : usb_notify) : usb_notify :=
  let u := { u with ovc_info_thread_remove := 1 }
  let u := u.emit Effect.ovc_stop_wait
  { u with ovc_info_check_state := false, ovc_info_data := false }

/-- `static void extra_notify_state(n, event, enable)`. -/
def extra_notify_state (u : usb_notify) (event : Nat) (enable : Int) : usb_notify :=
  let n := u.o_notify
  match event with
  | NOTIFY_EVENT_NONE => u
  | NOTIFY_EVENT_OVERCURRENT =>
      if ¬ (u.ndev_dev = true) then u
      else
        (host_state_notify u NOTIFY_HOST_OVERCURRENT).emit
          Effect.store_usblog_notify_extra_overcurrent
  | NOTIFY_EVENT_VBUSPOWER =>
      if enable ≠ 0 then
        ({ u with ndev_booster := NOTIFY_POWER_ON }).emit
          (Effect.store_usblog_notify_event event NOTIFY_EVENT_ENABLED)
      else
        ({ u with ndev_booster := NOTIFY_POWER_OFF }).emit
          (Effect.store_usblog_notify_event event NOTIFY_EVENT_DISABLED)
  | NOTIFY_EVENT_SMSC_OVC =>
      if enable ≠ 0 then ovc_start u else ovc_stop u
  | NOTIFY_EVENT_SMTD_EXT_CURRENT =>
      if u.c_type ≠ NOTIFY_EVENT_SMARTDOCK_TA then u
      else if n.set_battcall then
        u.emit (Effect.set_battcall NOTIFY_EVENT_SMTD_EXT_CURRENT enable)
      else u
  | NOTIFY_EVENT_MMD_EXT_CURRENT =>
      if u.c_type ≠ NOTIFY_EVENT_MMDOCK then u
      else if n.set_battcall then
        u.emit (Effect.set_battcall NOTIFY_EVENT_MMD_EXT_CURRENT enable)
      else u
  | NOTIFY_EVENT_HMD_EXT_CURRENT =>
      if n.set_battcall then
        u.emit (Effect.set_battcall NOTIFY_EVENT_HMD_EXT_CURRENT enable)
      else u
  | NOTIFY_EVENT_DEVICE_CONNECT =>
      let u := if enable ≠ 0 then
                 (if ¬ (u.is_device ≠ 0) then
                    send_external_notify { u with is_device := 1 } EXTERNAL_NOTIFY_DEVICEADD 1
                  else u)
               else u
      if u.lock_state = USB_NOTIFY_LOCK_USB_WORK
          ∨ u.lock_state = USB_NOTIFY_LOCK_USB_RESTRICT then
        if ¬ (enable ≠ 0) then
          detect_illegal_condition u illegal_condition_type.NOTIFY_EVENT_SECURE_DISCONNECTION
        else u
      else u
  | NOTIFY_EVENT_GAMEPAD_CONNECT =>
      if u.c_type = NOTIFY_EVENT_HOST ∨ u.c_type = NOTIFY_EVENT_GAMEPAD then
        send_external_notify u EXTERNAL_NOTIFY_DEVICE_CONNECT EXTERNAL_NOTIFY_GPAD
      else u
  | NOTIFY_EVENT_LANHUB_CONNECT =>
      if u.c_type = NOTIFY_EVENT_HOST ∨ u.c_type = NOTIFY_EVENT_LANHUB then
        send_external_notify u EXTERNAL_NOTIFY_DEVICE_CONNECT EXTERNAL_NOTIFY_LANHUB
      else u
  | NOTIFY_EVENT_REVERSE_BYPASS_DEVICE_CONNECT =>
      if n.reverse_bypass_drive = true
          ∧ u.reverse_bypass_status = NOTIFY_EVENT_REVERSE_BYPASS_PREPARE then
        ({ u with reverse_bypass_status := NOTIFY_EVENT_REVERSE_BYPASS_ON }).emit
          (Effect.reverse_bypass_drive 1)
      else u
  | NOTIFY_EVENT_REVERSE_BYPASS_DEVICE_ATTACH =>
      if enable ≠ 0 then
        { u with reverse_bypass_status := NOTIFY_EVENT_REVERSE_BYPASS_PREPARE }
      else
        let u := { u with reverse_bypass_status := NOTIFY_EVENT_REVERSE_BYPASS_OFF }
        if n.reverse_bypass_drive then u.emit (Effect.reverse_bypass_drive 0) else u
  | NOTIFY_EVENT_POWER_SOURCE =>
      let u := if enable ≠ 0 then
                 host_state_notify { u with typec_status_power_role := HNOTIFY_SOURCE }
                   NOTIFY_HOST_SOURCE
               else
                 host_state_notify { u with typec_status_power_role := HNOTIFY_SINK }
                   NOTIFY_HOST_SINK
      send_external_notify u EXTERNAL_NOTIFY_POWERROLE u.typec_status_power_role
  | NOTIFY_EVENT_PD_CONTRACT =>
      if enable ≠ 0 then { u with typec_status_pd := enable }
      else { u with typec_status_pd := 0 }
  | NOTIFY_EVENT_VBUS_RESET =>
      send_external_notify u EXTERNAL_NOTIFY_VBUS_RESET 0
  | NOTIFY_EVENT_RESERVE_BOOSTER =>
      if enable ≠ 0 then { u with reserve_vbus_booster := 1 }
      else { u with reserve_vbus_booster := 0 }
  | NOTIFY_EVENT_USB_CABLE =>
      let u := if enable ≠ 0 then { u with gadget_status_usb_cable_connect := 1 }
               else { u with gadget_status_usb_cable_connect := 0 }
      if u.ndev_mode = NOTIFY_PERIPHERAL_MODE ∧ ¬ (u.typec_status_doing_drswap ≠ 0) then
        if u.gadget_status_bus_state = NOTIFY_USB_SUSPENDED
            ∧ u.gadget_status_usb_cable_connect ≠ 0 then
          if n.set_chg_current then u.emit (Effect.set_chg_current NOTIFY_USB_SUSPENDED) else u
        else u
      else u
  | NOTIFY_EVENT_USBD_SUSPENDED =>
      if u.ndev_mode = NOTIFY_PERIPHERAL_MODE ∧ ¬ (u.typec_status_doing_drswap ≠ 0) then
        let u := { u with gadget_status_bus_state := NOTIFY_USB_SUSPENDED }
        if u.gadget_status_usb_cable_connect ≠ 0
            ∧ u.typec_status_power_role ≠ HNOTIFY_SOURCE then
          if n.set_chg_current then u.emit (Effect.set_chg_current NOTIFY_USB_SUSPENDED) else u
        else u
      else u
  | NOTIFY_EVENT_USBD_UNCONFIGURED =>
      if u.ndev_mode = NOTIFY_PERIPHERAL_MODE then
        { u with gadget_status_bus_state := NOTIFY_USB_UNCONFIGURED }
      else u
  | NOTIFY_EVENT_USBD_CONFIGURED =>
      if u.ndev_mode = NOTIFY_PERIPHERAL_MODE then
        { u with gadget_status_bus_state := NOTIFY_USB_CONFIGURED }
      else u
  | NOTIFY_EVENT_DR_SWAP =>
      if enable ≠ 0 then { u with typec_status_doing_drswap := 1 }
      else { u with typec_status_doing_drswap := 0 }
  | _ => u

/-- `static int extra_notifier_callback(nb, event, param)`. -/
def extra_notifier_callback (u : usb_notify) (event : Nat) (param : Int) :
    usb_notify × notifier_ret :=
  if event > VIRT_EVENT NOTIFY_EVENT_VBUSPOWER then (u, notifier_ret.NOTIFY_DONE)
  else (extra_notify_state u event param, notifier_ret.NOTIFY_OK)

/-- `void send_otg_notify(n, event, enable)` as `set_otg_notify` wires it:
`extra_notifier_callback` on the blocking chain, `otg_notifier_callback` on the
atomic chain. -/
def send_otg_notify (u : usb_notify) (event : Nat) (enable : Int) : usb_notify :=
  send_otg_notify_chain extra_notifier_callback u event enable

/-- `static void reserve_state_check(struct work_struct *work)`, the delayed
work that opens the boot gate; the bounded wait at its head only delays it. -/
def reserve_state_check (u : usb_notify) : usb_notify :=
  let enable : Int := 1
  if u.o_notify.booting_delay_sync_usb ≠ 0 then u
  else
    let u := { u with o_notify := { u.o_notify with booting_delay_sec := 0 } }
    let state := u.b_delay_reserve_state
    let type := check_event_type state
    let u := { u with b_delay_reserve_state := NOTIFY_EVENT_NONE }
    let u := if state ≠ NOTIFY_EVENT_NONE then
               (if type &&& NOTIFY_EVENT_STATE ≠ 0 then
                  atomic_notifier_call_chain u state enable
                else u)
             else u
    if ¬ (u.skip_possible_usb ≠ 0) then
      send_external_notify u EXTERNAL_NOTIFY_POSSIBLE_USB 1
    else u

/-! ## Allow-list matchers -/

/-- Modelled from the spec: the interface class codes of
`include/uapi/linux/usb/ch9.h`, which is not among the sources, with the values
the USB specification assigns to them. -/
@[match_pattern] def USB_CLASS_PER_INTERFACE : Nat := 0
@[match_pattern] def USB_CLASS_AUDIO : Nat := 1
@[match_pattern] def USB_CLASS_COMM : Nat := 2
@[match_pattern] def USB_CLASS_HID : Nat := 3
@[match_pattern] def USB_CLASS_PHYSICAL : Nat := 5
@[match_pattern] def USB_CLASS_STILL_IMAGE : Nat := 6
@[match_pattern] def USB_CLASS_PRINTER : Nat := 7
@[match_pattern] def USB_CLASS_MASS_STORAGE : Nat := 8
@[match_pattern] def USB_CLASS_HUB : Nat := 9
@[match_pattern] def USB_CLASS_CDC_DATA : Nat := 0x0a
@[match_pattern] def USB_CLASS_CSCID : Nat := 0x0b
@[match_pattern] def USB_CLASS_CONTENT_SEC : Nat := 0x0d
@[match_pattern] def USB_CLASS_VIDEO : Nat := 0x0e
@[match_pattern] def USB_CLASS_WIRELESS_CONTROLLER : Nat := 0xe0
@[match_pattern] def USB_CLASS_MISC : Nat := 0xef
@[match_pattern] def USB_CLASS_APP_SPEC : Nat := 0xfe
@[match_pattern] def USB_CLASS_VENDOR_SPEC : Nat := 0xff

/-- The members of `enum u_interface_class_type` (`usb_notify_sysfs.h`): the
first is 1 and the others follow it. -/
def U_CLASS_PER_INTERFACE : Nat := 1
def U_CLASS_AUDIO : Nat := 2
def U_CLASS_COMM : Nat := 3
def U_CLASS_HID : Nat := 4
def U_CLASS_PHYSICAL : Nat := 5
def U_CLASS_STILL_IMAGE : Nat := 6
def U_CLASS_PRINTER : Nat := 7
def U_CLASS_MASS_STORAGE : Nat := 8
def U_CLASS_HUB : Nat := 9
def U_CLASS_CDC_DATA : Nat := 10
def U_CLASS_CSCID : Nat := 11
def U_CLASS_CONTENT_SEC : Nat := 12
def U_CLASS_VIDEO : Nat := 13
def U_CLASS_WIRELESS_CONTROLLER : Nat := 14
def U_CLASS_MISC : Nat := 15
def U_CLASS_APP_SPEC : Nat := 16
def U_CLASS_VENDOR_SPEC : Nat := 17

/-- `MAX_WHITELIST_STR_LEN` of `usb_notify_sysfs.h`. -/
def MAX_WHITELIST_STR_LEN : Nat := 256

/-- `MAX_CLASS_TYPE_NUM` of `usb_notify_sysfs.h`; the array
`whitelist_array_for_mdm` has `MAX_CLASS_TYPE_NUM + 1` entries. -/
def MAX_CLASS_TYPE_NUM : Nat := USB_CLASS_VENDOR_SPEC

/-- `struct usb_host_interface`, one altsetting: the field
`desc.bInterfaceClass` (a `__u8`). -/
structure usb_host_interface where
  bInterfaceClass : Nat
  deriving DecidableEq, Repr

/-- `struct usb_interface_cache`: the altsettings of one interface;
`num_altsetting` is the length of the list. -/
structure usb_interface_cache where
  altsetting : List usb_host_interface
  deriving DecidableEq, Repr

/-- `struct usb_host_config`: the interface caches `intf_cache[0 ..
desc.bNumInterfaces - 1]`; `desc.bNumInterfaces` is the length of the list. -/
structure usb_host_config where
  intf_cache : List usb_interface_cache
  deriving DecidableEq, Repr

/-- `struct usb_device`, the fields the matchers read: the device class and
the ids of `descriptor` (ids after `le16_to_cpu`), the serial string (`none`
for a NULL pointer, otherwise the bytes before the terminator) and the
configurations `config[0 .. descriptor.bNumConfigurations - 1]`. -/
structure usb_device where
  bDeviceClass : Nat := 0
  idVendor : Nat := 0
  idProduct : Nat := 0
  serial : Option (List Nat) := none
  config : List usb_host_config := []
  deriving DecidableEq, Repr

/-- `int get_class_index(int ch9_class_num)`. -/
def get_class_index (ch9_class_num : Nat) : Nat :=
  match ch9_class_num with
  | USB_CLASS_PER_INTERFACE => U_CLASS_PER_INTERFACE
  | USB_CLASS_AUDIO => U_CLASS_AUDIO
  | USB_CLASS_COMM => U_CLASS_COMM
  | USB_CLASS_HID => U_CLASS_HID
  | USB_CLASS_PHYSICAL => U_CLASS_PHYSICAL
  | USB_CLASS_STILL_IMAGE => U_CLASS_STILL_IMAGE
  | USB_CLASS_PRINTER => U_CLASS_PRINTER
  | USB_CLASS_MASS_STORAGE => U_CLASS_MASS_STORAGE
  | USB_CLASS_HUB => U_CLASS_HUB
  | USB_CLASS_CDC_DATA => U_CLASS_CDC_DATA
  | USB_CLASS_CSCID => U_CLASS_CSCID
  | USB_CLASS_CONTENT_SEC => U_CLASS_CONTENT_SEC
  | USB_CLASS_VIDEO => U_CLASS_VIDEO
  | USB_CLASS_WIRELESS_CONTROLLER => U_CLASS_WIRELESS_CONTROLLER
  | USB_CLASS_MISC => U_CLASS_MISC
  | USB_CLASS_APP_SPEC => U_CLASS_APP_SPEC
  | USB_CLASS_VENDOR_SPEC => U_CLASS_VENDOR_SPEC
  | _ => 0

/-- The inner loop of `usb_match_any_interface_for_mdm`
(`for (j = 0; j < cfg->desc.bNumInterfaces; ++j)`) over the interfaces still to
visit: `some c` when the function returns false at an interface of class `c`,
`none` when the loop runs to its end. -/
def usb_match_any_interface_for_mdm_interfaces (whitelist_array : Nat → Int) :
    List usb_interface_cache → Option Nat
  | [] => none
  | cache :: rest =>
      match cache.altsetting with
      | [] => usb_match_any_interface_for_mdm_interfaces whitelist_array rest  -- continue
      | intf :: _ =>
          let intf_class := intf.bInterfaceClass
          if ¬ (whitelist_array (get_class_index intf_class) ≠ 0) then some intf_class
          else usb_match_any_interface_for_mdm_interfaces whitelist_array rest

/-- The outer loop of `usb_match_any_interface_for_mdm`
(`for (i = 0; i < udev->descriptor.bNumConfigurations; ++i)`) over the
configurations still to visit. -/
def usb_match_any_interface_for_mdm_configs (whitelist_array : Nat → Int) :
    List usb_host_config → Option Nat
  | [] => none
  | cfg :: rest =>
      match usb_match_any_interface_for_mdm_interfaces whitelist_array cfg.intf_cache with
      | some intf_class => some intf_class
      | none => usb_match_any_interface_for_mdm_configs whitelist_array rest

/-- `static bool usb_match_any_interface_for_mdm(udev, whitelist_array)`: the
result and the entry it writes to the usb log when it fails. -/
def usb_match_any_interface_for_mdm (udev : usb_device) (whitelist_array : Nat → Int) :
    Bool × List Effect :=
  match usb_match_any_interface_for_mdm_configs whitelist_array udev.config with
  | some intf_class =>
      (false, [Effect.store_usblog_notify_port_class_block udev.bDeviceClass intf_class])
  | none => (true, [])

/-- `int usb_check_whitelist_for_mdm(struct usb_device *dev)` for a registered
notify (the NULL checks pass). -/
def usb_check_whitelist_for_mdm (u : usb_notify) (dev : usb_device) : usb_notify × Int :=
  if u.sec_whitelist_enable ≠ 0 then
    let whitelist_array := u.udev_whitelist_array_for_mdm
    let r := usb_match_any_interface_for_mdm dev whitelist_array
    let u := { u with trace := u.trace ++ r.2 }
    if r.1 = true then (u, 1) else (u, 0)
  else (u, 1)

/-- The `while` loop of `usb_match_any_interface_for_id` from the index `i`.
The index grows by two on every pass and the loop ends when it reaches
`MAX_WHITELIST_STR_LEN`, so the number of passes is bounded; `fuel` counts the
passes that are left. -/
def usb_match_any_interface_for_id_loop (udev : usb_device) (whitelist_array : Nat → Int) :
    Nat → Nat → Bool
  | 0, _ => false
  | fuel + 1, i =>
      if whitelist_array i ≠ 0 ∧ i < MAX_WHITELIST_STR_LEN then
        if whitelist_array i = (udev.idVendor : Int)
            ∧ whitelist_array (i + 1) = (udev.idProduct : Int) then true
        else usb_match_any_interface_for_id_loop udev whitelist_array fuel (i + 2)
      else false

/-- `static bool usb_match_any_interface_for_id(udev, whitelist_array)`; the
array is read as memory (`whitelist_array i` is the `int` at index `i`). -/
def usb_match_any_interface_for_id (udev : usb_device) (whitelist_array : Nat → Int) : Bool :=
  usb_match_any_interface_for_id_loop udev whitelist_array (MAX_WHITELIST_STR_LEN / 2 + 1) 0

/-- `int usb_check_whitelist_for_id(struct usb_device *dev)` for a registered
notify. -/
def usb_check_whitelist_for_id (u : usb_notify) (dev : usb_device) : Int :=
  if u.sec_whitelist_enable_for_id ≠ 0 then
    let whitelist_array := u.udev_whitelist_array_for_mdm_for_id
    if usb_match_any_interface_for_id dev whitelist_array = true then 1 else 0
  else 1

/-- Modelled from the spec: the kernel `strsep(&s, ct)` of `lib/string.c` (not
among the sources) for one delimiter byte. A string is the list of its bytes
before the terminator and `none` is the NULL pointer. The result is the token
returned and the new value of `*s`: the token ends at the first delimiter and
`*s` moves behind it, or the token is the whole rest and `*s` becomes NULL. -/
def strsep (s : Option (List Nat)) (ct : Nat) : Option (List Nat) × Option (List Nat) :=
  match s with
  | none => (none, none)
  | some sbegin =>
      if ct ∈ sbegin then
        (some (sbegin.takeWhile (fun c => decide (c ≠ ct))),
          some ((sbegin.dropWhile (fun c => decide (c ≠ ct))).tail))
      else (some sbegin, none)

/-- Modelled from the spec: the string left in `dest` by the kernel
`strncpy(dest, src, count)`. When `src` is shorter than `count` the copy is
`src` (the rest of the `count` bytes is filled with terminators). A `src` of
`count` bytes or more fills the `count` bytes without a terminator; the
embedding then reads the first `count` bytes as the string. -/
def strncpy (src : List Nat) (count : Nat) : List Nat := src.take count

/-- The `while ((ptr_serial = strsep(&whitelist_array, ":")) != NULL)` loop of
`usb_match_any_interface_for_serial`; every pass but the last removes a
delimiter from the string, `fuel` counts the passes that are left. -/
def usb_match_any_interface_for_serial_loop (serial : List Nat) :
    Nat → Option (List Nat) → Bool
  | 0, _ => false
  | fuel + 1, whitelist_array =>
      match strsep whitelist_array 58 with      -- ":"
      | (none, _) => false
      | (some ptr_serial, whitelist_array) =>
          if ptr_serial = serial then true        -- !strcmp(ptr_serial, udev->serial)
          else usb_match_any_interface_for_serial_loop serial fuel whitelist_array

/-- `static bool usb_match_any_interface_for_serial(udev, whitelist_array)`. -/
def usb_match_any_interface_for_serial (udev : usb_device) (whitelist_array : List Nat) :
    Bool :=
  match udev.serial with
  | none => false
  | some serial =>
      usb_match_any_interface_for_serial_loop serial (whitelist_array.length + 1)
        (some whitelist_array)

/-- `int usb_check_whitelist_for_serial(struct usb_device *dev)` for a
registered notify; the matcher works on a local copy of the stored string. -/
def usb_check_whitelist_for_serial (u : usb_notify) (dev : usb_device) : Int :=
  if u.sec_whitelist_enable_for_serial ≠ 0 then
    let whitelist_array :=
      strncpy u.udev_whitelist_array_for_mdm_for_serial (MAX_WHITELIST_STR_LEN - 1)
    if usb_match_any_interface_for_serial dev whitelist_array = true then 1 else 0
  else 1

/-! ## Overcurrent scanner -/

/-- One pass of the `while` loop of `ovc_scan_thread` after the wait, for a
thread that was not asked to leave; `state` is the value the registered
`check_state(data)` returns when it is called in this pass. -/
def ovc_scan_thread_pass (u : usb_notify) (state : Int) : usb_notify :=
  let u :=
    if u.ovc_info_check_state = true ∧ u.ovc_info_data = true ∧ u.ovc_info_can_ovc ≠ 0 then
      let u :=
        if u.ovc_info_prev_state ≠ state then
          if state = HNOTIFY_LOW then
            (host_state_notify u NOTIFY_HOST_OVERCURRENT).emit
              Effect.store_usblog_notify_extra_overcurrent
          else if state = HNOTIFY_HIGH then host_state_notify u NOTIFY_HOST_NONE
          else u
        else u
      { u with ovc_info_prev_state := state }
    else u
  if ¬ (u.ovc_info_can_ovc ≠ 0) then { u with ovc_info_thread_remove := 1 } else u

/-- `static int ovc_scan_thread(void *data)`, run over the wake-ups of its
wait: one list element per timeout, holding the level the check function
reports at that moment. The thread leaves when it finds `thread_remove` set;
at the end of the list it is back in the wait. -/
def ovc_scan_thread : usb_notify → List Int → usb_notify
  | u, [] => u
  | u, state :: rest =>
      if u.ovc_info_thread_remove ≠ 0 then u.emit Effect.complete_scanning_done
      else ovc_scan_thread (ovc_scan_thread_pass u state) rest

/-! ## Disable control: `set_notify_disable` -/

/-- `static int set_notify_disable(struct usb_notify_dev *udev, int disable)`
(the `switch` built without `CONFIG_DISABLE_LOCKSCREEN_USB_RESTRICTION`). The
function returns 0 on every path, so only the state is returned. Each
`send_otg_notify` in it puts its request on `notifier_wq`; the cable checks
read the state as it is when the statement runs. -/
def set_notify_disable (u : usb_notify) (disable : Int) : usb_notify :=
  if ¬ (u.o_notify.disable_control ≠ 0) then u          -- goto skip
  else if u.disable_state = disable then u              -- goto skip
  else
    let u := { u with disable_state := disable }
    if disable = ((NOTIFY_BLOCK_TYPE_ALL : Nat) : Int) then
      let u := send_external_notify u EXTERNAL_NOTIFY_HOSTBLOCK_EARLY 1
      let u := if is_host_cable_enable u = true ∨ is_client_cable_enable u = true then
                 let u := send_otg_notify u (VIRT_EVENT u.c_type) 0
                 if u.lock_state = USB_NOTIFY_LOCK_USB_RESTRICT then
                   send_usb_restrict_uevent u USB_TIME_SECURE_RESTRICTED
                 else u
               else u
      let u := send_otg_notify u NOTIFY_EVENT_ALL_DISABLE 1
      let u := u.emit (Effect.store_usblog_notify_event NOTIFY_EVENT_ALL_DISABLE
                 NOTIFY_EVENT_BLOCKED)
      let u := if u.o_notify.booting_delay_sec ≠ 0 then { u with skip_possible_usb := 1 }
               else u
      u.emit Effect.wake_up_init_delay
    else if disable = ((NOTIFY_BLOCK_TYPE_HOST : Nat) : Int) then
      let u := send_external_notify u EXTERNAL_NOTIFY_HOSTBLOCK_EARLY 1
      let u := if is_host_cable_enable u = true then
                 send_otg_notify u (VIRT_EVENT u.c_type) 0
               else u
      let u := send_otg_notify u NOTIFY_EVENT_HOST_DISABLE 1
      let u := u.emit (Effect.store_usblog_notify_event NOTIFY_EVENT_HOST_DISABLE
                 NOTIFY_EVENT_BLOCKED)
      if ¬ (is_client_cable_block u = true) then u      -- goto skip
      else send_otg_notify u (VIRT_EVENT u.c_type) 1
    else if disable = ((NOTIFY_BLOCK_TYPE_CLIENT : Nat) : Int) then
      let u := if is_client_cable_enable u = true then
                 send_otg_notify u (VIRT_EVENT u.c_type) 0
               else u
      let u := send_otg_notify u NOTIFY_EVENT_CLIENT_DISABLE 1
      let u := u.emit (Effect.store_usblog_notify_event NOTIFY_EVENT_CLIENT_DISABLE
                 NOTIFY_EVENT_BLOCKED)
      if ¬ (is_host_cable_block u = true) then u        -- goto skip
      else if u.o_notify.unsupport_host ≠ 0 then u      -- goto skip
      else send_otg_notify u (VIRT_EVENT u.c_type) 1
    else if disable = ((NOTIFY_BLOCK_TYPE_NONE : Nat) : Int) then
      let u := if u.restricted ≠ 0 then { u with restricted := 0 } else u
      let u := send_external_notify u EXTERNAL_NOTIFY_HOSTBLOCK_EARLY 0
      let u := send_otg_notify u NOTIFY_EVENT_ALL_DISABLE 0
      let u := u.emit (Effect.store_usblog_notify_event NOTIFY_EVENT_ALL_DISABLE
                 NOTIFY_EVENT_DISABLED)
      if ¬ (is_host_cable_block u = true) ∧ ¬ (is_client_cable_block u = true) then
        if u.typec_status_power_role = HNOTIFY_SOURCE then
          send_otg_notify u NOTIFY_EVENT_DRIVE_VBUS 1   -- goto skip
        else u
      else if check_event_type u.c_type &&& NOTIFY_EVENT_NEED_HOST ≠ 0
          ∧ u.o_notify.unsupport_host ≠ 0 then u        -- goto skip
      else
        let u := if is_host_cable_block u = true then
                   (if u.o_notify.auto_drive_vbus = NOTIFY_OP_OFF
                        ∧ u.typec_status_power_role = HNOTIFY_SOURCE
                        ∧ check_event_type u.c_type &&& NOTIFY_EVENT_NEED_VBUSDRIVE ≠ 0 then
                      send_otg_notify u NOTIFY_EVENT_DRIVE_VBUS 1
                    else u)
                 else
                   (if u.typec_status_power_role = HNOTIFY_SOURCE then
                      send_otg_notify u NOTIFY_EVENT_DRIVE_VBUS 1
                    else u)
        let u := send_otg_notify u (VIRT_EVENT u.c_type) 1
        if u.skip_possible_usb ≠ 0 then
          { send_external_notify u EXTERNAL_NOTIFY_POSSIBLE_USB 1 with skip_possible_usb := 0 }
        else u
    else u

/-! ## The lock-screen allow-list -/

/-- `MAX_ALLOWLIST_DEVICE_COUNT` of `usb_notify_sysfs.h`. -/
def MAX_ALLOWLIST_DEVICE_COUNT : Nat := 100

/-- `MAX_ALLOWLIST_DEVICE_BUFFER_INDEX` of `usb_notify_sysfs.h`: the number of
entries of `allowlist_array_lockscreen_enabled_id`. -/
def MAX_ALLOWLIST_DEVICE_BUFFER_INDEX : Nat := MAX_ALLOWLIST_DEVICE_COUNT * 2

/-- The indices at which the `while` loop of `usb_match_any_interface_for_id`
reads `whitelist_array`, in program order, from the index `i`: the loop
condition `whitelist_array[i] && (i < MAX_WHITELIST_STR_LEN)` reads entry `i`
before it compares `i` with the bound, and the body reads the entries `i` and
`i + 1`. `fuel` counts the evaluations of the loop condition that are left. -/
def usb_match_any_interface_for_id_reads (udev : usb_device) (whitelist_array : Nat → Int) :
    Nat → Nat → List Nat
  | 0, _ => []
  | fuel + 1, i =>
      i :: (if whitelist_array i ≠ 0 ∧ i < MAX_WHITELIST_STR_LEN then
              i :: (i + 1) ::
                (if whitelist_array i = (udev.idVendor : Int)
                    ∧ whitelist_array (i + 1) = (udev.idProduct : Int) then []
                 else usb_match_any_interface_for_id_reads udev whitelist_array fuel (i + 2))
            else [])

/-- `int usb_check_allowlist_for_lockscreen_enabled_id(struct usb_device *dev)`
for a registered notify; returns the state and `ret`. -/
def usb_check_allowlist_for_lockscreen_enabled_id (u : usb_notify) (dev : usb_device) :
    usb_notify × Int :=
  if u.lock_state = USB_NOTIFY_LOCK_USB_RESTRICT then
    let allowlist_array := u.udev_allowlist_array_lockscreen_enabled_id
    if usb_match_any_interface_for_id dev allowlist_array = true then (u, 1)   -- goto done
    else
      let u := if u.allowlist_restricted < MAX_VAL then
                 { u with allowlist_restricted := u.allowlist_restricted + 1 }
               else u
      (send_usb_restrict_uevent u USB_TIME_SECURE_RESTRICTED, 0)
  else (u, 1)

/-- `int disconnect_unauthorized_device(struct usb_device *dev)` for a
registered notify; returns the state and `ret`. -/
def disconnect_unauthorized_device (u : usb_notify) (_dev : usb_device) : usb_notify × Int :=
  let u := if u.allowlist_restricted ≠ 0 then
             let u := { u with allowlist_restricted := u.allowlist_restricted - 1 }
             if u.allowlist_restricted = 0 then send_usb_restrict_uevent u USB_SECURE_RELEASE
             else u
           else u
  (u, 0)

/-! ## Registration: `set_otg_notify` -/

/-- What the services called by `set_otg_notify` answer during one run, and
what the run finds in `u_notify_core`. -/
structure set_otg_notify_calls where
  u_notify_core : Bool := true
  core_o_notify : Bool := false
  create_usb_notify : Int := 0
  kzalloc : Bool := true
  create_singlethread_workqueue : Bool := true
  atomic_notifier_chain_register : Int := 0
  blocking_notifier_chain_register : Int := 0
  host_notify_dev_register : Int := 0
  usb_notify_dev_register : Int := 0
  register_gpios : Int := 0
  deriving DecidableEq, Repr

/-- Where a run of `set_otg_notify` ends: at the `return 0` of a completed
registration, or at the label of the unwinding ladder it jumps to (control
then falls through the labels below it down to `err`). -/
inductive set_otg_notify_exit
  | registered
  | err7
  | err6
  | err5
  | err4
  | err3
  | err2
  | err1
  | err
  deriving DecidableEq, Repr

/-- `int set_otg_notify(struct otg_notify *n)`: the return value and the way
the function is left. `n` is `none` for a NULL pointer. A core that
`create_usb_notify` has just allocated is zeroed, so its `o_notify` is NULL. -/
def set_otg_notify (k : set_otg_notify_calls) (n : Option otg_notify) :
    Int × set_otg_notify_exit :=
  let ret : Int := 0
  let ret := if ¬ (k.u_notify_core = true) then k.create_usb_notify else ret
  if ¬ (k.u_notify_core = true) ∧ ret ≠ 0 then (ret, set_otg_notify_exit.err)
  else if (k.u_notify_core = true ∧ k.core_o_notify = true) ∧ n.isSome = true then
    (ret, set_otg_notify_exit.err)                     -- already set
  else
    match n with
    | none => (-EFAULT, set_otg_notify_exit.err1)
    | some n =>
        if ¬ (k.kzalloc = true) then (-ENOMEM, set_otg_notify_exit.err1)
        else if ¬ (k.create_singlethread_workqueue = true) then
          (-ENOMEM, set_otg_notify_exit.err2)
        else
          let ret := k.atomic_notifier_chain_register
          if ret < 0 then (ret, set_otg_notify_exit.err3)
          else
            let ret := k.blocking_notifier_chain_register
            if ret < 0 then (ret, set_otg_notify_exit.err4)
            else
              -- the statements from `usb_notify_dev_register` on
              let rest : Int × set_otg_notify_exit :=
                let ret := k.usb_notify_dev_register
                if ret < 0 then (ret, set_otg_notify_exit.err6)
                else if n.vbus_detect_gpio_valid = true ∨ n.redriver_en_gpio_valid = true then
                  let ret := k.register_gpios
                  if ret < 0 then (ret, set_otg_notify_exit.err7)
                  else (0, set_otg_notify_exit.registered)
                else (0, set_otg_notify_exit.registered)
              if ¬ (n.unsupport_host ≠ 0) then
                let ret := k.host_notify_dev_register
                if ret < 0 then (ret, set_otg_notify_exit.err5)
                else if ¬ (n.vbus_drive = true) then (ret, set_otg_notify_exit.err6)
                else rest
              else rest

/-! ## Thermistor table lookup (`drivers/samsung/pm/sec_thermistor/sec_thermistor.c`) -/

/-- `FAKE_TEMP`. -/
def FAKE_TEMP : Int := 300

/-- Modelled from the spec: `struct sec_therm_adc_table` of the missing header
`linux/platform_data/sec_thermistor.h`, one row of the conversion table, an
ADC value and the temperature at that value (both `int`). -/
structure sec_therm_adc_table where
  adc : Int
  temperature : Int
  deriving DecidableEq, Repr

/-- Modelled from the spec: `struct sec_therm_platform_data` of the missing
header, the fields the lookup reads: the table (`none` for a NULL pointer)
and the number of its rows. -/
structure sec_therm_platform_data where
  adc_table : Option (List sec_therm_adc_table) := none
  adc_arr_size : Nat := 0
  deriving DecidableEq, Repr

/-- How a lookup ends: with a value, with a read of `adc_table` at an index
that is not a row of the table, with a division by zero, or (in the
embedding only) with the pass counter of the search used up. -/
inductive therm_result
  | value (v : Int)
  | out_of_table (idx : Int)
  | division_by_zero
  | unfinished
  deriving DecidableEq, Repr

/-- The conversion of an `int` to `unsigned int`. -/
def to_unsigned (x : Int) : Nat := (x % 2 ^ 32).toNat

/-- The row `adc_table[idx]`, if `idx` is the index of a row. -/
def adc_table_at (table : List sec_therm_adc_table) (idx : Int) : Option sec_therm_adc_table :=
  if 0 ≤ idx then table.get? idx.toNat else none

/-- `static bool is_using_fake_temp(struct sec_therm_info *info)`. -/
def is_using_fake_temp (pdata : sec_therm_platform_data) : Bool :=
  pdata.adc_table.isNone || pdata.adc_arr_size == 0

/-- `static int get_closest_adc_table_idx(info, unsigned int adc)`; the two
comparisons are between an `int` and an `unsigned int` and are made on
unsigned values. -/
def get_closest_adc_table_idx (table : List sec_therm_adc_table) (adc_arr_size : Nat)
    (adc : Nat) : therm_result :=
  let low : Int := 0
  let high : Int := to_int ((adc_arr_size : Int) - 1)
  match adc_table_at table low with
  | none => therm_result.out_of_table low
  | some l =>
      if to_unsigned l.adc ≥ adc then therm_result.value low
      else
        match adc_table_at table high with
        | none => therm_result.out_of_table high
        | some h =>
            if to_unsigned h.adc ≤ adc then therm_result.value high
            else therm_result.value (-1)

/-- `static int find_appropriate_temp(int *low, int *high, int adc, info)`: the
values of `*low` and `*high` on return, and the result. Every pass that does
not return moves `*low` above `mid` or `*high` below it, so the number of
passes is bounded by the number of rows; `fuel` counts the passes that are
left. -/
def find_appropriate_temp (table : List sec_therm_adc_table) (adc : Int) :
    Nat → Int → Int → Int × Int × therm_result
  | 0, low, high =>
      if low ≤ high then (low, high, therm_result.unfinished)
      else (low, high, therm_result.value (-1))
  | fuel + 1, low, high =>
      if low ≤ high then
        let mid := to_int ((to_int (low + high)).tdiv 2)
        match adc_table_at table mid with
        | none => (low, high, therm_result.out_of_table mid)
        | some mid_table =>
            if mid_table.adc > adc then
              find_appropriate_temp table adc fuel low (to_int (mid - 1))
            else if mid_table.adc < adc then
              find_appropriate_temp table adc fuel (to_int (mid + 1)) high
            else (low, high, therm_result.value mid_table.temperature)
      else (low, high, therm_result.value (-1))        -- Not found

/-- `static int calculate_temp(int low, int high, int adc, info)`. -/
def calculate_temp (table : List sec_therm_adc_table) (low high adc : Int) : therm_result :=
  match adc_table_at table high with
  | none => therm_result.out_of_table high
  | some h =>
      match adc_table_at table low with
      | none => therm_result.out_of_table low
      | some l =>
          let temp := h.temperature
          let temp_diff := to_int (to_int (l.temperature - h.temperature) * to_int (adc - h.adc))
          let divisor := to_int (l.adc - h.adc)
          if divisor = 0 then therm_result.division_by_zero
          else therm_result.value (to_int (temp + to_int (temp_diff.tdiv divisor)))

/-- `static int convert_adc_to_temp(struct sec_therm_info *info, unsigned int adc)`.
The search gets one pass per row and one more to see the empty range. -/
def convert_adc_to_temp (pdata : sec_therm_platform_data) (adc : Nat) : therm_result :=
  let low : Int := 0
  let high : Int := to_int ((pdata.adc_arr_size : Int) - 1)
  if is_using_fake_temp pdata = true then therm_result.value FAKE_TEMP
  else
    match pdata.adc_table with
    | none => therm_result.value FAKE_TEMP
    | some table =>
        match get_closest_adc_table_idx table pdata.adc_arr_size adc with
        | therm_result.value idx =>
            if idx ≠ -1 then
              match adc_table_at table idx with
              | none => therm_result.out_of_table idx
              | some row => therm_result.value row.temperature
            else
              let r := find_appropriate_temp table (to_int (adc : Int))
                         (pdata.adc_arr_size + 1) low high
              match r.2.2 with
              | therm_result.value temp =>
                  if temp ≠ -1 then therm_result.value temp
                  else calculate_temp table r.1 r.2.1 (to_int (adc : Int))
              | fault => fault
        | fault => fault

/-! ## Vocabulary of the claims -/

/-- The block condition of the policy, in the words of the block rules. -/
def block_rules (u : usb_notify) (e : Nat) : Prop :=
  (check_event_type e &&& NOTIFY_EVENT_NEED_HOST ≠ 0
      ∧ test_bit NOTIFY_BLOCK_TYPE_HOST u.udev_disable_state = true)
  ∨ (check_event_type e &&& NOTIFY_EVENT_NEED_CLIENT ≠ 0
      ∧ test_bit NOTIFY_BLOCK_TYPE_CLIENT u.udev_disable_state = true)
  ∨ (check_event_type e &&& NOTIFY_EVENT_NEED_HOST ≠ 0
      ∧ (u.o_notify.unsupport_host ≠ 0 ∨ u.restricted ≠ 0))

instance (u : usb_notify) (e : Nat) : Decidable (block_rules u e) := by
  unfold block_rules; infer_instance

/-- The hardware hooks of the block enforcement claim. -/
def is_hw_hook : Effect → Bool
  | Effect.set_host _ => true
  | Effect.set_peripheral _ => true
  | Effect.vbus_drive _ => true
  | Effect.set_charger _ => true
  | Effect.set_lanhubta _ => true
  | _ => false

/-- The status the start phase writes to the usb log. -/
def start_log_status (u : usb_notify) (e t : Nat) (v en : Int) : otg_notify_event_status :=
  if t &&& NOTIFY_EVENT_NOSAVE ≠ 0 then
    (if en ≠ 0 then NOTIFY_EVENT_ENABLING else NOTIFY_EVENT_DISABLING)
  else (update_cable_status u e v en 1).c_status

/-- The disable bitmask blocks the event: the host disable bit is set and the
event needs host, or the client disable bit is set and the event needs client. -/
def disable_bits_block (u : usb_notify) (e : Nat) : Prop :=
  (test_bit NOTIFY_BLOCK_TYPE_HOST u.udev_disable_state = true
      ∧ check_event_type e &&& NOTIFY_EVENT_NEED_HOST ≠ 0)
  ∨ (test_bit NOTIFY_BLOCK_TYPE_CLIENT u.udev_disable_state = true
      ∧ check_event_type e &&& NOTIFY_EVENT_NEED_CLIENT ≠ 0)

/-- The mismatched virtual replay guard at the head of `otg_notify_state`: a
virtual enable of an event that needs host while the current cable type does
not. -/
def virtual_replay_mismatch (u : usb_notify) (ev : Nat) (enable : Int) : Prop :=
  IS_VIRTUAL ev ≠ 0 ∧ enable ≠ 0
    ∧ check_event_type (PHY_EVENT ev) &&& NOTIFY_EVENT_NEED_HOST ≠ 0
    ∧ ¬ (check_event_type u.c_type &&& NOTIFY_EVENT_NEED_HOST ≠ 0)

/-- The settled statuses: Enabled, Blocked, Disabled. -/
def settled (s : otg_notify_event_status) : Prop :=
  s = NOTIFY_EVENT_ENABLED ∨ s = NOTIFY_EVENT_BLOCKED ∨ s = NOTIFY_EVENT_DISABLED

/-- The starting statuses: Enabling, Blocking, Disabling. -/
def starting (s : otg_notify_event_status) : Prop :=
  s = NOTIFY_EVENT_ENABLING ∨ s = NOTIFY_EVENT_BLOCKING ∨ s = NOTIFY_EVENT_DISABLING

/-- The settled counterpart of a status. -/
def settle : otg_notify_event_status → otg_notify_event_status
  | NOTIFY_EVENT_ENABLING => NOTIFY_EVENT_ENABLED
  | NOTIFY_EVENT_BLOCKING => NOTIFY_EVENT_BLOCKED
  | NOTIFY_EVENT_DISABLING => NOTIFY_EVENT_DISABLED
  | s => s

instance (u : usb_notify) (e : Nat) : Decidable (disable_bits_block u e) := by
  unfold disable_bits_block; infer_instance

instance (u : usb_notify) (ev : Nat) (enable : Int) :
    Decidable (virtual_replay_mismatch u ev enable) := by
  unfold virtual_replay_mismatch; infer_instance

instance (s : otg_notify_event_status) : Decidable (settled s) := by
  unfold settled; infer_instance

instance (s : otg_notify_event_status) : Decidable (starting s) := by
  unfold starting; infer_instance

/-- A state with host mode counters left over from an earlier connection and a
registered `set_host` hook. -/
def round_trip_state : usb_notify :=
  { allowlist_restricted := 3, cond_hshub := 1, cond_sshub := 1,
    o_notify := { set_host := true } }

/-- The effects of the idempotence claim: `set_host`, `vbus_drive`,
`host_state_notify` and the redriver GPIO. -/
def is_host_effect : Effect → Bool
  | Effect.set_host _ => true
  | Effect.vbus_drive _ => true
  | Effect.host_state_notify _ => true
  | Effect.gpio_direction_output_redriver _ => true
  | _ => false

/-- A state with the hooks `set_host` and `vbus_drive` registered, a valid
redriver GPIO and the automatic vbus drive placed before `set_host`. -/
def idempotence_state : usb_notify :=
  { o_notify := { set_host := true, vbus_drive := true, redriver_en_gpio_valid := true,
                  auto_drive_vbus := NOTIFY_OP_PRE } }

/-- A call of one of the two notifier chains. -/
def is_chain_call : Effect → Bool
  | Effect.atomic_notifier_call_chain _ _ => true
  | Effect.blocking_notifier_call_chain _ _ => true
  | _ => false

/-- The event is classified both Delay and State. -/
def delay_and_state (e : Nat) : Prop :=
  check_event_type e &&& NOTIFY_EVENT_DELAY ≠ 0 ∧ check_event_type e &&& NOTIFY_EVENT_STATE ≠ 0

instance (e : Nat) : Decidable (delay_and_state e) := by
  unfold delay_and_state; infer_instance

/-- What a deferred request does apart from writing the slot: it wakes the
boot wait for an enable of a client event and sends the restrict uevent when
the lock state is Restricted. -/
def deferred_effects (u : usb_notify) (e : Nat) (enable : Int) : List Effect :=
  (if enable ≠ 0 ∧ check_event_type e &&& NOTIFY_EVENT_NEED_CLIENT ≠ 0 then
     [Effect.wake_up_init_delay] else [])
  ++ (if u.lock_state = USB_NOTIFY_LOCK_USB_RESTRICT then
        [Effect.send_usb_restrict_uevent
          (if enable ≠ 0 then USB_TIME_SECURE_RESTRICTED else USB_SECURE_RELEASE)]
      else [])

/-- A registered notify during boot: the gate is closed (`booting_delay_sec`
is 5), the `set_peripheral` hook is registered, the wake lock is in use. -/
def gate_closed_state : usb_notify :=
  { o_notify := { booting_delay_sec := 5, set_peripheral := true, is_wakelock := 1 } }

/-- The chain calls `reserve_state_check` makes for the slot value `r`. -/
def replay_calls (r : Nat) : List Effect :=
  if r ≠ NOTIFY_EVENT_NONE ∧ check_event_type r &&& NOTIFY_EVENT_STATE ≠ 0 then
    [Effect.atomic_notifier_call_chain r 1] else []

/-- The work `reserve_state_check` queues for the slot value `r`. -/
def replay_work (u : usb_notify) (r : Nat) : List otg_state_work :=
  if (r ≠ NOTIFY_EVENT_NONE ∧ check_event_type r &&& NOTIFY_EVENT_STATE ≠ 0)
      ∧ ¬ (r > VIRT_EVENT NOTIFY_EVENT_VBUSPOWER) ∧ u.kmalloc_ok = true then
    [{ event := r, enable := 1 }] else []

/-- What the reservation slot can hold: None, or an event classified Delay and
State (the only values `send_otg_notify` reserves). -/
def slot_reserved (r : Nat) : Prop := r = NOTIFY_EVENT_NONE ∨ delay_and_state r

instance (r : Nat) : Decidable (slot_reserved r) := by
  unfold slot_reserved; infer_instance

/-- The external notification that ends `reserve_state_check`. -/
def possible_usb_effects (u : usb_notify) : List Effect :=
  if u.skip_possible_usb = 0 then
    [Effect.send_external_notify EXTERNAL_NOTIFY_POSSIBLE_USB 1] else []

/-- The statements of `otg_notify_state` that follow its first assignments
(`prev_c_type`, `virtual`, `event`, `type`), with the base event, its
classification and the virtual flag as parameters. -/
def otg_notify_state_body (u : usb_notify) (event type : Nat) (virtual enable : Int) :
    usb_notify :=
  if virtual ≠ 0 ∧ enable ≠ 0
      ∧ check_event_type event &&& NOTIFY_EVENT_NEED_HOST ≠ 0
      ∧ ¬ (check_event_type u.c_type &&& NOTIFY_EVENT_NEED_HOST ≠ 0) then
    u
  else
    let s := otg_notify_state_start u event type virtual enable
    if check_block_event s event = true ∧ ¬ (type &&& NOTIFY_EVENT_NOBLOCKING ≠ 0) then
      let r := do_notify_blockstate s event type enable
      if r.2 ≠ 0 then r.1
      else update_cable_status r.1 event virtual enable 0
    else
      let r := otg_notify_state_switch s event enable virtual u.c_type
      match r.2 with
      | switch_exit.no_save_event => r.1
      | switch_exit.err => update_cable_status r.1 event virtual enable 0
      | switch_exit.brk =>
          update_cable_status
            (otg_notify_state_after_switch r.1 event type enable u.c_type)
            event virtual enable 0

/-- A state with both disable bits set on a model with disable control. -/
def all_disabled_state : usb_notify :=
  { udev_disable_state := 6, o_notify := { disable_control := 1 } }

/-- A blocked host connection with its bookkeeping pending: the host disable
bit is set, the cable type is Hmt (Blocked), the device-connect check is armed
and the host mode counters are set. -/
def blocked_host_state : usb_notify :=
  { udev_disable_state := 2, c_type := NOTIFY_EVENT_HMT, c_status := NOTIFY_EVENT_BLOCKED,
    allowlist_restricted := 3, cond_hshub := 1, cond_sshub := 1, is_device := 1,
    o_notify := { device_check_sec := 10 } }

/-- The bookkeeping fields of steps 6 and 7 (device-connect check and host
teardown) are the same in the two states. -/
def same_bookkeeping (u v : usb_notify) : Prop :=
  v.allowlist_restricted = u.allowlist_restricted ∧ v.cond_hshub = u.cond_hshub
  ∧ v.cond_sshub = u.cond_sshub ∧ v.is_device = u.is_device
  ∧ v.check_work_complete = u.check_work_complete

instance (u v : usb_notify) : Decidable (same_bookkeeping u v) := by
  unfold same_bookkeeping; infer_instance

/-- The outside calls of the bookkeeping of steps 6 and 7: starting or
cancelling the device-connect check and the device-added/removed notification. -/
def is_bookkeeping_effect : Effect → Bool
  | Effect.schedule_check_work _ => true
  | Effect.cancel_check_work_sync => true
  | Effect.send_external_notify EXTERNAL_NOTIFY_DEVICEADD _ => true
  | _ => false

/-- The array that holds the given entries and zeros behind them. -/
def array_of (l : List Int) : Nat → Int := fun i => l.getD i 0

/-- The interface class codes `get_class_index` knows. -/
def known_classes : List Nat :=
  [USB_CLASS_PER_INTERFACE, USB_CLASS_AUDIO, USB_CLASS_COMM, USB_CLASS_HID,
   USB_CLASS_PHYSICAL, USB_CLASS_STILL_IMAGE, USB_CLASS_PRINTER, USB_CLASS_MASS_STORAGE,
   USB_CLASS_HUB, USB_CLASS_CDC_DATA, USB_CLASS_CSCID, USB_CLASS_CONTENT_SEC,
   USB_CLASS_VIDEO, USB_CLASS_WIRELESS_CONTROLLER, USB_CLASS_MISC, USB_CLASS_APP_SPEC,
   USB_CLASS_VENDOR_SPEC]

/-- The top-level interfaces of a device in the order of the scan: for every
configuration, the first altsetting of every interface that has one. -/
def top_level_interfaces (udev : usb_device) : List usb_host_interface :=
  (udev.config.map
    (fun cfg => cfg.intf_cache.filterMap (fun cache => cache.altsetting.head?))).flatten

/-- The interface class is allowed by the array. -/
def class_allowed (whitelist_array : Nat → Int) (intf : usb_host_interface) : Bool :=
  decide (whitelist_array (get_class_index intf.bInterfaceClass) ≠ 0)

/-- The allow-list of the serial matcher, read as the specification reads it:
the fields between the colons, empty fields included. -/
def serial_fields (whitelist_array : List Nat) : List (List Nat) :=
  whitelist_array.splitOn 58

/-- What the scanner does at a tick by the edge rule: the level reported
differs from the level before and is Low (overcurrent, with its usb log
entry), or differs and is High (clear). -/
def ovc_edge_effects (prev state : Int) : List Effect :=
  if state ≠ prev ∧ state = HNOTIFY_LOW then
    [Effect.host_state_notify NOTIFY_HOST_OVERCURRENT,
     Effect.store_usblog_notify_extra_overcurrent]
  else if state ≠ prev ∧ state = HNOTIFY_HIGH then
    [Effect.host_state_notify NOTIFY_HOST_NONE]
  else []

/-- The level before tick `k`: the sample of the tick before, and the initial
level `HNOTIFY_INITIAL` before the first tick. -/
def ovc_level_before (samples : List Int) (k : Nat) : Int :=
  (samples.take k).getLast?.getD HNOTIFY_INITIAL

/-- The scanner can run: overcurrent detection is enabled and the check
function and its context are registered. -/
def ovc_ready (u : usb_notify) : Prop :=
  u.ovc_info_can_ovc ≠ 0 ∧ u.ovc_info_check_state = true ∧ u.ovc_info_data = true

instance (u : usb_notify) : Decidable (ovc_ready u) := by
  unfold ovc_ready; infer_instance

/-- A state with overcurrent detection enabled and the check function and its
context registered. -/
def ovc_ready_state : usb_notify :=
  { ovc_info_can_ovc := 1, ovc_info_check_state := true, ovc_info_data := true }

/-- A host connection in host mode with the host disable bit set afterwards and
a registered `set_host` hook. -/
def host_mode_blocked_state : usb_notify :=
  { udev_disable_state := 2, ndev_mode := NOTIFY_HOST_MODE, c_type := NOTIFY_EVENT_HOST,
    c_status := NOTIFY_EVENT_ENABLED, o_notify := { set_host := true } }

/-- A model with the hooks `vbus_drive` and `reverse_bypass_drive` registered. -/
def drive_vbus_state : usb_notify :=
  { o_notify := { vbus_drive := true, reverse_bypass_drive := true } }

/-- The events of the host arms that check `unsupport_host` before anything
else. -/
def host_arm_events : List Nat :=
  [NOTIFY_EVENT_HOST, NOTIFY_EVENT_HMT, NOTIFY_EVENT_GAMEPAD, NOTIFY_EVENT_LANHUB,
   NOTIFY_EVENT_POGO, NOTIFY_EVENT_SMARTDOCK_TA, NOTIFY_EVENT_AUDIODOCK]

/-- The opposite of a hardware effect: the same call with the opposite
argument (`host_state_notify(add)` against `host_state_notify(remove)`, the
wake lock taken against the wake lock released). -/
def invert_effect : Effect → Effect
  | Effect.set_host b => Effect.set_host (!b)
  | Effect.set_peripheral b => Effect.set_peripheral (!b)
  | Effect.vbus_drive b => Effect.vbus_drive (!b)
  | Effect.gpio_direction_output_redriver v => Effect.gpio_direction_output_redriver (1 - v)
  | Effect.host_state_notify NOTIFY_HOST_ADD => Effect.host_state_notify NOTIFY_HOST_REMOVE
  | Effect.pm_stay_awake => Effect.pm_relax
  | x => x

/-- The vbus drive of the host arm when `auto_drive_vbus` is Off: a booster
reserved while the port is a power source, driven once the host is up. -/
def reserved_booster_effects (u : usb_notify) : List Effect :=
  if u.o_notify.auto_drive_vbus = NOTIFY_OP_OFF ∧ u.typec_status_power_role = HNOTIFY_SOURCE
      ∧ u.reserve_vbus_booster ≠ 0 ∧ is_blocked u NOTIFY_BLOCK_TYPE_HOST = false
      ∧ u.o_notify.vbus_drive = true then
    [Effect.vbus_drive true] else []

/-- The hardware effects of an allowed enable of Host, Hmt or Gamepad, in
order: host-state add, redriver GPIO high, `vbus_drive(1)` (Pre), `set_host(true)`,
`vbus_drive(1)` (Post), the reserved booster (Off). -/
def host_enable_effects (u : usb_notify) : List Effect :=
  [Effect.host_state_notify NOTIFY_HOST_ADD]
  ++ (if u.o_notify.redriver_en_gpio_valid = true then
        [Effect.gpio_direction_output_redriver 1] else [])
  ++ (if u.o_notify.auto_drive_vbus = NOTIFY_OP_PRE ∧ u.o_notify.vbus_drive = true then
        [Effect.vbus_drive true] else [])
  ++ (if u.o_notify.set_host = true then [Effect.set_host true] else [])
  ++ (if u.o_notify.auto_drive_vbus = NOTIFY_OP_POST ∧ u.o_notify.vbus_drive = true then
        [Effect.vbus_drive true] else [])
  ++ reserved_booster_effects u

/-- The hardware effects of a disable of Host, Hmt or Gamepad, in order:
`vbus_drive(0)` (Post), `set_host(false)`, `vbus_drive(0)` (Pre), redriver GPIO
low, host-state remove. -/
def host_disable_effects (n : otg_notify) : List Effect :=
  (if n.auto_drive_vbus = NOTIFY_OP_POST ∧ n.vbus_drive = true then
     [Effect.vbus_drive false] else [])
  ++ (if n.set_host = true then [Effect.set_host false] else [])
  ++ (if n.auto_drive_vbus = NOTIFY_OP_PRE ∧ n.vbus_drive = true then
        [Effect.vbus_drive false] else [])
  ++ (if n.redriver_en_gpio_valid = true then
        [Effect.gpio_direction_output_redriver 0] else [])
  ++ [Effect.host_state_notify NOTIFY_HOST_REMOVE]

/-- The effects of the Vbus arm on enable, in order: wake lock, redriver GPIO
high, the delay before the peripheral, `set_peripheral(true)`. The argument of
the delay is the `int` product `pre_peri_delay_us * 1000`, which wraps at 32
bits. -/
def vbus_enable_effects (n : otg_notify) : List Effect :=
  (if n.is_wakelock ≠ 0 then [Effect.pm_stay_awake] else [])
  ++ (if n.redriver_en_gpio_valid = true then
        [Effect.gpio_direction_output_redriver 1] else [])
  ++ (if n.pre_peri_delay_us ≠ 0 then
        [Effect.usleep_range (to_int (n.pre_peri_delay_us * 1000))] else [])
  ++ (if n.set_peripheral = true then [Effect.set_peripheral true] else [])

/-- The effects of the Vbus arm on disable, in order: `set_peripheral(false)`,
redriver GPIO low, wake lock released. -/
def vbus_disable_effects (n : otg_notify) : List Effect :=
  (if n.set_peripheral = true then [Effect.set_peripheral false] else [])
  ++ (if n.redriver_en_gpio_valid = true then
        [Effect.gpio_direction_output_redriver 0] else [])
  ++ (if n.is_wakelock ≠ 0 then [Effect.pm_relax] else [])

/-- The effect is a sleep. -/
def is_delay : Effect → Bool
  | Effect.usleep_range _ => true
  | Effect.msleep _ => true
  | _ => false

/-- A model with host support, the automatic vbus drive off, and a booster
reserved while the port is a power source; the hooks `set_host` and
`vbus_drive` are registered. -/
def reserved_booster_state : usb_notify :=
  { typec_status_power_role := HNOTIFY_SOURCE, reserve_vbus_booster := 1,
    o_notify := { set_host := true, vbus_drive := true } }

/-- A state with the host counters set and the device flag up. -/
def counters_state : usb_notify :=
  { allowlist_restricted := 3, cond_hshub := 1, cond_sshub := 1, is_device := 1 }

/-- The request takes the restricting branch of `detect_illegal_condition`: the
type is AudioDescriptor, or it is SecureDisconnection and some counter of
`secure_connect_group` has reached `MAX_SECURE_CONNECTION`. -/
def sets_restricted (u : usb_notify) (type : illegal_condition_type) : Prop :=
  type = illegal_condition_type.NOTIFY_EVENT_AUDIO_DESCRIPTOR
  ∨ (type = illegal_condition_type.NOTIFY_EVENT_SECURE_DISCONNECTION
      ∧ ∃ c ∈ u.secure_connect_group, MAX_SECURE_CONNECTION ≤ c)

/-- A Gamepad connection that is enabled, with two secure-connection counters
of which the second has reached the limit. -/
def secure_limit_state : usb_notify :=
  { c_type := NOTIFY_EVENT_GAMEPAD, c_status := NOTIFY_EVENT_ENABLED,
    secure_connect_group := [3, 10] }

/-- The range of the counter `allowlist_restricted`: from 0 to `MAX_VAL`
(0x7FFFFFFF). -/
def allowlist_restricted_in_range (u : usb_notify) : Prop :=
  0 ≤ u.allowlist_restricted ∧ u.allowlist_restricted ≤ MAX_VAL

instance (u : usb_notify) : Decidable (allowlist_restricted_in_range u) := by
  unfold allowlist_restricted_in_range; infer_instance

/-- A restricted lock screen with an empty allow-list and two unauthorized
devices counted. -/
def lockscreen_restricted_state : usb_notify :=
  { lock_state := USB_NOTIFY_LOCK_USB_RESTRICT, allowlist_restricted := 2 }

/-- One event of the reverse-bypass staging, with its enable flag. -/
inductive reverse_bypass_event
  | attach (enable : Int)
  | connect (enable : Int)
  | drive_vbus (enable : Int)
  deriving DecidableEq, Repr

/-- The handler that runs for a reverse-bypass event: `extra_notify_state` for
ReverseBypassAttach and ReverseBypassConnect (Extra events), `otg_notify_state`
for DriveVbus (a State event). -/
def reverse_bypass_step (u : usb_notify) : reverse_bypass_event → usb_notify
  | reverse_bypass_event.attach enable =>
      extra_notify_state u NOTIFY_EVENT_REVERSE_BYPASS_DEVICE_ATTACH enable
  | reverse_bypass_event.connect enable =>
      extra_notify_state u NOTIFY_EVENT_REVERSE_BYPASS_DEVICE_CONNECT enable
  | reverse_bypass_event.drive_vbus enable =>
      otg_notify_state u NOTIFY_EVENT_DRIVE_VBUS enable

/-- A sequence of reverse-bypass events handled in order. -/
def reverse_bypass_run (u : usb_notify) (events : List reverse_bypass_event) : usb_notify :=
  events.foldl reverse_bypass_step u

/-- The exits of `set_otg_notify` on which the per-device state is freed: the
labels `err7` to `err2` fall through to `kfree(u_notify)` at `err2`. -/
def set_otg_notify_frees_state : set_otg_notify_exit → Bool
  | set_otg_notify_exit.err7 => true
  | set_otg_notify_exit.err6 => true
  | set_otg_notify_exit.err5 => true
  | set_otg_notify_exit.err4 => true
  | set_otg_notify_exit.err3 => true
  | set_otg_notify_exit.err2 => true
  | _ => false

/-- The exits of `set_otg_notify` on which `u_notify_core->o_notify` is set
back to NULL: the labels `err7` to `err1`. -/
def set_otg_notify_clears_core : set_otg_notify_exit → Bool
  | set_otg_notify_exit.registered => false
  | set_otg_notify_exit.err => false
  | _ => true

/-- The ADC values of the table grow strictly from row to row. -/
def strictly_increasing_adc (table : List sec_therm_adc_table) : Prop :=
  (table.map (fun row => row.adc)).Pairwise (fun a b => a < b)

instance (table : List sec_therm_adc_table) : Decidable (strictly_increasing_adc table) := by
  unfold strictly_increasing_adc; infer_instance

/-- A table of five rows whose second row holds the temperature -1
(-0.1 degree in the unit of the table). -/
def minus_one_table : List sec_therm_adc_table :=
  [{ adc := 100, temperature := 900 }, { adc := 200, temperature := -1 },
   { adc := 300, temperature := -50 }, { adc := 400, temperature := -100 },
   { adc := 500, temperature := -200 }]

/-- A table of three rows whose middle row holds the temperature -1. -/
def minus_one_short_table : List sec_therm_adc_table :=
  [{ adc := 100, temperature := 10 }, { adc := 200, temperature := -1 },
   { adc := 300, temperature := -20 }]

/-- The events whose arms enable the host without a test of the restricted
flag: Lanhub and the group Mmdock, Pogo, SmartDockTA, AudioDock. -/
def dock_arm_events : List Nat :=
  [NOTIFY_EVENT_LANHUB, NOTIFY_EVENT_MMDOCK, NOTIFY_EVENT_POGO, NOTIFY_EVENT_SMARTDOCK_TA,
   NOTIFY_EVENT_AUDIODOCK]

/-- A restricted model with host support and a registered `set_host` hook. -/
def restricted_state : usb_notify :=
  { restricted := 1, o_notify := { set_host := true } }

/-- The fields of the disable control and of the work queue are the same in
the two states: the pending work, the outcome of the next allocation and the
block type last requested. -/
def same_control (u v : usb_notify) : Prop :=
  v.notifier_wq = u.notifier_wq ∧ v.kmalloc_ok = u.kmalloc_ok
  ∧ v.disable_state = u.disable_state

/-- A call of `set_notify_disable` followed by the worker of `notifier_wq`
running the requests the call has queued. -/
def set_notify_disable_run (u : usb_notify) (disable : Int) : usb_notify :=
  flush_workqueue (set_notify_disable u disable)

/-- An enabled Host connection on a model with disable control, host support
and a registered `set_host` hook. -/
def host_enabled_state : usb_notify :=
  { c_type := NOTIFY_EVENT_HOST, c_status := NOTIFY_EVENT_ENABLED,
    ndev_mode := NOTIFY_HOST_MODE, o_notify := { disable_control := 1, set_host := true } }

/-! ## Helper lemmas -/

theorem emit_c_status (u : usb_notify) (x : Effect) :
    (u.emit x).c_status = u.c_status := rfl

theorem emit_c_type (u : usb_notify) (x : Effect) : (u.emit x).c_type = u.c_type := rfl

theorem emit_o_notify (u : usb_notify) (x : Effect) :
    (u.emit x).o_notify = u.o_notify := rfl

theorem emit_restricted (u : usb_notify) (x : Effect) :
    (u.emit x).restricted = u.restricted := rfl

theorem emit_udev_disable_state (u : usb_notify) (x : Effect) :
    (u.emit x).udev_disable_state = u.udev_disable_state := rfl

theorem emit_trace (u : usb_notify) (x : Effect) : (u.emit x).trace = u.trace ++ [x] := rfl

/-- Every value at or above `NOTIFY_EVENT_VIRTUAL` takes the default arm. -/
theorem check_event_type_of_ge_virtual (e : Nat) (h : NOTIFY_EVENT_VIRTUAL ≤ e) :
    check_event_type e = NOTIFY_EVENT_STATE := by
  have h41 : 41 ≤ e := h
  unfold check_event_type
  split <;> first | rfl | (exfalso; simp_all [NOTIFY_EVENT_NONE])

theorem effects_since_of_append {u v : usb_notify} {l : List Effect}
    (h : v.trace = u.trace ++ l) : effects_since u v = l := by
  unfold effects_since
  rw [h, List.drop_left]

theorem effects_since_self (u : usb_notify) : effects_since u u = [] := by
  simp [effects_since]

theorem update_cable_status_udev_disable_state (u : usb_notify) (e : Nat) (v en st : Int) :
    (update_cable_status u e v en st).udev_disable_state = u.udev_disable_state := by
  unfold update_cable_status
  dsimp only
  split_ifs <;> rfl

theorem update_cable_status_trace (u : usb_notify) (e : Nat) (v en st : Int) :
    (update_cable_status u e v en st).trace = u.trace ++
      (if en = 0 ∧ v = 0 ∧ st = 0 then
        [Effect.send_usb_restrict_uevent USB_SECURE_RELEASE] else []) := by
  unfold update_cable_status
  dsimp only
  split_ifs <;> simp_all [send_usb_restrict_uevent, usb_notify.emit]

theorem do_notify_blockstate_trace (u : usb_notify) (e t : Nat) (en : Int) :
    ∃ l, (do_notify_blockstate u e t en).1.trace = u.trace ++ l
      ∧ ∀ x ∈ l, is_hw_hook x = false := by
  unfold do_notify_blockstate
  split <;> dsimp only <;> (try split_ifs) <;>
    simp [send_usb_restrict_uevent, host_state_notify, usb_notify.emit, is_hw_hook]


theorem otg_notify_state_start_udev_disable_state (u : usb_notify) (e t : Nat) (v en : Int) :
    (otg_notify_state_start u e t v en).udev_disable_state = u.udev_disable_state := by
  unfold otg_notify_state_start
  dsimp only
  split_ifs <;> simp [usb_notify.emit, update_cable_status_udev_disable_state]

theorem otg_notify_state_start_trace (u : usb_notify) (e t : Nat) (v en : Int) :
    (otg_notify_state_start u e t v en).trace =
      u.trace ++ [Effect.store_usblog_notify_event e (start_log_status u e t v en)] := by
  unfold otg_notify_state_start start_log_status
  dsimp only
  by_cases h : t &&& NOTIFY_EVENT_NOSAVE ≠ 0
  · rw [if_neg (not_not_intro h), if_pos h]; rfl
  · have h1 : ¬ ((en = 0 ∧ v = 0 ∧ (1 : Int) = 0)) := by simp
    rw [if_pos h, if_neg h]
    simp only [usb_notify.emit, update_cable_status_trace, if_neg h1, List.append_nil]

theorem check_block_event_of_disable_state {u v : usb_notify} (e : Nat)
    (h : v.udev_disable_state = u.udev_disable_state) :
    check_block_event v e = check_block_event u e := by
  simp [check_block_event, h]

theorem otg_notify_state_blocked_trace (u : usb_notify) (ev : Nat) (enable : Int)
    (hb : disable_bits_block u (PHY_EVENT ev))
    (hnb : check_event_type (PHY_EVENT ev) &&& NOTIFY_EVENT_NOBLOCKING = 0) :
    ∃ l, (otg_notify_state u ev enable).trace = u.trace ++ l
      ∧ ∀ x ∈ l, is_hw_hook x = false := by
  have hcb : check_block_event u (PHY_EVENT ev) = true := by
    simpa [check_block_event, disable_bits_block] using hb
  have hs := otg_notify_state_start_trace u (PHY_EVENT ev)
      (check_event_type (PHY_EVENT ev)) (IS_VIRTUAL ev) enable
  obtain ⟨l, hl, hP⟩ := do_notify_blockstate_trace
      (otg_notify_state_start u (PHY_EVENT ev) (check_event_type (PHY_EVENT ev))
        (IS_VIRTUAL ev) enable) (PHY_EVENT ev) (check_event_type (PHY_EVENT ev)) enable
  unfold otg_notify_state
  dsimp only
  split_ifs with hg hblk hr
  · exact ⟨[], by simp, by simp⟩
  · -- goto no_save_event out of the block handler
    rw [hl, hs]
    refine ⟨_, by rw [List.append_assoc], ?_⟩
    intro x hx
    simp only [List.mem_append, List.mem_singleton] at hx
    rcases hx with h | h
    · subst h; rfl
    · exact hP x h
  · rw [update_cable_status_trace, hl, hs]
    refine ⟨_, by simp only [List.append_assoc]; rfl, ?_⟩
    intro x hx
    simp only [List.mem_append, List.mem_cons, List.mem_singleton, List.not_mem_nil,
      or_false] at hx
    rcases hx with h | h | h
    · subst h; rfl
    · exact hP x h
    · split_ifs at h
      · simp at h; subst h; rfl
      · simp at h
  · exfalso
    apply hblk
    refine ⟨?_, by simpa using hnb⟩
    rw [check_block_event_of_disable_state _
      (otg_notify_state_start_udev_disable_state _ _ _ _ _)]
    exact hcb


theorem update_cable_status_enable_c_type (u : usb_notify) (e : Nat) (v en st : Int)
    (hen : en ≠ 0) : (update_cable_status u e v en st).c_type = e := by
  unfold update_cable_status
  dsimp only
  rw [if_pos hen]
  split_ifs <;> rfl

theorem update_cable_status_enable_blocked (u : usb_notify) (e : Nat) (v en st : Int)
    (hen : en ≠ 0) (hb : check_block_event u e = true) :
    (update_cable_status u e v en st).c_status =
      (if st ≠ 0 then NOTIFY_EVENT_BLOCKING else NOTIFY_EVENT_BLOCKED) := by
  have hb2 : check_block_event { u with c_type := e } e = true := hb
  unfold update_cable_status
  dsimp only
  rw [if_pos hen, if_pos (Or.inl hb2)]

theorem do_notify_blockstate_udev_disable_state (u : usb_notify) (e t : Nat) (en : Int) :
    (do_notify_blockstate u e t en).1.udev_disable_state = u.udev_disable_state := by
  unfold do_notify_blockstate
  split <;> dsimp only <;> (try split_ifs) <;>
    simp [send_usb_restrict_uevent, host_state_notify, usb_notify.emit]

theorem do_notify_blockstate_ret (u : usb_notify) (e t : Nat) (en : Int)
    (h : e ≠ NOTIFY_EVENT_DRIVE_VBUS) : (do_notify_blockstate u e t en).2 = 0 := by
  unfold do_notify_blockstate
  split <;> dsimp only <;> (try split_ifs) <;> first | rfl | exact absurd rfl h

/-! ### Frame lemmas -/

theorem update_cable_status_o_notify (u : usb_notify) (e : Nat) (v en st : Int) :
    (update_cable_status u e v en st).o_notify = u.o_notify := by
  unfold update_cable_status
  simp only [apply_ite usb_notify.o_notify, send_usb_restrict_uevent, emit_o_notify, ite_self]

theorem update_cable_status_restricted (u : usb_notify) (e : Nat) (v en st : Int) :
    (update_cable_status u e v en st).restricted = u.restricted := by
  unfold update_cable_status
  simp only [apply_ite usb_notify.restricted, send_usb_restrict_uevent, emit_restricted, ite_self]

theorem update_cable_status_c_status_congr (u w : usb_notify) (e : Nat) (v en st : Int)
    (h1 : w.udev_disable_state = u.udev_disable_state)
    (h2 : w.o_notify = u.o_notify) (h3 : w.restricted = u.restricted) :
    (update_cable_status w e v en st).c_status = (update_cable_status u e v en st).c_status := by
  unfold update_cable_status
  simp only [apply_ite usb_notify.c_status, send_usb_restrict_uevent, emit_c_status,
    check_block_event, h1, h2, h3]

theorem update_cable_status_commit_settle (u : usb_notify) (e : Nat) (v en : Int) :
    (update_cable_status u e v en 0).c_status = settle (update_cable_status u e v en 1).c_status
    ∧ starting (update_cable_status u e v en 1).c_status
    ∧ settled (update_cable_status u e v en 0).c_status := by
  unfold update_cable_status
  simp only [apply_ite usb_notify.c_status, send_usb_restrict_uevent, emit_c_status]
  split_ifs <;> simp_all [settle, starting, settled]

theorem do_notify_blockstate_c_status (u : usb_notify) (e t : Nat) (en : Int) :
    (do_notify_blockstate u e t en).1.c_status = u.c_status := by
  unfold do_notify_blockstate
  split <;>
  simp only [apply_ite Prod.fst, apply_ite usb_notify.c_status, emit_c_status,
    send_usb_restrict_uevent, host_state_notify, ite_self]

theorem do_notify_blockstate_c_type (u : usb_notify) (e t : Nat) (en : Int) :
    (do_notify_blockstate u e t en).1.c_type = u.c_type := by
  unfold do_notify_blockstate
  split <;>
  simp only [apply_ite Prod.fst, apply_ite usb_notify.c_type, emit_c_type,
    send_usb_restrict_uevent, host_state_notify, ite_self]

theorem do_notify_blockstate_o_notify (u : usb_notify) (e t : Nat) (en : Int) :
    (do_notify_blockstate u e t en).1.o_notify = u.o_notify := by
  unfold do_notify_blockstate
  split <;>
  simp only [apply_ite Prod.fst, apply_ite usb_notify.o_notify, emit_o_notify,
    send_usb_restrict_uevent, host_state_notify, ite_self]

theorem do_notify_blockstate_restricted (u : usb_notify) (e t : Nat) (en : Int) :
    (do_notify_blockstate u e t en).1.restricted = u.restricted := by
  unfold do_notify_blockstate
  split <;>
  simp only [apply_ite Prod.fst, apply_ite usb_notify.restricted, emit_restricted,
    send_usb_restrict_uevent, host_state_notify, ite_self]

theorem otg_notify_state_start_o_notify (u : usb_notify) (e t : Nat) (v en : Int) :
    (otg_notify_state_start u e t v en).o_notify = u.o_notify := by
  unfold otg_notify_state_start
  simp only [apply_ite usb_notify.o_notify, emit_o_notify, update_cable_status_o_notify,
    ite_self]

theorem otg_notify_state_start_restricted (u : usb_notify) (e t : Nat) (v en : Int) :
    (otg_notify_state_start u e t v en).restricted = u.restricted := by
  unfold otg_notify_state_start
  simp only [apply_ite usb_notify.restricted, emit_restricted, update_cable_status_restricted,
    ite_self]

theorem otg_notify_state_start_nosave (u : usb_notify) (e t : Nat) (v en : Int)
    (h : t &&& NOTIFY_EVENT_NOSAVE ≠ 0) :
    (otg_notify_state_start u e t v en).c_status = u.c_status
    ∧ (otg_notify_state_start u e t v en).c_type = u.c_type := by
  unfold otg_notify_state_start
  rw [if_neg (not_not_intro h)]
  exact ⟨rfl, rfl⟩

theorem otg_notify_state_switch_c_status (u : usb_notify) (e : Nat) (en v : Int) (p : Nat) :
    (otg_notify_state_switch u e en v p).1.c_status = u.c_status := by
  unfold otg_notify_state_switch
  split <;>
  simp only [apply_ite Prod.fst, apply_ite usb_notify.c_status, emit_c_status,
    send_usb_restrict_uevent, host_state_notify, send_external_notify, ite_self]

theorem otg_notify_state_switch_c_type (u : usb_notify) (e : Nat) (en v : Int) (p : Nat) :
    (otg_notify_state_switch u e en v p).1.c_type = u.c_type := by
  unfold otg_notify_state_switch
  split <;>
  simp only [apply_ite Prod.fst, apply_ite usb_notify.c_type, emit_c_type,
    send_usb_restrict_uevent, host_state_notify, send_external_notify, ite_self]

theorem otg_notify_state_switch_restricted (u : usb_notify) (e : Nat) (en v : Int) (p : Nat) :
    (otg_notify_state_switch u e en v p).1.restricted = u.restricted := by
  unfold otg_notify_state_switch
  split <;>
  simp only [apply_ite Prod.fst, apply_ite usb_notify.restricted, emit_restricted,
    send_usb_restrict_uevent, host_state_notify, send_external_notify, ite_self]

theorem otg_notify_state_switch_o_notify (u : usb_notify) (e : Nat) (en v : Int) (p : Nat) :
    (otg_notify_state_switch u e en v p).1.o_notify = u.o_notify := by
  unfold otg_notify_state_switch
  split <;>
  simp only [apply_ite Prod.fst, apply_ite usb_notify.o_notify, emit_o_notify,
    send_usb_restrict_uevent, host_state_notify, send_external_notify, ite_self]

theorem otg_notify_state_switch_udev_disable_state (u : usb_notify) (e : Nat) (en v : Int)
    (p : Nat) (h : check_event_type e &&& NOTIFY_EVENT_NOSAVE = 0) :
    (otg_notify_state_switch u e en v p).1.udev_disable_state = u.udev_disable_state := by
  unfold otg_notify_state_switch
  split <;> first
    | (exfalso; revert h; decide)
    | simp only [apply_ite Prod.fst, apply_ite usb_notify.udev_disable_state,
        emit_udev_disable_state, send_usb_restrict_uevent, host_state_notify,
        send_external_notify, ite_self]

theorem otg_notify_state_switch_exit (u : usb_notify) (e : Nat) (en v : Int)
    (p : Nat) (h : check_event_type e &&& NOTIFY_EVENT_NOSAVE = 0) :
    (otg_notify_state_switch u e en v p).2 ≠ switch_exit.no_save_event := by
  unfold otg_notify_state_switch
  split
  all_goals first
    | (exfalso; revert h; decide)
    | (simp only [apply_ite Prod.snd, ite_self]; (try split_ifs) <;> decide)

theorem otg_notify_state_after_switch_udev_disable_state (u : usb_notify) (e t : Nat)
    (en : Int) (p : Nat) :
    (otg_notify_state_after_switch u e t en p).udev_disable_state = u.udev_disable_state := by
  unfold otg_notify_state_after_switch
  simp only [apply_ite usb_notify.udev_disable_state, emit_udev_disable_state,
    send_external_notify, ite_self]

theorem otg_notify_state_after_switch_o_notify (u : usb_notify) (e t : Nat)
    (en : Int) (p : Nat) :
    (otg_notify_state_after_switch u e t en p).o_notify = u.o_notify := by
  unfold otg_notify_state_after_switch
  simp only [apply_ite usb_notify.o_notify, emit_o_notify, send_external_notify, ite_self]

theorem otg_notify_state_after_switch_restricted (u : usb_notify) (e t : Nat)
    (en : Int) (p : Nat) :
    (otg_notify_state_after_switch u e t en p).restricted = u.restricted := by
  unfold otg_notify_state_after_switch
  simp only [apply_ite usb_notify.restricted, emit_restricted, send_external_notify, ite_self]


theorem otg_notify_state_switch_udev_disable_state_of_exit (u : usb_notify) (e : Nat)
    (en v : Int) (p : Nat)
    (h : (otg_notify_state_switch u e en v p).2 ≠ switch_exit.no_save_event) :
    (otg_notify_state_switch u e en v p).1.udev_disable_state = u.udev_disable_state := by
  revert h
  unfold otg_notify_state_switch
  split
  all_goals first
    | (intro _
       simp only [apply_ite Prod.fst, apply_ite usb_notify.udev_disable_state,
         emit_udev_disable_state, send_usb_restrict_uevent, host_state_notify,
         send_external_notify, ite_self]
       done)
    | (intro h; exfalso; revert h
       simp only [apply_ite Prod.snd, ite_self, ne_eq, not_true_eq_false, imp_self])

theorem do_notify_blockstate_ret_nosave (u : usb_notify) (e t : Nat) (en : Int)
    (h : (do_notify_blockstate u e t en).2 ≠ 0) :
    check_event_type e &&& NOTIFY_EVENT_NOSAVE ≠ 0 := by
  by_cases he : e = NOTIFY_EVENT_DRIVE_VBUS
  · subst he; decide
  · exact absurd (do_notify_blockstate_ret u e t en he) h

/-- The status with which `otg_notify_state` returns: the one it found (only
when the request is dropped by the virtual replay guard or the event is NoSave)
or the one the commit phase computes. -/
theorem otg_notify_state_c_status_cases (u : usb_notify) (ev : Nat) (enable : Int) :
    ((otg_notify_state u ev enable).c_status = u.c_status
        ∧ (virtual_replay_mismatch u ev enable
            ∨ check_event_type (PHY_EVENT ev) &&& NOTIFY_EVENT_NOSAVE ≠ 0))
    ∨ (otg_notify_state u ev enable).c_status =
        (update_cable_status u (PHY_EVENT ev) (IS_VIRTUAL ev) enable 0).c_status := by
  unfold otg_notify_state
  dsimp only
  split_ifs with hg hblk hr
  · exact Or.inl ⟨rfl, Or.inl hg⟩
  · have hns := do_notify_blockstate_ret_nosave _ _ _ _ hr
    left
    rw [do_notify_blockstate_c_status, (otg_notify_state_start_nosave _ _ _ _ _ hns).1]
    exact ⟨rfl, Or.inr hns⟩
  · right
    apply update_cable_status_c_status_congr
    · rw [do_notify_blockstate_udev_disable_state, otg_notify_state_start_udev_disable_state]
    · rw [do_notify_blockstate_o_notify, otg_notify_state_start_o_notify]
    · rw [do_notify_blockstate_restricted, otg_notify_state_start_restricted]
  · cases hx : (otg_notify_state_switch
        (otg_notify_state_start u (PHY_EVENT ev) (check_event_type (PHY_EVENT ev))
          (IS_VIRTUAL ev) enable) (PHY_EVENT ev) enable (IS_VIRTUAL ev) u.c_type).2 with
    | no_save_event =>
        dsimp only
        have hns : check_event_type (PHY_EVENT ev) &&& NOTIFY_EVENT_NOSAVE ≠ 0 := by
          intro h0
          exact otg_notify_state_switch_exit _ _ _ _ _ h0 hx
        left
        rw [otg_notify_state_switch_c_status, (otg_notify_state_start_nosave _ _ _ _ _ hns).1]
        exact ⟨rfl, Or.inr hns⟩
    | err =>
        dsimp only
        right
        apply update_cable_status_c_status_congr
        · rw [otg_notify_state_switch_udev_disable_state_of_exit _ _ _ _ _ (by rw [hx]; decide),
            otg_notify_state_start_udev_disable_state]
        · rw [otg_notify_state_switch_o_notify, otg_notify_state_start_o_notify]
        · rw [otg_notify_state_switch_restricted, otg_notify_state_start_restricted]
    | brk =>
        dsimp only
        right
        apply update_cable_status_c_status_congr
        · rw [otg_notify_state_after_switch_udev_disable_state,
            otg_notify_state_switch_udev_disable_state_of_exit _ _ _ _ _ (by rw [hx]; decide),
            otg_notify_state_start_udev_disable_state]
        · rw [otg_notify_state_after_switch_o_notify, otg_notify_state_switch_o_notify,
            otg_notify_state_start_o_notify]
        · rw [otg_notify_state_after_switch_restricted, otg_notify_state_switch_restricted,
            otg_notify_state_start_restricted]

/-! ### Frame of a whole request -/

theorem otg_notify_state_o_notify (u : usb_notify) (ev : Nat) (enable : Int) :
    (otg_notify_state u ev enable).o_notify = u.o_notify := by
  unfold otg_notify_state
  dsimp only
  split_ifs with hg hblk hr
  · rfl
  · rw [do_notify_blockstate_o_notify, otg_notify_state_start_o_notify]
  · rw [update_cable_status_o_notify, do_notify_blockstate_o_notify,
      otg_notify_state_start_o_notify]
  · cases hx : (otg_notify_state_switch
        (otg_notify_state_start u (PHY_EVENT ev) (check_event_type (PHY_EVENT ev))
          (IS_VIRTUAL ev) enable) (PHY_EVENT ev) enable (IS_VIRTUAL ev) u.c_type).2 with
    | no_save_event =>
        dsimp only
        rw [otg_notify_state_switch_o_notify, otg_notify_state_start_o_notify]
    | err =>
        dsimp only
        rw [update_cable_status_o_notify, otg_notify_state_switch_o_notify,
          otg_notify_state_start_o_notify]
    | brk =>
        dsimp only
        rw [update_cable_status_o_notify, otg_notify_state_after_switch_o_notify,
          otg_notify_state_switch_o_notify, otg_notify_state_start_o_notify]

theorem otg_notify_state_restricted (u : usb_notify) (ev : Nat) (enable : Int) :
    (otg_notify_state u ev enable).restricted = u.restricted := by
  unfold otg_notify_state
  dsimp only
  split_ifs with hg hblk hr
  · rfl
  · rw [do_notify_blockstate_restricted, otg_notify_state_start_restricted]
  · rw [update_cable_status_restricted, do_notify_blockstate_restricted,
      otg_notify_state_start_restricted]
  · cases hx : (otg_notify_state_switch
        (otg_notify_state_start u (PHY_EVENT ev) (check_event_type (PHY_EVENT ev))
          (IS_VIRTUAL ev) enable) (PHY_EVENT ev) enable (IS_VIRTUAL ev) u.c_type).2 with
    | no_save_event =>
        dsimp only
        rw [otg_notify_state_switch_restricted, otg_notify_state_start_restricted]
    | err =>
        dsimp only
        rw [update_cable_status_restricted, otg_notify_state_switch_restricted,
          otg_notify_state_start_restricted]
    | brk =>
        dsimp only
        rw [update_cable_status_restricted, otg_notify_state_after_switch_restricted,
          otg_notify_state_switch_restricted, otg_notify_state_start_restricted]

theorem otg_notify_state_udev_disable_state (u : usb_notify) (ev : Nat) (enable : Int)
    (h : check_event_type (PHY_EVENT ev) &&& NOTIFY_EVENT_NOSAVE = 0) :
    (otg_notify_state u ev enable).udev_disable_state = u.udev_disable_state := by
  unfold otg_notify_state
  dsimp only
  split_ifs with hg hblk hr
  · rfl
  · rw [do_notify_blockstate_udev_disable_state, otg_notify_state_start_udev_disable_state]
  · rw [update_cable_status_udev_disable_state, do_notify_blockstate_udev_disable_state,
      otg_notify_state_start_udev_disable_state]
  · cases hx : (otg_notify_state_switch
        (otg_notify_state_start u (PHY_EVENT ev) (check_event_type (PHY_EVENT ev))
          (IS_VIRTUAL ev) enable) (PHY_EVENT ev) enable (IS_VIRTUAL ev) u.c_type).2 with
    | no_save_event =>
        exact absurd hx (otg_notify_state_switch_exit _ _ _ _ _ h)
    | err =>
        dsimp only
        rw [update_cable_status_udev_disable_state,
          otg_notify_state_switch_udev_disable_state _ _ _ _ _ h,
          otg_notify_state_start_udev_disable_state]
    | brk =>
        dsimp only
        rw [update_cable_status_udev_disable_state,
          otg_notify_state_after_switch_udev_disable_state,
          otg_notify_state_switch_udev_disable_state _ _ _ _ _ h,
          otg_notify_state_start_udev_disable_state]

/-- A non virtual request, not blocked by the disable bits, whose arm leaves
the `switch` by `break`: the request is start phase, arm, bookkeeping, commit. -/
theorem otg_notify_state_of_brk (u : usb_notify) (e : Nat) (enable : Int)
    (he : e < NOTIFY_EVENT_VIRTUAL)
    (hnb : check_block_event u e = false)
    (hx : (otg_notify_state_switch
            (otg_notify_state_start u e (check_event_type e) 0 enable) e enable 0 u.c_type).2
          = switch_exit.brk) :
    otg_notify_state u e enable =
      update_cable_status
        (otg_notify_state_after_switch
          (otg_notify_state_switch
            (otg_notify_state_start u e (check_event_type e) 0 enable) e enable 0 u.c_type).1
          e (check_event_type e) enable u.c_type)
        e 0 enable 0 := by
  have hphy : PHY_EVENT e = e := Nat.mod_eq_of_lt he
  have hvirt : IS_VIRTUAL e = 0 := by
    unfold IS_VIRTUAL
    rw [if_neg (by omega)]
  unfold otg_notify_state
  dsimp only
  rw [hphy, hvirt, if_neg (by simp), if_neg, hx]
  rw [check_block_event_of_disable_state _ (otg_notify_state_start_udev_disable_state _ _ _ _ _),
    hnb]
  simp

/-- The same with the arm leaving by `goto err`: start phase, arm, commit. -/
theorem otg_notify_state_of_err (u : usb_notify) (e : Nat) (enable : Int)
    (he : e < NOTIFY_EVENT_VIRTUAL)
    (hnb : check_block_event u e = false)
    (hx : (otg_notify_state_switch
            (otg_notify_state_start u e (check_event_type e) 0 enable) e enable 0 u.c_type).2
          = switch_exit.err) :
    otg_notify_state u e enable =
      update_cable_status
        (otg_notify_state_switch
          (otg_notify_state_start u e (check_event_type e) 0 enable) e enable 0 u.c_type).1
        e 0 enable 0 := by
  have hphy : PHY_EVENT e = e := Nat.mod_eq_of_lt he
  have hvirt : IS_VIRTUAL e = 0 := by
    unfold IS_VIRTUAL
    rw [if_neg (by omega)]
  unfold otg_notify_state
  dsimp only
  rw [hphy, hvirt, if_neg (by simp), if_neg, hx]
  rw [check_block_event_of_disable_state _ (otg_notify_state_start_udev_disable_state _ _ _ _ _),
    hnb]
  simp


theorem check_block_event_host_class (u : usb_notify) (e : Nat)
    (he : e = NOTIFY_EVENT_HOST ∨ e = NOTIFY_EVENT_HMT ∨ e = NOTIFY_EVENT_GAMEPAD)
    (hbit : test_bit NOTIFY_BLOCK_TYPE_HOST u.udev_disable_state = false) :
    check_block_event u e = false := by
  rcases he with h | h | h <;> subst h <;>
    simp [check_block_event, hbit] <;> intro _ <;> decide

theorem update_cable_status_disable (u : usb_notify) (e : Nat) :
    (update_cable_status u e 0 0 0).c_type = NOTIFY_EVENT_NONE
    ∧ (update_cable_status u e 0 0 0).c_status = NOTIFY_EVENT_DISABLED := by
  unfold update_cable_status
  simp [send_usb_restrict_uevent, usb_notify.emit]

/-- A non virtual disable of Host on a model with host support, not blocked. -/
theorem otg_notify_state_host_disable (w : usb_notify)
    (hsup : w.o_notify.unsupport_host = 0)
    (hbit : test_bit NOTIFY_BLOCK_TYPE_HOST w.udev_disable_state = false) :
    (otg_notify_state w NOTIFY_EVENT_HOST 0).c_type = NOTIFY_EVENT_NONE
    ∧ (otg_notify_state w NOTIFY_EVENT_HOST 0).c_status = NOTIFY_EVENT_DISABLED
    ∧ (otg_notify_state w NOTIFY_EVENT_HOST 0).ndev_mode = NOTIFY_NONE_MODE
    ∧ (otg_notify_state w NOTIFY_EVENT_HOST 0).allowlist_restricted = 0
    ∧ (otg_notify_state w NOTIFY_EVENT_HOST 0).cond_hshub = 0
    ∧ (otg_notify_state w NOTIFY_EVENT_HOST 0).cond_sshub = 0 := by
  have hsup2 : (otg_notify_state_start w NOTIFY_EVENT_HOST
      (check_event_type NOTIFY_EVENT_HOST) 0 0).o_notify.unsupport_host = 0 := by
    rw [otg_notify_state_start_o_notify]; exact hsup
  have hx : (otg_notify_state_switch
      (otg_notify_state_start w NOTIFY_EVENT_HOST (check_event_type NOTIFY_EVENT_HOST) 0 0)
      NOTIFY_EVENT_HOST 0 0 w.c_type).2 = switch_exit.brk := by
    simp only [otg_notify_state_switch, hsup2, apply_ite Prod.snd, ne_eq, not_true_eq_false,
      if_false, ite_self]
  rw [otg_notify_state_of_brk w NOTIFY_EVENT_HOST 0 (by decide)
    (check_block_event_host_class w _ (Or.inl rfl) hbit) hx]
  refine ⟨(update_cable_status_disable _ _).1, (update_cable_status_disable _ _).2, ?_, ?_, ?_, ?_⟩
  · simp only [update_cable_status, otg_notify_state_after_switch, otg_notify_state_switch,
      hsup2, send_usb_restrict_uevent, send_external_notify, host_state_notify,
      usb_notify.emit, apply_ite usb_notify.ndev_mode, apply_ite Prod.fst,
      ne_eq, not_true_eq_false, if_false, ite_self]
  · simp only [update_cable_status, otg_notify_state_after_switch,
      send_usb_restrict_uevent, send_external_notify, usb_notify.emit,
      apply_ite usb_notify.allowlist_restricted, ne_eq, not_true_eq_false, not_false_eq_true,
      if_false, if_true, ite_self]
    rw [if_pos (by decide)]
  · simp only [update_cable_status, otg_notify_state_after_switch,
      send_usb_restrict_uevent, send_external_notify, usb_notify.emit,
      apply_ite usb_notify.cond_hshub, ne_eq, not_true_eq_false, not_false_eq_true,
      if_false, if_true, ite_self]
    rw [if_pos (by decide)]
  · simp only [update_cable_status, otg_notify_state_after_switch,
      send_usb_restrict_uevent, send_external_notify, usb_notify.emit,
      apply_ite usb_notify.cond_sshub, ne_eq, not_true_eq_false, not_false_eq_true,
      if_false, if_true, ite_self]
    rw [if_pos (by decide)]

theorem emit_typec_status_power_role (u : usb_notify) (x : Effect) :
    (u.emit x).typec_status_power_role = u.typec_status_power_role := rfl

theorem emit_reserve_vbus_booster (u : usb_notify) (x : Effect) :
    (u.emit x).reserve_vbus_booster = u.reserve_vbus_booster := rfl

theorem ite_append_right {c : Prop} [Decidable c] (t l : List Effect) :
    (if c then t ++ l else t) = t ++ (if c then l else []) := by
  split_ifs <;> simp

set_option maxHeartbeats 4000000 in
/-- The effects of the host arm on an allowed enable. -/
theorem otg_notify_state_switch_host_enable_trace (w : usb_notify) (e : Nat) (en : Int)
    (p : Nat)
    (he : e = NOTIFY_EVENT_HOST ∨ e = NOTIFY_EVENT_HMT ∨ e = NOTIFY_EVENT_GAMEPAD)
    (hen : en ≠ 0) (hsup : w.o_notify.unsupport_host = 0) (hres : w.restricted = 0)
    (hp : check_same_event_type p e = false) :
    (otg_notify_state_switch w e en 0 p).2 = switch_exit.brk
    ∧ ∃ l, (otg_notify_state_switch w e en 0 p).1.trace = w.trace ++ l
        ∧ l.count (Effect.set_host true) = (if w.o_notify.set_host = true then 1 else 0) := by
  constructor
  · rcases he with h | h | h <;> subst h <;>
    simp only [otg_notify_state_switch, hsup, hres, hen, hp, apply_ite Prod.snd, ne_eq,
      not_true_eq_false, not_false_eq_true, if_false, if_true, ite_self, false_and,
      Bool.false_eq_true]
  · rcases he with h | h | h <;> subst h <;>
    cases ha : w.o_notify.auto_drive_vbus <;>
      simp only [otg_notify_state_switch, hsup, hres, hen, hp, ha, reduceCtorEq,
        apply_ite Prod.fst, apply_ite usb_notify.trace, host_state_notify, emit_trace,
        ne_eq, not_true_eq_false, not_false_eq_true, if_false, if_true, ite_self, false_and,
        Bool.false_eq_true, ite_append_right, List.append_assoc, is_blocked,
        apply_ite usb_notify.typec_status_power_role, apply_ite usb_notify.reserve_vbus_booster,
        apply_ite usb_notify.udev_disable_state, emit_udev_disable_state,
        emit_typec_status_power_role, emit_reserve_vbus_booster] <;>
      split_ifs <;> simp [List.count_cons]


/-- The host arm on an enable that the same class guard stops: no effect. -/
theorem otg_notify_state_switch_host_same_type (w : usb_notify) (e : Nat) (en : Int)
    (p : Nat)
    (he : e = NOTIFY_EVENT_HOST ∨ e = NOTIFY_EVENT_HMT ∨ e = NOTIFY_EVENT_GAMEPAD)
    (hen : en ≠ 0) (hsup : w.o_notify.unsupport_host = 0)
    (hp : check_same_event_type p e = true) :
    (otg_notify_state_switch w e en 0 p).2 = switch_exit.err
    ∧ (otg_notify_state_switch w e en 0 p).1.trace = w.trace := by
  rcases he with h | h | h <;> subst h <;>
    simp only [otg_notify_state_switch, hsup, hen, hp, ne_eq, not_true_eq_false,
      not_false_eq_true, if_false, if_true, and_self, and_true]

theorem otg_notify_state_after_switch_host_enable_trace (w : usb_notify) (t : Nat) (en : Int)
    (p : Nat) (hen : en ≠ 0) :
    (otg_notify_state_after_switch w NOTIFY_EVENT_HOST t en p).trace = w.trace := by
  have h1 : ¬ ((t &&& NOTIFY_EVENT_NEED_VBUSDRIVE ≠ 0 ∧ NOTIFY_EVENT_HOST ≠ NOTIFY_EVENT_HOST)
      ∨ NOTIFY_EVENT_HOST = NOTIFY_EVENT_POGO) := by
    rintro (h | h)
    · exact h.2 rfl
    · revert h; decide
  unfold otg_notify_state_after_switch
  dsimp only
  rw [if_neg h1]
  simp only [hen, ne_eq, not_false_eq_true, not_true_eq_false, if_false, ite_self]

theorem update_cable_status_enable_allowed (u : usb_notify) (e : Nat) (v en st : Int)
    (hen : en ≠ 0) (hb : check_block_event u e = false)
    (hsup : u.o_notify.unsupport_host = 0) (hres : u.restricted = 0) :
    (update_cable_status u e v en st).c_status =
      (if st ≠ 0 then NOTIFY_EVENT_ENABLING else NOTIFY_EVENT_ENABLED) := by
  have hb2 : check_block_event { u with c_type := e } e = false := hb
  unfold update_cable_status
  dsimp only
  rw [if_pos hen, if_neg]
  rw [hb2]
  simp [hsup, hres]

/-- A deferred request as a record update. -/
theorem send_otg_notify_deferred (u : usb_notify) (e : Nat) (enable : Int)
    (hgate : u.o_notify.booting_delay_sec ≠ 0) (hds : delay_and_state e) :
    send_otg_notify u e enable =
      { u with b_delay_reserve_state := if enable ≠ 0 then e else NOTIFY_EVENT_NONE,
               trace := u.trace ++ deferred_effects u e enable } := by
  unfold send_otg_notify send_otg_notify_chain deferred_effects
  dsimp only
  rw [if_pos ⟨hds, hgate⟩]
  split_ifs <;> simp_all [send_usb_restrict_uevent, usb_notify.emit]


/-- The run of `reserve_state_check` that opens the gate, as a record update. -/
theorem reserve_state_check_open (u : usb_notify)
    (hsync : u.o_notify.booting_delay_sync_usb = 0) :
    reserve_state_check u =
      { u with
        o_notify := { u.o_notify with booting_delay_sec := 0 }
        b_delay_reserve_state := NOTIFY_EVENT_NONE
        notifier_wq := u.notifier_wq ++ replay_work u u.b_delay_reserve_state
        trace := u.trace ++ replay_calls u.b_delay_reserve_state ++
          (if u.skip_possible_usb = 0 then
            [Effect.send_external_notify EXTERNAL_NOTIFY_POSSIBLE_USB 1] else []) } := by
  unfold reserve_state_check atomic_notifier_call_chain otg_notifier_callback replay_calls
    replay_work
  dsimp only
  rw [if_neg (by simp [hsync])]
  split_ifs <;> simp_all [send_external_notify, usb_notify.emit]

theorem emit_notifier_wq (u : usb_notify) (x : Effect) :
    (u.emit x).notifier_wq = u.notifier_wq := rfl

theorem emit_b_delay_reserve_state (u : usb_notify) (x : Effect) :
    (u.emit x).b_delay_reserve_state = u.b_delay_reserve_state := rfl

theorem emit_skip_possible_usb (u : usb_notify) (x : Effect) :
    (u.emit x).skip_possible_usb = u.skip_possible_usb := rfl

theorem emit_kmalloc_ok (u : usb_notify) (x : Effect) :
    (u.emit x).kmalloc_ok = u.kmalloc_ok := rfl

set_option maxHeartbeats 1000000 in
/-- A replayed enable of Vbus that the client disable bit does not block: the
peripheral is enabled through the hook once, and the request touches neither
the reservation slot nor the queue. -/
theorem otg_notify_state_vbus_enable (w : usb_notify)
    (hbit : test_bit NOTIFY_BLOCK_TYPE_CLIENT w.udev_disable_state = false) :
    (∃ l, (otg_notify_state w NOTIFY_EVENT_VBUS 1).trace = w.trace ++ l
      ∧ l.count (Effect.set_peripheral true) = (if w.o_notify.set_peripheral = true then 1 else 0)
      ∧ ∀ x ∈ l, is_chain_call x = false)
    ∧ (otg_notify_state w NOTIFY_EVENT_VBUS 1).b_delay_reserve_state = w.b_delay_reserve_state
    ∧ (otg_notify_state w NOTIFY_EVENT_VBUS 1).notifier_wq = w.notifier_wq
    ∧ (otg_notify_state w NOTIFY_EVENT_VBUS 1).skip_possible_usb = w.skip_possible_usb
    ∧ (otg_notify_state w NOTIFY_EVENT_VBUS 1).kmalloc_ok = w.kmalloc_ok := by
  have hnb : check_block_event w NOTIFY_EVENT_VBUS = false := by
    simp [check_block_event, hbit]
    intro _; decide
  have hx : (otg_notify_state_switch
      (otg_notify_state_start w NOTIFY_EVENT_VBUS (check_event_type NOTIFY_EVENT_VBUS) 0 1)
      NOTIFY_EVENT_VBUS 1 0 w.c_type).2 = switch_exit.brk := by
    simp only [otg_notify_state_switch, apply_ite Prod.snd, ite_self]
  have ht : check_event_type NOTIFY_EVENT_VBUS = 134 := by decide
  rw [otg_notify_state_of_brk w NOTIFY_EVENT_VBUS 1 (by decide) hnb hx, ht]
  have hA : ¬ ((134 &&& NOTIFY_EVENT_NEED_VBUSDRIVE ≠ 0 ∧ NOTIFY_EVENT_VBUS ≠ NOTIFY_EVENT_HOST)
      ∨ NOTIFY_EVENT_VBUS = NOTIFY_EVENT_POGO) := by decide
  have hB : ¬ (134 &&& NOTIFY_EVENT_NEED_HOST ≠ 0) := by decide
  have hC : ¬ (134 &&& NOTIFY_EVENT_NOSAVE ≠ 0) := by decide
  refine ⟨?_, ?_, ?_, ?_, ?_⟩
  · simp only [update_cable_status, otg_notify_state_after_switch, otg_notify_state_switch,
      otg_notify_state_start, hA, hB, hC, apply_ite usb_notify.trace, apply_ite Prod.fst,
      apply_ite usb_notify.o_notify, emit_o_notify,
      emit_trace, send_usb_restrict_uevent, ne_eq, one_ne_zero, not_false_eq_true,
      not_true_eq_false, if_true, if_false, ite_self, ite_append_right, List.append_assoc]
    split_ifs <;> simp [List.count_cons, is_chain_call]
  · simp only [update_cable_status, otg_notify_state_after_switch, otg_notify_state_switch,
      otg_notify_state_start, hA, hB, hC, apply_ite usb_notify.b_delay_reserve_state,
      apply_ite Prod.fst, emit_b_delay_reserve_state, send_usb_restrict_uevent, ne_eq,
      one_ne_zero, not_false_eq_true, not_true_eq_false, if_true, if_false, ite_self]
  · simp only [update_cable_status, otg_notify_state_after_switch, otg_notify_state_switch,
      otg_notify_state_start, hA, hB, hC, apply_ite usb_notify.notifier_wq,
      apply_ite Prod.fst, emit_notifier_wq, send_usb_restrict_uevent, ne_eq,
      one_ne_zero, not_false_eq_true, not_true_eq_false, if_true, if_false, ite_self]
  · simp only [update_cable_status, otg_notify_state_after_switch, otg_notify_state_switch,
      otg_notify_state_start, hA, hB, hC, apply_ite usb_notify.skip_possible_usb,
      apply_ite Prod.fst, emit_skip_possible_usb, send_usb_restrict_uevent, ne_eq,
      one_ne_zero, not_false_eq_true, not_true_eq_false, if_true, if_false, ite_self]
  · simp only [update_cable_status, otg_notify_state_after_switch, otg_notify_state_switch,
      otg_notify_state_start, hA, hB, hC, apply_ite usb_notify.kmalloc_ok,
      apply_ite Prod.fst, emit_kmalloc_ok, send_usb_restrict_uevent, ne_eq,
      one_ne_zero, not_false_eq_true, not_true_eq_false, if_true, if_false, ite_self]

theorem replay_calls_of_reserved (r : Nat) (h : slot_reserved r) :
    replay_calls r =
      (if r ≠ NOTIFY_EVENT_NONE then [Effect.atomic_notifier_call_chain r 1] else []) := by
  unfold replay_calls
  by_cases hr : r = NOTIFY_EVENT_NONE
  · simp [hr]
  · rcases h with h | h
    · exact absurd h hr
    · simp [hr, h.2]

theorem filter_chain_deferred (u : usb_notify) (e : Nat) (en : Int) :
    (deferred_effects u e en).filter is_chain_call = [] := by
  unfold deferred_effects
  split_ifs <;> simp [is_chain_call]

theorem filter_chain_replay (r : Nat) :
    (replay_calls r).filter is_chain_call = replay_calls r := by
  unfold replay_calls
  split_ifs <;> simp [is_chain_call]

theorem filter_chain_possible (u : usb_notify) :
    (possible_usb_effects u).filter is_chain_call = [] := by
  unfold possible_usb_effects
  split_ifs <;> simp [is_chain_call]

theorem count_peripheral_deferred (u : usb_notify) (e : Nat) (en : Int) :
    (deferred_effects u e en).count (Effect.set_peripheral true) = 0 := by
  unfold deferred_effects
  split_ifs <;> simp [List.count_cons]

theorem count_peripheral_replay (r : Nat) :
    (replay_calls r).count (Effect.set_peripheral true) = 0 := by
  unfold replay_calls
  split_ifs <;> simp [List.count_cons]

theorem count_peripheral_possible (u : usb_notify) :
    (possible_usb_effects u).count (Effect.set_peripheral true) = 0 := by
  unfold possible_usb_effects
  split_ifs <;> simp [List.count_cons]

theorem reserve_state_check_trace (u : usb_notify)
    (hsync : u.o_notify.booting_delay_sync_usb = 0) :
    (reserve_state_check u).trace =
      u.trace ++ (replay_calls u.b_delay_reserve_state ++ possible_usb_effects u) := by
  rw [reserve_state_check_open u hsync, List.append_assoc]
  rfl

/-- The deferred enable of Vbus, the gate opening and the worker running: the
state, the trace and what is left in the slot and the queue. -/
theorem vbus_replay_run (u : usb_notify) (en : Int) (hen : en ≠ 0)
    (hsync : u.o_notify.booting_delay_sync_usb = 0)
    (hgate : u.o_notify.booting_delay_sec ≠ 0)
    (hk : u.kmalloc_ok = true) (hq : u.notifier_wq = [])
    (hbit : test_bit NOTIFY_BLOCK_TYPE_CLIENT u.udev_disable_state = false) :
    ∃ l, (flush_workqueue (reserve_state_check (send_otg_notify u NOTIFY_EVENT_VBUS en))).trace
          = u.trace ++ l
      ∧ l.count (Effect.set_peripheral true) = (if u.o_notify.set_peripheral = true then 1 else 0)
      ∧ (flush_workqueue (reserve_state_check
            (send_otg_notify u NOTIFY_EVENT_VBUS en))).b_delay_reserve_state = NOTIFY_EVENT_NONE
      ∧ (flush_workqueue (reserve_state_check
            (send_otg_notify u NOTIFY_EVENT_VBUS en))).notifier_wq = []
      ∧ (flush_workqueue (reserve_state_check
            (send_otg_notify u NOTIFY_EVENT_VBUS en))).o_notify.booting_delay_sync_usb = 0 := by
  have hds : delay_and_state NOTIFY_EVENT_VBUS := by decide
  have ha := send_otg_notify_deferred u NOTIFY_EVENT_VBUS en hgate hds
  rw [if_pos hen] at ha
  generalize send_otg_notify u NOTIFY_EVENT_VBUS en = a at ha ⊢
  have hsa : a.o_notify.booting_delay_sync_usb = 0 := by rw [ha]; exact hsync
  have hb := reserve_state_check_open a hsa
  have hslot : a.b_delay_reserve_state = NOTIFY_EVENT_VBUS := by rw [ha]
  have hwork : replay_work a a.b_delay_reserve_state
      = [{ event := NOTIFY_EVENT_VBUS, enable := 1 }] := by
    have hka : a.kmalloc_ok = true := by rw [ha]; exact hk
    rw [hslot]
    unfold replay_work
    rw [if_pos ⟨by decide, by decide, hka⟩]
  have hqa : a.notifier_wq = [] := by rw [ha]; exact hq
  have hbita : test_bit NOTIFY_BLOCK_TYPE_CLIENT a.udev_disable_state = false := by
    rw [ha]; exact hbit
  have hpa : a.o_notify.set_peripheral = u.o_notify.set_peripheral := by rw [ha]
  have hta : a.trace = u.trace ++ deferred_effects u NOTIFY_EVENT_VBUS en := by rw [ha]
  rw [hwork, hqa, List.nil_append, hslot] at hb
  generalize reserve_state_check a = b at hb ⊢
  have hbq : b.notifier_wq = [{ event := NOTIFY_EVENT_VBUS, enable := 1 }] := by rw [hb]
  have hfl : flush_workqueue b =
      otg_notify_state { b with notifier_wq := [] } NOTIFY_EVENT_VBUS 1 := by
    unfold flush_workqueue
    rw [hbq]
    rfl
  have hw1 : test_bit NOTIFY_BLOCK_TYPE_CLIENT
      ({ b with notifier_wq := [] } : usb_notify).udev_disable_state = false := by
    rw [hb]; exact hbita
  have hw2 : ({ b with notifier_wq := [] } : usb_notify).trace =
      u.trace ++ (deferred_effects u NOTIFY_EVENT_VBUS en ++
        (replay_calls NOTIFY_EVENT_VBUS ++ possible_usb_effects a)) := by
    rw [hb]
    show a.trace ++ replay_calls NOTIFY_EVENT_VBUS ++ possible_usb_effects a = _
    rw [hta, List.append_assoc, List.append_assoc]
  have hw3 : ({ b with notifier_wq := [] } : usb_notify).o_notify.set_peripheral =
      u.o_notify.set_peripheral := by
    rw [hb]; exact hpa
  have hw4 : ({ b with notifier_wq := [] } : usb_notify).b_delay_reserve_state =
      NOTIFY_EVENT_NONE := by rw [hb]
  have hw5 : ({ b with notifier_wq := [] } : usb_notify).o_notify.booting_delay_sync_usb = 0 := by
    rw [hb]; exact hsa
  have hw6 : ({ b with notifier_wq := [] } : usb_notify).notifier_wq = [] := rfl
  generalize ({ b with notifier_wq := [] } : usb_notify) = w at hfl hw1 hw2 hw3 hw4 hw5 hw6
  obtain ⟨⟨l, hl, hcount, _⟩, hslotw, hwq, _, _⟩ := otg_notify_state_vbus_enable w hw1
  rw [hfl]
  refine ⟨_, by rw [hl, hw2, List.append_assoc], ?_, ?_, ?_, ?_⟩
  · rw [List.count_append, List.count_append, List.count_append, count_peripheral_deferred,
      count_peripheral_replay, count_peripheral_possible, hcount, hw3]
    simp
  · rw [hslotw, hw4]
  · rw [hwq, hw6]
  · rw [otg_notify_state_o_notify]; exact hw5


/-- A gate run on a state with an empty slot and an empty queue, followed by
the worker: only the trailing external notification is added. -/
theorem idle_gate_run (c : usb_notify) (hsync : c.o_notify.booting_delay_sync_usb = 0)
    (hslot : c.b_delay_reserve_state = NOTIFY_EVENT_NONE) (hq : c.notifier_wq = []) :
    (flush_workqueue (reserve_state_check c)).trace = c.trace ++ possible_usb_effects c := by
  have hb := reserve_state_check_open c hsync
  have hwork : replay_work c c.b_delay_reserve_state = [] := by
    rw [hslot]; unfold replay_work; rw [if_neg (by simp)]
  have hcalls : replay_calls c.b_delay_reserve_state = [] := by
    rw [hslot]; unfold replay_calls; rw [if_neg (by simp)]
  rw [hwork, hcalls, hq, List.append_nil, List.append_nil] at hb
  unfold flush_workqueue
  rw [hb]
  rfl

/-! ### Virtual events -/

theorem PHY_EVENT_VIRT_EVENT (e : Nat) (he : e < NOTIFY_EVENT_VIRTUAL) :
    PHY_EVENT (VIRT_EVENT e) = e := by
  unfold PHY_EVENT VIRT_EVENT NOTIFY_EVENT_VIRTUAL at *
  omega

theorem PHY_EVENT_of_lt (e : Nat) (he : e < NOTIFY_EVENT_VIRTUAL) : PHY_EVENT e = e :=
  Nat.mod_eq_of_lt he

theorem IS_VIRTUAL_of_lt (e : Nat) (he : e < NOTIFY_EVENT_VIRTUAL) : IS_VIRTUAL e = 0 := by
  unfold IS_VIRTUAL
  rw [if_neg (by omega)]

theorem IS_VIRTUAL_VIRT_EVENT (e : Nat) : IS_VIRTUAL (VIRT_EVENT e) = 1 := by
  unfold IS_VIRTUAL VIRT_EVENT
  rw [if_pos (by omega)]

theorem need_host_lt_virtual (e : Nat)
    (h : check_event_type e &&& NOTIFY_EVENT_NEED_HOST ≠ 0) : e < NOTIFY_EVENT_VIRTUAL := by
  by_contra hge
  rw [check_event_type_of_ge_virtual e (by omega)] at h
  exact h (by decide)

theorem send_otg_notify_of_state (u : usb_notify) (ev : Nat) (enable : Int)
    (h : check_event_type ev = NOTIFY_EVENT_STATE) :
    send_otg_notify u ev enable = atomic_notifier_call_chain u ev enable := by
  unfold send_otg_notify send_otg_notify_chain
  simp only [h]
  have h1 : ¬ (NOTIFY_EVENT_STATE &&& NOTIFY_EVENT_DELAY ≠ 0) := by decide
  have h2 : ¬ (NOTIFY_EVENT_STATE &&& NOTIFY_EVENT_EXTRA ≠ 0) := by decide
  have h3 : NOTIFY_EVENT_STATE &&& NOTIFY_EVENT_STATE ≠ 0 := by decide
  rw [if_neg (fun hh => h1 hh.1.1), if_neg h2, if_pos h3]

theorem otg_notify_state_eq_body (u : usb_notify) (ev : Nat) (enable : Int) :
    otg_notify_state u ev enable =
      otg_notify_state_body u (PHY_EVENT ev) (check_event_type (PHY_EVENT ev))
        (IS_VIRTUAL ev) enable := rfl

theorem otg_notify_state_direct (u : usb_notify) (e : Nat) (enable : Int)
    (he : e < NOTIFY_EVENT_VIRTUAL) :
    otg_notify_state u e enable = otg_notify_state_body u e (check_event_type e) 0 enable := by
  rw [otg_notify_state_eq_body, PHY_EVENT_of_lt e he, IS_VIRTUAL_of_lt e he]

/-! ### Classification facts -/

theorem noblocking_cases (e : Nat)
    (h : check_event_type e &&& NOTIFY_EVENT_NOBLOCKING ≠ 0) :
    e = NOTIFY_EVENT_ALL_DISABLE ∨ e = NOTIFY_EVENT_HOST_DISABLE
    ∨ e = NOTIFY_EVENT_CLIENT_DISABLE ∨ e = NOTIFY_EVENT_MDM_ON_OFF
    ∨ e = NOTIFY_EVENT_MDM_ON_OFF_FOR_ID ∨ e = NOTIFY_EVENT_MDM_ON_OFF_FOR_SERIAL := by
  by_cases he : e < 41
  · interval_cases e <;> revert h <;> decide
  · rw [check_event_type_of_ge_virtual e (by unfold NOTIFY_EVENT_VIRTUAL; omega)] at h
    exact absurd rfl h

theorem need_host_cases (e : Nat)
    (h : check_event_type e &&& NOTIFY_EVENT_NEED_HOST ≠ 0) :
    e = NOTIFY_EVENT_HOST ∨ e = NOTIFY_EVENT_HMT ∨ e = NOTIFY_EVENT_GAMEPAD
    ∨ e = NOTIFY_EVENT_POGO ∨ e = NOTIFY_EVENT_HOST_RELOAD ∨ e = NOTIFY_EVENT_DRIVE_VBUS
    ∨ e = NOTIFY_EVENT_LANHUB_TA ∨ e = NOTIFY_EVENT_SMARTDOCK_TA
    ∨ e = NOTIFY_EVENT_AUDIODOCK ∨ e = NOTIFY_EVENT_LANHUB ∨ e = NOTIFY_EVENT_MMDOCK := by
  by_cases he : e < 41
  · interval_cases e <;> revert h <;> decide
  · rw [check_event_type_of_ge_virtual e (by unfold NOTIFY_EVENT_VIRTUAL; omega)] at h
    exact absurd rfl h

theorem disable_bits_block_not_noblocking (u : usb_notify) (e : Nat)
    (h : disable_bits_block u e) : check_event_type e &&& NOTIFY_EVENT_NOBLOCKING = 0 := by
  by_contra hne
  have hh : ¬ (check_event_type e &&& NOTIFY_EVENT_NEED_HOST ≠ 0)
      ∧ ¬ (check_event_type e &&& NOTIFY_EVENT_NEED_CLIENT ≠ 0) := by
    rcases noblocking_cases e hne with h | h | h | h | h | h <;> subst h <;> decide
  rcases h with h | h
  · exact hh.1 h.2
  · exact hh.2 h.2

/-! ### Bit operations -/

theorem test_bit_host_clear (w : Nat) :
    test_bit NOTIFY_BLOCK_TYPE_HOST
      (clear_bit NOTIFY_BLOCK_TYPE_CLIENT (clear_bit NOTIFY_BLOCK_TYPE_HOST w)) = false := by
  unfold test_bit clear_bit NOTIFY_BLOCK_TYPE_HOST NOTIFY_BLOCK_TYPE_CLIENT
  simp only [Nat.testBit_to_div_mod]
  split_ifs <;> simp_all <;> omega

theorem test_bit_client_clear (w : Nat) :
    test_bit NOTIFY_BLOCK_TYPE_CLIENT
      (clear_bit NOTIFY_BLOCK_TYPE_CLIENT (clear_bit NOTIFY_BLOCK_TYPE_HOST w)) = false := by
  unfold test_bit clear_bit NOTIFY_BLOCK_TYPE_HOST NOTIFY_BLOCK_TYPE_CLIENT
  simp only [Nat.testBit_to_div_mod]
  split_ifs <;> simp_all <;> omega

theorem otg_notify_state_switch_exit_noblocking (u : usb_notify) (e : Nat) (en v : Int)
    (p : Nat) (h : check_event_type e &&& NOTIFY_EVENT_NOBLOCKING ≠ 0) :
    (otg_notify_state_switch u e en v p).2 = switch_exit.no_save_event := by
  rcases noblocking_cases e h with h | h | h | h | h | h <;> subst h <;>
    unfold otg_notify_state_switch <;>
    simp only [apply_ite Prod.snd, ite_self]

/-! ### The blocked path -/

theorem same_bookkeeping_refl (u : usb_notify) : same_bookkeeping u u :=
  ⟨rfl, rfl, rfl, rfl, rfl⟩

theorem same_bookkeeping_trans {u v w : usb_notify} (h1 : same_bookkeeping u v)
    (h2 : same_bookkeeping v w) : same_bookkeeping u w := by
  unfold same_bookkeeping at *
  obtain ⟨a1, a2, a3, a4, a5⟩ := h1
  obtain ⟨b1, b2, b3, b4, b5⟩ := h2
  exact ⟨b1.trans a1, b2.trans a2, b3.trans a3, b4.trans a4, b5.trans a5⟩

theorem update_cable_status_same_bookkeeping (u : usb_notify) (e : Nat) (v en st : Int) :
    same_bookkeeping u (update_cable_status u e v en st) := by
  unfold update_cable_status same_bookkeeping
  dsimp only
  split_ifs <;> simp [send_usb_restrict_uevent, usb_notify.emit]

theorem otg_notify_state_start_same_bookkeeping (u : usb_notify) (e t : Nat) (v en : Int) :
    same_bookkeeping u (otg_notify_state_start u e t v en) := by
  unfold otg_notify_state_start
  dsimp only
  by_cases h : t &&& NOTIFY_EVENT_NOSAVE ≠ 0
  · rw [if_neg (not_not_intro h)]
    exact same_bookkeeping_refl u
  · rw [if_pos h]
    exact update_cable_status_same_bookkeeping u e v en 1

theorem do_notify_blockstate_same_bookkeeping (u : usb_notify) (e t : Nat) (en : Int) :
    same_bookkeeping u (do_notify_blockstate u e t en).1 := by
  unfold do_notify_blockstate same_bookkeeping
  split <;> dsimp only <;> (try split_ifs) <;>
    simp [send_usb_restrict_uevent, host_state_notify, usb_notify.emit]

theorem do_notify_blockstate_no_bookkeeping (u : usb_notify) (e t : Nat) (en : Int) :
    ∃ l, (do_notify_blockstate u e t en).1.trace = u.trace ++ l
      ∧ ∀ x ∈ l, is_bookkeeping_effect x = false := by
  unfold do_notify_blockstate
  split <;> dsimp only <;> (try split_ifs) <;>
    simp [send_usb_restrict_uevent, host_state_notify, usb_notify.emit, is_bookkeeping_effect]

/-- A request that the disable bits block runs the start phase, the block
handler and, when the handler returns 0, the commit; nothing else. -/
theorem otg_notify_state_body_blocked (u : usb_notify) (e : Nat) (v enable : Int)
    (hb : disable_bits_block u e)
    (hg : ¬ (v ≠ 0 ∧ enable ≠ 0 ∧ check_event_type e &&& NOTIFY_EVENT_NEED_HOST ≠ 0
              ∧ ¬ (check_event_type u.c_type &&& NOTIFY_EVENT_NEED_HOST ≠ 0))) :
    otg_notify_state_body u e (check_event_type e) v enable =
      if (do_notify_blockstate (otg_notify_state_start u e (check_event_type e) v enable)
            e (check_event_type e) enable).2 ≠ 0 then
        (do_notify_blockstate (otg_notify_state_start u e (check_event_type e) v enable)
            e (check_event_type e) enable).1
      else
        update_cable_status
          (do_notify_blockstate (otg_notify_state_start u e (check_event_type e) v enable)
            e (check_event_type e) enable).1 e v enable 0 := by
  have hcb : check_block_event u e = true := by
    simpa [check_block_event, disable_bits_block] using hb
  have hnb := disable_bits_block_not_noblocking u e hb
  unfold otg_notify_state_body
  dsimp only
  rw [if_neg hg, if_pos]
  refine ⟨?_, by simpa using hnb⟩
  rw [check_block_event_of_disable_state _
    (otg_notify_state_start_udev_disable_state _ _ _ _ _)]
  exact hcb

/-! ### Allow-list matchers -/

theorem usb_match_any_interface_for_id_loop_iff (udev : usb_device) (w : Nat → Int) :
    ∀ (fuel i : Nat), i % 2 = 0 → MAX_WHITELIST_STR_LEN < 2 * fuel + i →
      (usb_match_any_interface_for_id_loop udev w fuel i = true ↔
        ∃ k, k % 2 = 0 ∧ i ≤ k ∧ k < MAX_WHITELIST_STR_LEN
          ∧ (∀ j, j % 2 = 0 → i ≤ j → j ≤ k → w j ≠ 0)
          ∧ w k = (udev.idVendor : Int) ∧ w (k + 1) = (udev.idProduct : Int)) := by
  intro fuel
  induction fuel with
  | zero =>
      intro i _ hf
      unfold usb_match_any_interface_for_id_loop
      constructor
      · intro h; exact absurd h (by simp)
      · rintro ⟨k, _, hik, hk, _⟩
        omega
  | succ f ih =>
      intro i hi hf
      unfold usb_match_any_interface_for_id_loop
      by_cases hc : w i ≠ 0 ∧ i < MAX_WHITELIST_STR_LEN
      · rw [if_pos hc]
        by_cases hm : w i = (udev.idVendor : Int) ∧ w (i + 1) = (udev.idProduct : Int)
        · rw [if_pos hm]
          refine ⟨fun _ => ⟨i, hi, le_refl i, hc.2, ?_, hm.1, hm.2⟩, fun _ => rfl⟩
          intro j _ h1 h2
          have : j = i := by omega
          rw [this]; exact hc.1
        · rw [if_neg hm, ih (i + 2) (by omega) (by omega)]
          constructor
          · rintro ⟨k, hk2, hik, hk, hall, hv, hp⟩
            refine ⟨k, hk2, by omega, hk, ?_, hv, hp⟩
            intro j hj h1 h2
            by_cases hji : j = i
            · rw [hji]; exact hc.1
            · exact hall j hj (by omega) h2
          · rintro ⟨k, hk2, hik, hk, hall, hv, hp⟩
            have hki : k ≠ i := by
              intro h; subst h; exact hm ⟨hv, hp⟩
            refine ⟨k, hk2, by omega, hk, ?_, hv, hp⟩
            intro j hj h1 h2
            exact hall j hj (by omega) h2
      · rw [if_neg hc]
        constructor
        · intro h; exact absurd h (by simp)
        · rintro ⟨k, _, hik, hk, hall, _⟩
          exact absurd ⟨hall i hi (le_refl i) hik, by omega⟩ hc

theorem get_class_index_le (c : Nat) : get_class_index c ≤ U_CLASS_VENDOR_SPEC := by
  unfold get_class_index
  split <;> decide

theorem usb_match_any_interface_for_mdm_interfaces_eq (w : Nat → Int)
    (l : List usb_interface_cache) :
    usb_match_any_interface_for_mdm_interfaces w l =
      ((l.filterMap (fun cache => cache.altsetting.head?)).find?
        (fun intf => ! class_allowed w intf)).map (fun intf => intf.bInterfaceClass) := by
  induction l with
  | nil => rfl
  | cons cache rest ih =>
      unfold usb_match_any_interface_for_mdm_interfaces
      cases hc : cache.altsetting with
      | nil => simp [hc, ih]
      | cons intf tl =>
          by_cases ha : w (get_class_index intf.bInterfaceClass) ≠ 0
          · simp [hc, ih, class_allowed, ha]
          · have ha2 : w (get_class_index intf.bInterfaceClass) = 0 := not_not.1 ha
            simp [hc, class_allowed, ha2, List.find?_cons]

theorem usb_match_any_interface_for_mdm_configs_eq (w : Nat → Int)
    (l : List usb_host_config) :
    usb_match_any_interface_for_mdm_configs w l =
      (((l.map (fun cfg => cfg.intf_cache.filterMap
            (fun cache => cache.altsetting.head?))).flatten).find?
        (fun intf => ! class_allowed w intf)).map (fun intf => intf.bInterfaceClass) := by
  induction l with
  | nil => rfl
  | cons cfg rest ih =>
      unfold usb_match_any_interface_for_mdm_configs
      rw [usb_match_any_interface_for_mdm_interfaces_eq, ih]
      simp only [List.map_cons, List.flatten_cons, List.find?_append]
      cases (cfg.intf_cache.filterMap (fun cache => cache.altsetting.head?)).find?
        (fun intf => ! class_allowed w intf) <;> simp

theorem splitOn_of_not_mem (a : Nat) (s : List Nat) (h : a ∉ s) : s.splitOn a = [s] := by
  induction s with
  | nil => rfl
  | cons x xs ih =>
      have hx : ¬ (x = a) := fun hh => h (by simp [hh])
      have hxs : a ∉ xs := fun hh => h (by simp [hh])
      have ih2 := ih hxs
      unfold List.splitOn at *
      rw [List.splitOnP_cons, ih2]
      simp [hx]

theorem splitOn_of_mem (a : Nat) (s : List Nat) (h : a ∈ s) :
    s.splitOn a = s.takeWhile (fun c => decide (c ≠ a))
      :: ((s.dropWhile (fun c => decide (c ≠ a))).tail).splitOn a := by
  induction s with
  | nil => simp at h
  | cons x xs ih =>
      by_cases hx : x = a
      · subst hx
        unfold List.splitOn
        rw [List.splitOnP_cons]
        simp
      · have hxs : a ∈ xs := by
          rcases List.mem_cons.1 h with hh | hh
          · exact absurd hh.symm hx
          · exact hh
        have ih2 := ih hxs
        unfold List.splitOn at *
        rw [List.splitOnP_cons, ih2]
        simp [hx]

theorem length_tail_dropWhile_lt (a : Nat) (s : List Nat) (h : a ∈ s) :
    ((s.dropWhile (fun c => decide (c ≠ a))).tail).length < s.length := by
  induction s with
  | nil => simp at h
  | cons x xs ih =>
      by_cases hx : x = a
      · subst hx; simp
      · have hxs : a ∈ xs := by
          rcases List.mem_cons.1 h with hh | hh
          · exact absurd hh.symm hx
          · exact hh
        have := ih hxs
        simp [List.dropWhile_cons, hx] at this ⊢
        omega

theorem usb_match_any_interface_for_serial_loop_eq (serial : List Nat) :
    ∀ (fuel : Nat) (s : List Nat), s.length < fuel →
      usb_match_any_interface_for_serial_loop serial fuel (some s)
        = decide (serial ∈ serial_fields s) := by
  intro fuel
  induction fuel with
  | zero => intro s h; omega
  | succ f ih =>
      intro s hs
      unfold usb_match_any_interface_for_serial_loop strsep serial_fields
      by_cases hm : 58 ∈ s
      · rw [splitOn_of_mem 58 s hm]
        dsimp only
        rw [if_pos hm]
        dsimp only
        by_cases heq : s.takeWhile (fun c => decide (c ≠ 58)) = serial
        · rw [if_pos heq, ← heq]
          simp
        · have hlt := length_tail_dropWhile_lt 58 s hm
          have heq2 : ¬ (serial = s.takeWhile (fun c => decide (c ≠ 58))) :=
            fun hh => heq hh.symm
          rw [if_neg heq, ih _ (by omega)]
          unfold serial_fields
          rw [decide_eq_decide, List.mem_cons]
          simp only [heq2, false_or]
      · rw [splitOn_of_not_mem 58 s hm]
        dsimp only
        rw [if_neg hm]
        dsimp only
        by_cases heq : s = serial
        · rw [if_pos heq, ← heq]
          simp
        · have heq2 : ¬ (serial = s) := fun hh => heq hh.symm
          rw [if_neg heq]
          cases f with
          | zero => simp [usb_match_any_interface_for_serial_loop, heq2]
          | succ g => simp [usb_match_any_interface_for_serial_loop, strsep, heq2]

/-! ### Overcurrent scanner -/

theorem ovc_scan_thread_pass_spec (v : usb_notify) (s : Int) (hr : ovc_ready v)
    (ht : v.ovc_info_thread_remove = 0) :
    ovc_ready (ovc_scan_thread_pass v s)
    ∧ (ovc_scan_thread_pass v s).ovc_info_thread_remove = 0
    ∧ (ovc_scan_thread_pass v s).ovc_info_prev_state = s
    ∧ (ovc_scan_thread_pass v s).trace = v.trace ++ ovc_edge_effects v.ovc_info_prev_state s := by
  obtain ⟨h1, h2, h3⟩ := hr
  unfold ovc_scan_thread_pass ovc_ready ovc_edge_effects
  by_cases hp : v.ovc_info_prev_state ≠ s
  · have hp2 : s ≠ v.ovc_info_prev_state := fun h => hp h.symm
    by_cases hl : s = HNOTIFY_LOW
    · subst hl
      simp [hp, hp2, h1, h2, h3, ht, host_state_notify, usb_notify.emit]
    · by_cases hh : s = HNOTIFY_HIGH
      · subst hh
        simp [hp, hp2, hl, h1, h2, h3, ht, host_state_notify, usb_notify.emit]
      · simp [hp, hp2, hl, hh, h1, h2, h3, ht]
  · have hp2 : ¬ (s ≠ v.ovc_info_prev_state) := fun h => hp (fun h2 => h h2.symm)
    simp [hp, hp2, h1, h2, h3, ht]

theorem ovc_scan_thread_snoc (l : List Int) :
    ∀ (v : usb_notify) (s : Int), ovc_ready v → v.ovc_info_thread_remove = 0 →
      ovc_scan_thread v (l ++ [s]) = ovc_scan_thread_pass (ovc_scan_thread v l) s
      ∧ ovc_ready (ovc_scan_thread v l)
      ∧ (ovc_scan_thread v l).ovc_info_thread_remove = 0
      ∧ (ovc_scan_thread v l).ovc_info_prev_state = l.getLast?.getD v.ovc_info_prev_state := by
  induction l with
  | nil =>
      intro v s hr ht
      refine ⟨?_, hr, ht, rfl⟩
      simp [ovc_scan_thread, ht]
  | cons x xs ih =>
      intro v s hr ht
      obtain ⟨p1, p2, p3, _⟩ := ovc_scan_thread_pass_spec v x hr ht
      obtain ⟨q1, q2, q3, q4⟩ := ih (ovc_scan_thread_pass v x) s p1 p2
      have hcons : ∀ t, ovc_scan_thread v (x :: t)
          = ovc_scan_thread (ovc_scan_thread_pass v x) t := by
        intro t
        rw [ovc_scan_thread.eq_def]
        simp [ht]
      rw [List.cons_append, hcons, hcons]
      refine ⟨q1, q2, q3, ?_⟩
      rw [q4, p3]
      cases xs with
      | nil => rfl
      | cons y ys =>
          simp only [List.getLast?_cons_cons]
          cases h : (y :: ys).getLast? with
          | none => simp at h
          | some z => rfl

theorem ovc_start_spec (u : usb_notify) (hr : ovc_ready u) :
    ovc_ready (ovc_start u) ∧ (ovc_start u).ovc_info_thread_remove = 0
    ∧ (ovc_start u).ovc_info_prev_state = HNOTIFY_INITIAL := by
  obtain ⟨h1, h2, h3⟩ := hr
  unfold ovc_start ovc_ready
  dsimp only
  rw [if_neg (not_not_intro h1)]
  exact ⟨⟨h1, h2, h3⟩, rfl, rfl⟩

/-! ### Requests that the disable bits do not block -/

/-- A non virtual request whose arm leaves by `goto no_save_event`: start
phase and arm. -/
theorem otg_notify_state_of_no_save (u : usb_notify) (e : Nat) (enable : Int)
    (he : e < NOTIFY_EVENT_VIRTUAL)
    (hnb : check_block_event u e = false
            ∨ check_event_type e &&& NOTIFY_EVENT_NOBLOCKING ≠ 0)
    (hx : (otg_notify_state_switch
            (otg_notify_state_start u e (check_event_type e) 0 enable) e enable 0 u.c_type).2
          = switch_exit.no_save_event) :
    otg_notify_state u e enable =
      (otg_notify_state_switch
        (otg_notify_state_start u e (check_event_type e) 0 enable) e enable 0 u.c_type).1 := by
  rw [otg_notify_state_direct u e enable he]
  unfold otg_notify_state_body
  dsimp only
  rw [if_neg (by simp), if_neg, hx]
  rw [check_block_event_of_disable_state _ (otg_notify_state_start_udev_disable_state _ _ _ _ _)]
  rintro ⟨h1, h2⟩
  rcases hnb with h | h
  · rw [h] at h1; exact absurd h1 (by simp)
  · exact h2 h

theorem otg_notify_state_start_nosave_eq (u : usb_notify) (e t : Nat) (v en : Int)
    (h : t &&& NOTIFY_EVENT_NOSAVE ≠ 0) :
    otg_notify_state_start u e t v en =
      u.emit (Effect.store_usblog_notify_event e
        (if en ≠ 0 then NOTIFY_EVENT_ENABLING else NOTIFY_EVENT_DISABLING)) := by
  unfold otg_notify_state_start
  rw [if_neg (not_not_intro h)]

theorem check_block_event_need_host (u : usb_notify) (e : Nat)
    (he : check_event_type e &&& NOTIFY_EVENT_NEED_HOST ≠ 0)
    (hbit : test_bit NOTIFY_BLOCK_TYPE_HOST u.udev_disable_state = false) :
    check_block_event u e = false := by
  have hc : ¬ (check_event_type e &&& NOTIFY_EVENT_NEED_CLIENT ≠ 0) := by
    rcases need_host_cases e he with h | h | h | h | h | h | h | h | h | h | h <;>
      subst h <;> decide
  simp [check_block_event, hbit]
  intro _
  simpa using hc

/-- A NoBlocking request is the start phase followed by the arm. -/
theorem noblocking_not_blocked_eq (u : usb_notify) (ev : Nat) (enable : Int)
    (h : check_event_type (PHY_EVENT ev) &&& NOTIFY_EVENT_NOBLOCKING ≠ 0) :
    otg_notify_state u ev enable =
      (otg_notify_state_switch
        (otg_notify_state_start u (PHY_EVENT ev) (check_event_type (PHY_EVENT ev))
          (IS_VIRTUAL ev) enable)
        (PHY_EVENT ev) enable (IS_VIRTUAL ev) u.c_type).1 := by
  have hnh : ¬ (check_event_type (PHY_EVENT ev) &&& NOTIFY_EVENT_NEED_HOST ≠ 0) := by
    rcases noblocking_cases _ h with h | h | h | h | h | h <;> rw [h] <;> decide
  rw [otg_notify_state_eq_body]
  unfold otg_notify_state_body
  dsimp only
  rw [if_neg (fun hg => hnh hg.2.2.1), if_neg (fun hg => hg.2 h),
    otg_notify_state_switch_exit_noblocking _ _ _ _ _ h]

/-! ### Frames of the start and commit phases -/

theorem update_cable_status_frame (u : usb_notify) (e : Nat) (v en st : Int) :
    ∃ ct cs tr, update_cable_status u e v en st
      = { u with c_type := ct, c_status := cs, trace := tr } := by
  unfold update_cable_status send_usb_restrict_uevent usb_notify.emit
  dsimp only
  split_ifs <;> exact ⟨_, _, _, rfl⟩

theorem otg_notify_state_start_frame (u : usb_notify) (e t : Nat) (v en : Int) :
    ∃ ct cs tr, otg_notify_state_start u e t v en
      = { u with c_type := ct, c_status := cs, trace := tr } := by
  unfold otg_notify_state_start
  by_cases h : t &&& NOTIFY_EVENT_NOSAVE ≠ 0
  · rw [if_neg (not_not_intro h)]
    exact ⟨_, _, _, rfl⟩
  · rw [if_pos h]
    obtain ⟨ct, cs, tr, hu⟩ := update_cable_status_frame u e v en 1
    dsimp only
    rw [hu]
    exact ⟨_, _, _, rfl⟩

theorem update_cable_status_enable_host_blocked (u : usb_notify) (e : Nat) (v en st : Int)
    (hen : en ≠ 0) (hh : check_event_type e &&& NOTIFY_EVENT_NEED_HOST ≠ 0)
    (hb : u.o_notify.unsupport_host ≠ 0 ∨ u.restricted ≠ 0) :
    (update_cable_status u e v en st).c_status =
      (if st ≠ 0 then NOTIFY_EVENT_BLOCKING else NOTIFY_EVENT_BLOCKED) := by
  unfold update_cable_status
  dsimp only
  rw [if_pos hen, if_pos (Or.inr ⟨hh, hb⟩)]

theorem update_cable_status_ndev_mode (u : usb_notify) (e : Nat) (v en st : Int) :
    (update_cable_status u e v en st).ndev_mode = u.ndev_mode := by
  obtain ⟨ct, cs, tr, h⟩ := update_cable_status_frame u e v en st
  rw [h]

theorem otg_notify_state_start_ndev_mode (u : usb_notify) (e t : Nat) (v en : Int) :
    (otg_notify_state_start u e t v en).ndev_mode = u.ndev_mode := by
  obtain ⟨ct, cs, tr, h⟩ := otg_notify_state_start_frame u e t v en
  rw [h]

/-! ### Host arms on a model without host support -/

theorem otg_notify_state_switch_unsupported (s : usb_notify) (e : Nat) (en v : Int) (p : Nat)
    (he : e ∈ host_arm_events) (hsup : s.o_notify.unsupport_host ≠ 0) :
    otg_notify_state_switch s e en v p = (s, switch_exit.err) := by
  have h1 : ¬ (NOTIFY_EVENT_POGO = NOTIFY_EVENT_MMDOCK) := by decide
  have h2 : ¬ (NOTIFY_EVENT_SMARTDOCK_TA = NOTIFY_EVENT_MMDOCK) := by decide
  have h3 : ¬ (NOTIFY_EVENT_AUDIODOCK = NOTIFY_EVENT_MMDOCK) := by decide
  simp only [host_arm_events, List.mem_cons, List.mem_singleton, List.not_mem_nil,
    or_false] at he
  rcases he with h | h | h | h | h | h | h <;> subst h <;>
    simp only [otg_notify_state_switch, hsup, h1, h2, h3, ne_eq, not_false_eq_true,
      not_true_eq_false, if_true, if_false]

theorem do_notify_blockstate_unsupported (s : usb_notify) (e t : Nat) (en : Int)
    (he : e ∈ host_arm_events) (hsup : s.o_notify.unsupport_host ≠ 0) :
    do_notify_blockstate s e t en = (s, 0) := by
  simp only [host_arm_events, List.mem_cons, List.mem_singleton, List.not_mem_nil,
    or_false] at he
  rcases he with h | h | h | h | h | h | h <;> subst h <;>
    simp [do_notify_blockstate, hsup]

theorem host_arm_events_need_host (e : Nat) (he : e ∈ host_arm_events) :
    check_event_type e &&& NOTIFY_EVENT_NEED_HOST ≠ 0
    ∧ check_event_type e &&& NOTIFY_EVENT_NOSAVE = 0 ∧ e < NOTIFY_EVENT_VIRTUAL := by
  simp only [host_arm_events, List.mem_cons, List.mem_singleton, List.not_mem_nil,
    or_false] at he
  rcases he with h | h | h | h | h | h | h <;> subst h <;> decide

theorem otg_notify_state_unsupported (u : usb_notify) (e : Nat) (enable : Int)
    (he : e ∈ host_arm_events) (hsup : u.o_notify.unsupport_host ≠ 0) :
    otg_notify_state u e enable =
      update_cable_status (otg_notify_state_start u e (check_event_type e) 0 enable)
        e 0 enable 0 := by
  have hs : (otg_notify_state_start u e (check_event_type e) 0 enable).o_notify.unsupport_host
      ≠ 0 := by
    rw [otg_notify_state_start_o_notify]; exact hsup
  rw [otg_notify_state_direct u e enable (host_arm_events_need_host e he).2.2]
  unfold otg_notify_state_body
  dsimp only
  rw [if_neg (by simp), do_notify_blockstate_unsupported _ _ _ _ he hs,
    otg_notify_state_switch_unsupported _ _ _ _ _ he hs]
  simp

/-! ### The host arm on a restricted model -/

theorem otg_notify_state_switch_host_restricted (s : usb_notify) (e : Nat) (en : Int)
    (p : Nat)
    (he : e = NOTIFY_EVENT_HOST ∨ e = NOTIFY_EVENT_HMT ∨ e = NOTIFY_EVENT_GAMEPAD)
    (hen : en ≠ 0) (hsup : s.o_notify.unsupport_host = 0) (hres : s.restricted ≠ 0)
    (hp : check_same_event_type p e = false) :
    otg_notify_state_switch s e en 0 p =
      (send_usb_restrict_uevent { s with disable_v_drive := 0 } USB_SECURE_RESTRICTED,
        switch_exit.err) := by
  rcases he with h | h | h <;> subst h <;>
    simp only [otg_notify_state_switch, hsup, hres, hen, hp, ne_eq, not_true_eq_false,
      not_false_eq_true, if_false, if_true, false_and, Bool.false_eq_true]

/-! ### Arms that leave by `break` -/

theorem otg_notify_state_body_of_brk (u : usb_notify) (e : Nat) (v enable : Int)
    (hg : ¬ (v ≠ 0 ∧ enable ≠ 0 ∧ check_event_type e &&& NOTIFY_EVENT_NEED_HOST ≠ 0
              ∧ ¬ (check_event_type u.c_type &&& NOTIFY_EVENT_NEED_HOST ≠ 0)))
    (hnb : check_block_event u e = false)
    (hx : (otg_notify_state_switch
            (otg_notify_state_start u e (check_event_type e) v enable) e enable v u.c_type).2
          = switch_exit.brk) :
    otg_notify_state_body u e (check_event_type e) v enable =
      update_cable_status
        (otg_notify_state_after_switch
          (otg_notify_state_switch
            (otg_notify_state_start u e (check_event_type e) v enable) e enable v u.c_type).1
          e (check_event_type e) enable u.c_type)
        e v enable 0 := by
  unfold otg_notify_state_body
  dsimp only
  rw [if_neg hg, if_neg, hx]
  rw [check_block_event_of_disable_state _ (otg_notify_state_start_udev_disable_state _ _ _ _ _),
    hnb]
  simp

theorem otg_notify_state_switch_exit_teardown (s : usb_notify) (e : Nat) (v : Int) (p : Nat)
    (hh : check_event_type e &&& NOTIFY_EVENT_NEED_HOST ≠ 0)
    (h1 : e ≠ NOTIFY_EVENT_HOST_RELOAD) (h2 : e ≠ NOTIFY_EVENT_DRIVE_VBUS)
    (hsup : s.o_notify.unsupport_host = 0) :
    (otg_notify_state_switch s e 0 v p).2 = switch_exit.brk := by
  rcases need_host_cases e hh with h | h | h | h | h | h | h | h | h | h | h <;> subst h <;>
    first
    | exact absurd rfl h1
    | exact absurd rfl h2
    | simp only [otg_notify_state_switch, hsup, apply_ite Prod.snd, ne_eq, not_true_eq_false,
        not_false_eq_true, if_false, if_true, ite_self]

theorem ite_append_left (c : Prop) [Decidable c] (t l : List Effect) :
    (if c then t else t ++ l) = t ++ (if c then [] else l) := by
  split_ifs <;> simp

theorem ite_append_both (c : Prop) [Decidable c] (t a b : List Effect) :
    (if c then t ++ a else t ++ b) = t ++ (if c then a else b) := by
  split_ifs <;> rfl

set_option maxHeartbeats 4000000 in
theorem otg_notify_state_switch_trace_extends (w : usb_notify) (e : Nat) (en v : Int)
    (p : Nat) : ∃ l, (otg_notify_state_switch w e en v p).1.trace = w.trace ++ l := by
  unfold otg_notify_state_switch
  split <;>
    simp only [apply_ite Prod.fst, apply_ite usb_notify.trace, emit_trace,
      send_usb_restrict_uevent, host_state_notify, send_external_notify, ite_self,
      List.append_assoc, ite_append_right, ite_append_left, ite_append_both] <;>
    first
    | exact ⟨_, rfl⟩
    | exact ⟨[], (List.append_nil _).symm⟩

theorem otg_notify_state_after_switch_teardown (w : usb_notify) (e t : Nat) (p : Nat)
    (hh : t &&& NOTIFY_EVENT_NEED_HOST ≠ 0) :
    (otg_notify_state_after_switch w e t 0 p).allowlist_restricted = 0
    ∧ (otg_notify_state_after_switch w e t 0 p).cond_hshub = 0
    ∧ (otg_notify_state_after_switch w e t 0 p).cond_sshub = 0
    ∧ (otg_notify_state_after_switch w e t 0 p).is_device = 0
    ∧ ∃ l, (otg_notify_state_after_switch w e t 0 p).trace
        = w.trace ++ l ++ [Effect.send_external_notify EXTERNAL_NOTIFY_DEVICEADD 0] := by
  unfold otg_notify_state_after_switch
  dsimp only
  rw [if_pos hh, if_pos (by simp)]
  refine ⟨rfl, rfl, rfl, rfl, ?_⟩
  simp only [send_external_notify, emit_trace, ne_eq, not_true_eq_false, if_false,
    apply_ite usb_notify.trace]
  split_ifs
  · exact ⟨[Effect.cancel_check_work_sync], rfl⟩
  · exact ⟨[], by simp⟩
  · exact ⟨[], by simp⟩

theorem otg_notify_state_after_switch_trace (w : usb_notify) (e t : Nat) (en : Int)
    (p : Nat) :
    ∃ l, (otg_notify_state_after_switch w e t en p).trace = w.trace ++ l
      ∧ ∀ x ∈ l, is_bookkeeping_effect x = true := by
  unfold otg_notify_state_after_switch
  dsimp only
  simp only [send_external_notify, emit_trace, apply_ite usb_notify.trace, ite_self]
  split_ifs <;>
    first
    | exact ⟨[], (List.append_nil _).symm, by simp⟩
    | exact ⟨_, rfl, by simp [is_bookkeeping_effect]⟩
    | exact ⟨_, (List.append_assoc _ _ _), by simp [is_bookkeeping_effect]⟩

theorem bookkeeping_not_host_effect (x : Effect) (h : is_bookkeeping_effect x = true) :
    is_host_effect x = false := by
  cases x <;> first | rfl | (exfalso; revert h; simp [is_bookkeeping_effect])

/-! ### The Vbus arm and the host arm, effect by effect -/

theorem update_cable_status_enable_client (u : usb_notify) (e : Nat) (v en st : Int)
    (hen : en ≠ 0) (hb : check_block_event u e = false)
    (hh : check_event_type e &&& NOTIFY_EVENT_NEED_HOST = 0) :
    (update_cable_status u e v en st).c_status =
      (if st ≠ 0 then NOTIFY_EVENT_ENABLING else NOTIFY_EVENT_ENABLED) := by
  have hb2 : check_block_event { u with c_type := e } e = false := hb
  unfold update_cable_status
  dsimp only
  rw [if_pos hen, if_neg]
  rw [hb2]
  simp [hh]

theorem update_cable_status_disable_start (u : usb_notify) (e : Nat) :
    (update_cable_status u e 0 0 1).c_status = NOTIFY_EVENT_DISABLING := by
  unfold update_cable_status
  simp

theorem otg_notify_state_after_switch_client (w : usb_notify) (e : Nat) (en : Int) (p : Nat)
    (he : e = NOTIFY_EVENT_VBUS ∨ e = NOTIFY_EVENT_SMARTDOCK_USB) :
    otg_notify_state_after_switch w e (check_event_type e) en p = w := by
  have h1 : ¬ ((check_event_type e &&& NOTIFY_EVENT_NEED_VBUSDRIVE ≠ 0
      ∧ e ≠ NOTIFY_EVENT_HOST) ∨ e = NOTIFY_EVENT_POGO) := by
    rcases he with h | h <;> subst h <;> decide
  have h2 : ¬ (check_event_type e &&& NOTIFY_EVENT_NEED_HOST ≠ 0) := by
    rcases he with h | h <;> subst h <;> decide
  unfold otg_notify_state_after_switch
  dsimp only
  rw [if_neg h1, if_neg h2]

theorem otg_notify_state_switch_vbus (w : usb_notify) (e : Nat) (en v : Int) (p : Nat)
    (he : e = NOTIFY_EVENT_VBUS ∨ e = NOTIFY_EVENT_SMARTDOCK_USB) :
    (otg_notify_state_switch w e en v p).2 = switch_exit.brk
    ∧ (otg_notify_state_switch w e en v p).1.trace = w.trace ++
        (if en ≠ 0 then vbus_enable_effects w.o_notify else vbus_disable_effects w.o_notify)
    ∧ (otg_notify_state_switch w e en v p).1.ndev_mode =
        (if en ≠ 0 then NOTIFY_PERIPHERAL_MODE else NOTIFY_NONE_MODE)
    ∧ (en = 0 → (otg_notify_state_switch w e en v p).1.gadget_status_bus_state
        = NOTIFY_USB_UNCONFIGURED) := by
  refine ⟨?_, ?_, ?_, ?_⟩
  · rcases he with h | h <;> subst h <;>
      simp only [otg_notify_state_switch, apply_ite Prod.snd, ite_self]
  · rcases he with h | h <;> subst h <;>
      by_cases hen : en ≠ 0 <;>
      simp only [otg_notify_state_switch, hen, vbus_enable_effects, vbus_disable_effects,
        apply_ite usb_notify.trace, emit_trace, ne_eq, not_true_eq_false, not_false_eq_true,
        if_false, if_true, ite_append_right, List.append_assoc] <;>
      split_ifs <;> simp
  · rcases he with h | h <;> subst h <;>
      by_cases hen : en ≠ 0 <;>
      simp only [otg_notify_state_switch, hen, usb_notify.emit,
        apply_ite usb_notify.ndev_mode, ne_eq, not_true_eq_false, not_false_eq_true,
        if_false, if_true, ite_self]
  · intro hen
    subst hen
    rcases he with h | h <;> subst h <;>
      simp only [otg_notify_state_switch, usb_notify.emit,
        apply_ite usb_notify.gadget_status_bus_state, ne_eq, not_true_eq_false,
        not_false_eq_true, if_false, if_true, ite_self]

theorem update_cable_status_gadget_status_bus_state (u : usb_notify) (e : Nat)
    (v en st : Int) :
    (update_cable_status u e v en st).gadget_status_bus_state = u.gadget_status_bus_state := by
  obtain ⟨ct, cs, tr, h⟩ := update_cable_status_frame u e v en st
  rw [h]

theorem update_cable_status_allowlist_restricted (u : usb_notify) (e : Nat)
    (v en st : Int) :
    (update_cable_status u e v en st).allowlist_restricted = u.allowlist_restricted := by
  obtain ⟨ct, cs, tr, h⟩ := update_cable_status_frame u e v en st
  rw [h]

theorem otg_notify_state_after_switch_ndev_mode (w : usb_notify) (e t : Nat) (en : Int)
    (p : Nat) : (otg_notify_state_after_switch w e t en p).ndev_mode = w.ndev_mode := by
  unfold otg_notify_state_after_switch
  dsimp only
  simp only [send_external_notify, usb_notify.emit, apply_ite usb_notify.ndev_mode, ite_self]

set_option maxHeartbeats 4000000 in
theorem otg_notify_state_switch_host_enable (w : usb_notify) (e : Nat) (en : Int) (p : Nat)
    (he : e = NOTIFY_EVENT_HOST ∨ e = NOTIFY_EVENT_HMT ∨ e = NOTIFY_EVENT_GAMEPAD)
    (hen : en ≠ 0) (hsup : w.o_notify.unsupport_host = 0) (hres : w.restricted = 0)
    (hp : check_same_event_type p e = false) :
    (otg_notify_state_switch w e en 0 p).1.trace = w.trace ++ host_enable_effects w
    ∧ (otg_notify_state_switch w e en 0 p).1.ndev_mode = NOTIFY_HOST_MODE := by
  constructor
  · rcases he with h | h | h <;> subst h <;>
    cases ha : w.o_notify.auto_drive_vbus <;>
      simp only [otg_notify_state_switch, hsup, hres, hen, hp, ha, reduceCtorEq,
        host_enable_effects, reserved_booster_effects,
        apply_ite Prod.fst, apply_ite usb_notify.trace, host_state_notify, emit_trace,
        ne_eq, not_true_eq_false, not_false_eq_true, if_false, if_true, ite_self, false_and,
        true_and, Bool.false_eq_true, ite_append_right, List.append_assoc, is_blocked,
        apply_ite usb_notify.typec_status_power_role, apply_ite usb_notify.reserve_vbus_booster,
        apply_ite usb_notify.udev_disable_state, emit_udev_disable_state,
        emit_typec_status_power_role, emit_reserve_vbus_booster, List.append_nil] <;>
      split_ifs <;> simp_all
  · rcases he with h | h | h <;> subst h <;>
    cases ha : w.o_notify.auto_drive_vbus <;>
      simp only [otg_notify_state_switch, hsup, hres, hen, hp, ha, reduceCtorEq,
        apply_ite Prod.fst, apply_ite usb_notify.ndev_mode, host_state_notify, usb_notify.emit,
        ne_eq, not_true_eq_false, not_false_eq_true, if_false, if_true, ite_self, false_and,
        Bool.false_eq_true]

set_option maxHeartbeats 4000000 in
theorem otg_notify_state_switch_host_disable (w : usb_notify) (e : Nat) (p : Nat)
    (he : e = NOTIFY_EVENT_HOST ∨ e = NOTIFY_EVENT_HMT ∨ e = NOTIFY_EVENT_GAMEPAD)
    (hsup : w.o_notify.unsupport_host = 0) :
    (otg_notify_state_switch w e 0 0 p).1.trace = w.trace ++ host_disable_effects w.o_notify
    ∧ (otg_notify_state_switch w e 0 0 p).1.ndev_mode = NOTIFY_NONE_MODE
    ∧ (otg_notify_state_switch w e 0 0 p).2 = switch_exit.brk := by
  refine ⟨?_, ?_, ?_⟩
  · rcases he with h | h | h <;> subst h <;>
    cases ha : w.o_notify.auto_drive_vbus <;>
      simp only [otg_notify_state_switch, hsup, ha, reduceCtorEq, host_disable_effects,
        apply_ite Prod.fst, apply_ite usb_notify.trace, host_state_notify, emit_trace,
        ne_eq, not_true_eq_false, not_false_eq_true, if_false, if_true, ite_self, false_and,
        true_and, ite_append_right, List.append_assoc, List.append_nil, List.nil_append] <;>
      split_ifs <;> simp
  · rcases he with h | h | h <;> subst h <;>
      simp only [otg_notify_state_switch, hsup, apply_ite Prod.fst,
        apply_ite usb_notify.ndev_mode, host_state_notify, usb_notify.emit,
        ne_eq, not_true_eq_false, not_false_eq_true, if_false, if_true, ite_self]
  · rcases he with h | h | h <;> subst h <;>
      simp only [otg_notify_state_switch, hsup, apply_ite Prod.snd,
        ne_eq, not_true_eq_false, not_false_eq_true, if_false, if_true, ite_self]

theorem filter_host_enable_effects (u : usb_notify) :
    (host_enable_effects u).filter is_host_effect = host_enable_effects u := by
  rw [List.filter_eq_self]
  intro x hx
  unfold host_enable_effects reserved_booster_effects at hx
  simp only [List.mem_append, List.mem_singleton] at hx
  rcases hx with ((((h | h) | h) | h) | h) | h
  · subst h; rfl
  all_goals (split_ifs at h <;> simp at h <;> subst h <;> rfl)

theorem filter_host_disable_effects (n : otg_notify) :
    (host_disable_effects n).filter is_host_effect = host_disable_effects n := by
  rw [List.filter_eq_self]
  intro x hx
  unfold host_disable_effects at hx
  simp only [List.mem_append, List.mem_singleton] at hx
  rcases hx with (((h | h) | h) | h) | h
  · split_ifs at h <;> simp at h <;> subst h <;> rfl
  · split_ifs at h <;> simp at h <;> subst h <;> rfl
  · split_ifs at h <;> simp at h <;> subst h <;> rfl
  · split_ifs at h <;> simp at h <;> subst h <;> rfl
  · subst h; rfl

theorem filter_host_effect_bookkeeping (l : List Effect)
    (h : ∀ x ∈ l, is_bookkeeping_effect x = true) : l.filter is_host_effect = [] := by
  rw [List.filter_eq_nil_iff]
  intro x hx
  rw [bookkeeping_not_host_effect x (h x hx)]
  simp

/-! ### The disable events -/

theorem test_bit_set_set (w : Nat) :
    test_bit NOTIFY_BLOCK_TYPE_HOST
        (set_bit NOTIFY_BLOCK_TYPE_CLIENT (set_bit NOTIFY_BLOCK_TYPE_HOST w)) = true
    ∧ test_bit NOTIFY_BLOCK_TYPE_CLIENT
        (set_bit NOTIFY_BLOCK_TYPE_CLIENT (set_bit NOTIFY_BLOCK_TYPE_HOST w)) = true := by
  have h1 : Nat.testBit (1 <<< 1) 1 = true := by decide
  have h2 : Nat.testBit (1 <<< 2) 2 = true := by decide
  unfold test_bit set_bit NOTIFY_BLOCK_TYPE_HOST NOTIFY_BLOCK_TYPE_CLIENT
  simp only [Nat.testBit_or, h1, h2, Bool.or_true, Bool.true_or, and_self]

theorem test_bit_host_only (w : Nat) :
    test_bit NOTIFY_BLOCK_TYPE_HOST
        (set_bit NOTIFY_BLOCK_TYPE_HOST (clear_bit NOTIFY_BLOCK_TYPE_CLIENT w)) = true
    ∧ test_bit NOTIFY_BLOCK_TYPE_CLIENT
        (set_bit NOTIFY_BLOCK_TYPE_HOST (clear_bit NOTIFY_BLOCK_TYPE_CLIENT w)) = false := by
  have h1 : Nat.testBit (1 <<< 1) 1 = true := by decide
  have h2 : Nat.testBit (1 <<< 1) 2 = false := by decide
  have h3 : (1 <<< 2) = 4 := by decide
  unfold test_bit set_bit clear_bit NOTIFY_BLOCK_TYPE_HOST NOTIFY_BLOCK_TYPE_CLIENT
  simp only [Nat.testBit_or, h1, h2, h3, Bool.or_true, Bool.or_false, true_and]
  simp only [Nat.testBit_to_div_mod]
  split_ifs <;> simp_all <;> omega

theorem test_bit_client_only (w : Nat) :
    test_bit NOTIFY_BLOCK_TYPE_CLIENT
        (set_bit NOTIFY_BLOCK_TYPE_CLIENT (clear_bit NOTIFY_BLOCK_TYPE_HOST w)) = true
    ∧ test_bit NOTIFY_BLOCK_TYPE_HOST
        (set_bit NOTIFY_BLOCK_TYPE_CLIENT (clear_bit NOTIFY_BLOCK_TYPE_HOST w)) = false := by
  have h1 : Nat.testBit (1 <<< 2) 2 = true := by decide
  have h2 : Nat.testBit (1 <<< 2) 1 = false := by decide
  have h3 : (1 <<< 1) = 2 := by decide
  unfold test_bit set_bit clear_bit NOTIFY_BLOCK_TYPE_HOST NOTIFY_BLOCK_TYPE_CLIENT
  simp only [Nat.testBit_or, h1, h2, h3, Bool.or_true, Bool.or_false, true_and]
  simp only [Nat.testBit_to_div_mod]
  split_ifs <;> simp_all <;> omega

theorem otg_notify_state_noblocking_eq (u : usb_notify) (e : Nat) (enable : Int)
    (he : e = NOTIFY_EVENT_ALL_DISABLE ∨ e = NOTIFY_EVENT_HOST_DISABLE
        ∨ e = NOTIFY_EVENT_CLIENT_DISABLE) :
    otg_notify_state u e enable =
      (otg_notify_state_switch
        (u.emit (Effect.store_usblog_notify_event e
          (if enable ≠ 0 then NOTIFY_EVENT_ENABLING else NOTIFY_EVENT_DISABLING)))
        e enable 0 u.c_type).1 := by
  have h1 : check_event_type (PHY_EVENT e) &&& NOTIFY_EVENT_NOBLOCKING ≠ 0 := by
    rcases he with h | h | h <;> subst h <;> decide
  have h2 : check_event_type e &&& NOTIFY_EVENT_NOSAVE ≠ 0 := by
    rcases he with h | h | h <;> subst h <;> decide
  have h3 : PHY_EVENT e = e := by
    rcases he with h | h | h <;> subst h <;> rfl
  have h4 : IS_VIRTUAL e = 0 := by
    rcases he with h | h | h <;> subst h <;> rfl
  rw [noblocking_not_blocked_eq u e enable h1, h3, h4,
    otg_notify_state_start_nosave_eq _ _ _ _ _ h2]

theorem otg_notify_state_all_disable_event (u : usb_notify) (enable : Int)
    (hdc : u.o_notify.disable_control ≠ 0) :
    otg_notify_state u NOTIFY_EVENT_ALL_DISABLE enable =
      (if enable ≠ 0 then
         send_external_notify
           { send_external_notify
               (u.emit (Effect.store_usblog_notify_event NOTIFY_EVENT_ALL_DISABLE
                 NOTIFY_EVENT_ENABLING)) EXTERNAL_NOTIFY_HOSTBLOCK_PRE 1 with
             udev_disable_state :=
               set_bit NOTIFY_BLOCK_TYPE_CLIENT
                 (set_bit NOTIFY_BLOCK_TYPE_HOST u.udev_disable_state) }
           EXTERNAL_NOTIFY_HOSTBLOCK_POST 1
       else
         send_external_notify
           { send_external_notify
               (u.emit (Effect.store_usblog_notify_event NOTIFY_EVENT_ALL_DISABLE
                 NOTIFY_EVENT_DISABLING)) EXTERNAL_NOTIFY_HOSTBLOCK_PRE 0 with
             udev_disable_state :=
               clear_bit NOTIFY_BLOCK_TYPE_CLIENT
                 (clear_bit NOTIFY_BLOCK_TYPE_HOST u.udev_disable_state) }
           EXTERNAL_NOTIFY_HOSTBLOCK_POST 0) := by
  rw [otg_notify_state_noblocking_eq u _ enable (Or.inl rfl)]
  by_cases hen : enable ≠ 0 <;>
    simp only [otg_notify_state_switch, emit_o_notify, hdc, hen, ne_eq, not_true_eq_false,
      not_false_eq_true, if_false, if_true] <;> rfl

theorem otg_notify_state_host_disable_event (u : usb_notify) (enable : Int)
    (hdc : u.o_notify.disable_control ≠ 0) :
    otg_notify_state u NOTIFY_EVENT_HOST_DISABLE enable =
      (if enable ≠ 0 then
         send_external_notify
           { send_external_notify
               (u.emit (Effect.store_usblog_notify_event NOTIFY_EVENT_HOST_DISABLE
                 NOTIFY_EVENT_ENABLING)) EXTERNAL_NOTIFY_HOSTBLOCK_PRE 1 with
             udev_disable_state :=
               set_bit NOTIFY_BLOCK_TYPE_HOST
                 (clear_bit NOTIFY_BLOCK_TYPE_CLIENT u.udev_disable_state) }
           EXTERNAL_NOTIFY_HOSTBLOCK_POST 1
       else
         u.emit (Effect.store_usblog_notify_event NOTIFY_EVENT_HOST_DISABLE
           NOTIFY_EVENT_DISABLING)) := by
  rw [otg_notify_state_noblocking_eq u _ enable (Or.inr (Or.inl rfl))]
  by_cases hen : enable ≠ 0 <;>
    simp only [otg_notify_state_switch, emit_o_notify, hdc, hen, ne_eq, not_true_eq_false,
      not_false_eq_true, if_false, if_true] <;> rfl

theorem otg_notify_state_client_disable_event (u : usb_notify) (enable : Int)
    (hdc : u.o_notify.disable_control ≠ 0) :
    otg_notify_state u NOTIFY_EVENT_CLIENT_DISABLE enable =
      (if enable ≠ 0 then
         { u.emit (Effect.store_usblog_notify_event NOTIFY_EVENT_CLIENT_DISABLE
             NOTIFY_EVENT_ENABLING) with
           udev_disable_state :=
             set_bit NOTIFY_BLOCK_TYPE_CLIENT
               (clear_bit NOTIFY_BLOCK_TYPE_HOST u.udev_disable_state) }
       else
         u.emit (Effect.store_usblog_notify_event NOTIFY_EVENT_CLIENT_DISABLE
           NOTIFY_EVENT_DISABLING)) := by
  rw [otg_notify_state_noblocking_eq u _ enable (Or.inr (Or.inr rfl))]
  by_cases hen : enable ≠ 0 <;>
    simp only [otg_notify_state_switch, emit_o_notify, hdc, hen, ne_eq, not_true_eq_false,
      not_false_eq_true, if_false, if_true] <;> rfl

theorem otg_notify_state_disable_control_off (u : usb_notify) (e : Nat) (enable : Int)
    (he : e = NOTIFY_EVENT_ALL_DISABLE ∨ e = NOTIFY_EVENT_HOST_DISABLE
        ∨ e = NOTIFY_EVENT_CLIENT_DISABLE)
    (hdc : u.o_notify.disable_control = 0) :
    otg_notify_state u e enable =
      u.emit (Effect.store_usblog_notify_event e
        (if enable ≠ 0 then NOTIFY_EVENT_ENABLING else NOTIFY_EVENT_DISABLING)) := by
  rw [otg_notify_state_noblocking_eq u e enable he]
  rcases he with h | h | h <;> subst h <;>
    simp only [otg_notify_state_switch, emit_o_notify, hdc, ne_eq, not_true_eq_false,
      not_false_eq_true, if_true]

/-! ### Requests that go to the work queue -/

theorem send_otg_notify_chain_queue
    (f : usb_notify → Nat → Int → usb_notify × notifier_ret) (u : usb_notify) (e : Nat)
    (en : Int) (hd : check_event_type e &&& NOTIFY_EVENT_DELAY = 0)
    (hx : check_event_type e &&& NOTIFY_EVENT_EXTRA = 0)
    (hs : check_event_type e &&& NOTIFY_EVENT_STATE ≠ 0)
    (hle : e ≤ VIRT_EVENT NOTIFY_EVENT_VBUSPOWER) :
    send_otg_notify_chain f u e en =
      if u.kmalloc_ok = true then
        { u with trace := u.trace ++ [Effect.atomic_notifier_call_chain e en],
                 notifier_wq := u.notifier_wq ++ [{ event := e, enable := en }] }
      else u.emit (Effect.atomic_notifier_call_chain e en) := by
  unfold send_otg_notify_chain atomic_notifier_call_chain otg_notifier_callback
  dsimp only
  rw [if_neg (fun h => h.1.1 hd), if_neg (not_not_intro hx), if_pos hs,
    if_neg (Nat.not_lt.2 hle)]
  by_cases hk : u.kmalloc_ok = true
  · have hk2 : (u.emit (Effect.atomic_notifier_call_chain e en)).kmalloc_ok = true := hk
    rw [if_neg (not_not_intro hk2), if_pos hk]
    rfl
  · have hk2 : ¬ ((u.emit (Effect.atomic_notifier_call_chain e en)).kmalloc_ok = true) := hk
    rw [if_pos hk2, if_neg hk]

theorem send_otg_notify_chain_virtual
    (f : usb_notify → Nat → Int → usb_notify × notifier_ret) (u : usb_notify) (c : Nat)
    (en : Int) (hc : c < NOTIFY_EVENT_VIRTUAL) :
    send_otg_notify_chain f u (VIRT_EVENT c) en =
      if u.kmalloc_ok = true then
        { u with trace := u.trace ++ [Effect.atomic_notifier_call_chain (VIRT_EVENT c) en],
                 notifier_wq := u.notifier_wq ++ [{ event := VIRT_EVENT c, enable := en }] }
      else u.emit (Effect.atomic_notifier_call_chain (VIRT_EVENT c) en) := by
  have ht : check_event_type (VIRT_EVENT c) = NOTIFY_EVENT_STATE :=
    check_event_type_of_ge_virtual _ (by unfold VIRT_EVENT; omega)
  refine send_otg_notify_chain_queue f u _ en ?_ ?_ ?_ ?_
  · rw [ht]; decide
  · rw [ht]; decide
  · rw [ht]; decide
  · unfold VIRT_EVENT NOTIFY_EVENT_VBUSPOWER NOTIFY_EVENT_VIRTUAL at *
    omega

theorem check_secure_connection_iff (u : usb_notify) :
    check_secure_connection u = true ↔
      ∃ c ∈ u.secure_connect_group, MAX_SECURE_CONNECTION ≤ c := by
  unfold check_secure_connection
  simp [List.any_eq_true]

theorem is_host_cable_enable_lt (u : usb_notify) (h : is_host_cable_enable u = true) :
    u.c_type < NOTIFY_EVENT_VIRTUAL := by
  unfold is_host_cable_enable at h
  exact need_host_lt_virtual _ (of_decide_eq_true h).1

/-! ### The counter `allowlist_restricted` -/

theorem emit_allowlist_restricted (u : usb_notify) (x : Effect) :
    (u.emit x).allowlist_restricted = u.allowlist_restricted := rfl

theorem otg_notify_state_start_allowlist_restricted (u : usb_notify) (e t : Nat)
    (v en : Int) :
    (otg_notify_state_start u e t v en).allowlist_restricted = u.allowlist_restricted := by
  obtain ⟨ct, cs, tr, h⟩ := otg_notify_state_start_frame u e t v en
  rw [h]

theorem do_notify_blockstate_allowlist_restricted (u : usb_notify) (e t : Nat) (en : Int) :
    (do_notify_blockstate u e t en).1.allowlist_restricted = u.allowlist_restricted := by
  unfold do_notify_blockstate
  split <;>
  simp only [apply_ite Prod.fst, apply_ite usb_notify.allowlist_restricted,
    emit_allowlist_restricted, send_usb_restrict_uevent, host_state_notify, ite_self]

set_option maxHeartbeats 1000000 in
theorem otg_notify_state_switch_allowlist_restricted (u : usb_notify) (e : Nat) (en v : Int)
    (p : Nat) :
    (otg_notify_state_switch u e en v p).1.allowlist_restricted = u.allowlist_restricted
    ∨ (otg_notify_state_switch u e en v p).1.allowlist_restricted = 0 := by
  unfold otg_notify_state_switch
  split <;>
    simp only [apply_ite Prod.fst, apply_ite usb_notify.allowlist_restricted,
      emit_allowlist_restricted, send_usb_restrict_uevent, host_state_notify,
      send_external_notify, ite_self] <;>
    first
    | exact Or.inl rfl
    | exact Or.inl trivial
    | (split_ifs <;>
        first
        | exact Or.inl rfl
        | exact Or.inr rfl)

theorem otg_notify_state_after_switch_allowlist_restricted (u : usb_notify) (e t : Nat)
    (en : Int) (p : Nat) :
    (otg_notify_state_after_switch u e t en p).allowlist_restricted = u.allowlist_restricted
    ∨ (otg_notify_state_after_switch u e t en p).allowlist_restricted = 0 := by
  unfold otg_notify_state_after_switch
  simp only [apply_ite usb_notify.allowlist_restricted, emit_allowlist_restricted,
    send_external_notify, ite_self]
  split_ifs <;> first | exact Or.inl rfl | exact Or.inr rfl

theorem otg_notify_state_allowlist_restricted (u : usb_notify) (ev : Nat) (enable : Int) :
    (otg_notify_state u ev enable).allowlist_restricted = u.allowlist_restricted
    ∨ (otg_notify_state u ev enable).allowlist_restricted = 0 := by
  unfold otg_notify_state
  dsimp only
  split_ifs with hg hblk hr
  · exact Or.inl rfl
  · rw [do_notify_blockstate_allowlist_restricted, otg_notify_state_start_allowlist_restricted]
    exact Or.inl rfl
  · rw [update_cable_status_allowlist_restricted, do_notify_blockstate_allowlist_restricted,
      otg_notify_state_start_allowlist_restricted]
    exact Or.inl rfl
  · have hsw := otg_notify_state_switch_allowlist_restricted
      (otg_notify_state_start u (PHY_EVENT ev) (check_event_type (PHY_EVENT ev))
        (IS_VIRTUAL ev) enable) (PHY_EVENT ev) enable (IS_VIRTUAL ev) u.c_type
    rw [otg_notify_state_start_allowlist_restricted] at hsw
    cases hx : (otg_notify_state_switch
        (otg_notify_state_start u (PHY_EVENT ev) (check_event_type (PHY_EVENT ev))
          (IS_VIRTUAL ev) enable) (PHY_EVENT ev) enable (IS_VIRTUAL ev) u.c_type).2 with
    | no_save_event =>
        dsimp only
        exact hsw
    | err =>
        dsimp only
        rw [update_cable_status_allowlist_restricted]
        exact hsw
    | brk =>
        dsimp only
        rw [update_cable_status_allowlist_restricted]
        rcases otg_notify_state_after_switch_allowlist_restricted
          (otg_notify_state_switch
            (otg_notify_state_start u (PHY_EVENT ev) (check_event_type (PHY_EVENT ev))
              (IS_VIRTUAL ev) enable) (PHY_EVENT ev) enable (IS_VIRTUAL ev) u.c_type).1
          (PHY_EVENT ev) (check_event_type (PHY_EVENT ev)) enable u.c_type with h | h
        · rw [h]; exact hsw
        · exact Or.inr h

/-! ### The scan of the id matcher, read by read -/

theorem usb_match_any_interface_for_id_reads_mem (udev : usb_device) (w : Nat → Int)
    (B : Nat) (hB : B ≤ MAX_WHITELIST_STR_LEN)
    (hfull : ∀ i, i < B → w i ≠ 0 ∧ w i ≠ (udev.idVendor : Int)) :
    ∀ fuel i, i ≤ B → (B - i) % 2 = 0 → (B - i) / 2 < fuel →
      B ∈ usb_match_any_interface_for_id_reads udev w fuel i := by
  intro fuel
  induction fuel with
  | zero => intro i _ _ h; exact absurd h (Nat.not_lt_zero _)
  | succ fuel ih =>
      intro i hi hpar hfuel
      unfold usb_match_any_interface_for_id_reads
      by_cases hiB : i = B
      · rw [hiB]; exact List.mem_cons_self _ _
      · have hlt : i < B := lt_of_le_of_ne hi hiB
        have h2 : i + 2 ≤ B := by omega
        have hc : w i ≠ 0 ∧ i < MAX_WHITELIST_STR_LEN :=
          ⟨(hfull i hlt).1, lt_of_lt_of_le hlt hB⟩
        have hm : ¬ (w i = (udev.idVendor : Int) ∧ w (i + 1) = (udev.idProduct : Int)) :=
          fun h => (hfull i hlt).2 h.1
        rw [if_pos hc, if_neg hm]
        refine List.mem_cons_of_mem _ (List.mem_cons_of_mem _ (List.mem_cons_of_mem _ ?_))
        exact ih (i + 2) h2 (by omega) (by omega)

/-! ### The DriveVbus request -/

theorem otg_notify_state_drive_vbus (u : usb_notify) (enable : Int) :
    otg_notify_state u NOTIFY_EVENT_DRIVE_VBUS enable =
      if test_bit NOTIFY_BLOCK_TYPE_HOST u.udev_disable_state = true then
        u.emit (Effect.store_usblog_notify_event NOTIFY_EVENT_DRIVE_VBUS
          (if enable ≠ 0 then NOTIFY_EVENT_ENABLING else NOTIFY_EVENT_DISABLING))
      else
        (otg_notify_state_switch
          (u.emit (Effect.store_usblog_notify_event NOTIFY_EVENT_DRIVE_VBUS
            (if enable ≠ 0 then NOTIFY_EVENT_ENABLING else NOTIFY_EVENT_DISABLING)))
          NOTIFY_EVENT_DRIVE_VBUS enable 0 u.c_type).1 := by
  have hx : ∀ s : usb_notify, (otg_notify_state_switch s NOTIFY_EVENT_DRIVE_VBUS enable 0
      u.c_type).2 = switch_exit.no_save_event := by
    intro s
    simp only [otg_notify_state_switch, apply_ite Prod.snd, ite_self]
  have hnb : ¬ (check_event_type NOTIFY_EVENT_DRIVE_VBUS &&& NOTIFY_EVENT_NOBLOCKING ≠ 0) := by
    decide
  rw [otg_notify_state_direct u _ enable (by decide)]
  unfold otg_notify_state_body
  dsimp only
  rw [if_neg (by simp), otg_notify_state_start_nosave_eq _ _ _ _ _ (by decide)]
  by_cases hbit : test_bit NOTIFY_BLOCK_TYPE_HOST u.udev_disable_state = true
  · have hcb : check_block_event
        (u.emit (Effect.store_usblog_notify_event NOTIFY_EVENT_DRIVE_VBUS
          (if enable ≠ 0 then NOTIFY_EVENT_ENABLING else NOTIFY_EVENT_DISABLING)))
        NOTIFY_EVENT_DRIVE_VBUS = true := by
      unfold check_block_event
      rw [emit_udev_disable_state]
      exact decide_eq_true (Or.inl ⟨hbit, by decide⟩)
    have hr : (-ESRCH : Int) ≠ 0 := by decide
    rw [if_pos ⟨hcb, hnb⟩, if_pos hbit]
    unfold do_notify_blockstate
    exact if_pos hr
  · have hcb : ¬ (check_block_event
        (u.emit (Effect.store_usblog_notify_event NOTIFY_EVENT_DRIVE_VBUS
          (if enable ≠ 0 then NOTIFY_EVENT_ENABLING else NOTIFY_EVENT_DISABLING)))
        NOTIFY_EVENT_DRIVE_VBUS = true) := by
      have hf : test_bit NOTIFY_BLOCK_TYPE_HOST u.udev_disable_state = false := by
        simpa using hbit
      rw [check_block_event_of_disable_state _ (emit_udev_disable_state _ _),
        check_block_event_need_host u _ (by decide) hf]
      decide
    rw [if_neg (fun h => hcb h.1), if_neg hbit, hx]

theorem otg_notify_state_drive_vbus_trace (u : usb_notify) (enable : Int) :
    ∃ l, (otg_notify_state u NOTIFY_EVENT_DRIVE_VBUS enable).trace = u.trace ++ l
      ∧ Effect.reverse_bypass_drive 1 ∉ l := by
  rw [otg_notify_state_drive_vbus]
  generalize (if enable ≠ 0 then NOTIFY_EVENT_ENABLING else NOTIFY_EVENT_DISABLING) = st
  simp only [otg_notify_state_switch, emit_o_notify, emit_trace, apply_ite Prod.fst,
    apply_ite usb_notify.trace, usb_notify.emit, List.append_assoc]
  split_ifs <;> (try simp only [List.append_assoc]) <;> exact ⟨_, rfl, by simp⟩

/-! ### Registration -/

theorem set_otg_notify_freed_zero (k : set_otg_notify_calls) (n' : otg_notify)
    (r : Int × set_otg_notify_exit) (hr : r = set_otg_notify k (some n'))
    (hf : set_otg_notify_frees_state r.2 = true) (hz : r.1 = 0) :
    n'.unsupport_host = 0 ∧ n'.vbus_drive = false ∧ k.host_notify_dev_register = 0 := by
  have hE : ¬ (-ENOMEM = (0 : Int)) := by decide
  unfold set_otg_notify at hr
  dsimp only at hr
  by_cases c0 : ¬ k.u_notify_core = true
      ∧ (if ¬ k.u_notify_core = true then k.create_usb_notify else 0) ≠ 0
  · rw [if_pos c0] at hr; rw [hr] at hf; exact absurd hf Bool.false_ne_true
  rw [if_neg c0] at hr
  by_cases c1 : (k.u_notify_core = true ∧ k.core_o_notify = true) ∧ (some n').isSome = true
  · rw [if_pos c1] at hr; rw [hr] at hf; exact absurd hf Bool.false_ne_true
  rw [if_neg c1] at hr
  by_cases c2 : ¬ k.kzalloc = true
  · rw [if_pos c2] at hr; rw [hr] at hf; exact absurd hf Bool.false_ne_true
  rw [if_neg c2] at hr
  by_cases c3 : ¬ k.create_singlethread_workqueue = true
  · rw [if_pos c3] at hr; rw [hr] at hz; exact absurd hz hE
  rw [if_neg c3] at hr
  by_cases c4 : k.atomic_notifier_chain_register < 0
  · rw [if_pos c4] at hr; rw [hr] at hz; exact absurd hz (ne_of_lt c4)
  rw [if_neg c4] at hr
  by_cases c5 : k.blocking_notifier_chain_register < 0
  · rw [if_pos c5] at hr; rw [hr] at hz; exact absurd hz (ne_of_lt c5)
  rw [if_neg c5] at hr
  have hrest : ∀ r : Int × set_otg_notify_exit,
      r = (if k.usb_notify_dev_register < 0 then
            (k.usb_notify_dev_register, set_otg_notify_exit.err6)
          else if n'.vbus_detect_gpio_valid = true ∨ n'.redriver_en_gpio_valid = true then
            if k.register_gpios < 0 then (k.register_gpios, set_otg_notify_exit.err7)
            else (0, set_otg_notify_exit.registered)
          else (0, set_otg_notify_exit.registered)) →
      set_otg_notify_frees_state r.2 = true → r.1 = 0 → False := by
    intro r hr hf hz
    by_cases d1 : k.usb_notify_dev_register < 0
    · rw [if_pos d1] at hr; rw [hr] at hz; exact absurd hz (ne_of_lt d1)
    rw [if_neg d1] at hr
    by_cases d2 : n'.vbus_detect_gpio_valid = true ∨ n'.redriver_en_gpio_valid = true
    · rw [if_pos d2] at hr
      by_cases d3 : k.register_gpios < 0
      · rw [if_pos d3] at hr; rw [hr] at hz; exact absurd hz (ne_of_lt d3)
      · rw [if_neg d3] at hr; rw [hr] at hf; exact absurd hf Bool.false_ne_true
    · rw [if_neg d2] at hr; rw [hr] at hf; exact absurd hf Bool.false_ne_true
  by_cases c6 : ¬ n'.unsupport_host ≠ 0
  · rw [if_pos c6] at hr
    by_cases c7 : k.host_notify_dev_register < 0
    · rw [if_pos c7] at hr; rw [hr] at hz; exact absurd hz (ne_of_lt c7)
    rw [if_neg c7] at hr
    by_cases c8 : ¬ n'.vbus_drive = true
    · rw [if_pos c8] at hr; rw [hr] at hz
      exact ⟨not_not.1 c6, Bool.eq_false_iff.2 c8, hz⟩
    · rw [if_neg c8] at hr
      exact absurd hz (fun hz => hrest r hr hf hz)
  · rw [if_neg c6] at hr
    exact absurd hz (fun hz => hrest r hr hf hz)

/-! ### The dock arms -/

theorem dock_arm_events_need_host (e : Nat) (he : e ∈ dock_arm_events) :
    check_event_type e &&& NOTIFY_EVENT_NEED_HOST ≠ 0 ∧ e < NOTIFY_EVENT_VIRTUAL := by
  simp only [dock_arm_events, List.mem_cons, List.mem_singleton, List.not_mem_nil,
    or_false] at he
  rcases he with h | h | h | h | h <;> subst h <;> decide

theorem otg_notify_state_switch_dock_enable (s : usb_notify) (e : Nat) (en v : Int) (p : Nat)
    (he : e ∈ dock_arm_events) (hen : en ≠ 0) (hsup : s.o_notify.unsupport_host = 0)
    (hhook : s.o_notify.set_host = true) :
    (otg_notify_state_switch s e en v p).2 = switch_exit.brk
    ∧ (otg_notify_state_switch s e en v p).1.ndev_mode = NOTIFY_HOST_MODE
    ∧ ∃ l, (otg_notify_state_switch s e en v p).1.trace = s.trace ++ l
        ∧ Effect.set_host true ∈ l := by
  have h1 : ¬ (NOTIFY_EVENT_POGO = NOTIFY_EVENT_MMDOCK) := by decide
  have h2 : ¬ (NOTIFY_EVENT_SMARTDOCK_TA = NOTIFY_EVENT_MMDOCK) := by decide
  have h3 : ¬ (NOTIFY_EVENT_AUDIODOCK = NOTIFY_EVENT_MMDOCK) := by decide
  simp only [dock_arm_events, List.mem_cons, List.mem_singleton, List.not_mem_nil,
    or_false] at he
  refine ⟨?_, ?_, ?_⟩
  · rcases he with h | h | h | h | h <;> subst h <;>
      simp only [otg_notify_state_switch, hsup, hen, h1, h2, h3, ne_eq, not_true_eq_false,
        not_false_eq_true, if_false, if_true]
  · rcases he with h | h | h | h | h <;> subst h <;>
      simp only [otg_notify_state_switch, hsup, hen, hhook, h1, h2, h3, host_state_notify,
        usb_notify.emit, apply_ite usb_notify.ndev_mode, ne_eq, not_true_eq_false,
        not_false_eq_true, if_false, if_true, ite_self]
  · rcases he with h | h | h | h | h <;> subst h <;>
      simp only [otg_notify_state_switch, hsup, hen, hhook, h1, h2, h3, host_state_notify,
        emit_trace, apply_ite usb_notify.trace, ne_eq, not_true_eq_false,
        not_false_eq_true, if_false, if_true, List.append_assoc] <;>
      (try split_ifs) <;> (try simp only [List.append_assoc]) <;> exact ⟨_, rfl, by simp⟩

/-! ### The block and unblock round trip -/

theorem emit_disable_state (u : usb_notify) (x : Effect) :
    (u.emit x).disable_state = u.disable_state := rfl

theorem same_control_refl (u : usb_notify) : same_control u u := ⟨rfl, rfl, rfl⟩

theorem same_control_trans {u v w : usb_notify} (h1 : same_control u v)
    (h2 : same_control v w) : same_control u w := by
  unfold same_control at *
  obtain ⟨a1, a2, a3⟩ := h1
  obtain ⟨b1, b2, b3⟩ := h2
  exact ⟨b1.trans a1, b2.trans a2, b3.trans a3⟩

theorem update_cable_status_same_control (u : usb_notify) (e : Nat) (v en st : Int) :
    same_control u (update_cable_status u e v en st) := by
  obtain ⟨ct, cs, tr, h⟩ := update_cable_status_frame u e v en st
  rw [h]
  exact ⟨rfl, rfl, rfl⟩

theorem otg_notify_state_start_same_control (u : usb_notify) (e t : Nat) (v en : Int) :
    same_control u (otg_notify_state_start u e t v en) := by
  obtain ⟨ct, cs, tr, h⟩ := otg_notify_state_start_frame u e t v en
  rw [h]
  exact ⟨rfl, rfl, rfl⟩

set_option maxHeartbeats 1000000 in
theorem otg_notify_state_switch_same_control (u : usb_notify) (e : Nat) (en v : Int)
    (p : Nat) : same_control u (otg_notify_state_switch u e en v p).1 := by
  unfold otg_notify_state_switch same_control
  split <;>
    simp only [apply_ite Prod.fst, apply_ite usb_notify.notifier_wq,
      apply_ite usb_notify.kmalloc_ok, apply_ite usb_notify.disable_state, emit_notifier_wq,
      emit_kmalloc_ok, emit_disable_state, send_usb_restrict_uevent, host_state_notify,
      send_external_notify, ite_self, and_self]

theorem otg_notify_state_after_switch_same_control (u : usb_notify) (e t : Nat) (en : Int)
    (p : Nat) : same_control u (otg_notify_state_after_switch u e t en p) := by
  unfold otg_notify_state_after_switch same_control
  simp only [apply_ite usb_notify.notifier_wq, apply_ite usb_notify.kmalloc_ok,
    apply_ite usb_notify.disable_state, emit_notifier_wq, emit_kmalloc_ok, emit_disable_state,
    send_external_notify, ite_self, and_self]

theorem otg_notify_state_after_switch_c_type (u : usb_notify) (e t : Nat) (en : Int)
    (p : Nat) :
    (otg_notify_state_after_switch u e t en p).c_type = u.c_type := by
  unfold otg_notify_state_after_switch
  simp only [apply_ite usb_notify.c_type, emit_c_type, send_external_notify, ite_self]

theorem update_cable_status_virtual_disable (u : usb_notify) (e : Nat) (st : Int) :
    update_cable_status u e 1 0 st =
      { u with c_status := if st ≠ 0 then NOTIFY_EVENT_BLOCKING else NOTIFY_EVENT_BLOCKED } := by
  unfold update_cable_status
  rw [if_neg (by decide), if_pos (by decide)]

theorem count_set_host_bookkeeping (l : List Effect) (b : Bool)
    (h : ∀ x ∈ l, is_bookkeeping_effect x = true) : l.count (Effect.set_host b) = 0 := by
  rw [List.count_eq_zero]
  intro hm
  have := h _ hm
  revert this
  simp [is_bookkeeping_effect]

theorem count_set_host_disable_effects (n : otg_notify) :
    (host_disable_effects n).count (Effect.set_host false) = (if n.set_host = true then 1 else 0)
    ∧ (host_disable_effects n).count (Effect.set_host true) = 0 := by
  unfold host_disable_effects
  constructor <;> split_ifs <;> simp [List.count_cons]

set_option maxHeartbeats 4000000 in
theorem otg_notify_state_switch_host_disable_any (w : usb_notify) (v : Int) (p : Nat)
    (hsup : w.o_notify.unsupport_host = 0) :
    (otg_notify_state_switch w NOTIFY_EVENT_HOST 0 v p).1.trace
      = w.trace ++ host_disable_effects w.o_notify := by
  cases ha : w.o_notify.auto_drive_vbus <;>
    simp only [otg_notify_state_switch, hsup, ha, reduceCtorEq, host_disable_effects,
      apply_ite Prod.fst, apply_ite usb_notify.trace, host_state_notify, emit_trace,
      ne_eq, not_true_eq_false, not_false_eq_true, if_false, if_true, ite_self, false_and,
      true_and, ite_append_right, List.append_assoc, List.append_nil, List.nil_append] <;>
    split_ifs <;> simp

/-- A virtual disable of Host on a model with host support, not blocked: the
host is torn down, the cable type stays and the status becomes Blocked. -/
theorem otg_notify_state_virtual_host_disable (s : usb_notify)
    (hsup : s.o_notify.unsupport_host = 0)
    (hbit : test_bit NOTIFY_BLOCK_TYPE_HOST s.udev_disable_state = false) :
    (otg_notify_state s (VIRT_EVENT NOTIFY_EVENT_HOST) 0).c_type = s.c_type
    ∧ (otg_notify_state s (VIRT_EVENT NOTIFY_EVENT_HOST) 0).c_status = NOTIFY_EVENT_BLOCKED
    ∧ (otg_notify_state s (VIRT_EVENT NOTIFY_EVENT_HOST) 0).udev_disable_state
        = s.udev_disable_state
    ∧ same_control s (otg_notify_state s (VIRT_EVENT NOTIFY_EVENT_HOST) 0)
    ∧ ∃ l, (otg_notify_state s (VIRT_EVENT NOTIFY_EVENT_HOST) 0).trace = s.trace ++ l
        ∧ l.count (Effect.set_host false) = (if s.o_notify.set_host = true then 1 else 0)
        ∧ l.count (Effect.set_host true) = 0 := by
  have hphy : PHY_EVENT (VIRT_EVENT NOTIFY_EVENT_HOST) = NOTIFY_EVENT_HOST := rfl
  have hvirt : IS_VIRTUAL (VIRT_EVENT NOTIFY_EVENT_HOST) = 1 := rfl
  have hns : check_event_type NOTIFY_EVENT_HOST &&& NOTIFY_EVENT_NOSAVE = 0 := by decide
  have hsup2 : (otg_notify_state_start s NOTIFY_EVENT_HOST
      (check_event_type NOTIFY_EVENT_HOST) 1 0).o_notify.unsupport_host = 0 := by
    rw [otg_notify_state_start_o_notify]; exact hsup
  have hx := otg_notify_state_switch_exit_teardown
    (otg_notify_state_start s NOTIFY_EVENT_HOST (check_event_type NOTIFY_EVENT_HOST) 1 0)
    NOTIFY_EVENT_HOST 1 s.c_type (by decide) (by decide) (by decide) hsup2
  have hsw := otg_notify_state_switch_host_disable_any
    (otg_notify_state_start s NOTIFY_EVENT_HOST (check_event_type NOTIFY_EVENT_HOST) 1 0)
    1 s.c_type hsup2
  obtain ⟨l2, hl2, hb2⟩ := otg_notify_state_after_switch_trace
    (otg_notify_state_switch
      (otg_notify_state_start s NOTIFY_EVENT_HOST (check_event_type NOTIFY_EVENT_HOST) 1 0)
      NOTIFY_EVENT_HOST 0 1 s.c_type).1
    NOTIFY_EVENT_HOST (check_event_type NOTIFY_EVENT_HOST) 0 s.c_type
  rw [otg_notify_state_eq_body, hphy, hvirt,
    otg_notify_state_body_of_brk s NOTIFY_EVENT_HOST 1 0 (by simp)
      (check_block_event_host_class s _ (Or.inl rfl) hbit) hx,
    update_cable_status_virtual_disable]
  refine ⟨?_, rfl, ?_, ?_, ?_⟩
  · show (otg_notify_state_after_switch _ _ _ _ _).c_type = _
    rw [otg_notify_state_after_switch_c_type, otg_notify_state_switch_c_type]
    have hc : (otg_notify_state_start s NOTIFY_EVENT_HOST
        (check_event_type NOTIFY_EVENT_HOST) 1 0).c_type = s.c_type := by
      unfold otg_notify_state_start
      rw [if_pos (by decide), update_cable_status_virtual_disable]
      rfl
    exact hc
  · show (otg_notify_state_after_switch _ _ _ _ _).udev_disable_state = _
    rw [otg_notify_state_after_switch_udev_disable_state,
      otg_notify_state_switch_udev_disable_state _ _ _ _ _ hns,
      otg_notify_state_start_udev_disable_state]
  · exact same_control_trans (otg_notify_state_start_same_control s _ _ 1 0)
      (same_control_trans (otg_notify_state_switch_same_control _ _ 0 1 s.c_type)
        (otg_notify_state_after_switch_same_control _ _ _ 0 s.c_type))
  · refine ⟨[Effect.store_usblog_notify_event NOTIFY_EVENT_HOST
        (start_log_status s NOTIFY_EVENT_HOST (check_event_type NOTIFY_EVENT_HOST) 1 0)]
        ++ host_disable_effects s.o_notify ++ l2, ?_, ?_, ?_⟩
    · show (otg_notify_state_after_switch _ _ _ _ _).trace = _
      rw [hl2, hsw, otg_notify_state_start_trace, otg_notify_state_start_o_notify]
      simp only [List.append_assoc]
    · rw [List.count_append, List.count_append, count_set_host_bookkeeping l2 _ hb2,
        (count_set_host_disable_effects s.o_notify).1]
      simp [List.count_cons]
    · rw [List.count_append, List.count_append, count_set_host_bookkeeping l2 _ hb2,
        (count_set_host_disable_effects s.o_notify).2]
      simp [List.count_cons]

set_option maxHeartbeats 4000000 in
theorem otg_notify_state_switch_host_enable_virtual (w : usb_notify) (en v : Int) (p : Nat)
    (hen : en ≠ 0) (hv : v ≠ 0) (hsup : w.o_notify.unsupport_host = 0)
    (hres : w.restricted = 0) :
    (otg_notify_state_switch w NOTIFY_EVENT_HOST en v p).2 = switch_exit.brk
    ∧ ∃ l, (otg_notify_state_switch w NOTIFY_EVENT_HOST en v p).1.trace = w.trace ++ l
        ∧ l.count (Effect.set_host true) = (if w.o_notify.set_host = true then 1 else 0)
        ∧ l.count (Effect.set_host false) = 0 := by
  constructor
  · simp only [otg_notify_state_switch, hsup, hres, hen, hv, apply_ite Prod.snd, ne_eq,
      not_true_eq_false, not_false_eq_true, if_false, if_true, ite_self, false_and, and_false,
      Bool.false_eq_true]
  · cases ha : w.o_notify.auto_drive_vbus <;>
      simp only [otg_notify_state_switch, hsup, hres, hen, hv, ha, reduceCtorEq,
        apply_ite Prod.fst, apply_ite usb_notify.trace, host_state_notify, emit_trace,
        ne_eq, not_true_eq_false, not_false_eq_true, if_false, if_true, ite_self, false_and,
        and_false, Bool.false_eq_true, ite_append_right, List.append_assoc, is_blocked,
        apply_ite usb_notify.typec_status_power_role, apply_ite usb_notify.reserve_vbus_booster,
        apply_ite usb_notify.udev_disable_state, emit_udev_disable_state,
        emit_typec_status_power_role, emit_reserve_vbus_booster] <;>
      split_ifs <;> simp [List.count_cons]

/-- A virtual enable of Host while the cable type needs host, on a model with
host support that is neither restricted nor blocked: the host is brought up
and the status becomes Enabled. -/
theorem otg_notify_state_virtual_host_enable (s : usb_notify)
    (hch : check_event_type s.c_type &&& NOTIFY_EVENT_NEED_HOST ≠ 0)
    (hsup : s.o_notify.unsupport_host = 0) (hres : s.restricted = 0)
    (hbit : test_bit NOTIFY_BLOCK_TYPE_HOST s.udev_disable_state = false) :
    (otg_notify_state s (VIRT_EVENT NOTIFY_EVENT_HOST) 1).c_type = NOTIFY_EVENT_HOST
    ∧ (otg_notify_state s (VIRT_EVENT NOTIFY_EVENT_HOST) 1).c_status = NOTIFY_EVENT_ENABLED
    ∧ (otg_notify_state s (VIRT_EVENT NOTIFY_EVENT_HOST) 1).udev_disable_state
        = s.udev_disable_state
    ∧ ∃ l, (otg_notify_state s (VIRT_EVENT NOTIFY_EVENT_HOST) 1).trace = s.trace ++ l
        ∧ l.count (Effect.set_host true) = (if s.o_notify.set_host = true then 1 else 0)
        ∧ l.count (Effect.set_host false) = 0 := by
  have hphy : PHY_EVENT (VIRT_EVENT NOTIFY_EVENT_HOST) = NOTIFY_EVENT_HOST := rfl
  have hvirt : IS_VIRTUAL (VIRT_EVENT NOTIFY_EVENT_HOST) = 1 := rfl
  have hns : check_event_type NOTIFY_EVENT_HOST &&& NOTIFY_EVENT_NOSAVE = 0 := by decide
  have h10 : (1 : Int) ≠ 0 := by decide
  have hnb : check_block_event s NOTIFY_EVENT_HOST = false :=
    check_block_event_host_class s _ (Or.inl rfl) hbit
  have hsup2 : (otg_notify_state_start s NOTIFY_EVENT_HOST
      (check_event_type NOTIFY_EVENT_HOST) 1 1).o_notify.unsupport_host = 0 := by
    rw [otg_notify_state_start_o_notify]; exact hsup
  have hres2 : (otg_notify_state_start s NOTIFY_EVENT_HOST
      (check_event_type NOTIFY_EVENT_HOST) 1 1).restricted = 0 := by
    rw [otg_notify_state_start_restricted]; exact hres
  obtain ⟨hx, l1, hl1, hc1, hc2⟩ := otg_notify_state_switch_host_enable_virtual
    (otg_notify_state_start s NOTIFY_EVENT_HOST (check_event_type NOTIFY_EVENT_HOST) 1 1)
    1 1 s.c_type h10 h10 hsup2 hres2
  rw [otg_notify_state_start_o_notify] at hc1
  rw [otg_notify_state_eq_body, hphy, hvirt,
    otg_notify_state_body_of_brk s NOTIFY_EVENT_HOST 1 1 (fun h => h.2.2.2 hch) hnb hx]
  refine ⟨update_cable_status_enable_c_type _ _ _ _ _ h10, ?_, ?_, ?_⟩
  · rw [update_cable_status_enable_allowed _ _ _ _ _ h10]
    · rfl
    · exact (@check_block_event_of_disable_state s _ NOTIFY_EVENT_HOST
        (by rw [otg_notify_state_after_switch_udev_disable_state,
              otg_notify_state_switch_udev_disable_state _ _ _ _ _ hns,
              otg_notify_state_start_udev_disable_state])).trans hnb
    · rw [otg_notify_state_after_switch_o_notify, otg_notify_state_switch_o_notify]
      exact hsup2
    · rw [otg_notify_state_after_switch_restricted, otg_notify_state_switch_restricted]
      exact hres2
  · rw [update_cable_status_udev_disable_state,
      otg_notify_state_after_switch_udev_disable_state,
      otg_notify_state_switch_udev_disable_state _ _ _ _ _ hns,
      otg_notify_state_start_udev_disable_state]
  · refine ⟨[Effect.store_usblog_notify_event NOTIFY_EVENT_HOST
        (start_log_status s NOTIFY_EVENT_HOST (check_event_type NOTIFY_EVENT_HOST) 1 1)]
        ++ l1, ?_, ?_, ?_⟩
    · rw [update_cable_status_trace, if_neg (fun h => h10 h.1),
        otg_notify_state_after_switch_host_enable_trace _ _ _ _ h10, hl1,
        otg_notify_state_start_trace]
      simp only [List.append_assoc, List.append_nil]
    · rw [List.count_append, hc1]
      simp [List.count_cons]
    · rw [List.count_append, hc2]
      simp [List.count_cons]

theorem otg_notify_state_drive_vbus_frame (u : usb_notify) (enable : Int) :
    (otg_notify_state u NOTIFY_EVENT_DRIVE_VBUS enable).c_type = u.c_type
    ∧ (otg_notify_state u NOTIFY_EVENT_DRIVE_VBUS enable).c_status = u.c_status
    ∧ (otg_notify_state u NOTIFY_EVENT_DRIVE_VBUS enable).udev_disable_state
        = u.udev_disable_state
    ∧ ∃ l, (otg_notify_state u NOTIFY_EVENT_DRIVE_VBUS enable).trace = u.trace ++ l
        ∧ ∀ b, l.count (Effect.set_host b) = 0 := by
  rw [otg_notify_state_drive_vbus]
  generalize (if enable ≠ 0 then NOTIFY_EVENT_ENABLING else NOTIFY_EVENT_DISABLING) = st
  refine ⟨?_, ?_, ?_, ?_⟩
  · simp only [otg_notify_state_switch, emit_o_notify, usb_notify.emit, apply_ite Prod.fst,
      apply_ite usb_notify.c_type, ite_self]
  · simp only [otg_notify_state_switch, emit_o_notify, usb_notify.emit, apply_ite Prod.fst,
      apply_ite usb_notify.c_status, ite_self]
  · simp only [otg_notify_state_switch, emit_o_notify, usb_notify.emit, apply_ite Prod.fst,
      apply_ite usb_notify.udev_disable_state, ite_self]
  · simp only [otg_notify_state_switch, emit_o_notify, emit_trace, apply_ite Prod.fst,
      apply_ite usb_notify.trace, usb_notify.emit, List.append_assoc]
    split_ifs <;> (try simp only [List.append_assoc]) <;>
      exact ⟨_, rfl, fun b => by simp [List.count_cons]⟩

/-- The two requests of a host block, run in order on a state with host
support and the host disable bit clear. -/
theorem host_block_requests (s : usb_notify)
    (hdc : s.o_notify.disable_control ≠ 0) (hsup : s.o_notify.unsupport_host = 0)
    (hbit : test_bit NOTIFY_BLOCK_TYPE_HOST s.udev_disable_state = false) :
    (otg_notify_state (otg_notify_state s (VIRT_EVENT NOTIFY_EVENT_HOST) 0)
        NOTIFY_EVENT_HOST_DISABLE 1).c_type = s.c_type
    ∧ (otg_notify_state (otg_notify_state s (VIRT_EVENT NOTIFY_EVENT_HOST) 0)
        NOTIFY_EVENT_HOST_DISABLE 1).c_status = NOTIFY_EVENT_BLOCKED
    ∧ test_bit NOTIFY_BLOCK_TYPE_HOST
        (otg_notify_state (otg_notify_state s (VIRT_EVENT NOTIFY_EVENT_HOST) 0)
          NOTIFY_EVENT_HOST_DISABLE 1).udev_disable_state = true
    ∧ (otg_notify_state (otg_notify_state s (VIRT_EVENT NOTIFY_EVENT_HOST) 0)
        NOTIFY_EVENT_HOST_DISABLE 1).o_notify = s.o_notify
    ∧ same_control s
        (otg_notify_state (otg_notify_state s (VIRT_EVENT NOTIFY_EVENT_HOST) 0)
          NOTIFY_EVENT_HOST_DISABLE 1)
    ∧ ∃ l, (otg_notify_state (otg_notify_state s (VIRT_EVENT NOTIFY_EVENT_HOST) 0)
          NOTIFY_EVENT_HOST_DISABLE 1).trace = s.trace ++ l
        ∧ l.count (Effect.set_host false) = (if s.o_notify.set_host = true then 1 else 0)
        ∧ l.count (Effect.set_host true) = 0 := by
  obtain ⟨a1, a2, _, a4, l, a5, a6, a7⟩ := otg_notify_state_virtual_host_disable s hsup hbit
  have ho : (otg_notify_state s (VIRT_EVENT NOTIFY_EVENT_HOST) 0).o_notify = s.o_notify :=
    otg_notify_state_o_notify _ _ _
  generalize otg_notify_state s (VIRT_EVENT NOTIFY_EVENT_HOST) 0 = w at *
  have h1 := otg_notify_state_host_disable_event w 1 (by rw [ho]; exact hdc)
  rw [if_pos (by decide)] at h1
  have f1 : (otg_notify_state w NOTIFY_EVENT_HOST_DISABLE 1).c_type = w.c_type := by
    rw [h1]; rfl
  have f2 : (otg_notify_state w NOTIFY_EVENT_HOST_DISABLE 1).c_status = w.c_status := by
    rw [h1]; rfl
  have f3 : (otg_notify_state w NOTIFY_EVENT_HOST_DISABLE 1).udev_disable_state
      = set_bit NOTIFY_BLOCK_TYPE_HOST
          (clear_bit NOTIFY_BLOCK_TYPE_CLIENT w.udev_disable_state) := by
    rw [h1]; rfl
  have f4 : same_control w (otg_notify_state w NOTIFY_EVENT_HOST_DISABLE 1) := by
    rw [h1]; exact ⟨rfl, rfl, rfl⟩
  have f5 : (otg_notify_state w NOTIFY_EVENT_HOST_DISABLE 1).trace = w.trace ++
      [Effect.store_usblog_notify_event NOTIFY_EVENT_HOST_DISABLE NOTIFY_EVENT_ENABLING,
       Effect.send_external_notify EXTERNAL_NOTIFY_HOSTBLOCK_PRE 1,
       Effect.send_external_notify EXTERNAL_NOTIFY_HOSTBLOCK_POST 1] := by
    rw [h1]
    simp only [send_external_notify, emit_trace, List.append_assoc, List.singleton_append,
      List.cons_append, List.nil_append]
  refine ⟨f1.trans a1, f2.trans a2, ?_, ?_, same_control_trans a4 f4, l ++
    [Effect.store_usblog_notify_event NOTIFY_EVENT_HOST_DISABLE NOTIFY_EVENT_ENABLING,
     Effect.send_external_notify EXTERNAL_NOTIFY_HOSTBLOCK_PRE 1,
     Effect.send_external_notify EXTERNAL_NOTIFY_HOSTBLOCK_POST 1], ?_, ?_, ?_⟩
  · rw [f3]; exact (test_bit_host_only _).1
  · rw [otg_notify_state_o_notify]; exact ho
  · rw [f5, a5, List.append_assoc]
  · rw [List.count_append, a6]
    simp [List.count_cons]
  · rw [List.count_append, a7]
    simp [List.count_cons]

/-- The requests of an unblock, run in order on a state whose cable type needs
host, with host support and the restricted flag clear: AllDisable(0), an
optional DriveVbus(1), and the virtual enable of Host. -/
theorem host_unblock_requests (s x2 : usb_notify)
    (hdc : s.o_notify.disable_control ≠ 0) (hsup : s.o_notify.unsupport_host = 0)
    (hres : s.restricted = 0)
    (hch : check_event_type s.c_type &&& NOTIFY_EVENT_NEED_HOST ≠ 0)
    (hx2 : x2 = otg_notify_state s NOTIFY_EVENT_ALL_DISABLE 0
      ∨ x2 = otg_notify_state (otg_notify_state s NOTIFY_EVENT_ALL_DISABLE 0)
              NOTIFY_EVENT_DRIVE_VBUS 1) :
    (otg_notify_state x2 (VIRT_EVENT NOTIFY_EVENT_HOST) 1).c_type = NOTIFY_EVENT_HOST
    ∧ (otg_notify_state x2 (VIRT_EVENT NOTIFY_EVENT_HOST) 1).c_status = NOTIFY_EVENT_ENABLED
    ∧ test_bit NOTIFY_BLOCK_TYPE_HOST
        (otg_notify_state x2 (VIRT_EVENT NOTIFY_EVENT_HOST) 1).udev_disable_state = false
    ∧ test_bit NOTIFY_BLOCK_TYPE_CLIENT
        (otg_notify_state x2 (VIRT_EVENT NOTIFY_EVENT_HOST) 1).udev_disable_state = false
    ∧ ∃ l, (otg_notify_state x2 (VIRT_EVENT NOTIFY_EVENT_HOST) 1).trace = s.trace ++ l
        ∧ l.count (Effect.set_host true) = (if s.o_notify.set_host = true then 1 else 0)
        ∧ l.count (Effect.set_host false) = 0 := by
  have h1 := otg_notify_state_all_disable_event s 0 hdc
  rw [if_neg (by decide)] at h1
  have f1 : (otg_notify_state s NOTIFY_EVENT_ALL_DISABLE 0).c_type = s.c_type := by
    rw [h1]; rfl
  have f2 : (otg_notify_state s NOTIFY_EVENT_ALL_DISABLE 0).udev_disable_state
      = clear_bit NOTIFY_BLOCK_TYPE_CLIENT
          (clear_bit NOTIFY_BLOCK_TYPE_HOST s.udev_disable_state) := by
    rw [h1]; rfl
  have f3 : (otg_notify_state s NOTIFY_EVENT_ALL_DISABLE 0).trace = s.trace ++
      [Effect.store_usblog_notify_event NOTIFY_EVENT_ALL_DISABLE NOTIFY_EVENT_DISABLING,
       Effect.send_external_notify EXTERNAL_NOTIFY_HOSTBLOCK_PRE 0,
       Effect.send_external_notify EXTERNAL_NOTIFY_HOSTBLOCK_POST 0] := by
    rw [h1]
    simp only [send_external_notify, emit_trace, List.append_assoc, List.singleton_append,
      List.cons_append, List.nil_append]
  have g : x2.c_type = s.c_type
      ∧ x2.udev_disable_state = clear_bit NOTIFY_BLOCK_TYPE_CLIENT
          (clear_bit NOTIFY_BLOCK_TYPE_HOST s.udev_disable_state)
      ∧ x2.o_notify = s.o_notify ∧ x2.restricted = s.restricted
      ∧ ∃ l, x2.trace = s.trace ++ l ∧ ∀ b, l.count (Effect.set_host b) = 0 := by
    rcases hx2 with h | h
    · rw [h]
      exact ⟨f1, f2, otg_notify_state_o_notify _ _ _, otg_notify_state_restricted _ _ _,
        [Effect.store_usblog_notify_event NOTIFY_EVENT_ALL_DISABLE NOTIFY_EVENT_DISABLING,
         Effect.send_external_notify EXTERNAL_NOTIFY_HOSTBLOCK_PRE 0,
         Effect.send_external_notify EXTERNAL_NOTIFY_HOSTBLOCK_POST 0], f3, fun b => by simp [List.count_cons]⟩
    · obtain ⟨d1, _, d3, l, d4, d5⟩ := otg_notify_state_drive_vbus_frame
        (otg_notify_state s NOTIFY_EVENT_ALL_DISABLE 0) 1
      rw [h]
      refine ⟨d1.trans f1, d3.trans f2, ?_, ?_,
        [Effect.store_usblog_notify_event NOTIFY_EVENT_ALL_DISABLE NOTIFY_EVENT_DISABLING,
         Effect.send_external_notify EXTERNAL_NOTIFY_HOSTBLOCK_PRE 0,
         Effect.send_external_notify EXTERNAL_NOTIFY_HOSTBLOCK_POST 0] ++ l, ?_, ?_⟩
      · rw [otg_notify_state_o_notify, otg_notify_state_o_notify]
      · rw [otg_notify_state_restricted, otg_notify_state_restricted]
      · rw [d4, f3, List.append_assoc]
      · intro b
        rw [List.count_append, d5 b]
        simp [List.count_cons]
  obtain ⟨g1, g2, g3, g4, l, g5, g6⟩ := g
  obtain ⟨r1, r2, r3, l', r4, r5, r6⟩ := otg_notify_state_virtual_host_enable x2
    (by rw [g1]; exact hch) (by rw [g3]; exact hsup) (by rw [g4]; exact hres)
    (by rw [g2]; exact test_bit_host_clear _)
  refine ⟨r1, r2, ?_, ?_, l ++ l', ?_, ?_, ?_⟩
  · rw [r3, g2]; exact test_bit_host_clear _
  · rw [r3, g2]; exact test_bit_client_clear _
  · rw [r4, g5, List.append_assoc]
  · rw [List.count_append, g6 true, r5, g3, Nat.zero_add]
  · rw [List.count_append, g6 false, r6]

theorem set_notify_disable_host_enabled (u : usb_notify)
    (hdc : u.o_notify.disable_control ≠ 0) (hct : u.c_type = NOTIFY_EVENT_HOST)
    (hcs : u.c_status = NOTIFY_EVENT_ENABLED)
    (hds : u.disable_state ≠ ((NOTIFY_BLOCK_TYPE_HOST : Nat) : Int))
    (hk : u.kmalloc_ok = true) :
    set_notify_disable u ((NOTIFY_BLOCK_TYPE_HOST : Nat) : Int) =
      { u with
        disable_state := ((NOTIFY_BLOCK_TYPE_HOST : Nat) : Int),
        trace := u.trace ++
          [Effect.send_external_notify EXTERNAL_NOTIFY_HOSTBLOCK_EARLY 1,
           Effect.atomic_notifier_call_chain (VIRT_EVENT NOTIFY_EVENT_HOST) 0,
           Effect.atomic_notifier_call_chain NOTIFY_EVENT_HOST_DISABLE 1,
           Effect.store_usblog_notify_event NOTIFY_EVENT_HOST_DISABLE NOTIFY_EVENT_BLOCKED],
        notifier_wq := u.notifier_wq ++
          [{ event := VIRT_EVENT NOTIFY_EVENT_HOST, enable := 0 },
           { event := NOTIFY_EVENT_HOST_DISABLE, enable := 1 }] } := by
  have hHA : ¬ (((NOTIFY_BLOCK_TYPE_HOST : Nat) : Int) = ((NOTIFY_BLOCK_TYPE_ALL : Nat) : Int)) := by
    decide
  have t1 : check_event_type NOTIFY_EVENT_HOST &&& NOTIFY_EVENT_NEED_HOST ≠ 0 := by decide
  have t2 : ¬ (check_event_type NOTIFY_EVENT_HOST &&& NOTIFY_EVENT_NEED_CLIENT ≠ 0) := by decide
  have q1 := fun s en => send_otg_notify_chain_virtual extra_notifier_callback s
    NOTIFY_EVENT_HOST en (by decide)
  have q2 := fun s en => send_otg_notify_chain_queue extra_notifier_callback s
    NOTIFY_EVENT_HOST_DISABLE en (by decide) (by decide) (by decide) (by decide)
  unfold set_notify_disable
  dsimp only
  rw [if_neg (not_not_intro hdc), if_neg hds, if_neg hHA, if_pos rfl]
  simp only [is_host_cable_enable, is_client_cable_block, send_otg_notify,
    send_external_notify, emit_c_type, emit_c_status, hct, hcs, t1, t2, q1, q2, emit_kmalloc_ok,
    hk, if_true, usb_notify.emit, List.append_assoc, List.singleton_append, List.cons_append,
    List.nil_append, true_and, false_and, or_true, true_or, decide_True, decide_False,
    not_false_eq_true, ne_eq, not_true_eq_false, Bool.false_eq_true, if_false]

theorem set_notify_disable_none_blocked (v : usb_notify)
    (hdc : v.o_notify.disable_control ≠ 0) (hsup : v.o_notify.unsupport_host = 0)
    (hct : v.c_type = NOTIFY_EVENT_HOST) (hcs : v.c_status = NOTIFY_EVENT_BLOCKED)
    (hds : v.disable_state ≠ ((NOTIFY_BLOCK_TYPE_NONE : Nat) : Int))
    (hk : v.kmalloc_ok = true) :
    set_notify_disable v ((NOTIFY_BLOCK_TYPE_NONE : Nat) : Int) =
      { v with
        disable_state := ((NOTIFY_BLOCK_TYPE_NONE : Nat) : Int),
        restricted := (if v.restricted ≠ 0 then 0 else v.restricted),
        skip_possible_usb := (if v.skip_possible_usb ≠ 0 then 0 else v.skip_possible_usb),
        trace := v.trace ++
          ([Effect.send_external_notify EXTERNAL_NOTIFY_HOSTBLOCK_EARLY 0,
            Effect.atomic_notifier_call_chain NOTIFY_EVENT_ALL_DISABLE 0,
            Effect.store_usblog_notify_event NOTIFY_EVENT_ALL_DISABLE NOTIFY_EVENT_DISABLED]
           ++ (if v.o_notify.auto_drive_vbus = NOTIFY_OP_OFF
                  ∧ v.typec_status_power_role = HNOTIFY_SOURCE then
                [Effect.atomic_notifier_call_chain NOTIFY_EVENT_DRIVE_VBUS 1] else [])
           ++ [Effect.atomic_notifier_call_chain (VIRT_EVENT NOTIFY_EVENT_HOST) 1]
           ++ (if v.skip_possible_usb ≠ 0 then
                [Effect.send_external_notify EXTERNAL_NOTIFY_POSSIBLE_USB 1] else [])),
        notifier_wq := v.notifier_wq ++
          ([{ event := NOTIFY_EVENT_ALL_DISABLE, enable := 0 }]
           ++ (if v.o_notify.auto_drive_vbus = NOTIFY_OP_OFF
                  ∧ v.typec_status_power_role = HNOTIFY_SOURCE then
                [{ event := NOTIFY_EVENT_DRIVE_VBUS, enable := 1 }] else [])
           ++ [{ event := VIRT_EVENT NOTIFY_EVENT_HOST, enable := 1 }]) } := by
  have hNA : ¬ (((NOTIFY_BLOCK_TYPE_NONE : Nat) : Int) = ((NOTIFY_BLOCK_TYPE_ALL : Nat) : Int)) := by
    decide
  have hNH : ¬ (((NOTIFY_BLOCK_TYPE_NONE : Nat) : Int) = ((NOTIFY_BLOCK_TYPE_HOST : Nat) : Int)) := by
    decide
  have hNC : ¬ (((NOTIFY_BLOCK_TYPE_NONE : Nat) : Int)
      = ((NOTIFY_BLOCK_TYPE_CLIENT : Nat) : Int)) := by decide
  have t1 : check_event_type NOTIFY_EVENT_HOST &&& NOTIFY_EVENT_NEED_HOST ≠ 0 := by decide
  have t2 : ¬ (check_event_type NOTIFY_EVENT_HOST &&& NOTIFY_EVENT_NEED_CLIENT ≠ 0) := by decide
  have t3 : check_event_type NOTIFY_EVENT_HOST &&& NOTIFY_EVENT_NEED_VBUSDRIVE ≠ 0 := by decide
  have q1 := fun s en => send_otg_notify_chain_virtual extra_notifier_callback s
    NOTIFY_EVENT_HOST en (by decide)
  have q2 := fun s en => send_otg_notify_chain_queue extra_notifier_callback s
    NOTIFY_EVENT_ALL_DISABLE en (by decide) (by decide) (by decide) (by decide)
  have q3 := fun s en => send_otg_notify_chain_queue extra_notifier_callback s
    NOTIFY_EVENT_DRIVE_VBUS en (by decide) (by decide) (by decide) (by decide)
  unfold set_notify_disable
  dsimp only
  rw [if_neg (not_not_intro hdc), if_neg hds, if_neg hNA, if_neg hNH, if_neg hNC, if_pos rfl]
  by_cases hD : v.o_notify.auto_drive_vbus = NOTIFY_OP_OFF
      ∧ v.typec_status_power_role = HNOTIFY_SOURCE <;>
  by_cases hr : v.restricted ≠ 0 <;>
  by_cases hs : v.skip_possible_usb ≠ 0 <;>
  simp only [is_host_cable_block, is_client_cable_block, send_otg_notify,
    send_external_notify, emit_c_type, emit_c_status, emit_o_notify, hct, hcs, hsup, t1, t2, t3,
    q1, q2, q3, hD, hr, hs,
    emit_kmalloc_ok, emit_typec_status_power_role, emit_skip_possible_usb,
    hk, if_true, usb_notify.emit, List.append_assoc, List.singleton_append, List.cons_append,
    List.nil_append, List.append_nil, true_and, false_and, and_true, and_false, or_true, true_or,
    decide_True, decide_False, not_false_eq_true, ne_eq, not_true_eq_false, Bool.false_eq_true,
    if_false, apply_ite usb_notify.c_type, apply_ite usb_notify.c_status,
    apply_ite usb_notify.o_notify, apply_ite usb_notify.kmalloc_ok,
    apply_ite usb_notify.typec_status_power_role, apply_ite usb_notify.skip_possible_usb,
    ite_self]

/-- A host block requested on an enabled Host connection, with the worker
running the queued requests. -/
theorem set_notify_disable_run_host (u : usb_notify)
    (hdc : u.o_notify.disable_control ≠ 0) (hsup : u.o_notify.unsupport_host = 0)
    (hct : u.c_type = NOTIFY_EVENT_HOST) (hcs : u.c_status = NOTIFY_EVENT_ENABLED)
    (hds : u.disable_state ≠ ((NOTIFY_BLOCK_TYPE_HOST : Nat) : Int))
    (hbit : test_bit NOTIFY_BLOCK_TYPE_HOST u.udev_disable_state = false)
    (hq : u.notifier_wq = []) (hk : u.kmalloc_ok = true) :
    (set_notify_disable_run u ((NOTIFY_BLOCK_TYPE_HOST : Nat) : Int)).c_type = NOTIFY_EVENT_HOST
    ∧ (set_notify_disable_run u ((NOTIFY_BLOCK_TYPE_HOST : Nat) : Int)).c_status
        = NOTIFY_EVENT_BLOCKED
    ∧ test_bit NOTIFY_BLOCK_TYPE_HOST
        (set_notify_disable_run u ((NOTIFY_BLOCK_TYPE_HOST : Nat) : Int)).udev_disable_state
        = true
    ∧ (set_notify_disable_run u ((NOTIFY_BLOCK_TYPE_HOST : Nat) : Int)).o_notify = u.o_notify
    ∧ (set_notify_disable_run u ((NOTIFY_BLOCK_TYPE_HOST : Nat) : Int)).disable_state
        = ((NOTIFY_BLOCK_TYPE_HOST : Nat) : Int)
    ∧ (set_notify_disable_run u ((NOTIFY_BLOCK_TYPE_HOST : Nat) : Int)).notifier_wq = []
    ∧ (set_notify_disable_run u ((NOTIFY_BLOCK_TYPE_HOST : Nat) : Int)).kmalloc_ok = true
    ∧ ∃ l, (set_notify_disable_run u ((NOTIFY_BLOCK_TYPE_HOST : Nat) : Int)).trace
          = u.trace ++ l
        ∧ l.count (Effect.set_host false) = (if u.o_notify.set_host = true then 1 else 0)
        ∧ l.count (Effect.set_host true) = 0 := by
  have S := set_notify_disable_host_enabled u hdc hct hcs hds hk
  have fq : (set_notify_disable u ((NOTIFY_BLOCK_TYPE_HOST : Nat) : Int)).notifier_wq =
      [{ event := VIRT_EVENT NOTIFY_EVENT_HOST, enable := 0 },
       { event := NOTIFY_EVENT_HOST_DISABLE, enable := 1 }] := by
    rw [S]; show u.notifier_wq ++ _ = _; rw [hq]; rfl
  have ft : (set_notify_disable u ((NOTIFY_BLOCK_TYPE_HOST : Nat) : Int)).trace = u.trace ++
      [Effect.send_external_notify EXTERNAL_NOTIFY_HOSTBLOCK_EARLY 1,
       Effect.atomic_notifier_call_chain (VIRT_EVENT NOTIFY_EVENT_HOST) 0,
       Effect.atomic_notifier_call_chain NOTIFY_EVENT_HOST_DISABLE 1,
       Effect.store_usblog_notify_event NOTIFY_EVENT_HOST_DISABLE NOTIFY_EVENT_BLOCKED] := by
    rw [S]
  have fc : (set_notify_disable u ((NOTIFY_BLOCK_TYPE_HOST : Nat) : Int)).c_type
      = NOTIFY_EVENT_HOST := by rw [S]; exact hct
  have fo : (set_notify_disable u ((NOTIFY_BLOCK_TYPE_HOST : Nat) : Int)).o_notify
      = u.o_notify := by rw [S]
  have fu : (set_notify_disable u ((NOTIFY_BLOCK_TYPE_HOST : Nat) : Int)).udev_disable_state
      = u.udev_disable_state := by rw [S]
  have fk : (set_notify_disable u ((NOTIFY_BLOCK_TYPE_HOST : Nat) : Int)).kmalloc_ok = true := by
    rw [S]; exact hk
  have fd : (set_notify_disable u ((NOTIFY_BLOCK_TYPE_HOST : Nat) : Int)).disable_state
      = ((NOTIFY_BLOCK_TYPE_HOST : Nat) : Int) := by rw [S]
  clear S
  unfold set_notify_disable_run flush_workqueue
  generalize set_notify_disable u ((NOTIFY_BLOCK_TYPE_HOST : Nat) : Int) = R at *
  rw [fq]
  simp only [List.foldl_cons, List.foldl_nil, otg_notify_work]
  obtain ⟨b1, b2, b3, b4, ⟨b5, b6, b7⟩, l, b8, b9, b10⟩ :=
    host_block_requests { R with notifier_wq := [] }
      (by show R.o_notify.disable_control ≠ 0; rw [fo]; exact hdc)
      (by show R.o_notify.unsupport_host = 0; rw [fo]; exact hsup)
      (by show test_bit NOTIFY_BLOCK_TYPE_HOST R.udev_disable_state = false; rw [fu]; exact hbit)
  refine ⟨b1.trans fc, b2, b3, b4.trans fo, b7.trans fd, b5, b6.trans fk,
    [Effect.send_external_notify EXTERNAL_NOTIFY_HOSTBLOCK_EARLY 1,
     Effect.atomic_notifier_call_chain (VIRT_EVENT NOTIFY_EVENT_HOST) 0,
     Effect.atomic_notifier_call_chain NOTIFY_EVENT_HOST_DISABLE 1,
     Effect.store_usblog_notify_event NOTIFY_EVENT_HOST_DISABLE NOTIFY_EVENT_BLOCKED] ++ l,
    ?_, ?_, ?_⟩
  · rw [b8]
    show R.trace ++ l = _
    rw [ft, List.append_assoc]
  · rw [List.count_append, b9]
    show _ + (if R.o_notify.set_host = true then 1 else 0) = _
    rw [fo]
    simp [List.count_cons]
  · rw [List.count_append, b10]
    simp [List.count_cons]

/-- The block lifted on a blocked Host connection, with the worker running the
queued requests. -/
theorem set_notify_disable_run_none (v : usb_notify)
    (hdc : v.o_notify.disable_control ≠ 0) (hsup : v.o_notify.unsupport_host = 0)
    (hct : v.c_type = NOTIFY_EVENT_HOST) (hcs : v.c_status = NOTIFY_EVENT_BLOCKED)
    (hds : v.disable_state ≠ ((NOTIFY_BLOCK_TYPE_NONE : Nat) : Int))
    (hq : v.notifier_wq = []) (hk : v.kmalloc_ok = true) :
    (set_notify_disable_run v ((NOTIFY_BLOCK_TYPE_NONE : Nat) : Int)).c_type = NOTIFY_EVENT_HOST
    ∧ (set_notify_disable_run v ((NOTIFY_BLOCK_TYPE_NONE : Nat) : Int)).c_status
        = NOTIFY_EVENT_ENABLED
    ∧ test_bit NOTIFY_BLOCK_TYPE_HOST
        (set_notify_disable_run v ((NOTIFY_BLOCK_TYPE_NONE : Nat) : Int)).udev_disable_state
        = false
    ∧ test_bit NOTIFY_BLOCK_TYPE_CLIENT
        (set_notify_disable_run v ((NOTIFY_BLOCK_TYPE_NONE : Nat) : Int)).udev_disable_state
        = false
    ∧ ∃ l, (set_notify_disable_run v ((NOTIFY_BLOCK_TYPE_NONE : Nat) : Int)).trace
          = v.trace ++ l
        ∧ Effect.atomic_notifier_call_chain (VIRT_EVENT NOTIFY_EVENT_HOST) 1 ∈ l
        ∧ l.count (Effect.set_host true) = (if v.o_notify.set_host = true then 1 else 0)
        ∧ l.count (Effect.set_host false) = 0 := by
  have S := set_notify_disable_none_blocked v hdc hsup hct hcs hds hk
  have fq : (set_notify_disable v ((NOTIFY_BLOCK_TYPE_NONE : Nat) : Int)).notifier_wq =
      [{ event := NOTIFY_EVENT_ALL_DISABLE, enable := 0 }]
        ++ (if v.o_notify.auto_drive_vbus = NOTIFY_OP_OFF
                ∧ v.typec_status_power_role = HNOTIFY_SOURCE then
              [{ event := NOTIFY_EVENT_DRIVE_VBUS, enable := 1 }] else [])
        ++ [{ event := VIRT_EVENT NOTIFY_EVENT_HOST, enable := 1 }] := by
    rw [S]; show v.notifier_wq ++ _ = _; rw [hq]; rfl
  have ft : (set_notify_disable v ((NOTIFY_BLOCK_TYPE_NONE : Nat) : Int)).trace = v.trace ++
      ([Effect.send_external_notify EXTERNAL_NOTIFY_HOSTBLOCK_EARLY 0,
        Effect.atomic_notifier_call_chain NOTIFY_EVENT_ALL_DISABLE 0,
        Effect.store_usblog_notify_event NOTIFY_EVENT_ALL_DISABLE NOTIFY_EVENT_DISABLED]
       ++ (if v.o_notify.auto_drive_vbus = NOTIFY_OP_OFF
              ∧ v.typec_status_power_role = HNOTIFY_SOURCE then
            [Effect.atomic_notifier_call_chain NOTIFY_EVENT_DRIVE_VBUS 1] else [])
       ++ [Effect.atomic_notifier_call_chain (VIRT_EVENT NOTIFY_EVENT_HOST) 1]
       ++ (if v.skip_possible_usb ≠ 0 then
            [Effect.send_external_notify EXTERNAL_NOTIFY_POSSIBLE_USB 1] else [])) := by
    rw [S]
  have fc : (set_notify_disable v ((NOTIFY_BLOCK_TYPE_NONE : Nat) : Int)).c_type
      = NOTIFY_EVENT_HOST := by rw [S]; exact hct
  have fo : (set_notify_disable v ((NOTIFY_BLOCK_TYPE_NONE : Nat) : Int)).o_notify
      = v.o_notify := by rw [S]
  have fr : (set_notify_disable v ((NOTIFY_BLOCK_TYPE_NONE : Nat) : Int)).restricted = 0 := by
    rw [S]
    show (if v.restricted ≠ 0 then 0 else v.restricted) = 0
    split_ifs with h
    · rfl
    · exact not_not.1 h
  clear S
  unfold set_notify_disable_run flush_workqueue
  generalize set_notify_disable v ((NOTIFY_BLOCK_TYPE_NONE : Nat) : Int) = R at *
  have hcount : ∀ b, List.count (Effect.set_host b)
      ([Effect.send_external_notify EXTERNAL_NOTIFY_HOSTBLOCK_EARLY 0,
        Effect.atomic_notifier_call_chain NOTIFY_EVENT_ALL_DISABLE 0,
        Effect.store_usblog_notify_event NOTIFY_EVENT_ALL_DISABLE NOTIFY_EVENT_DISABLED]
       ++ (if v.o_notify.auto_drive_vbus = NOTIFY_OP_OFF
              ∧ v.typec_status_power_role = HNOTIFY_SOURCE then
            [Effect.atomic_notifier_call_chain NOTIFY_EVENT_DRIVE_VBUS 1] else [])
       ++ [Effect.atomic_notifier_call_chain (VIRT_EVENT NOTIFY_EVENT_HOST) 1]
       ++ (if v.skip_possible_usb ≠ 0 then
            [Effect.send_external_notify EXTERNAL_NOTIFY_POSSIBLE_USB 1] else [])) = 0 := by
    intro b
    split_ifs <;> simp [List.count_cons]
  obtain ⟨L0, ft0, hc0, hm0⟩ : ∃ L0, R.trace = v.trace ++ L0
      ∧ (∀ b, List.count (Effect.set_host b) L0 = 0)
      ∧ Effect.atomic_notifier_call_chain (VIRT_EVENT NOTIFY_EVENT_HOST) 1 ∈ L0 :=
    ⟨_, ft, hcount, by simp only [List.mem_append, List.mem_singleton, true_or, or_true]⟩
  have key : ∀ x2 : usb_notify,
      (x2 = otg_notify_state { R with notifier_wq := [] } NOTIFY_EVENT_ALL_DISABLE 0
        ∨ x2 = otg_notify_state
            (otg_notify_state { R with notifier_wq := [] } NOTIFY_EVENT_ALL_DISABLE 0)
            NOTIFY_EVENT_DRIVE_VBUS 1) →
      (otg_notify_state x2 (VIRT_EVENT NOTIFY_EVENT_HOST) 1).c_type = NOTIFY_EVENT_HOST
      ∧ (otg_notify_state x2 (VIRT_EVENT NOTIFY_EVENT_HOST) 1).c_status = NOTIFY_EVENT_ENABLED
      ∧ test_bit NOTIFY_BLOCK_TYPE_HOST
          (otg_notify_state x2 (VIRT_EVENT NOTIFY_EVENT_HOST) 1).udev_disable_state = false
      ∧ test_bit NOTIFY_BLOCK_TYPE_CLIENT
          (otg_notify_state x2 (VIRT_EVENT NOTIFY_EVENT_HOST) 1).udev_disable_state = false
      ∧ ∃ l, (otg_notify_state x2 (VIRT_EVENT NOTIFY_EVENT_HOST) 1).trace = v.trace ++ l
          ∧ Effect.atomic_notifier_call_chain (VIRT_EVENT NOTIFY_EVENT_HOST) 1 ∈ l
          ∧ l.count (Effect.set_host true) = (if v.o_notify.set_host = true then 1 else 0)
          ∧ l.count (Effect.set_host false) = 0 := by
    intro x2 hx2
    obtain ⟨b1, b2, b3, b4, l, b5, b6, b7⟩ :=
      host_unblock_requests { R with notifier_wq := [] } x2
        (by show R.o_notify.disable_control ≠ 0; rw [fo]; exact hdc)
        (by show R.o_notify.unsupport_host = 0; rw [fo]; exact hsup)
        (by show R.restricted = 0; exact fr)
        (by show check_event_type R.c_type &&& NOTIFY_EVENT_NEED_HOST ≠ 0; rw [fc]; decide)
        hx2
    refine ⟨b1, b2, b3, b4, L0 ++ l, ?_, ?_, ?_, ?_⟩
    · rw [b5]
      show R.trace ++ l = _
      rw [ft0, List.append_assoc]
    · exact List.mem_append_left _ hm0
    · rw [List.count_append, hc0 true, b6, Nat.zero_add]
      show (if R.o_notify.set_host = true then 1 else 0) = _
      rw [fo]
    · rw [List.count_append, hc0 false, b7]
  rw [fq]
  by_cases hD : v.o_notify.auto_drive_vbus = NOTIFY_OP_OFF
      ∧ v.typec_status_power_role = HNOTIFY_SOURCE
  · rw [if_pos hD]
    simp only [List.singleton_append, List.cons_append, List.nil_append, List.foldl_cons,
      List.foldl_nil, otg_notify_work]
    exact key _ (Or.inr rfl)
  · rw [if_neg hD]
    simp only [List.singleton_append, List.cons_append, List.nil_append, List.append_nil,
      List.foldl_cons, List.foldl_nil, otg_notify_work]
    exact key _ (Or.inl rfl)

/-! ## The claims -/

/-- C1: block enforcement. Whenever the disable bitmask blocks the (base) event
of a request and the event is not NoBlocking, `otg_notify_state` calls none of
the hardware hooks set_host, set_peripheral, vbus_drive, set_charger,
set_lanhubta; and with the host disable bit set an enable request for Host ends
with cable type Host, status Blocked, and no `set_host(true)` call. -/
theorem block_enforcement (u : usb_notify) :
    (∀ (ev : Nat) (enable : Int), disable_bits_block u (PHY_EVENT ev) →
        check_event_type (PHY_EVENT ev) &&& NOTIFY_EVENT_NOBLOCKING = 0 →
        ∀ x ∈ effects_since u (otg_notify_state u ev enable), is_hw_hook x = false)
    ∧ (test_bit NOTIFY_BLOCK_TYPE_HOST u.udev_disable_state = true →
        ∀ enable : Int, enable ≠ 0 →
          (otg_notify_state u NOTIFY_EVENT_HOST enable).c_type = NOTIFY_EVENT_HOST
          ∧ (otg_notify_state u NOTIFY_EVENT_HOST enable).c_status = NOTIFY_EVENT_BLOCKED
          ∧ Effect.set_host true ∉
              effects_since u (otg_notify_state u NOTIFY_EVENT_HOST enable)) := by
  have part1 : ∀ (ev : Nat) (enable : Int), disable_bits_block u (PHY_EVENT ev) →
        check_event_type (PHY_EVENT ev) &&& NOTIFY_EVENT_NOBLOCKING = 0 →
        ∀ x ∈ effects_since u (otg_notify_state u ev enable), is_hw_hook x = false := by
    intro ev enable hb hnb
    obtain ⟨l, hl, hP⟩ := otg_notify_state_blocked_trace u ev enable hb hnb
    rw [effects_since_of_append hl]
    exact hP
  refine ⟨part1, ?_⟩
  intro hbit enable hen
  have hdb : disable_bits_block u (PHY_EVENT NOTIFY_EVENT_HOST) :=
    Or.inl ⟨hbit, by decide⟩
  have hcb : ∀ v : usb_notify, v.udev_disable_state = u.udev_disable_state →
      check_block_event v NOTIFY_EVENT_HOST = true := by
    intro v hv
    simp only [check_block_event, hv, hbit, true_and, decide_eq_true_eq]
    exact Or.inl (by decide)
  have hphy : PHY_EVENT NOTIFY_EVENT_HOST = NOTIFY_EVENT_HOST := by decide
  have hvirt : IS_VIRTUAL NOTIFY_EVENT_HOST = 0 := by decide
  have hfinal : otg_notify_state u NOTIFY_EVENT_HOST enable =
      update_cable_status
        (do_notify_blockstate
          (otg_notify_state_start u NOTIFY_EVENT_HOST (check_event_type NOTIFY_EVENT_HOST) 0 enable)
          NOTIFY_EVENT_HOST (check_event_type NOTIFY_EVENT_HOST) enable).1
        NOTIFY_EVENT_HOST 0 enable 0 := by
    unfold otg_notify_state
    dsimp only
    rw [hphy, hvirt]
    rw [if_neg (by simp)]
    rw [if_pos ⟨hcb _ (otg_notify_state_start_udev_disable_state _ _ _ _ _), by decide⟩]
    rw [if_neg (by
      rw [do_notify_blockstate_ret _ _ _ _ (by decide)]
      simp)]
  refine ⟨?_, ?_, ?_⟩
  · rw [hfinal]; exact update_cable_status_enable_c_type _ _ _ _ _ hen
  · rw [hfinal, update_cable_status_enable_blocked _ _ _ _ _ hen
      (hcb _ (by rw [do_notify_blockstate_udev_disable_state,
        otg_notify_state_start_udev_disable_state]))]
    simp
  · intro hmem
    have := part1 NOTIFY_EVENT_HOST enable hdb (by decide) _ hmem
    simp [is_hw_hook] at this

/-- Witness of `block_enforcement`: the initial state with the host disable bit
set and a registered `set_host` hook, request to enable Host. -/
theorem block_enforcement_witness :
    (otg_notify_state { udev_disable_state := 2, o_notify := { set_host := true } }
        NOTIFY_EVENT_HOST 1).c_type = NOTIFY_EVENT_HOST
    ∧ (otg_notify_state { udev_disable_state := 2, o_notify := { set_host := true } }
        NOTIFY_EVENT_HOST 1).c_status = NOTIFY_EVENT_BLOCKED
    ∧ Effect.set_host true ∉
        effects_since { udev_disable_state := 2, o_notify := { set_host := true } }
          (otg_notify_state { udev_disable_state := 2, o_notify := { set_host := true } }
            NOTIFY_EVENT_HOST 1) :=
  (block_enforcement { udev_disable_state := 2, o_notify := { set_host := true } }).2
    (by decide) 1 (by decide)

/-- C2: status computation of `update_cable_status`. On a request that is not
blocked, enable stores the event as cable type with status Enabling (start) or
Enabled (commit); a virtual disable stores Blocking / Blocked and keeps the
cable type; a non virtual disable stores cable type None with Disabling /
Disabled. -/
theorem update_cable_status_computation (u : usb_notify) (e : Nat)
    (virtual enable start : Int) :
    (enable ≠ 0 → check_block_event u e = false →
        ¬ (check_event_type e &&& NOTIFY_EVENT_NEED_HOST ≠ 0 ∧
            (u.o_notify.unsupport_host ≠ 0 ∨ u.restricted ≠ 0)) →
        (update_cable_status u e virtual enable start).c_type = e ∧
        (update_cable_status u e virtual enable start).c_status =
          (if start ≠ 0 then NOTIFY_EVENT_ENABLING else NOTIFY_EVENT_ENABLED))
    ∧ (enable = 0 → virtual ≠ 0 →
        (update_cable_status u e virtual enable start).c_status =
          (if start ≠ 0 then NOTIFY_EVENT_BLOCKING else NOTIFY_EVENT_BLOCKED) ∧
        (update_cable_status u e virtual enable start).c_type = u.c_type)
    ∧ (enable = 0 → virtual = 0 →
        (update_cable_status u e virtual enable start).c_type = NOTIFY_EVENT_NONE ∧
        (update_cable_status u e virtual enable start).c_status =
          (if start ≠ 0 then NOTIFY_EVENT_DISABLING else NOTIFY_EVENT_DISABLED)) := by
  refine ⟨?_, ?_, ?_⟩
  · intro hen hb hh
    have hb2 : check_block_event { u with c_type := e } e = false := hb
    unfold update_cable_status
    simp only [hen, not_false_eq_true, if_true, ne_eq]
    rw [if_neg]
    · exact ⟨rfl, rfl⟩
    · rintro (h | h)
      · rw [hb2] at h; exact Bool.noConfusion h
      · exact hh h
  · intro hen hv
    unfold update_cable_status
    simp [hen, hv]
  · intro hen hv
    unfold update_cable_status
    simp only [hen, hv, ne_eq, not_true_eq_false, if_false]
    split <;> simp_all [send_usb_restrict_uevent, usb_notify.emit]

/-- Witness of `update_cable_status_computation`: the start phase of an enable
of Vbus in the initial state, which nothing blocks. -/
theorem update_cable_status_computation_witness :
    (1 : Int) ≠ 0
    ∧ check_block_event {} NOTIFY_EVENT_VBUS = false
    ∧ (update_cable_status {} NOTIFY_EVENT_VBUS 0 1 1).c_type = NOTIFY_EVENT_VBUS
    ∧ (update_cable_status {} NOTIFY_EVENT_VBUS 0 1 1).c_status =
        (if (1 : Int) ≠ 0 then NOTIFY_EVENT_ENABLING else NOTIFY_EVENT_ENABLED) :=
  ⟨(by decide), (by decide),
   (update_cable_status_computation {} NOTIFY_EVENT_VBUS 0 1 1).1
      (by decide) (by decide) (by decide)⟩

/-- C3: block rules of `update_cable_status`. With enable set the stored status
is the blocked one of the phase exactly when the event needs host and the host
disable bit is set, or needs client and the client disable bit is set, or needs
host while the model does not support host or the restricted flag is set;
otherwise it is Enabling / Enabled. -/
theorem update_cable_status_block_rules (u : usb_notify) (e : Nat)
    (virtual enable start : Int) (hen : enable ≠ 0) :
    ((update_cable_status u e virtual enable start).c_status =
        (if start ≠ 0 then NOTIFY_EVENT_BLOCKING else NOTIFY_EVENT_BLOCKED)
      ↔ block_rules u e)
    ∧ (¬ block_rules u e →
        (update_cable_status u e virtual enable start).c_status =
          (if start ≠ 0 then NOTIFY_EVENT_ENABLING else NOTIFY_EVENT_ENABLED)) := by
  have hcb : check_block_event { u with c_type := e } e = check_block_event u e := rfl
  by_cases hb : block_rules u e
  · have hc : check_block_event u e = true ∨
        (check_event_type e &&& NOTIFY_EVENT_NEED_HOST ≠ 0 ∧
          (u.o_notify.unsupport_host ≠ 0 ∨ u.restricted ≠ 0)) := by
      rcases hb with h | h | h
      · left; simp [check_block_event, h.1, h.2]
      · left; simp [check_block_event, h.1, h.2]
      · right; exact h
    have : (update_cable_status u e virtual enable start).c_status =
        (if start ≠ 0 then NOTIFY_EVENT_BLOCKING else NOTIFY_EVENT_BLOCKED) := by
      unfold update_cable_status
      simp only [hen, ne_eq, not_false_eq_true, if_true, hcb]
      rw [if_pos hc]
    exact ⟨⟨fun _ => hb, fun _ => this⟩, fun h => absurd hb h⟩
  · have hc : ¬ (check_block_event u e = true ∨
        (check_event_type e &&& NOTIFY_EVENT_NEED_HOST ≠ 0 ∧
          (u.o_notify.unsupport_host ≠ 0 ∨ u.restricted ≠ 0))) := by
      rintro (h | h)
      · apply hb
        simp only [check_block_event, decide_eq_true_eq] at h
        rcases h with h | h
        · exact Or.inl ⟨h.2, h.1⟩
        · exact Or.inr (Or.inl ⟨h.2, h.1⟩)
      · exact hb (Or.inr (Or.inr h))
    have : (update_cable_status u e virtual enable start).c_status =
        (if start ≠ 0 then NOTIFY_EVENT_ENABLING else NOTIFY_EVENT_ENABLED) := by
      unfold update_cable_status
      simp only [hen, ne_eq, not_false_eq_true, if_true, hcb]
      rw [if_neg hc]
    refine ⟨⟨fun h => ?_, fun h => absurd h hb⟩, fun _ => this⟩
    rw [this] at h
    split at h <;> simp at h

/-- Witness of `update_cable_status_block_rules`: the commit phase of an enable
of Host with the host disable bit set. -/
theorem update_cable_status_block_rules_witness :
    ((update_cable_status { udev_disable_state := 2 } NOTIFY_EVENT_HOST 0 1 0).c_status =
        (if (0 : Int) ≠ 0 then NOTIFY_EVENT_BLOCKING else NOTIFY_EVENT_BLOCKED)
      ↔ block_rules { udev_disable_state := 2 } NOTIFY_EVENT_HOST)
    ∧ (¬ block_rules { udev_disable_state := 2 } NOTIFY_EVENT_HOST →
        (update_cable_status { udev_disable_state := 2 } NOTIFY_EVENT_HOST 0 1 0).c_status =
          (if (0 : Int) ≠ 0 then NOTIFY_EVENT_ENABLING else NOTIFY_EVENT_ENABLED)) :=
  update_cable_status_block_rules { udev_disable_state := 2 } NOTIFY_EVENT_HOST 0 1 0 (by decide)

/-- C10: `check_event_type` is total and agrees with the documented
classification table on every event identifier, the identifiers without a
`case` of their own (Charger, None, unknown values) getting exactly State. -/
theorem check_event_type_eq_documented (e : Nat) :
    check_event_type e = documented_event_type e := by
  by_cases h : e < 41
  · interval_cases e <;> rfl
  · have h41 : 41 ≤ e := by omega
    rw [check_event_type_of_ge_virtual e h41]
    have hne : ∀ k : Nat, k < 41 → e ≠ k := fun k hk => by omega
    simp [documented_event_type, hne, NOTIFY_EVENT_OVERCURRENT, NOTIFY_EVENT_VBUSPOWER,
      NOTIFY_EVENT_SMSC_OVC, NOTIFY_EVENT_SMTD_EXT_CURRENT, NOTIFY_EVENT_MMD_EXT_CURRENT,
      NOTIFY_EVENT_HMD_EXT_CURRENT, NOTIFY_EVENT_DEVICE_CONNECT, NOTIFY_EVENT_GAMEPAD_CONNECT,
      NOTIFY_EVENT_LANHUB_CONNECT, NOTIFY_EVENT_POWER_SOURCE, NOTIFY_EVENT_PD_CONTRACT,
      NOTIFY_EVENT_VBUS_RESET, NOTIFY_EVENT_RESERVE_BOOSTER, NOTIFY_EVENT_USB_CABLE,
      NOTIFY_EVENT_USBD_SUSPENDED, NOTIFY_EVENT_USBD_UNCONFIGURED, NOTIFY_EVENT_USBD_CONFIGURED,
      NOTIFY_EVENT_DR_SWAP, NOTIFY_EVENT_REVERSE_BYPASS_DEVICE_CONNECT,
      NOTIFY_EVENT_REVERSE_BYPASS_DEVICE_ATTACH, NOTIFY_EVENT_VBUS, NOTIFY_EVENT_SMARTDOCK_USB,
      NOTIFY_EVENT_HOST, NOTIFY_EVENT_HMT, NOTIFY_EVENT_GAMEPAD, NOTIFY_EVENT_POGO,
      NOTIFY_EVENT_HOST_RELOAD, NOTIFY_EVENT_ALL_DISABLE, NOTIFY_EVENT_HOST_DISABLE,
      NOTIFY_EVENT_CLIENT_DISABLE, NOTIFY_EVENT_MDM_ON_OFF, NOTIFY_EVENT_MDM_ON_OFF_FOR_ID,
      NOTIFY_EVENT_MDM_ON_OFF_FOR_SERIAL, NOTIFY_EVENT_DRIVE_VBUS, NOTIFY_EVENT_LANHUB_TA,
      NOTIFY_EVENT_SMARTDOCK_TA, NOTIFY_EVENT_AUDIODOCK, NOTIFY_EVENT_LANHUB,
      NOTIFY_EVENT_MMDOCK]



/-- C4: settled status invariant. A request that finds a settled status
(Enabled, Blocked, Disabled) leaves a settled status; and whenever the start
phase writes its status (the request is not dropped by the virtual replay guard
and the event is not NoSave), that status is a starting one and the request
returns with its settled counterpart, written by the commit phase. -/
theorem settled_status_invariant (u : usb_notify) (ev : Nat) (enable : Int) :
    (settled u.c_status → settled (otg_notify_state u ev enable).c_status)
    ∧ (¬ virtual_replay_mismatch u ev enable →
        check_event_type (PHY_EVENT ev) &&& NOTIFY_EVENT_NOSAVE = 0 →
        (otg_notify_state_start u (PHY_EVENT ev) (check_event_type (PHY_EVENT ev))
            (IS_VIRTUAL ev) enable).c_status =
          (update_cable_status u (PHY_EVENT ev) (IS_VIRTUAL ev) enable 1).c_status
        ∧ starting (update_cable_status u (PHY_EVENT ev) (IS_VIRTUAL ev) enable 1).c_status
        ∧ (otg_notify_state u ev enable).c_status =
            settle (update_cable_status u (PHY_EVENT ev) (IS_VIRTUAL ev) enable 1).c_status) := by
  have hc := update_cable_status_commit_settle u (PHY_EVENT ev) (IS_VIRTUAL ev) enable
  refine ⟨fun hs => ?_, fun hg hns => ⟨?_, hc.2.1, ?_⟩⟩
  · rcases otg_notify_state_c_status_cases u ev enable with h | h
    · rw [h.1]; exact hs
    · rw [h]; exact hc.2.2
  · unfold otg_notify_state_start
    rw [if_pos (by simpa using hns)]
    rfl
  · rcases otg_notify_state_c_status_cases u ev enable with h | h
    · rcases h.2 with h2 | h2
      · exact absurd h2 hg
      · exact absurd hns h2
    · rw [h]; exact hc.1

/-- Witness of `settled_status_invariant`: the initial state (status Disabled)
and a request to enable Vbus. -/
theorem settled_status_invariant_witness :
    settled ({} : usb_notify).c_status
    ∧ settled (otg_notify_state {} NOTIFY_EVENT_VBUS 1).c_status
    ∧ (otg_notify_state {} NOTIFY_EVENT_VBUS 1).c_status =
        settle (update_cable_status {} (PHY_EVENT NOTIFY_EVENT_VBUS)
          (IS_VIRTUAL NOTIFY_EVENT_VBUS) 1 1).c_status :=
  ⟨Or.inr (Or.inr rfl),
   (settled_status_invariant {} NOTIFY_EVENT_VBUS 1).1 (Or.inr (Or.inr rfl)),
   ((settled_status_invariant {} NOTIFY_EVENT_VBUS 1).2 (by decide) (by decide)).2.2⟩

/-- C5 (the code at the failing input): LanhubTA is classified NoSave, yet an
enable request for it in the initial state (cable type None, status Disabled)
returns with LanhubTA stored as the cable type and status Enabled: the arm
leaves the `switch` by `break` and runs into the commit at the label `err`. -/
theorem nosave_lanhub_ta_is_saved :
    check_event_type NOTIFY_EVENT_LANHUB_TA &&& NOTIFY_EVENT_NOSAVE ≠ 0
    ∧ ({} : usb_notify).c_type = NOTIFY_EVENT_NONE
    ∧ ({} : usb_notify).c_status = NOTIFY_EVENT_DISABLED
    ∧ (otg_notify_state {} NOTIFY_EVENT_LANHUB_TA 1).c_type = NOTIFY_EVENT_LANHUB_TA
    ∧ (otg_notify_state {} NOTIFY_EVENT_LANHUB_TA 1).c_status = NOTIFY_EVENT_ENABLED := by
  decide



/-- C7: host round trip. On a model with host support and the host disable bit
clear, a non virtual enable of Host followed by a non virtual disable of Host
leaves cable type None, status Disabled, host mode none, and the counters
`allowlist_restricted`, `cond_hshub`, `cond_sshub` at zero. -/
theorem host_round_trip (u : usb_notify) (enable : Int) (hen : enable ≠ 0)
    (hsup : u.o_notify.unsupport_host = 0)
    (hbit : test_bit NOTIFY_BLOCK_TYPE_HOST u.udev_disable_state = false) :
    (otg_notify_state (otg_notify_state u NOTIFY_EVENT_HOST enable) NOTIFY_EVENT_HOST 0).c_type
        = NOTIFY_EVENT_NONE
    ∧ (otg_notify_state (otg_notify_state u NOTIFY_EVENT_HOST enable)
        NOTIFY_EVENT_HOST 0).c_status = NOTIFY_EVENT_DISABLED
    ∧ (otg_notify_state (otg_notify_state u NOTIFY_EVENT_HOST enable)
        NOTIFY_EVENT_HOST 0).ndev_mode = NOTIFY_NONE_MODE
    ∧ (otg_notify_state (otg_notify_state u NOTIFY_EVENT_HOST enable)
        NOTIFY_EVENT_HOST 0).allowlist_restricted = 0
    ∧ (otg_notify_state (otg_notify_state u NOTIFY_EVENT_HOST enable)
        NOTIFY_EVENT_HOST 0).cond_hshub = 0
    ∧ (otg_notify_state (otg_notify_state u NOTIFY_EVENT_HOST enable)
        NOTIFY_EVENT_HOST 0).cond_sshub = 0 := by
  have _ := hen
  apply otg_notify_state_host_disable
  · rw [otg_notify_state_o_notify]; exact hsup
  · rw [otg_notify_state_udev_disable_state _ _ _ (by decide)]; exact hbit

/-- Witness of `host_round_trip`: a state with stale counters and a registered
`set_host` hook. -/
theorem host_round_trip_witness :
    (1 : Int) ≠ 0
    ∧ (otg_notify_state (otg_notify_state round_trip_state NOTIFY_EVENT_HOST 1)
        NOTIFY_EVENT_HOST 0).c_type = NOTIFY_EVENT_NONE
    ∧ (otg_notify_state (otg_notify_state round_trip_state NOTIFY_EVENT_HOST 1)
        NOTIFY_EVENT_HOST 0).allowlist_restricted = 0 :=
  ⟨(by decide),
   (host_round_trip round_trip_state 1 (by decide) (by decide) (by decide)).1,
   (host_round_trip round_trip_state 1 (by decide) (by decide) (by decide)).2.2.2.1⟩



/-- C6: idempotence of host enable. On a model with host support, with the
host disable bit clear and the restricted flag clear, after a non virtual enable
of Host that was carried out (the cable type before it was not of the host
class), a second non virtual enable of Host, Hmt or Gamepad calls none of
`set_host`, `vbus_drive`, `host_state_notify`, the redriver GPIO; the number of
`set_host(true)` calls does not change, it is 1 when the hook is registered;
and the state ends with that event as cable type and status Enabled. -/
theorem host_enable_idempotent (u : usb_notify) (e : Nat) (en1 en2 : Int)
    (hen1 : en1 ≠ 0) (hen2 : en2 ≠ 0)
    (he : e = NOTIFY_EVENT_HOST ∨ e = NOTIFY_EVENT_HMT ∨ e = NOTIFY_EVENT_GAMEPAD)
    (hsup : u.o_notify.unsupport_host = 0)
    (hbit : test_bit NOTIFY_BLOCK_TYPE_HOST u.udev_disable_state = false)
    (hres : u.restricted = 0)
    (hfirst : check_same_event_type u.c_type NOTIFY_EVENT_HOST = false) :
    (∀ x ∈ effects_since (otg_notify_state u NOTIFY_EVENT_HOST en1)
        (otg_notify_state (otg_notify_state u NOTIFY_EVENT_HOST en1) e en2),
        is_host_effect x = false)
    ∧ (effects_since u (otg_notify_state (otg_notify_state u NOTIFY_EVENT_HOST en1) e en2)).count
          (Effect.set_host true)
        = (effects_since u (otg_notify_state u NOTIFY_EVENT_HOST en1)).count
          (Effect.set_host true)
    ∧ (u.o_notify.set_host = true →
        (effects_since u (otg_notify_state (otg_notify_state u NOTIFY_EVENT_HOST en1) e en2)).count
          (Effect.set_host true) = 1)
    ∧ (otg_notify_state (otg_notify_state u NOTIFY_EVENT_HOST en1) e en2).c_type = e
    ∧ (otg_notify_state (otg_notify_state u NOTIFY_EVENT_HOST en1) e en2).c_status
        = NOTIFY_EVENT_ENABLED := by
  -- the first request
  have hx1 := otg_notify_state_switch_host_enable_trace
    (otg_notify_state_start u NOTIFY_EVENT_HOST (check_event_type NOTIFY_EVENT_HOST) 0 en1)
    NOTIFY_EVENT_HOST en1 u.c_type (Or.inl rfl) hen1
    (by rw [otg_notify_state_start_o_notify]; exact hsup)
    (by rw [otg_notify_state_start_restricted]; exact hres) hfirst
  obtain ⟨hexit1, l1, hl1, hcount1⟩ := hx1
  rw [otg_notify_state_start_o_notify] at hcount1
  have hs1 := otg_notify_state_of_brk u NOTIFY_EVENT_HOST en1 (by decide)
    (check_block_event_host_class u _ (Or.inl rfl) hbit) hexit1
  have htr1 : (otg_notify_state u NOTIFY_EVENT_HOST en1).trace =
      u.trace ++ (Effect.store_usblog_notify_event NOTIFY_EVENT_HOST
        (start_log_status u NOTIFY_EVENT_HOST (check_event_type NOTIFY_EVENT_HOST) 0 en1)
        :: l1) := by
    rw [hs1, update_cable_status_trace,
      otg_notify_state_after_switch_host_enable_trace _ _ _ _ hen1, hl1,
      otg_notify_state_start_trace, if_neg (by simp [hen1]), List.append_nil,
      List.append_assoc]
    rfl
  have hct1 : (otg_notify_state u NOTIFY_EVENT_HOST en1).c_type = NOTIFY_EVENT_HOST := by
    rw [hs1]; exact update_cable_status_enable_c_type _ _ _ _ _ hen1
  have hsup1 : (otg_notify_state u NOTIFY_EVENT_HOST en1).o_notify.unsupport_host = 0 := by
    rw [otg_notify_state_o_notify]; exact hsup
  have hres1 : (otg_notify_state u NOTIFY_EVENT_HOST en1).restricted = 0 := by
    rw [otg_notify_state_restricted]; exact hres
  have hbit1 : test_bit NOTIFY_BLOCK_TYPE_HOST
      (otg_notify_state u NOTIFY_EVENT_HOST en1).udev_disable_state = false := by
    rw [otg_notify_state_udev_disable_state _ _ _ (by decide)]; exact hbit
  -- the second request
  generalize otg_notify_state u NOTIFY_EVENT_HOST en1 = s1 at htr1 hct1 hsup1 hres1 hbit1 ⊢
  have hlt : e < NOTIFY_EVENT_VIRTUAL := by
    rcases he with h | h | h <;> subst h <;> decide
  have hsame : check_same_event_type s1.c_type e = true := by
    rw [hct1]
    rcases he with h | h | h <;> subst h <;> decide
  have hnb2 := check_block_event_host_class s1 e he hbit1
  have hx2 := otg_notify_state_switch_host_same_type
    (otg_notify_state_start s1 e (check_event_type e) 0 en2) e en2 s1.c_type he hen2
    (by rw [otg_notify_state_start_o_notify]; exact hsup1) hsame
  have hs2 := otg_notify_state_of_err s1 e en2 hlt hnb2 hx2.1
  have htr2 : (otg_notify_state s1 e en2).trace =
      s1.trace ++ [Effect.store_usblog_notify_event e
        (start_log_status s1 e (check_event_type e) 0 en2)] := by
    rw [hs2, update_cable_status_trace, hx2.2, otg_notify_state_start_trace,
      if_neg (by simp [hen2]), List.append_nil]
  have hcount2 : (effects_since u (otg_notify_state s1 e en2)).count (Effect.set_host true)
      = (effects_since u s1).count (Effect.set_host true) := by
    rw [effects_since_of_append htr1,
      effects_since_of_append (show (otg_notify_state s1 e en2).trace = u.trace ++ _ by
        rw [htr2, htr1, List.append_assoc])]
    simp [List.count_cons]
  refine ⟨?_, hcount2, ?_, ?_, ?_⟩
  · rw [effects_since_of_append htr2]
    intro x hx
    rw [List.mem_singleton] at hx
    subst hx
    rfl
  · intro hhook
    rw [hcount2, effects_since_of_append htr1]
    simp [List.count_cons, hcount1, hhook]
  · rw [hs2]; exact update_cable_status_enable_c_type _ _ _ _ _ hen2
  · rw [hs2, update_cable_status_enable_allowed _ _ _ _ _ hen2]
    · simp
    · rw [check_block_event_of_disable_state _
        (otg_notify_state_switch_udev_disable_state _ _ _ _ _
          (by rcases he with h | h | h <;> subst h <;> decide)),
        check_block_event_of_disable_state _ (otg_notify_state_start_udev_disable_state _ _ _ _ _)]
      exact hnb2
    · rw [otg_notify_state_switch_o_notify, otg_notify_state_start_o_notify]; exact hsup1
    · rw [otg_notify_state_switch_restricted, otg_notify_state_start_restricted]; exact hres1

/-- Witness of `host_enable_idempotent`: a registered `set_host` hook, automatic
vbus drive before `set_host`, first Host then Gamepad. -/
theorem host_enable_idempotent_witness :
    (effects_since idempotence_state
        (otg_notify_state (otg_notify_state idempotence_state NOTIFY_EVENT_HOST 1)
          NOTIFY_EVENT_GAMEPAD 1)).count (Effect.set_host true) = 1
    ∧ (otg_notify_state (otg_notify_state idempotence_state NOTIFY_EVENT_HOST 1)
          NOTIFY_EVENT_GAMEPAD 1).c_type = NOTIFY_EVENT_GAMEPAD
    ∧ (otg_notify_state (otg_notify_state idempotence_state NOTIFY_EVENT_HOST 1)
          NOTIFY_EVENT_GAMEPAD 1).c_status = NOTIFY_EVENT_ENABLED :=
  ⟨(host_enable_idempotent idempotence_state NOTIFY_EVENT_GAMEPAD 1 1 (by decide) (by decide)
      (Or.inr (Or.inr rfl)) (by decide) (by decide) (by decide) (by decide)).2.2.1 (by decide),
   (host_enable_idempotent idempotence_state NOTIFY_EVENT_GAMEPAD 1 1 (by decide) (by decide)
      (Or.inr (Or.inr rfl)) (by decide) (by decide) (by decide) (by decide)).2.2.2⟩



/-- C8: boot delay reservation. While the boot gate is closed
(`booting_delay_sec` is not 0) a request for an event classified both Delay and
State calls neither notifier chain, queues no work and changes no field of the
state except the reservation slot, which becomes the event for an enable and
None for a disable; of two consecutive deferred requests the slot keeps the
value of the later one. -/
theorem boot_delay_reservation (u : usb_notify) (e : Nat) (enable : Int)
    (hgate : u.o_notify.booting_delay_sec ≠ 0) (hds : delay_and_state e) :
    (∀ x ∈ effects_since u (send_otg_notify u e enable), is_chain_call x = false)
    ∧ (send_otg_notify u e enable).notifier_wq = u.notifier_wq
    ∧ (send_otg_notify u e enable).b_delay_reserve_state =
        (if enable ≠ 0 then e else NOTIFY_EVENT_NONE)
    ∧ send_otg_notify u e enable =
        { u with b_delay_reserve_state := (send_otg_notify u e enable).b_delay_reserve_state,
                 trace := (send_otg_notify u e enable).trace }
    ∧ (∀ (e2 : Nat) (en2 : Int), delay_and_state e2 →
        (send_otg_notify (send_otg_notify u e enable) e2 en2).b_delay_reserve_state =
          (if en2 ≠ 0 then e2 else NOTIFY_EVENT_NONE)) := by
  have h1 := send_otg_notify_deferred u e enable hgate hds
  refine ⟨?_, ?_, ?_, ?_, ?_⟩
  · rw [effects_since_of_append (show (send_otg_notify u e enable).trace = u.trace ++ _ by
      rw [h1])]
    intro x hx
    unfold deferred_effects at hx
    simp only [List.mem_append] at hx
    rcases hx with hx | hx <;> split_ifs at hx <;> simp at hx <;> subst hx <;> rfl
  · rw [h1]
  · rw [h1]
  · rw [h1]
  · intro e2 en2 hds2
    have hgate2 : (send_otg_notify u e enable).o_notify.booting_delay_sec ≠ 0 := by
      rw [h1]; exact hgate
    rw [send_otg_notify_deferred _ e2 en2 hgate2 hds2]

/-- Witness of `boot_delay_reservation`: gate closed, request to enable Vbus. -/
theorem boot_delay_reservation_witness :
    delay_and_state NOTIFY_EVENT_VBUS
    ∧ (send_otg_notify gate_closed_state NOTIFY_EVENT_VBUS 1).b_delay_reserve_state =
        (if (1 : Int) ≠ 0 then NOTIFY_EVENT_VBUS else NOTIFY_EVENT_NONE)
    ∧ (send_otg_notify gate_closed_state NOTIFY_EVENT_VBUS 1).notifier_wq =
        gate_closed_state.notifier_wq :=
  ⟨(by decide),
   (boot_delay_reservation gate_closed_state NOTIFY_EVENT_VBUS 1 (by decide) (by decide)).2.2.1,
   (boot_delay_reservation gate_closed_state NOTIFY_EVENT_VBUS 1 (by decide) (by decide)).2.1⟩



/-- C9: replay exactly once. The run of `reserve_state_check` that opens the
gate (`booting_delay_sync_usb` is 0) sets `booting_delay_sec` to 0, empties the
slot and calls the state notifier chain exactly once, with enable, for the
reserved event when the slot was not None, and not at all otherwise; a second
run calls no chain; of two deferred requests only the later one is replayed;
and an enable of Vbus deferred before the gate opens leads, once the worker
has run, to one `set_peripheral(true)` call, also after a second run. -/
theorem replay_exactly_once (u : usb_notify)
    (hsync : u.o_notify.booting_delay_sync_usb = 0) :
    (reserve_state_check u).o_notify.booting_delay_sec = 0
    ∧ (reserve_state_check u).b_delay_reserve_state = NOTIFY_EVENT_NONE
    ∧ (slot_reserved u.b_delay_reserve_state →
        (effects_since u (reserve_state_check u)).filter is_chain_call =
          (if u.b_delay_reserve_state ≠ NOTIFY_EVENT_NONE then
            [Effect.atomic_notifier_call_chain u.b_delay_reserve_state 1] else []))
    ∧ ((effects_since (reserve_state_check u)
          (reserve_state_check (reserve_state_check u))).filter is_chain_call = []
        ∧ (reserve_state_check (reserve_state_check u)).notifier_wq
            = (reserve_state_check u).notifier_wq)
    ∧ (∀ (e1 e2 : Nat) (en1 en2 : Int), u.o_notify.booting_delay_sec ≠ 0 →
        delay_and_state e1 → delay_and_state e2 →
        (effects_since u (reserve_state_check
            (send_otg_notify (send_otg_notify u e1 en1) e2 en2))).filter is_chain_call =
          (if en2 ≠ 0 then [Effect.atomic_notifier_call_chain e2 1] else []))
    ∧ (∀ en : Int, en ≠ 0 → u.o_notify.booting_delay_sec ≠ 0 → u.kmalloc_ok = true →
        u.notifier_wq = [] →
        test_bit NOTIFY_BLOCK_TYPE_CLIENT u.udev_disable_state = false →
        u.o_notify.set_peripheral = true →
        (effects_since u (flush_workqueue (reserve_state_check
            (send_otg_notify u NOTIFY_EVENT_VBUS en)))).count (Effect.set_peripheral true) = 1
        ∧ (effects_since u (flush_workqueue (reserve_state_check
            (flush_workqueue (reserve_state_check
              (send_otg_notify u NOTIFY_EVENT_VBUS en)))))).count
              (Effect.set_peripheral true) = 1) := by
  have hopen := reserve_state_check_open u hsync
  have hsync2 : (reserve_state_check u).o_notify.booting_delay_sync_usb = 0 := by
    rw [hopen]; exact hsync
  have hslot2 : (reserve_state_check u).b_delay_reserve_state = NOTIFY_EVENT_NONE := by
    rw [hopen]
  refine ⟨by rw [hopen], hslot2, ?_, ⟨?_, ?_⟩, ?_, ?_⟩
  · intro hres
    rw [effects_since_of_append (reserve_state_check_trace u hsync), List.filter_append,
      filter_chain_replay, filter_chain_possible, List.append_nil,
      replay_calls_of_reserved _ hres]
  · rw [effects_since_of_append (reserve_state_check_trace _ hsync2), hslot2,
      List.filter_append, filter_chain_replay, filter_chain_possible, List.append_nil]
    unfold replay_calls
    rw [if_neg (by simp)]
  · rw [reserve_state_check_open _ hsync2, hslot2]
    show (reserve_state_check u).notifier_wq ++ replay_work _ NOTIFY_EVENT_NONE = _
    unfold replay_work
    rw [if_neg (by simp), List.append_nil]
  · intro e1 e2 en1 en2 hgate hd1 hd2
    have h1 := send_otg_notify_deferred u e1 en1 hgate hd1
    generalize send_otg_notify u e1 en1 = a at h1 ⊢
    have hgate1 : a.o_notify.booting_delay_sec ≠ 0 := by rw [h1]; exact hgate
    have h2 := send_otg_notify_deferred a e2 en2 hgate1 hd2
    generalize send_otg_notify a e2 en2 = b at h2 ⊢
    have hsb : b.o_notify.booting_delay_sync_usb = 0 := by rw [h2, h1]; exact hsync
    have hslotb : b.b_delay_reserve_state = (if en2 ≠ 0 then e2 else NOTIFY_EVENT_NONE) := by
      rw [h2]
    have htb : b.trace = u.trace ++ (deferred_effects u e1 en1 ++ deferred_effects a e2 en2) := by
      rw [h2]
      show a.trace ++ deferred_effects a e2 en2 = _
      rw [h1, List.append_assoc]
    have hresb : slot_reserved b.b_delay_reserve_state := by
      rw [hslotb]
      split_ifs
      · exact Or.inr hd2
      · exact Or.inl rfl
    have hne : e2 ≠ NOTIFY_EVENT_NONE := by
      intro h; rw [h] at hd2; revert hd2; decide
    rw [effects_since_of_append (show (reserve_state_check b).trace = u.trace ++ _ by
        rw [reserve_state_check_trace b hsb, htb, List.append_assoc]),
      List.filter_append, List.filter_append, List.filter_append, filter_chain_deferred,
      filter_chain_deferred, filter_chain_replay, filter_chain_possible,
      replay_calls_of_reserved _ hresb, hslotb]
    by_cases hen2 : en2 = 0
    · simp [hen2]
    · simp [hen2, hne]
  · intro en hen hgate hk hq hbit hhook
    obtain ⟨l, hl, hcount, hslotc, hqc, hsyncc⟩ :=
      vbus_replay_run u en hen hsync hgate hk hq hbit
    rw [if_pos hhook] at hcount
    generalize flush_workqueue (reserve_state_check (send_otg_notify u NOTIFY_EVENT_VBUS en))
      = c at hl hslotc hqc hsyncc ⊢
    refine ⟨by rw [effects_since_of_append hl]; exact hcount, ?_⟩
    rw [effects_since_of_append (show (flush_workqueue (reserve_state_check c)).trace
        = u.trace ++ (l ++ possible_usb_effects c) by
      rw [idle_gate_run c hsyncc hslotc hqc, hl, List.append_assoc]),
      List.count_append, count_peripheral_possible, hcount]

/-- Witness of `replay_exactly_once`: Host is deferred, then Vbus overwrites it,
then the gate opens: one chain call, for Vbus. -/
theorem replay_exactly_once_witness :
    gate_closed_state.o_notify.booting_delay_sync_usb = 0
    ∧ (effects_since gate_closed_state (reserve_state_check
          (send_otg_notify (send_otg_notify gate_closed_state NOTIFY_EVENT_HOST 1)
            NOTIFY_EVENT_VBUS 1))).filter is_chain_call =
        (if (1 : Int) ≠ 0 then [Effect.atomic_notifier_call_chain NOTIFY_EVENT_VBUS 1] else [])
    ∧ (effects_since gate_closed_state (flush_workqueue (reserve_state_check
          (send_otg_notify gate_closed_state NOTIFY_EVENT_VBUS 1)))).count
          (Effect.set_peripheral true) = 1 :=
  ⟨(by decide),
   (replay_exactly_once gate_closed_state (by decide)).2.2.2.2.1 NOTIFY_EVENT_HOST
      NOTIFY_EVENT_VBUS 1 1 (by decide) (by decide) (by decide),
   ((replay_exactly_once gate_closed_state (by decide)).2.2.2.2.2 1 (by decide) (by decide)
      (by decide) (by decide) (by decide) (by decide)).1⟩

/-- C11 (counterexample): in `send_otg_notify` the classification is computed
from the value it is handed. The virtual form of Vbus is classified State only,
not as Vbus is (State, Delay, NeedClient): with the boot gate closed a request
for Vbus is reserved and nothing is queued, while a request for the virtual
form of Vbus reserves nothing and is queued through the atomic chain. -/
theorem virtual_vbus_routed_as_state :
    check_event_type (VIRT_EVENT NOTIFY_EVENT_VBUS) = NOTIFY_EVENT_STATE
    ∧ check_event_type (VIRT_EVENT NOTIFY_EVENT_VBUS) ≠ check_event_type NOTIFY_EVENT_VBUS
    ∧ (send_otg_notify gate_closed_state NOTIFY_EVENT_VBUS 1).notifier_wq = []
    ∧ (send_otg_notify gate_closed_state NOTIFY_EVENT_VBUS 1).b_delay_reserve_state
        = NOTIFY_EVENT_VBUS
    ∧ (send_otg_notify gate_closed_state (VIRT_EVENT NOTIFY_EVENT_VBUS) 1).notifier_wq
        = [{ event := VIRT_EVENT NOTIFY_EVENT_VBUS, enable := 1 }]
    ∧ (send_otg_notify gate_closed_state (VIRT_EVENT NOTIFY_EVENT_VBUS) 1).b_delay_reserve_state
        = NOTIFY_EVENT_NONE := by
  decide

/-- C11 (amended): for every base event `e`, `otg_notify_state` strips the
virtual tag before it classifies, so the dispatch of `VIRT_EVENT e` runs with
the classification of `e` and the virtual flag set; `send_otg_notify`
classifies the tagged value itself, which is State only, so a virtual request
is never reserved at the boot gate and never sent to the extra chain: it goes
to the atomic chain. -/
theorem virtual_event_classification (e : Nat) (he : e < NOTIFY_EVENT_VIRTUAL) :
    check_event_type (PHY_EVENT (VIRT_EVENT e)) = check_event_type e
    ∧ (∀ (u : usb_notify) (enable : Int),
        otg_notify_state u (VIRT_EVENT e) enable
          = otg_notify_state_body u e (check_event_type e) 1 enable)
    ∧ check_event_type (VIRT_EVENT e) = NOTIFY_EVENT_STATE
    ∧ (∀ (u : usb_notify) (enable : Int),
        send_otg_notify u (VIRT_EVENT e) enable
          = atomic_notifier_call_chain u (VIRT_EVENT e) enable) := by
  have hv : check_event_type (VIRT_EVENT e) = NOTIFY_EVENT_STATE :=
    check_event_type_of_ge_virtual _ (by unfold VIRT_EVENT; omega)
  refine ⟨by rw [PHY_EVENT_VIRT_EVENT e he], ?_, hv, ?_⟩
  · intro u enable
    rw [otg_notify_state_eq_body, PHY_EVENT_VIRT_EVENT e he, IS_VIRTUAL_VIRT_EVENT]
  · intro u enable
    exact send_otg_notify_of_state u _ enable hv

/-- Witness of `virtual_event_classification`: the virtual form of Host. -/
theorem virtual_event_classification_witness :
    NOTIFY_EVENT_HOST < NOTIFY_EVENT_VIRTUAL
    ∧ check_event_type (PHY_EVENT (VIRT_EVENT NOTIFY_EVENT_HOST))
        = check_event_type NOTIFY_EVENT_HOST
    ∧ check_event_type (VIRT_EVENT NOTIFY_EVENT_HOST) = NOTIFY_EVENT_STATE :=
  ⟨by decide, (virtual_event_classification NOTIFY_EVENT_HOST (by decide)).1,
    (virtual_event_classification NOTIFY_EVENT_HOST (by decide)).2.2.1⟩

/-- C17: `is_blocked` reads the disable bitmask and nothing else (its result is
a truth value, the state is not an output): the answer for Host is the host
disable bit, for Client the client disable bit, for All the two bits together,
and for every other kind, None included, it is false. -/
theorem is_blocked_accessor (u : usb_notify) (type : Nat) :
    (is_blocked u type = true ↔
      (type = NOTIFY_BLOCK_TYPE_HOST
          ∧ test_bit NOTIFY_BLOCK_TYPE_HOST u.udev_disable_state = true)
      ∨ (type = NOTIFY_BLOCK_TYPE_CLIENT
          ∧ test_bit NOTIFY_BLOCK_TYPE_CLIENT u.udev_disable_state = true)
      ∨ (type = NOTIFY_BLOCK_TYPE_ALL
          ∧ test_bit NOTIFY_BLOCK_TYPE_HOST u.udev_disable_state = true
          ∧ test_bit NOTIFY_BLOCK_TYPE_CLIENT u.udev_disable_state = true))
    ∧ is_blocked u NOTIFY_BLOCK_TYPE_HOST = u.udev_disable_state.testBit 1
    ∧ is_blocked u NOTIFY_BLOCK_TYPE_CLIENT = u.udev_disable_state.testBit 2
    ∧ is_blocked u NOTIFY_BLOCK_TYPE_ALL
        = (u.udev_disable_state.testBit 1 && u.udev_disable_state.testBit 2)
    ∧ is_blocked u NOTIFY_BLOCK_TYPE_NONE = false := by
  refine ⟨?_, rfl, rfl, rfl, rfl⟩
  unfold is_blocked
  split_ifs with h1 h2 h3
  · subst h1; simp [NOTIFY_BLOCK_TYPE_HOST, NOTIFY_BLOCK_TYPE_CLIENT, NOTIFY_BLOCK_TYPE_ALL]
  · subst h2; simp [NOTIFY_BLOCK_TYPE_HOST, NOTIFY_BLOCK_TYPE_CLIENT, NOTIFY_BLOCK_TYPE_ALL]
  · subst h3; simp [NOTIFY_BLOCK_TYPE_HOST, NOTIFY_BLOCK_TYPE_CLIENT, NOTIFY_BLOCK_TYPE_ALL]
  · simp [h1, h2, h3]

/-- C18: a NoBlocking event is not stopped by the disable bits. For every
state (any value of the disable bitmask) and every event classified
NoBlocking, `otg_notify_state` does not enter the block handler: its result is
the start phase (the usb log entry) followed by the arm of the event in the
`switch`. With disable control on, a request to disable AllDisable leaves both
disable bits clear. -/
theorem noblocking_not_blocked (u : usb_notify) (ev : Nat) (enable : Int)
    (h : check_event_type (PHY_EVENT ev) &&& NOTIFY_EVENT_NOBLOCKING ≠ 0) :
    otg_notify_state u ev enable =
      (otg_notify_state_switch
        (otg_notify_state_start u (PHY_EVENT ev) (check_event_type (PHY_EVENT ev))
          (IS_VIRTUAL ev) enable)
        (PHY_EVENT ev) enable (IS_VIRTUAL ev) u.c_type).1
    ∧ (ev = NOTIFY_EVENT_ALL_DISABLE → enable = 0 → u.o_notify.disable_control ≠ 0 →
        test_bit NOTIFY_BLOCK_TYPE_HOST (otg_notify_state u ev enable).udev_disable_state
            = false
        ∧ test_bit NOTIFY_BLOCK_TYPE_CLIENT (otg_notify_state u ev enable).udev_disable_state
            = false) := by
  have hmain : otg_notify_state u ev enable =
      (otg_notify_state_switch
        (otg_notify_state_start u (PHY_EVENT ev) (check_event_type (PHY_EVENT ev))
          (IS_VIRTUAL ev) enable)
        (PHY_EVENT ev) enable (IS_VIRTUAL ev) u.c_type).1 := by
    have hnh : ¬ (check_event_type (PHY_EVENT ev) &&& NOTIFY_EVENT_NEED_HOST ≠ 0) := by
      rcases noblocking_cases _ h with h | h | h | h | h | h <;> rw [h] <;> decide
    rw [otg_notify_state_eq_body]
    unfold otg_notify_state_body
    dsimp only
    rw [if_neg (fun hg => hnh hg.2.2.1), if_neg (fun hg => hg.2 h),
      otg_notify_state_switch_exit_noblocking _ _ _ _ _ h]
  refine ⟨hmain, ?_⟩
  intro hev hen hdc
  rw [hmain]
  subst hev hen
  have hp : PHY_EVENT NOTIFY_EVENT_ALL_DISABLE = NOTIFY_EVENT_ALL_DISABLE := rfl
  have hv : IS_VIRTUAL NOTIFY_EVENT_ALL_DISABLE = 0 := rfl
  rw [hp, hv]
  have ho := otg_notify_state_start_o_notify u NOTIFY_EVENT_ALL_DISABLE
    (check_event_type NOTIFY_EVENT_ALL_DISABLE) 0 0
  have hd := otg_notify_state_start_udev_disable_state u NOTIFY_EVENT_ALL_DISABLE
    (check_event_type NOTIFY_EVENT_ALL_DISABLE) 0 0
  generalize otg_notify_state_start u NOTIFY_EVENT_ALL_DISABLE
    (check_event_type NOTIFY_EVENT_ALL_DISABLE) 0 0 = s at ho hd
  unfold otg_notify_state_switch
  simp only [ho, hdc, not_true_eq_false, not_false_eq_true, if_false, if_true, ne_eq,
    send_external_notify, emit_udev_disable_state]
  exact ⟨test_bit_host_clear _, test_bit_client_clear _⟩

/-- Witness of `noblocking_not_blocked`: both disable bits set, disable control
on, request to disable AllDisable; the bitmask ends at zero. -/
theorem noblocking_not_blocked_witness :
    check_event_type (PHY_EVENT NOTIFY_EVENT_ALL_DISABLE) &&& NOTIFY_EVENT_NOBLOCKING ≠ 0
    ∧ test_bit NOTIFY_BLOCK_TYPE_HOST all_disabled_state.udev_disable_state = true
    ∧ test_bit NOTIFY_BLOCK_TYPE_CLIENT all_disabled_state.udev_disable_state = true
    ∧ (otg_notify_state all_disabled_state NOTIFY_EVENT_ALL_DISABLE 0).udev_disable_state = 0
    ∧ test_bit NOTIFY_BLOCK_TYPE_HOST
        (otg_notify_state all_disabled_state NOTIFY_EVENT_ALL_DISABLE 0).udev_disable_state
          = false :=
  ⟨by decide, by decide, by decide, by decide,
    ((noblocking_not_blocked all_disabled_state NOTIFY_EVENT_ALL_DISABLE 0 (by decide)).2
      rfl rfl (by decide)).1⟩

/-- C19 (counterexample): the guard covers virtual enables only. In the initial
state (cable type None, which does not need host) with a registered `set_host`
hook, the virtual disable of Host is carried out: the status goes from
Disabled to Blocked, the host mode is written and `set_host(false)`, the
host-state notification and the device-removed notification are invoked. -/
theorem virtual_disable_not_guarded :
    check_event_type NOTIFY_EVENT_HOST &&& NOTIFY_EVENT_NEED_HOST ≠ 0
    ∧ check_event_type ({ o_notify := { set_host := true } } : usb_notify).c_type
        &&& NOTIFY_EVENT_NEED_HOST = 0
    ∧ ({ o_notify := { set_host := true } } : usb_notify).c_status = NOTIFY_EVENT_DISABLED
    ∧ (otg_notify_state { o_notify := { set_host := true } }
        (VIRT_EVENT NOTIFY_EVENT_HOST) 0).c_status = NOTIFY_EVENT_BLOCKED
    ∧ effects_since { o_notify := { set_host := true } }
        (otg_notify_state { o_notify := { set_host := true } } (VIRT_EVENT NOTIFY_EVENT_HOST) 0)
        = [Effect.store_usblog_notify_event NOTIFY_EVENT_HOST NOTIFY_EVENT_BLOCKING,
           Effect.set_host false,
           Effect.host_state_notify NOTIFY_HOST_REMOVE,
           Effect.send_external_notify EXTERNAL_NOTIFY_DEVICEADD 0] := by
  decide

/-- C19 (amended): the mismatched virtual replay guard for enables. For every
event `e` that needs host, every non-zero enable flag and every state whose
cable type does not need host, `otg_notify_state (VIRT_EVENT e) enable` returns
the state it was given: no field changes and the trace gains no call. -/
theorem virtual_replay_guard (u : usb_notify) (e : Nat) (enable : Int)
    (he : check_event_type e &&& NOTIFY_EVENT_NEED_HOST ≠ 0)
    (hen : enable ≠ 0)
    (hc : check_event_type u.c_type &&& NOTIFY_EVENT_NEED_HOST = 0) :
    otg_notify_state u (VIRT_EVENT e) enable = u
    ∧ effects_since u (otg_notify_state u (VIRT_EVENT e) enable) = [] := by
  have h : otg_notify_state u (VIRT_EVENT e) enable = u := by
    rw [otg_notify_state_eq_body, PHY_EVENT_VIRT_EVENT e (need_host_lt_virtual e he),
      IS_VIRTUAL_VIRT_EVENT]
    unfold otg_notify_state_body
    rw [if_pos ⟨by decide, hen, he, by simpa using hc⟩]
  rw [h]
  exact ⟨rfl, effects_since_self u⟩

/-- Witness of `virtual_replay_guard`: virtual enable of Host while the cable
type is Vbus. -/
theorem virtual_replay_guard_witness :
    otg_notify_state { c_type := NOTIFY_EVENT_VBUS, c_status := NOTIFY_EVENT_ENABLED }
        (VIRT_EVENT NOTIFY_EVENT_HOST) 1
      = { c_type := NOTIFY_EVENT_VBUS, c_status := NOTIFY_EVENT_ENABLED } :=
  (virtual_replay_guard { c_type := NOTIFY_EVENT_VBUS, c_status := NOTIFY_EVENT_ENABLED }
    NOTIFY_EVENT_HOST 1 (by decide) (by decide) (by decide)).1

/-- C20 (counterexample): a blocked request whose block handler returns 0 goes
to the label `err`, behind the bookkeeping of steps 6 and 7. With the host
disable bit set, a disable of Hmt (the handler returns 0) on a state with the
device-connect check armed and the host counters set leaves
`allowlist_restricted`, `cond_hshub`, `cond_sshub` and `is_device` as they
were, does not cancel the check and sends no device-removed notification. -/
theorem blocked_disable_keeps_counters :
    disable_bits_block blocked_host_state NOTIFY_EVENT_HMT
    ∧ (do_notify_blockstate
        (otg_notify_state_start blocked_host_state NOTIFY_EVENT_HMT
          (check_event_type NOTIFY_EVENT_HMT) 0 0)
        NOTIFY_EVENT_HMT (check_event_type NOTIFY_EVENT_HMT) 0).2 = 0
    ∧ (otg_notify_state blocked_host_state NOTIFY_EVENT_HMT 0).allowlist_restricted = 3
    ∧ (otg_notify_state blocked_host_state NOTIFY_EVENT_HMT 0).cond_hshub = 1
    ∧ (otg_notify_state blocked_host_state NOTIFY_EVENT_HMT 0).cond_sshub = 1
    ∧ (otg_notify_state blocked_host_state NOTIFY_EVENT_HMT 0).is_device = 1
    ∧ effects_since blocked_host_state (otg_notify_state blocked_host_state NOTIFY_EVENT_HMT 0)
        = [Effect.store_usblog_notify_event NOTIFY_EVENT_HMT NOTIFY_EVENT_DISABLING,
           Effect.host_state_notify NOTIFY_HOST_NONE,
           Effect.send_usb_restrict_uevent USB_SECURE_RELEASE] := by
  decide

/-- C20 (amended): a request that the disable bits block skips the arm of the
event and the bookkeeping of steps 6 and 7. For every state, event and enable
flag with the event blocked by the disable bits, `otg_notify_state` leaves
`allowlist_restricted`, `cond_hshub`, `cond_sshub`, `is_device` and
`check_work_complete` unchanged and makes no bookkeeping call (no start or
cancel of the device-connect check, no device-added/removed notification); when
the request passes the virtual replay guard and the block handler returns 0,
the result is the commit of `update_cable_status` on the state the handler
left. -/
theorem blocked_request_skips_bookkeeping (u : usb_notify) (ev : Nat) (enable : Int)
    (hb : disable_bits_block u (PHY_EVENT ev)) :
    same_bookkeeping u (otg_notify_state u ev enable)
    ∧ (∀ x ∈ effects_since u (otg_notify_state u ev enable), is_bookkeeping_effect x = false)
    ∧ (¬ virtual_replay_mismatch u ev enable →
        (do_notify_blockstate
          (otg_notify_state_start u (PHY_EVENT ev) (check_event_type (PHY_EVENT ev))
            (IS_VIRTUAL ev) enable)
          (PHY_EVENT ev) (check_event_type (PHY_EVENT ev)) enable).2 = 0 →
        otg_notify_state u ev enable =
          update_cable_status
            (do_notify_blockstate
              (otg_notify_state_start u (PHY_EVENT ev) (check_event_type (PHY_EVENT ev))
                (IS_VIRTUAL ev) enable)
              (PHY_EVENT ev) (check_event_type (PHY_EVENT ev)) enable).1
            (PHY_EVENT ev) (IS_VIRTUAL ev) enable 0) := by
  rw [otg_notify_state_eq_body]
  by_cases hg : virtual_replay_mismatch u ev enable
  · have h : otg_notify_state_body u (PHY_EVENT ev) (check_event_type (PHY_EVENT ev))
        (IS_VIRTUAL ev) enable = u := by
      unfold otg_notify_state_body
      exact if_pos hg
    rw [h, effects_since_self]
    exact ⟨same_bookkeeping_refl u, by simp, fun h => absurd hg h⟩
  · rw [otg_notify_state_body_blocked u _ _ _ hb hg]
    have hs := otg_notify_state_start_trace u (PHY_EVENT ev)
      (check_event_type (PHY_EVENT ev)) (IS_VIRTUAL ev) enable
    have hsb := otg_notify_state_start_same_bookkeeping u (PHY_EVENT ev)
      (check_event_type (PHY_EVENT ev)) (IS_VIRTUAL ev) enable
    generalize otg_notify_state_start u (PHY_EVENT ev)
      (check_event_type (PHY_EVENT ev)) (IS_VIRTUAL ev) enable = s at hs hsb
    obtain ⟨l, hl, hP⟩ := do_notify_blockstate_no_bookkeeping s (PHY_EVENT ev)
      (check_event_type (PHY_EVENT ev)) enable
    have hrb := do_notify_blockstate_same_bookkeeping s (PHY_EVENT ev)
      (check_event_type (PHY_EVENT ev)) enable
    generalize do_notify_blockstate s (PHY_EVENT ev)
      (check_event_type (PHY_EVENT ev)) enable = r at hl hrb
    refine ⟨?_, ?_, ?_⟩
    · split_ifs
      · exact same_bookkeeping_trans hsb hrb
      · exact same_bookkeeping_trans (same_bookkeeping_trans hsb hrb)
          (update_cable_status_same_bookkeeping _ _ _ _ _)
    · intro x hx
      split_ifs at hx
      · rw [effects_since_of_append (by rw [hl, hs, List.append_assoc])] at hx
        simp only [List.mem_append, List.mem_singleton] at hx
        rcases hx with h | h
        · subst h; rfl
        · exact hP x h
      · rw [effects_since_of_append
          (by rw [update_cable_status_trace, hl, hs, List.append_assoc, List.append_assoc])]
          at hx
        simp only [List.mem_append, List.mem_singleton] at hx
        rcases hx with h | h | h
        · subst h; rfl
        · exact hP x h
        · split_ifs at h
          · simp at h; subst h; rfl
          · simp at h
    · intro _ h0
      rw [if_neg (not_not_intro h0)]

/-- Witness of `blocked_request_skips_bookkeeping`: the host disable bit set,
disable of Hmt with the bookkeeping pending. -/
theorem blocked_request_skips_bookkeeping_witness :
    disable_bits_block blocked_host_state (PHY_EVENT NOTIFY_EVENT_HMT)
    ∧ same_bookkeeping blocked_host_state
        (otg_notify_state blocked_host_state NOTIFY_EVENT_HMT 0) :=
  ⟨by decide, (blocked_request_skips_bookkeeping blocked_host_state NOTIFY_EVENT_HMT 0
    (by decide)).1⟩

/-- C12: allow-list by vendor and product id. For every array and every
device, `usb_match_any_interface_for_id` returns true exactly when there is an
even index `i` below `MAX_WHITELIST_STR_LEN` (256) with every even-indexed
entry up to and including `i` non-zero, entry `i` the vendor id and entry
`i + 1` the product id: the scan stops at the first zero vendor entry. With
the list 0x04e8, 0xa051, 0, 0 the device 0x04e8:0xa051 matches and the device
0x04e8:0x0000 does not. -/
theorem usb_match_any_interface_for_id_iff (udev : usb_device) (whitelist_array : Nat → Int) :
    (usb_match_any_interface_for_id udev whitelist_array = true ↔
      ∃ i, i % 2 = 0 ∧ i < MAX_WHITELIST_STR_LEN
        ∧ (∀ j, j % 2 = 0 → j ≤ i → whitelist_array j ≠ 0)
        ∧ whitelist_array i = (udev.idVendor : Int)
        ∧ whitelist_array (i + 1) = (udev.idProduct : Int))
    ∧ usb_match_any_interface_for_id { idVendor := 0x04e8, idProduct := 0xa051 }
        (array_of [0x04e8, 0xa051, 0, 0]) = true
    ∧ usb_match_any_interface_for_id { idVendor := 0x04e8, idProduct := 0x0000 }
        (array_of [0x04e8, 0xa051, 0, 0]) = false := by
  refine ⟨?_, by decide, by decide⟩
  unfold usb_match_any_interface_for_id
  rw [usb_match_any_interface_for_id_loop_iff udev whitelist_array _ 0 rfl (by decide)]
  constructor
  · rintro ⟨k, h1, _, h2, h3, h4, h5⟩
    exact ⟨k, h1, h2, fun j hj hjk => h3 j hj (Nat.zero_le j) hjk, h4, h5⟩
  · rintro ⟨k, h1, h2, h3, h4, h5⟩
    exact ⟨k, h1, Nat.zero_le k, h2, fun j hj _ hjk => h3 j hj hjk, h4, h5⟩

/-- C13: allow-list by interface class. For every device and allow array,
`usb_match_any_interface_for_mdm` returns true exactly when every top-level
interface (altsetting 0 of every interface with at least one altsetting, of
every configuration) has a non-zero array entry at `get_class_index` of its
class; otherwise it returns false at the first such interface in scan order
and writes that interface to the usb log. `get_class_index` sends the 17 known
class codes to the indices 1..17, different codes to different indices, and
every other code to 0, so the index is below the `MAX_CLASS_TYPE_NUM + 1`
entries of the array. -/
theorem usb_match_any_interface_for_mdm_iff (udev : usb_device)
    (whitelist_array : Nat → Int) :
    ((usb_match_any_interface_for_mdm udev whitelist_array).1 = true ↔
      ∀ cfg ∈ udev.config, ∀ cache ∈ cfg.intf_cache, ∀ intf,
        cache.altsetting.head? = some intf →
          whitelist_array (get_class_index intf.bInterfaceClass) ≠ 0)
    ∧ usb_match_any_interface_for_mdm udev whitelist_array =
        (match (top_level_interfaces udev).find?
                (fun intf => ! class_allowed whitelist_array intf) with
         | some intf =>
             (false, [Effect.store_usblog_notify_port_class_block udev.bDeviceClass
                        intf.bInterfaceClass])
         | none => (true, []))
    ∧ (∀ c, get_class_index c < MAX_CLASS_TYPE_NUM + 1)
    ∧ (∀ c, c ∈ known_classes →
        1 ≤ get_class_index c ∧ get_class_index c ≤ 17)
    ∧ (∀ c, c ∉ known_classes → get_class_index c = 0)
    ∧ (∀ c d, c ∈ known_classes → get_class_index c = get_class_index d → c = d)
    ∧ (known_classes.map get_class_index = List.range' 1 17) := by
  have hshape : usb_match_any_interface_for_mdm udev whitelist_array =
        (match (top_level_interfaces udev).find?
                (fun intf => ! class_allowed whitelist_array intf) with
         | some intf =>
             (false, [Effect.store_usblog_notify_port_class_block udev.bDeviceClass
                        intf.bInterfaceClass])
         | none => (true, [])) := by
    unfold usb_match_any_interface_for_mdm top_level_interfaces
    rw [usb_match_any_interface_for_mdm_configs_eq]
    cases ((udev.config.map (fun cfg => cfg.intf_cache.filterMap
            (fun cache => cache.altsetting.head?))).flatten).find?
        (fun intf => ! class_allowed whitelist_array intf) <;> rfl
  have hknown : ∀ c, c ∉ known_classes → get_class_index c = 0 := by
    intro c hc
    unfold get_class_index
    split <;> first | rfl | (exfalso; apply hc; decide)
  refine ⟨?_, hshape, ?_, ?_, hknown, ?_, by decide⟩
  · rw [hshape]
    cases hf : (top_level_interfaces udev).find?
        (fun intf => ! class_allowed whitelist_array intf) with
    | none =>
        simp only [true_iff]
        intro cfg hcfg cache hcache intf hintf
        have hall := List.find?_eq_none.1 hf intf (by
          unfold top_level_interfaces
          simp only [List.mem_flatten, List.mem_map]
          exact ⟨_, ⟨cfg, hcfg, rfl⟩, List.mem_filterMap.2 ⟨cache, hcache, hintf⟩⟩)
        simpa [class_allowed] using hall
    | some intf =>
        have hbad := List.find?_some hf
        have hmem := List.mem_of_find?_eq_some hf
        unfold top_level_interfaces at hmem
        simp only [List.mem_flatten, List.mem_map] at hmem
        obtain ⟨_, ⟨cfg, hcfg, rfl⟩, hl⟩ := hmem
        obtain ⟨cache, hcache, hintf⟩ := List.mem_filterMap.1 hl
        simp only [Bool.false_eq_true, false_iff, not_forall]
        refine ⟨cfg, hcfg, cache, hcache, intf, hintf, ?_⟩
        simpa [class_allowed] using hbad
  · intro c
    have := get_class_index_le c
    unfold U_CLASS_VENDOR_SPEC at this
    unfold MAX_CLASS_TYPE_NUM USB_CLASS_VENDOR_SPEC
    omega
  · intro c hc
    simp only [known_classes, List.mem_cons, List.mem_singleton, List.not_mem_nil,
      or_false] at hc
    rcases hc with h | h | h | h | h | h | h | h | h | h | h | h | h | h | h | h | h <;>
      subst h <;> decide
  · intro c d hc hcd
    by_cases hd : d ∈ known_classes
    · simp only [known_classes, List.mem_cons, List.mem_singleton, List.not_mem_nil,
        or_false] at hc hd
      rcases hc with h | h | h | h | h | h | h | h | h | h | h | h | h | h | h | h | h <;>
        subst h <;>
        rcases hd with h | h | h | h | h | h | h | h | h | h | h | h | h | h | h | h | h <;>
        subst h <;> first | rfl | (exfalso; revert hcd; decide)
    · rw [hknown d hd] at hcd
      simp only [known_classes, List.mem_cons, List.mem_singleton, List.not_mem_nil,
        or_false] at hc
      rcases hc with h | h | h | h | h | h | h | h | h | h | h | h | h | h | h | h | h <;>
        subst h <;> (exfalso; revert hcd; decide)

/-- C14: allow-list by serial. For every device and allow-list string,
`usb_match_any_interface_for_serial` returns false when the device has no
serial string, and otherwise returns true exactly when the serial is equal to
one of the fields of the string split at every colon, empty fields
included. -/
theorem usb_match_any_interface_for_serial_iff (udev : usb_device)
    (whitelist_array : List Nat) :
    usb_match_any_interface_for_serial udev whitelist_array =
      (match udev.serial with
       | none => false
       | some serial => decide (serial ∈ serial_fields whitelist_array))
    ∧ serial_fields [65, 66, 58, 58, 67] = [[65, 66], [], [67]]
    ∧ usb_match_any_interface_for_serial { serial := some [] } [65, 66, 58, 58, 67] = true
    ∧ usb_match_any_interface_for_serial { serial := some [65] } [65, 66, 58, 58, 67]
        = false := by
  refine ⟨?_, by decide, by decide, by decide⟩
  unfold usb_match_any_interface_for_serial
  cases udev.serial with
  | none => rfl
  | some serial =>
      exact usb_match_any_interface_for_serial_loop_eq serial _ _ (Nat.lt_succ_self _)

/-- C15: gating of the matchers. Each of `usb_check_whitelist_for_mdm`,
`usb_check_whitelist_for_id` and `usb_check_whitelist_for_serial` returns 1
for every device when its own enable flag is zero; when the flag is non-zero
it returns 1 if its matcher returns true on the stored allow-list and 0
otherwise. The serial matcher is run on the local copy of the stored string,
which is the stored string itself when that is shorter than the 255 bytes
copied. -/
theorem usb_check_whitelist_gating (u : usb_notify) (dev : usb_device) :
    (usb_check_whitelist_for_mdm u dev).2 =
        (if u.sec_whitelist_enable = 0 then 1
         else if (usb_match_any_interface_for_mdm dev u.udev_whitelist_array_for_mdm).1
                 = true then 1 else 0)
    ∧ usb_check_whitelist_for_id u dev =
        (if u.sec_whitelist_enable_for_id = 0 then 1
         else if usb_match_any_interface_for_id dev u.udev_whitelist_array_for_mdm_for_id
                 = true then 1 else 0)
    ∧ usb_check_whitelist_for_serial u dev =
        (if u.sec_whitelist_enable_for_serial = 0 then 1
         else if usb_match_any_interface_for_serial dev
                   (strncpy u.udev_whitelist_array_for_mdm_for_serial
                     (MAX_WHITELIST_STR_LEN - 1)) = true then 1 else 0)
    ∧ (u.udev_whitelist_array_for_mdm_for_serial.length < MAX_WHITELIST_STR_LEN - 1 →
        strncpy u.udev_whitelist_array_for_mdm_for_serial (MAX_WHITELIST_STR_LEN - 1)
          = u.udev_whitelist_array_for_mdm_for_serial) := by
  refine ⟨?_, ?_, ?_, ?_⟩
  · unfold usb_check_whitelist_for_mdm
    dsimp only
    by_cases h : u.sec_whitelist_enable = 0
    · simp [h]
    · rw [if_pos h, if_neg h]
      split_ifs <;> rfl
  · unfold usb_check_whitelist_for_id
    dsimp only
    by_cases h : u.sec_whitelist_enable_for_id = 0
    · simp [h]
    · rw [if_pos h, if_neg h]
  · unfold usb_check_whitelist_for_serial
    dsimp only
    by_cases h : u.sec_whitelist_enable_for_serial = 0
    · simp [h]
    · rw [if_pos h, if_neg h]
  · intro h
    unfold strncpy
    apply List.take_of_length_le
    unfold MAX_WHITELIST_STR_LEN at *
    omega

/-- Witness of `usb_check_whitelist_gating`: a stored serial allow-list of
three bytes is copied whole. -/
theorem usb_check_whitelist_gating_witness :
    ([65, 58, 66] : List Nat).length < MAX_WHITELIST_STR_LEN - 1
    ∧ strncpy [65, 58, 66] (MAX_WHITELIST_STR_LEN - 1) = [65, 58, 66] :=
  ⟨by decide,
    (usb_check_whitelist_gating { udev_whitelist_array_for_mdm_for_serial := [65, 58, 66] }
      {}).2.2.2 (by decide)⟩

/-- C16 (counterexample): the scanner starts from the level `HNOTIFY_INITIAL`,
which is neither Low nor High, so the first High sample is itself reported as
a clear. For the samples High, High, Low, Low, High the scanner raises one
overcurrent (tick 2) and two clears (ticks 0 and 4), not one. -/
theorem ovc_first_sample_is_reported :
    ovc_ready ovc_ready_state
    ∧ effects_since (ovc_start ovc_ready_state)
        (ovc_scan_thread (ovc_start ovc_ready_state) [HNOTIFY_HIGH])
        = [Effect.host_state_notify NOTIFY_HOST_NONE]
    ∧ effects_since (ovc_start ovc_ready_state)
        (ovc_scan_thread (ovc_start ovc_ready_state)
          [HNOTIFY_HIGH, HNOTIFY_HIGH, HNOTIFY_LOW, HNOTIFY_LOW, HNOTIFY_HIGH])
        = [Effect.host_state_notify NOTIFY_HOST_NONE,
           Effect.host_state_notify NOTIFY_HOST_OVERCURRENT,
           Effect.store_usblog_notify_extra_overcurrent,
           Effect.host_state_notify NOTIFY_HOST_NONE]
    ∧ (effects_since (ovc_start ovc_ready_state)
        (ovc_scan_thread (ovc_start ovc_ready_state)
          [HNOTIFY_HIGH, HNOTIFY_HIGH, HNOTIFY_LOW, HNOTIFY_LOW, HNOTIFY_HIGH])).count
        (Effect.host_state_notify NOTIFY_HOST_NONE) = 2 := by
  decide

/-- C16 (amended): edge detection of the overcurrent scanner. For a scanner
started by `ovc_start` with detection enabled and the check function and its
context registered, and for every sequence of samples, the calls made at tick
`k` are those of the edge rule between the level before the tick and the
sample: overcurrent (with its usb log entry) when the sample is Low and
differs from the level before, clear (host state none) when it is High and
differs, nothing otherwise; the level before the first tick is
`HNOTIFY_INITIAL`, so a first sample that is Low or High is reported. -/
theorem ovc_edge_detection (u : usb_notify) (samples : List Int) (k : Nat)
    (hr : ovc_ready u) (hk : k < samples.length) :
    effects_since (ovc_scan_thread (ovc_start u) (samples.take k))
        (ovc_scan_thread (ovc_start u) (samples.take (k + 1)))
      = ovc_edge_effects (ovc_level_before samples k) (samples.getD k 0) := by
  obtain ⟨s1, s2, s3⟩ := ovc_start_spec u hr
  have htake : samples.take (k + 1) = samples.take k ++ [samples.getD k 0] := by
    rw [List.take_succ, List.getD_eq_getElem?_getD, List.getElem?_eq_getElem hk]
    rfl
  obtain ⟨t1, t2, t3, t4⟩ :=
    ovc_scan_thread_snoc (samples.take k) (ovc_start u) (samples.getD k 0) s1 s2
  rw [htake, t1]
  obtain ⟨_, _, _, p4⟩ :=
    ovc_scan_thread_pass_spec (ovc_scan_thread (ovc_start u) (samples.take k))
      (samples.getD k 0) t2 t3
  rw [effects_since_of_append p4, t4, s3]
  rfl

/-- Witness of `ovc_edge_detection`: tick 2 of the samples High, High, Low,
Low, High raises the overcurrent. -/
theorem ovc_edge_detection_witness :
    ovc_ready ovc_ready_state
    ∧ effects_since
          (ovc_scan_thread (ovc_start ovc_ready_state)
            ([HNOTIFY_HIGH, HNOTIFY_HIGH, HNOTIFY_LOW, HNOTIFY_LOW, HNOTIFY_HIGH].take 2))
          (ovc_scan_thread (ovc_start ovc_ready_state)
            ([HNOTIFY_HIGH, HNOTIFY_HIGH, HNOTIFY_LOW, HNOTIFY_LOW, HNOTIFY_HIGH].take (2 + 1)))
        = ovc_edge_effects
            (ovc_level_before [HNOTIFY_HIGH, HNOTIFY_HIGH, HNOTIFY_LOW, HNOTIFY_LOW, HNOTIFY_HIGH]
              2)
            ([HNOTIFY_HIGH, HNOTIFY_HIGH, HNOTIFY_LOW, HNOTIFY_LOW, HNOTIFY_HIGH].getD 2 0) :=
  ⟨by decide,
    ovc_edge_detection ovc_ready_state
      [HNOTIFY_HIGH, HNOTIFY_HIGH, HNOTIFY_LOW, HNOTIFY_LOW, HNOTIFY_HIGH] 2
      (by decide) (by decide)⟩

/-- C21 (counterexample): a host request on a model without host support is
recorded in the cable state. In the initial state (cable type None, status
Disabled) with `unsupport_host` set, a request to enable Host returns with
cable type Host and status Blocked; no hook is invoked. -/
theorem unsupported_host_is_recorded :
    ({ o_notify := { unsupport_host := 1, set_host := true } } : usb_notify).c_type
        = NOTIFY_EVENT_NONE
    ∧ ({ o_notify := { unsupport_host := 1, set_host := true } } : usb_notify).c_status
        = NOTIFY_EVENT_DISABLED
    ∧ (otg_notify_state { o_notify := { unsupport_host := 1, set_host := true } }
        NOTIFY_EVENT_HOST 1).c_type = NOTIFY_EVENT_HOST
    ∧ (otg_notify_state { o_notify := { unsupport_host := 1, set_host := true } }
        NOTIFY_EVENT_HOST 1).c_status = NOTIFY_EVENT_BLOCKED
    ∧ effects_since { o_notify := { unsupport_host := 1, set_host := true } }
        (otg_notify_state { o_notify := { unsupport_host := 1, set_host := true } }
          NOTIFY_EVENT_HOST 1)
        = [Effect.store_usblog_notify_event NOTIFY_EVENT_HOST NOTIFY_EVENT_BLOCKING] := by
  decide

/-- C21 (amended): on a model with `unsupport_host` set, a request for Host,
Hmt, Gamepad, Lanhub, Pogo, SmartDockTA or AudioDock (either enable value) is
reduced to the two status updates, start and commit: no hardware hook is
invoked and the host mode is unchanged, while the cable state records the
request: an enable leaves the event as cable type with status Blocked, a
disable leaves cable type None with status Disabled. -/
theorem unsupported_host_request (u : usb_notify) (e : Nat) (enable : Int)
    (he : e ∈ host_arm_events) (hsup : u.o_notify.unsupport_host ≠ 0) :
    otg_notify_state u e enable =
        update_cable_status (otg_notify_state_start u e (check_event_type e) 0 enable)
          e 0 enable 0
    ∧ (∀ x ∈ effects_since u (otg_notify_state u e enable), is_hw_hook x = false)
    ∧ (otg_notify_state u e enable).ndev_mode = u.ndev_mode
    ∧ (enable ≠ 0 →
        (otg_notify_state u e enable).c_type = e
        ∧ (otg_notify_state u e enable).c_status = NOTIFY_EVENT_BLOCKED)
    ∧ (enable = 0 →
        (otg_notify_state u e enable).c_type = NOTIFY_EVENT_NONE
        ∧ (otg_notify_state u e enable).c_status = NOTIFY_EVENT_DISABLED) := by
  have hmain := otg_notify_state_unsupported u e enable he hsup
  rw [hmain]
  refine ⟨rfl, ?_, ?_, ?_, ?_⟩
  · intro x hx
    rw [effects_since_of_append
      (by rw [update_cable_status_trace, otg_notify_state_start_trace, List.append_assoc])] at hx
    simp only [List.mem_append, List.mem_singleton] at hx
    rcases hx with h | h
    · subst h; rfl
    · split_ifs at h
      · simp at h; subst h; rfl
      · simp at h
  · rw [update_cable_status_ndev_mode, otg_notify_state_start_ndev_mode]
  · intro hen
    refine ⟨update_cable_status_enable_c_type _ _ _ _ _ hen, ?_⟩
    rw [update_cable_status_enable_host_blocked _ _ _ _ _ hen
      (host_arm_events_need_host e he).1
      (Or.inl (by rw [otg_notify_state_start_o_notify]; exact hsup))]
    rfl
  · intro hen
    subst hen
    exact update_cable_status_disable _ _

/-- Witness of `unsupported_host_request`: a request to enable Gamepad on a
model without host support. -/
theorem unsupported_host_request_witness :
    NOTIFY_EVENT_GAMEPAD ∈ host_arm_events
    ∧ ({ o_notify := { unsupport_host := 1 } } : usb_notify).o_notify.unsupport_host ≠ 0
    ∧ (otg_notify_state { o_notify := { unsupport_host := 1 } } NOTIFY_EVENT_GAMEPAD 1).ndev_mode
        = ({ o_notify := { unsupport_host := 1 } } : usb_notify).ndev_mode :=
  ⟨by decide, by decide,
    (unsupported_host_request { o_notify := { unsupport_host := 1 } } NOTIFY_EVENT_GAMEPAD 1
      (by decide) (by decide)).2.2.1⟩

/-- C22: a restricted host enable aborts. For every state with the restricted
flag set, host supported and the host disable bit clear, an enable request for
Host, Hmt or Gamepad that the same-class guard does not stop makes two outside
calls, the usb log entry of the start phase and the secure-restricted uevent:
`set_host`, `vbus_drive`, `host_state_notify` and the redriver GPIO are not
invoked. The host mode is unchanged and the request ends with the event as
cable type and status Blocked. -/
theorem restricted_host_enable_aborts (u : usb_notify) (e : Nat) (enable : Int)
    (he : e = NOTIFY_EVENT_HOST ∨ e = NOTIFY_EVENT_HMT ∨ e = NOTIFY_EVENT_GAMEPAD)
    (hen : enable ≠ 0) (hres : u.restricted ≠ 0)
    (hsup : u.o_notify.unsupport_host = 0)
    (hbit : test_bit NOTIFY_BLOCK_TYPE_HOST u.udev_disable_state = false)
    (hp : check_same_event_type u.c_type e = false) :
    effects_since u (otg_notify_state u e enable) =
        [Effect.store_usblog_notify_event e NOTIFY_EVENT_BLOCKING,
         Effect.send_usb_restrict_uevent USB_SECURE_RESTRICTED]
    ∧ (∀ x ∈ effects_since u (otg_notify_state u e enable), is_host_effect x = false)
    ∧ (otg_notify_state u e enable).ndev_mode = u.ndev_mode
    ∧ (otg_notify_state u e enable).c_type = e
    ∧ (otg_notify_state u e enable).c_status = NOTIFY_EVENT_BLOCKED := by
  have hh : check_event_type e &&& NOTIFY_EVENT_NEED_HOST ≠ 0 := by
    rcases he with h | h | h <;> subst h <;> decide
  have hns : ¬ (check_event_type e &&& NOTIFY_EVENT_NOSAVE ≠ 0) := by
    rcases he with h | h | h <;> subst h <;> decide
  have he41 : e < NOTIFY_EVENT_VIRTUAL := need_host_lt_virtual e hh
  have hso := otg_notify_state_start_o_notify u e (check_event_type e) 0 enable
  have hsr := otg_notify_state_start_restricted u e (check_event_type e) 0 enable
  have hsm := otg_notify_state_start_ndev_mode u e (check_event_type e) 0 enable
  have hst := otg_notify_state_start_trace u e (check_event_type e) 0 enable
  have hlog : start_log_status u e (check_event_type e) 0 enable = NOTIFY_EVENT_BLOCKING := by
    unfold start_log_status
    rw [if_neg hns, update_cable_status_enable_host_blocked _ _ _ _ _ hen hh (Or.inr hres)]
    rfl
  have hsw := otg_notify_state_switch_host_restricted
    (otg_notify_state_start u e (check_event_type e) 0 enable) e enable u.c_type he hen
    (by rw [hso]; exact hsup) (by rw [hsr]; exact hres) hp
  have hmain := otg_notify_state_of_err u e enable he41
    (check_block_event_host_class u e he hbit) (by rw [hsw])
  rw [hsw] at hmain
  rw [hlog] at hst
  generalize otg_notify_state_start u e (check_event_type e) 0 enable = s at *
  have htr : (otg_notify_state u e enable).trace = u.trace ++
      [Effect.store_usblog_notify_event e NOTIFY_EVENT_BLOCKING,
       Effect.send_usb_restrict_uevent USB_SECURE_RESTRICTED] := by
    rw [hmain, update_cable_status_trace]
    have h0 : ¬ (enable = 0 ∧ (0 : Int) = 0 ∧ (0 : Int) = 0) := fun h => hen h.1
    rw [if_neg h0]
    simp [send_usb_restrict_uevent, usb_notify.emit, hst]
  have heff := effects_since_of_append htr
  refine ⟨heff, ?_, ?_, ?_, ?_⟩
  · rw [heff]
    intro x hx
    simp only [List.mem_cons, List.mem_singleton, List.not_mem_nil, or_false] at hx
    rcases hx with h | h <;> subst h <;> rfl
  · rw [hmain, update_cable_status_ndev_mode]
    exact hsm
  · rw [hmain]
    exact update_cable_status_enable_c_type _ _ _ _ _ hen
  · rw [hmain, update_cable_status_enable_host_blocked _ _ _ _ _ hen hh
      (Or.inr (by simpa [send_usb_restrict_uevent, usb_notify.emit, hsr] using hres))]
    rfl

/-- Witness of `restricted_host_enable_aborts`: a request to enable Host on a
restricted model with the hooks registered. -/
theorem restricted_host_enable_aborts_witness :
    effects_since { restricted := 1, o_notify := { set_host := true, vbus_drive := true } }
        (otg_notify_state
          { restricted := 1, o_notify := { set_host := true, vbus_drive := true } }
          NOTIFY_EVENT_HOST 1) =
        [Effect.store_usblog_notify_event NOTIFY_EVENT_HOST NOTIFY_EVENT_BLOCKING,
         Effect.send_usb_restrict_uevent USB_SECURE_RESTRICTED] :=
  (restricted_host_enable_aborts
    { restricted := 1, o_notify := { set_host := true, vbus_drive := true } }
    NOTIFY_EVENT_HOST 1 (Or.inl rfl) (by decide) (by decide) rfl rfl rfl).1

/-- C23 (counterexample): with `auto_drive_vbus` Off the disable is not the
mirror of the enable. On a model with a booster reserved while the port is a
power source, an allowed enable of Host ends with `vbus_drive(1)` behind
`set_host(true)`, and the disable of Host that follows has no `vbus_drive(0)`:
its hardware effects are `set_host(false)` and host-state remove only. -/
theorem reserved_booster_not_mirrored :
    reserved_booster_state.o_notify.auto_drive_vbus = NOTIFY_OP_OFF
    ∧ (effects_since reserved_booster_state
        (otg_notify_state reserved_booster_state NOTIFY_EVENT_HOST 1)).filter is_host_effect
        = [Effect.host_state_notify NOTIFY_HOST_ADD, Effect.set_host true,
           Effect.vbus_drive true]
    ∧ (effects_since (otg_notify_state reserved_booster_state NOTIFY_EVENT_HOST 1)
        (otg_notify_state (otg_notify_state reserved_booster_state NOTIFY_EVENT_HOST 1)
          NOTIFY_EVENT_HOST 0)).filter is_host_effect
        = [Effect.set_host false, Effect.host_state_notify NOTIFY_HOST_REMOVE]
    ∧ ([Effect.host_state_notify NOTIFY_HOST_ADD, Effect.set_host true,
         Effect.vbus_drive true].reverse).map invert_effect
        = [Effect.vbus_drive false, Effect.set_host false,
           Effect.host_state_notify NOTIFY_HOST_REMOVE] := by
  decide

/-- C23 (amended): ordering of the host arm. For an allowed enable of Host, Hmt
or Gamepad (host supported, not restricted, host disable bit clear, not stopped
by the same-class guard) the mode becomes host mode and the hardware effects
are, in order: host-state add, redriver GPIO high, `vbus_drive(1)` when
`auto_drive_vbus` is Pre, `set_host(true)`, `vbus_drive(1)` when it is Post,
and, when it is Off, `vbus_drive(1)` for a reserved booster. For a disable the
mode becomes none, `allowlist_restricted` becomes 0 and the hardware effects
are `vbus_drive(0)` (Post), `set_host(false)`, `vbus_drive(0)` (Pre), redriver
GPIO low, host-state remove. The disable sequence is the enable sequence
reversed and inverted whenever the enable drives no reserved booster (always
for Pre and Post). -/
theorem host_arm_ordering (u : usb_notify) (e : Nat) (enable : Int)
    (he : e = NOTIFY_EVENT_HOST ∨ e = NOTIFY_EVENT_HMT ∨ e = NOTIFY_EVENT_GAMEPAD)
    (hsup : u.o_notify.unsupport_host = 0)
    (hbit : test_bit NOTIFY_BLOCK_TYPE_HOST u.udev_disable_state = false) :
    (enable ≠ 0 → u.restricted = 0 → check_same_event_type u.c_type e = false →
        (effects_since u (otg_notify_state u e enable)).filter is_host_effect
          = host_enable_effects u
        ∧ (otg_notify_state u e enable).ndev_mode = NOTIFY_HOST_MODE)
    ∧ (enable = 0 →
        (effects_since u (otg_notify_state u e enable)).filter is_host_effect
          = host_disable_effects u.o_notify
        ∧ (otg_notify_state u e enable).ndev_mode = NOTIFY_NONE_MODE
        ∧ (otg_notify_state u e enable).allowlist_restricted = 0)
    ∧ (reserved_booster_effects u = [] →
        host_disable_effects u.o_notify
          = ((host_enable_effects u).reverse).map invert_effect)
    ∧ (u.o_notify.auto_drive_vbus ≠ NOTIFY_OP_OFF → reserved_booster_effects u = []) := by
  have hh : check_event_type e &&& NOTIFY_EVENT_NEED_HOST ≠ 0 := by
    rcases he with h | h | h <;> subst h <;> decide
  have he41 : e < NOTIFY_EVENT_VIRTUAL := need_host_lt_virtual e hh
  have hnb := check_block_event_host_class u e he hbit
  obtain ⟨ct, cs, tr, hfr⟩ := otg_notify_state_start_frame u e (check_event_type e) 0 enable
  have hst := otg_notify_state_start_trace u e (check_event_type e) 0 enable
  refine ⟨?_, ?_, ?_, ?_⟩
  · intro hen hres hp
    have hso := otg_notify_state_start_o_notify u e (check_event_type e) 0 enable
    have hsr := otg_notify_state_start_restricted u e (check_event_type e) 0 enable
    obtain ⟨hx, _⟩ := otg_notify_state_switch_host_enable_trace
      (otg_notify_state_start u e (check_event_type e) 0 enable) e enable u.c_type he hen
      (by rw [hso]; exact hsup) (by rw [hsr]; exact hres) hp
    obtain ⟨htr, hmode⟩ := otg_notify_state_switch_host_enable
      (otg_notify_state_start u e (check_event_type e) 0 enable) e enable u.c_type he hen
      (by rw [hso]; exact hsup) (by rw [hsr]; exact hres) hp
    have heq : host_enable_effects (otg_notify_state_start u e (check_event_type e) 0 enable)
        = host_enable_effects u := by
      rw [hfr]; rfl
    rw [heq, hst] at htr
    have hmain := otg_notify_state_of_brk u e enable he41 hnb hx
    generalize (otg_notify_state_switch
      (otg_notify_state_start u e (check_event_type e) 0 enable) e enable 0 u.c_type).1 = w at *
    obtain ⟨la, hla, hPa⟩ := otg_notify_state_after_switch_trace w e (check_event_type e)
      enable u.c_type
    have h0 : ¬ (enable = 0 ∧ (0 : Int) = 0 ∧ (0 : Int) = 0) := fun h => hen h.1
    have htrace : (otg_notify_state u e enable).trace = u.trace ++
        ([Effect.store_usblog_notify_event e (start_log_status u e (check_event_type e) 0 enable)]
          ++ host_enable_effects u ++ la) := by
      rw [hmain, update_cable_status_trace, if_neg h0, hla, htr]
      simp only [List.append_assoc, List.append_nil]
    refine ⟨?_, ?_⟩
    · rw [effects_since_of_append htrace, List.filter_append, List.filter_append,
        filter_host_enable_effects, filter_host_effect_bookkeeping la hPa]
      simp [is_host_effect]
    · rw [hmain, update_cable_status_ndev_mode, otg_notify_state_after_switch_ndev_mode, hmode]
  · intro hen
    subst hen
    have hso := otg_notify_state_start_o_notify u e (check_event_type e) 0 0
    obtain ⟨htr, hmode, hx⟩ := otg_notify_state_switch_host_disable
      (otg_notify_state_start u e (check_event_type e) 0 0) e u.c_type he
      (by rw [hso]; exact hsup)
    rw [hso, hst] at htr
    have hmain := otg_notify_state_of_brk u e 0 he41 hnb hx
    generalize (otg_notify_state_switch
      (otg_notify_state_start u e (check_event_type e) 0 0) e 0 0 u.c_type).1 = w at *
    obtain ⟨la, hla, hPa⟩ := otg_notify_state_after_switch_trace w e (check_event_type e)
      0 u.c_type
    obtain ⟨a1, _⟩ := otg_notify_state_after_switch_teardown w e (check_event_type e)
      u.c_type hh
    have htrace : (otg_notify_state u e 0).trace = u.trace ++
        ([Effect.store_usblog_notify_event e (start_log_status u e (check_event_type e) 0 0)]
          ++ host_disable_effects u.o_notify ++ la
          ++ [Effect.send_usb_restrict_uevent USB_SECURE_RELEASE]) := by
      rw [hmain, update_cable_status_trace, if_pos ⟨rfl, rfl, rfl⟩, hla, htr]
      simp only [List.append_assoc]
    refine ⟨?_, ?_, ?_⟩
    · rw [effects_since_of_append htrace, List.filter_append, List.filter_append,
        List.filter_append, filter_host_disable_effects,
        filter_host_effect_bookkeeping la hPa]
      simp [is_host_effect]
    · rw [hmain, update_cable_status_ndev_mode, otg_notify_state_after_switch_ndev_mode, hmode]
    · rw [hmain, update_cable_status_allowlist_restricted]
      exact a1
  · intro hrb
    unfold host_enable_effects host_disable_effects
    rw [hrb]
    cases ha : u.o_notify.auto_drive_vbus <;>
      simp only [reduceCtorEq, false_and, true_and, if_false, List.append_nil,
        List.nil_append] <;>
      split_ifs <;> simp [invert_effect]
  · intro hoff
    unfold reserved_booster_effects
    rw [if_neg (fun h => hoff h.1)]

/-- Witness of `host_arm_ordering`: enable of Host with the vbus drive placed
before `set_host` and all hooks registered. -/
theorem host_arm_ordering_witness :
    idempotence_state.o_notify.unsupport_host = 0
    ∧ test_bit NOTIFY_BLOCK_TYPE_HOST idempotence_state.udev_disable_state = false
    ∧ (effects_since idempotence_state
        (otg_notify_state idempotence_state NOTIFY_EVENT_HOST 1)).filter is_host_effect
        = host_enable_effects idempotence_state
    ∧ host_enable_effects idempotence_state
        = [Effect.host_state_notify NOTIFY_HOST_ADD, Effect.gpio_direction_output_redriver 1,
           Effect.vbus_drive true, Effect.set_host true]
    ∧ host_disable_effects idempotence_state.o_notify
        = [Effect.set_host false, Effect.vbus_drive false,
           Effect.gpio_direction_output_redriver 0,
           Effect.host_state_notify NOTIFY_HOST_REMOVE] :=
  ⟨rfl, rfl,
    ((host_arm_ordering idempotence_state NOTIFY_EVENT_HOST 1 (Or.inl rfl) rfl rfl).1
      (by decide) rfl rfl).1,
    by decide, by decide⟩

/-- C24: ordering of the Vbus arm. For a request of Vbus or SmartDockUsb with
the client disable bit clear, the outside calls of an enable are, in order:
the usb log entry, the wake lock (if `is_wakelock`), redriver GPIO high (if the
GPIO is valid), the delay before the peripheral (if configured, with the 32-bit
`int` product `pre_peri_delay_us * 1000` as its argument) and
`set_peripheral(true)`; those of a disable are the usb log entry,
`set_peripheral(false)`, redriver GPIO low, the wake lock release and the
release uevent of the commit. The hardware effects of the disable are those of
the enable, the delay left out, in the opposite order and inverted. The enable
sets the mode to peripheral; the disable sets the mode to none and the gadget
bus state to Unconfigured. -/
theorem vbus_arm_ordering (u : usb_notify) (e : Nat) (enable : Int)
    (he : e = NOTIFY_EVENT_VBUS ∨ e = NOTIFY_EVENT_SMARTDOCK_USB)
    (hbit : test_bit NOTIFY_BLOCK_TYPE_CLIENT u.udev_disable_state = false) :
    (enable ≠ 0 →
        effects_since u (otg_notify_state u e enable) =
          [Effect.store_usblog_notify_event e NOTIFY_EVENT_ENABLING]
            ++ vbus_enable_effects u.o_notify
        ∧ (otg_notify_state u e enable).ndev_mode = NOTIFY_PERIPHERAL_MODE)
    ∧ (enable = 0 →
        effects_since u (otg_notify_state u e enable) =
          [Effect.store_usblog_notify_event e NOTIFY_EVENT_DISABLING]
            ++ vbus_disable_effects u.o_notify
            ++ [Effect.send_usb_restrict_uevent USB_SECURE_RELEASE]
        ∧ (otg_notify_state u e enable).ndev_mode = NOTIFY_NONE_MODE
        ∧ (otg_notify_state u e enable).gadget_status_bus_state = NOTIFY_USB_UNCONFIGURED)
    ∧ vbus_disable_effects u.o_notify =
        (((vbus_enable_effects u.o_notify).filter (fun x => ! is_delay x)).reverse).map
          invert_effect := by
  have hnh : check_event_type e &&& NOTIFY_EVENT_NEED_HOST = 0 := by
    rcases he with h | h <;> subst h <;> decide
  have hns : ¬ (check_event_type e &&& NOTIFY_EVENT_NOSAVE ≠ 0) := by
    rcases he with h | h <;> subst h <;> decide
  have he41 : e < NOTIFY_EVENT_VIRTUAL := by
    rcases he with h | h <;> subst h <;> decide
  have hnb : check_block_event u e = false := by
    simp [check_block_event, hbit]
    intro _
    exact hnh
  have hso := otg_notify_state_start_o_notify u e (check_event_type e) 0 enable
  have hst := otg_notify_state_start_trace u e (check_event_type e) 0 enable
  obtain ⟨hx, htr, hmode, hbus⟩ := otg_notify_state_switch_vbus
    (otg_notify_state_start u e (check_event_type e) 0 enable) e enable 0 u.c_type he
  have hmain := otg_notify_state_of_brk u e enable he41 hnb hx
  rw [otg_notify_state_after_switch_client _ _ _ _ he] at hmain
  rw [hso, hst] at htr
  generalize (otg_notify_state_switch
    (otg_notify_state_start u e (check_event_type e) 0 enable) e enable 0 u.c_type).1 = w at *
  refine ⟨?_, ?_, ?_⟩
  · intro hen
    have hlog : start_log_status u e (check_event_type e) 0 enable = NOTIFY_EVENT_ENABLING := by
      unfold start_log_status
      rw [if_neg hns, update_cable_status_enable_client _ _ _ _ _ hen hnb hnh]
      rfl
    have h0 : ¬ (enable = 0 ∧ (0 : Int) = 0 ∧ (0 : Int) = 0) := fun h => hen h.1
    refine ⟨?_, ?_⟩
    · have htrace : (otg_notify_state u e enable).trace = u.trace ++
          ([Effect.store_usblog_notify_event e NOTIFY_EVENT_ENABLING]
            ++ vbus_enable_effects u.o_notify) := by
        rw [hmain, update_cable_status_trace, htr, hlog, if_pos hen, if_neg h0,
          List.append_nil, List.append_assoc]
      exact effects_since_of_append htrace
    · rw [hmain, update_cable_status_ndev_mode, hmode, if_pos hen]
  · intro hen
    subst hen
    have hlog : start_log_status u e (check_event_type e) 0 0 = NOTIFY_EVENT_DISABLING := by
      unfold start_log_status
      rw [if_neg hns, update_cable_status_disable_start]
    refine ⟨?_, ?_, ?_⟩
    · have htrace : (otg_notify_state u e 0).trace = u.trace ++
          ([Effect.store_usblog_notify_event e NOTIFY_EVENT_DISABLING]
            ++ vbus_disable_effects u.o_notify
            ++ [Effect.send_usb_restrict_uevent USB_SECURE_RELEASE]) := by
        rw [hmain, update_cable_status_trace, htr, hlog, if_neg (by simp),
          if_pos ⟨rfl, rfl, rfl⟩]
        simp only [List.append_assoc]
      exact effects_since_of_append htrace
    · rw [hmain, update_cable_status_ndev_mode, hmode, if_neg (by simp)]
    · rw [hmain, update_cable_status_gadget_status_bus_state]
      exact hbus rfl
  · unfold vbus_disable_effects vbus_enable_effects
    split_ifs <;> simp [is_delay, invert_effect]

/-- Witness of `vbus_arm_ordering`: enable of Vbus with the wake lock in use,
the `set_peripheral` hook registered and a delay of 3000000 configured, whose
product with 1000 wraps to -1294967296. -/
theorem vbus_arm_ordering_witness :
    test_bit NOTIFY_BLOCK_TYPE_CLIENT
        ({ o_notify := { is_wakelock := 1, pre_peri_delay_us := 3000000,
                         set_peripheral := true } }
          : usb_notify).udev_disable_state = false
    ∧ effects_since
        { o_notify := { is_wakelock := 1, pre_peri_delay_us := 3000000,
                        set_peripheral := true } }
        (otg_notify_state
          { o_notify := { is_wakelock := 1, pre_peri_delay_us := 3000000,
                          set_peripheral := true } }
          NOTIFY_EVENT_VBUS 1) =
          [Effect.store_usblog_notify_event NOTIFY_EVENT_VBUS NOTIFY_EVENT_ENABLING]
            ++ vbus_enable_effects
                { is_wakelock := 1, pre_peri_delay_us := 3000000, set_peripheral := true }
    ∧ vbus_enable_effects
          { is_wakelock := 1, pre_peri_delay_us := 3000000, set_peripheral := true } =
        [Effect.pm_stay_awake, Effect.usleep_range (-1294967296),
         Effect.set_peripheral true] :=
  ⟨rfl,
    ((vbus_arm_ordering
      { o_notify := { is_wakelock := 1, pre_peri_delay_us := 3000000,
                      set_peripheral := true } }
      NOTIFY_EVENT_VBUS 1 (Or.inl rfl) rfl).1 (by decide)).1,
    by decide⟩

/-- C25: the DriveVbus arm. On a model with host support and the host disable
bit clear, a DriveVbus request with `disable_v_drive` set only writes the usb
log: neither `vbus_drive` nor `reverse_bypass_drive` is invoked and `oc_noti`
and the reverse-bypass status keep their values. With `disable_v_drive` clear
it stores the enable flag in `oc_noti`, invokes `vbus_drive(enable)` when the
hook is registered, and on a disable with a registered `reverse_bypass_drive`
hook invokes `reverse_bypass_drive(0)` and sets the reverse-bypass status to
Prepare. The cable type and status are not written. -/
theorem drive_vbus_arm (u : usb_notify) (enable : Int)
    (hsup : u.o_notify.unsupport_host = 0)
    (hbit : test_bit NOTIFY_BLOCK_TYPE_HOST u.udev_disable_state = false) :
    (u.disable_v_drive ≠ 0 →
        otg_notify_state u NOTIFY_EVENT_DRIVE_VBUS enable =
          u.emit (Effect.store_usblog_notify_event NOTIFY_EVENT_DRIVE_VBUS
            (if enable ≠ 0 then NOTIFY_EVENT_ENABLING else NOTIFY_EVENT_DISABLING)))
    ∧ (u.disable_v_drive = 0 →
        (otg_notify_state u NOTIFY_EVENT_DRIVE_VBUS enable).oc_noti = enable
        ∧ effects_since u (otg_notify_state u NOTIFY_EVENT_DRIVE_VBUS enable) =
            [Effect.store_usblog_notify_event NOTIFY_EVENT_DRIVE_VBUS
              (if enable ≠ 0 then NOTIFY_EVENT_ENABLING else NOTIFY_EVENT_DISABLING)]
            ++ (if u.o_notify.vbus_drive = true then
                  [Effect.vbus_drive (decide (enable ≠ 0))] else [])
            ++ (if u.o_notify.reverse_bypass_drive = true ∧ enable = 0 then
                  [Effect.reverse_bypass_drive 0] else [])
        ∧ (otg_notify_state u NOTIFY_EVENT_DRIVE_VBUS enable).reverse_bypass_status =
            (if u.o_notify.reverse_bypass_drive = true ∧ enable = 0 then
               NOTIFY_EVENT_REVERSE_BYPASS_PREPARE else u.reverse_bypass_status))
    ∧ (otg_notify_state u NOTIFY_EVENT_DRIVE_VBUS enable).c_type = u.c_type
    ∧ (otg_notify_state u NOTIFY_EVENT_DRIVE_VBUS enable).c_status = u.c_status := by
  have hx : (otg_notify_state_switch
      (otg_notify_state_start u NOTIFY_EVENT_DRIVE_VBUS
        (check_event_type NOTIFY_EVENT_DRIVE_VBUS) 0 enable)
      NOTIFY_EVENT_DRIVE_VBUS enable 0 u.c_type).2 = switch_exit.no_save_event := by
    simp only [otg_notify_state_switch, apply_ite Prod.snd, ite_self]
  rw [otg_notify_state_of_no_save u NOTIFY_EVENT_DRIVE_VBUS enable (by decide)
    (Or.inl (check_block_event_need_host u _ (by decide) hbit)) hx,
    otg_notify_state_start_nosave_eq _ _ _ _ _ (by decide)]
  generalize (if enable ≠ 0 then NOTIFY_EVENT_ENABLING else NOTIFY_EVENT_DISABLING) = st
  refine ⟨?_, ?_, ?_, ?_⟩
  · intro hd
    simp only [otg_notify_state_switch, emit_o_notify, hsup, usb_notify.emit, hd, ne_eq,
      not_true_eq_false, not_false_eq_true, if_false, if_true]
  · intro hd
    refine ⟨?_, ?_, ?_⟩
    · simp only [otg_notify_state_switch, emit_o_notify, hsup, usb_notify.emit, hd, ne_eq,
        not_true_eq_false, not_false_eq_true, if_false, if_true, apply_ite Prod.fst,
        apply_ite usb_notify.oc_noti, ite_self]
    · unfold effects_since
      simp only [otg_notify_state_switch, emit_o_notify, hsup, usb_notify.emit, hd, ne_eq,
        not_true_eq_false, not_false_eq_true, if_false, if_true, apply_ite Prod.fst,
        apply_ite usb_notify.trace, not_not]
      split_ifs <;> simp
    · simp only [otg_notify_state_switch, emit_o_notify, hsup, usb_notify.emit, hd, ne_eq,
        not_true_eq_false, not_false_eq_true, if_false, if_true, apply_ite Prod.fst,
        apply_ite usb_notify.reverse_bypass_status, ite_self, not_not]
  · simp only [otg_notify_state_switch, emit_o_notify, usb_notify.emit, apply_ite Prod.fst,
      apply_ite usb_notify.c_type, ite_self]
  · simp only [otg_notify_state_switch, emit_o_notify, usb_notify.emit, apply_ite Prod.fst,
      apply_ite usb_notify.c_status, ite_self]

/-- Witness of `drive_vbus_arm`: with the hooks registered, a disable request
stops the vbus drive and the reverse bypass. -/
theorem drive_vbus_arm_witness :
    drive_vbus_state.o_notify.unsupport_host = 0
    ∧ test_bit NOTIFY_BLOCK_TYPE_HOST drive_vbus_state.udev_disable_state = false
    ∧ drive_vbus_state.disable_v_drive = 0
    ∧ effects_since drive_vbus_state
        (otg_notify_state drive_vbus_state NOTIFY_EVENT_DRIVE_VBUS 0) =
          [Effect.store_usblog_notify_event NOTIFY_EVENT_DRIVE_VBUS
            (if (0 : Int) ≠ 0 then NOTIFY_EVENT_ENABLING else NOTIFY_EVENT_DISABLING)]
          ++ (if drive_vbus_state.o_notify.vbus_drive = true then
                [Effect.vbus_drive (decide ((0 : Int) ≠ 0))] else [])
          ++ (if drive_vbus_state.o_notify.reverse_bypass_drive = true ∧ (0 : Int) = 0 then
                [Effect.reverse_bypass_drive 0] else []) :=
  ⟨rfl, rfl, rfl, ((drive_vbus_arm drive_vbus_state 0 rfl rfl).2.1 rfl).2.1⟩

/-- C27 (the code at the failing input): HostReload is classified NoSave, yet
a HostReload request that the host disable bit blocks is written to the cable
state. On a connection in host mode (cable type Host, status Enabled) with the
host disable bit set, the block handler returns 0 for HostReload and control
goes to the commit at the label `err`: an enable request leaves cable type
HostReload with status Blocked, a disable request leaves cable type None with
status Disabled and sends the release uevent. No hook is invoked. -/
theorem blocked_host_reload_is_saved :
    check_event_type NOTIFY_EVENT_HOST_RELOAD &&& NOTIFY_EVENT_NOSAVE ≠ 0
    ∧ host_mode_blocked_state.c_type = NOTIFY_EVENT_HOST
    ∧ host_mode_blocked_state.c_status = NOTIFY_EVENT_ENABLED
    ∧ (otg_notify_state host_mode_blocked_state NOTIFY_EVENT_HOST_RELOAD 1).c_type
        = NOTIFY_EVENT_HOST_RELOAD
    ∧ (otg_notify_state host_mode_blocked_state NOTIFY_EVENT_HOST_RELOAD 1).c_status
        = NOTIFY_EVENT_BLOCKED
    ∧ (otg_notify_state host_mode_blocked_state NOTIFY_EVENT_HOST_RELOAD 0).c_type
        = NOTIFY_EVENT_NONE
    ∧ (otg_notify_state host_mode_blocked_state NOTIFY_EVENT_HOST_RELOAD 0).c_status
        = NOTIFY_EVENT_DISABLED
    ∧ effects_since host_mode_blocked_state
        (otg_notify_state host_mode_blocked_state NOTIFY_EVENT_HOST_RELOAD 1)
        = [Effect.store_usblog_notify_event NOTIFY_EVENT_HOST_RELOAD NOTIFY_EVENT_ENABLING]
    ∧ effects_since host_mode_blocked_state
        (otg_notify_state host_mode_blocked_state NOTIFY_EVENT_HOST_RELOAD 0)
        = [Effect.store_usblog_notify_event NOTIFY_EVENT_HOST_RELOAD NOTIFY_EVENT_DISABLING,
           Effect.send_usb_restrict_uevent USB_SECURE_RELEASE] := by
  decide

/-- C28 (counterexample): the DriveVbus and HostReload arms leave by
`goto no_save_event`, past the teardown. A disable of DriveVbus (classified
NeedHost, not blocked) on a state with the host counters set leaves
`allowlist_restricted`, `cond_hshub`, `cond_sshub` and `is_device` as they were
and sends no device-removed notification; so does a disable of HostReload. -/
theorem drive_vbus_disable_keeps_counters :
    check_event_type NOTIFY_EVENT_DRIVE_VBUS &&& NOTIFY_EVENT_NEED_HOST ≠ 0
    ∧ check_block_event counters_state NOTIFY_EVENT_DRIVE_VBUS = false
    ∧ same_bookkeeping counters_state
        (otg_notify_state counters_state NOTIFY_EVENT_DRIVE_VBUS 0)
    ∧ (otg_notify_state counters_state NOTIFY_EVENT_DRIVE_VBUS 0).allowlist_restricted = 3
    ∧ effects_since counters_state (otg_notify_state counters_state NOTIFY_EVENT_DRIVE_VBUS 0)
        = [Effect.store_usblog_notify_event NOTIFY_EVENT_DRIVE_VBUS NOTIFY_EVENT_DISABLING]
    ∧ same_bookkeeping counters_state
        (otg_notify_state counters_state NOTIFY_EVENT_HOST_RELOAD 0)
    ∧ effects_since counters_state (otg_notify_state counters_state NOTIFY_EVENT_HOST_RELOAD 0)
        = [Effect.store_usblog_notify_event NOTIFY_EVENT_HOST_RELOAD NOTIFY_EVENT_DISABLING] := by
  decide

/-- C28 (amended): host teardown bookkeeping. For every event classified
NeedHost other than HostReload and DriveVbus, on a model with host support and
with the host disable bit clear, a disable request (virtual or not) handled by
`otg_notify_state` ends with `allowlist_restricted`, `cond_hshub`, `cond_sshub`
and `is_device` at zero and sends the device-removed notification (DEVICEADD
with value 0). -/
theorem host_teardown_bookkeeping (u : usb_notify) (ev : Nat)
    (hh : check_event_type (PHY_EVENT ev) &&& NOTIFY_EVENT_NEED_HOST ≠ 0)
    (h1 : PHY_EVENT ev ≠ NOTIFY_EVENT_HOST_RELOAD)
    (h2 : PHY_EVENT ev ≠ NOTIFY_EVENT_DRIVE_VBUS)
    (hsup : u.o_notify.unsupport_host = 0)
    (hbit : test_bit NOTIFY_BLOCK_TYPE_HOST u.udev_disable_state = false) :
    (otg_notify_state u ev 0).allowlist_restricted = 0
    ∧ (otg_notify_state u ev 0).cond_hshub = 0
    ∧ (otg_notify_state u ev 0).cond_sshub = 0
    ∧ (otg_notify_state u ev 0).is_device = 0
    ∧ Effect.send_external_notify EXTERNAL_NOTIFY_DEVICEADD 0
        ∈ effects_since u (otg_notify_state u ev 0) := by
  have hst := otg_notify_state_start_trace u (PHY_EVENT ev)
    (check_event_type (PHY_EVENT ev)) (IS_VIRTUAL ev) 0
  have hso := otg_notify_state_start_o_notify u (PHY_EVENT ev)
    (check_event_type (PHY_EVENT ev)) (IS_VIRTUAL ev) 0
  have hx := otg_notify_state_switch_exit_teardown
    (otg_notify_state_start u (PHY_EVENT ev) (check_event_type (PHY_EVENT ev))
      (IS_VIRTUAL ev) 0) (PHY_EVENT ev) (IS_VIRTUAL ev) u.c_type hh h1 h2
    (by rw [hso]; exact hsup)
  rw [otg_notify_state_eq_body,
    otg_notify_state_body_of_brk u _ _ 0 (fun h => h.2.1 rfl)
      (check_block_event_need_host u _ hh hbit) hx]
  obtain ⟨lsw, hsw⟩ := otg_notify_state_switch_trace_extends
    (otg_notify_state_start u (PHY_EVENT ev) (check_event_type (PHY_EVENT ev))
      (IS_VIRTUAL ev) 0) (PHY_EVENT ev) 0 (IS_VIRTUAL ev) u.c_type
  generalize (otg_notify_state_switch
    (otg_notify_state_start u (PHY_EVENT ev) (check_event_type (PHY_EVENT ev))
      (IS_VIRTUAL ev) 0) (PHY_EVENT ev) 0 (IS_VIRTUAL ev) u.c_type).1 = w at hsw
  obtain ⟨a1, a2, a3, a4, la, ha⟩ := otg_notify_state_after_switch_teardown w (PHY_EVENT ev)
    (check_event_type (PHY_EVENT ev)) u.c_type hh
  obtain ⟨b1, b2, b3, b4, _⟩ := update_cable_status_same_bookkeeping
    (otg_notify_state_after_switch w (PHY_EVENT ev) (check_event_type (PHY_EVENT ev)) 0
      u.c_type) (PHY_EVENT ev) (IS_VIRTUAL ev) 0 0
  refine ⟨b1.trans a1, b2.trans a2, b3.trans a3, b4.trans a4, ?_⟩
  rw [effects_since_of_append
    (by rw [update_cable_status_trace, ha, hsw, hst]; simp only [List.append_assoc]; rfl)]
  simp

/-- Witness of `host_teardown_bookkeeping`: a disable of Lanhub on a state with
the host counters set. -/
theorem host_teardown_bookkeeping_witness :
    check_event_type (PHY_EVENT NOTIFY_EVENT_LANHUB) &&& NOTIFY_EVENT_NEED_HOST ≠ 0
    ∧ counters_state.allowlist_restricted = 3
    ∧ (otg_notify_state counters_state NOTIFY_EVENT_LANHUB 0).allowlist_restricted = 0 :=
  ⟨by decide, rfl,
    (host_teardown_bookkeeping counters_state NOTIFY_EVENT_LANHUB (by decide) (by decide)
      (by decide) rfl rfl).1⟩

/-- C29: routing with the boot gate open. Every event is classified as exactly
one of Extra and State. With `booting_delay_sec = 0`, `send_otg_notify` hands
an Extra event to `extra_notify_state` in the same call (through the blocking
chain), and puts a State event, with its enable flag, at the end of the serial
work queue (through the atomic chain; the event value is in the valid range
and the atomic allocation succeeds); the worker runs `otg_notify_state` on a
queued item. -/
theorem send_otg_notify_routing (u : usb_notify) (e : Nat) (enable : Int)
    (hgate : u.o_notify.booting_delay_sec = 0) :
    (check_event_type e &&& NOTIFY_EVENT_EXTRA ≠ 0
        ↔ ¬ (check_event_type e &&& NOTIFY_EVENT_STATE ≠ 0))
    ∧ (check_event_type e &&& NOTIFY_EVENT_EXTRA ≠ 0 →
        send_otg_notify u e enable =
          extra_notify_state (u.emit (Effect.blocking_notifier_call_chain e enable)) e enable)
    ∧ (check_event_type e &&& NOTIFY_EVENT_STATE ≠ 0 →
        e ≤ VIRT_EVENT NOTIFY_EVENT_VBUSPOWER → u.kmalloc_ok = true →
        send_otg_notify u e enable =
          { u.emit (Effect.atomic_notifier_call_chain e enable) with
            notifier_wq := u.notifier_wq ++ [{ event := e, enable := enable }] })
    ∧ flush_workqueue { u with notifier_wq := [{ event := e, enable := enable }] }
        = otg_notify_state { u with notifier_wq := [] } e enable := by
  have hex : check_event_type e &&& NOTIFY_EVENT_EXTRA ≠ 0
      ↔ ¬ (check_event_type e &&& NOTIFY_EVENT_STATE ≠ 0) := by
    by_cases he : e < 41
    · interval_cases e <;> decide
    · rw [check_event_type_of_ge_virtual e (by unfold NOTIFY_EVENT_VIRTUAL; omega)]
      decide
  have hnd : ¬ ((check_event_type e &&& NOTIFY_EVENT_DELAY ≠ 0
      ∧ check_event_type e &&& NOTIFY_EVENT_STATE ≠ 0) ∧ u.o_notify.booting_delay_sec ≠ 0) :=
    fun h => h.2 hgate
  refine ⟨hex, ?_, ?_, rfl⟩
  · intro hx
    have hlt : e < 41 := by
      by_contra hge
      rw [check_event_type_of_ge_virtual e (by unfold NOTIFY_EVENT_VIRTUAL; omega)] at hx
      exact hx (by decide)
    have hv : ¬ (e > VIRT_EVENT NOTIFY_EVENT_VBUSPOWER) := by
      unfold VIRT_EVENT NOTIFY_EVENT_VBUSPOWER NOTIFY_EVENT_VIRTUAL; omega
    unfold send_otg_notify send_otg_notify_chain
    dsimp only
    rw [if_neg hnd, if_pos hx]
    unfold extra_notifier_callback
    rw [if_neg hv]
  · intro hs hv hk
    have hx : ¬ (check_event_type e &&& NOTIFY_EVENT_EXTRA ≠ 0) := fun h => hex.1 h hs
    unfold send_otg_notify send_otg_notify_chain
    dsimp only
    rw [if_neg hnd, if_neg hx, if_pos hs]
    unfold atomic_notifier_call_chain otg_notifier_callback
    rw [if_neg (by omega), if_neg (by simpa [usb_notify.emit] using hk)]
    rfl

/-- Witness of `send_otg_notify_routing`: in the initial state (gate open) a
request to enable Host is queued, and a Vbus power report is handled in the
call. -/
theorem send_otg_notify_routing_witness :
    ({} : usb_notify).o_notify.booting_delay_sec = 0
    ∧ send_otg_notify {} NOTIFY_EVENT_HOST 1 =
        { ({} : usb_notify).emit (Effect.atomic_notifier_call_chain NOTIFY_EVENT_HOST 1) with
          notifier_wq := [{ event := NOTIFY_EVENT_HOST, enable := 1 }] }
    ∧ send_otg_notify {} NOTIFY_EVENT_VBUSPOWER 1 =
        extra_notify_state
          (({} : usb_notify).emit
            (Effect.blocking_notifier_call_chain NOTIFY_EVENT_VBUSPOWER 1))
          NOTIFY_EVENT_VBUSPOWER 1 :=
  ⟨rfl,
    (send_otg_notify_routing {} NOTIFY_EVENT_HOST 1 rfl).2.2.1 (by decide) (by decide) rfl,
    (send_otg_notify_routing {} NOTIFY_EVENT_VBUSPOWER 1 rfl).2.1 (by decide)⟩

/-- C30: invalid events are rejected by both notifier callbacks. For an event
value above `VIRT_EVENT(NOTIFY_EVENT_VBUSPOWER)` each callback returns
`NOTIFY_DONE` and the state it was given: nothing is queued and no handler
runs. For a value at or below that bound `extra_notifier_callback` runs
`extra_notify_state` on the event and the enable flag and returns `NOTIFY_OK`;
`otg_notifier_callback`, when the atomic allocation succeeds, queues the event
with the enable flag and returns `NOTIFY_OK`, and the queued work is
`otg_notify_state` on that event and flag. -/
theorem notifier_callbacks_validate (u : usb_notify) (event : Nat) (param : Int) :
    (event > VIRT_EVENT NOTIFY_EVENT_VBUSPOWER →
        otg_notifier_callback u event param = (u, notifier_ret.NOTIFY_DONE)
        ∧ extra_notifier_callback u event param = (u, notifier_ret.NOTIFY_DONE))
    ∧ (event ≤ VIRT_EVENT NOTIFY_EVENT_VBUSPOWER →
        extra_notifier_callback u event param
          = (extra_notify_state u event param, notifier_ret.NOTIFY_OK)
        ∧ (u.kmalloc_ok = true →
            otg_notifier_callback u event param
              = ({ u with notifier_wq := u.notifier_wq ++ [{ event := event, enable := param }] },
                 notifier_ret.NOTIFY_OK))
        ∧ otg_notify_work u { event := event, enable := param }
            = otg_notify_state u event param) := by
  constructor
  · intro h
    unfold otg_notifier_callback extra_notifier_callback
    rw [if_pos h, if_pos h]
    exact ⟨rfl, rfl⟩
  · intro h
    have h2 : ¬ (event > VIRT_EVENT NOTIFY_EVENT_VBUSPOWER) := by omega
    unfold otg_notifier_callback extra_notifier_callback
    rw [if_neg h2, if_neg h2]
    refine ⟨rfl, ?_, rfl⟩
    intro hk
    rw [if_neg (by simpa using hk)]

/-- Witness of `notifier_callbacks_validate`: the value 82 is above the bound
(81) and is dropped; the value 81 is accepted. -/
theorem notifier_callbacks_validate_witness :
    (82 > VIRT_EVENT NOTIFY_EVENT_VBUSPOWER)
    ∧ 81 ≤ VIRT_EVENT NOTIFY_EVENT_VBUSPOWER
    ∧ otg_notifier_callback {} 82 1 = ({}, notifier_ret.NOTIFY_DONE)
    ∧ (otg_notifier_callback {} 81 1).2 = notifier_ret.NOTIFY_OK :=
  ⟨by decide, by decide,
    ((notifier_callbacks_validate {} 82 1).1 (by decide)).1,
    by rw [((notifier_callbacks_validate {} 81 1).2 (by decide)).2.1 rfl]⟩

/-- C31 (the code at the failing input): a Blocked status does not imply that
the host controller was left alone. The commit phase stores Blocked for every
NeedHost event when the restricted flag is set, and the arm of Host, Hmt and
Gamepad refuses the enable in that case; the arms of Lanhub, Mmdock, Pogo,
SmartDockTA and AudioDock do not look at the flag. For each of these five
events, on a restricted model with host support, the host disable bit clear
and the `set_host` hook registered, an enable request invokes `set_host(true)`
and sets the host mode, and ends with that cable type and status Blocked. -/
theorem restricted_dock_enable_runs_host (u : usb_notify) (e : Nat) (enable : Int)
    (he : e ∈ dock_arm_events) (hen : enable ≠ 0) (hres : u.restricted ≠ 0)
    (hsup : u.o_notify.unsupport_host = 0)
    (hbit : test_bit NOTIFY_BLOCK_TYPE_HOST u.udev_disable_state = false)
    (hhook : u.o_notify.set_host = true) :
    check_event_type e &&& NOTIFY_EVENT_NEED_HOST ≠ 0
    ∧ (otg_notify_state u e enable).c_type = e
    ∧ (otg_notify_state u e enable).c_status = NOTIFY_EVENT_BLOCKED
    ∧ Effect.set_host true ∈ effects_since u (otg_notify_state u e enable)
    ∧ (otg_notify_state u e enable).ndev_mode = NOTIFY_HOST_MODE := by
  obtain ⟨hnh, hlt⟩ := dock_arm_events_need_host e he
  have hnb : check_block_event u e = false := check_block_event_need_host u e hnh hbit
  obtain ⟨hx, hmode, l1, hl1, hmem⟩ := otg_notify_state_switch_dock_enable
    (otg_notify_state_start u e (check_event_type e) 0 enable) e enable 0 u.c_type he hen
    (by rw [otg_notify_state_start_o_notify]; exact hsup)
    (by rw [otg_notify_state_start_o_notify]; exact hhook)
  obtain ⟨l2, hl2, _⟩ := otg_notify_state_after_switch_trace
    (otg_notify_state_switch
      (otg_notify_state_start u e (check_event_type e) 0 enable) e enable 0 u.c_type).1
    e (check_event_type e) enable u.c_type
  rw [otg_notify_state_of_brk u e enable hlt hnb hx]
  refine ⟨hnh, update_cable_status_enable_c_type _ _ _ _ _ hen, ?_, ?_, ?_⟩
  · have h := update_cable_status_enable_host_blocked
      (otg_notify_state_after_switch
        (otg_notify_state_switch
          (otg_notify_state_start u e (check_event_type e) 0 enable) e enable 0 u.c_type).1
        e (check_event_type e) enable u.c_type) e 0 enable 0 hen hnh
      (Or.inr (by
        rw [otg_notify_state_after_switch_restricted, otg_notify_state_switch_restricted,
          otg_notify_state_start_restricted]
        exact hres))
    rw [h]
    rfl
  · have htrace : (update_cable_status
        (otg_notify_state_after_switch
          (otg_notify_state_switch
            (otg_notify_state_start u e (check_event_type e) 0 enable) e enable 0 u.c_type).1
          e (check_event_type e) enable u.c_type) e 0 enable 0).trace
        = u.trace ++ ([Effect.store_usblog_notify_event e
            (start_log_status u e (check_event_type e) 0 enable)] ++ l1 ++ l2 ++
            (if enable = 0 ∧ (0 : Int) = 0 ∧ (0 : Int) = 0 then
              [Effect.send_usb_restrict_uevent USB_SECURE_RELEASE] else [])) := by
      rw [update_cable_status_trace, hl2, hl1, otg_notify_state_start_trace]
      simp only [List.append_assoc]
    rw [effects_since_of_append htrace]
    simp only [List.mem_append]
    exact Or.inl (Or.inl (Or.inr hmem))
  · rw [update_cable_status_ndev_mode, otg_notify_state_after_switch_ndev_mode]
    exact hmode

/-- Witness of `restricted_dock_enable_runs_host`: a Lanhub enable on the
restricted model invokes `set_host(true)` and ends Blocked. -/
theorem restricted_dock_enable_runs_host_witness :
    NOTIFY_EVENT_LANHUB ∈ dock_arm_events ∧ (1 : Int) ≠ 0
    ∧ restricted_state.restricted ≠ 0 ∧ restricted_state.o_notify.unsupport_host = 0
    ∧ test_bit NOTIFY_BLOCK_TYPE_HOST restricted_state.udev_disable_state = false
    ∧ restricted_state.o_notify.set_host = true
    ∧ (otg_notify_state restricted_state NOTIFY_EVENT_LANHUB 1).c_status = NOTIFY_EVENT_BLOCKED
    ∧ Effect.set_host true ∈
        effects_since restricted_state (otg_notify_state restricted_state NOTIFY_EVENT_LANHUB 1)
    ∧ (otg_notify_state restricted_state NOTIFY_EVENT_LANHUB 1).ndev_mode = NOTIFY_HOST_MODE :=
  ⟨by decide, by decide, by decide, rfl, rfl, rfl,
    (restricted_dock_enable_runs_host restricted_state NOTIFY_EVENT_LANHUB 1 (by decide)
      (by decide) (by decide) rfl rfl rfl).2.2⟩

/-- C32: block and unblock round trip. On a model with disable control, host
support and a registered `set_host` hook, starting from an enabled Host
connection (cable type Host, status Enabled, the host disable bit clear, no
host block requested before, the work queue empty and its allocations
succeeding) and with the worker running the queued requests in order after
each call: `set_notify_disable(Host)` leaves cable type Host with status
Blocked and the host disable bit set, and invokes `set_host(false)` once and
`set_host(true)` never; a following `set_notify_disable(None)` clears both
disable bits, sends the virtual enable of Host, and ends with cable type Host
and status Enabled, having invoked `set_host(true)` exactly once and
`set_host(false)` never. -/
theorem block_unblock_round_trip (u : usb_notify)
    (hdc : u.o_notify.disable_control ≠ 0) (hsup : u.o_notify.unsupport_host = 0)
    (hhook : u.o_notify.set_host = true)
    (hct : u.c_type = NOTIFY_EVENT_HOST) (hcs : u.c_status = NOTIFY_EVENT_ENABLED)
    (hds : u.disable_state ≠ ((NOTIFY_BLOCK_TYPE_HOST : Nat) : Int))
    (hbit : test_bit NOTIFY_BLOCK_TYPE_HOST u.udev_disable_state = false)
    (hq : u.notifier_wq = []) (hk : u.kmalloc_ok = true) :
    (set_notify_disable_run u ((NOTIFY_BLOCK_TYPE_HOST : Nat) : Int)).c_type = NOTIFY_EVENT_HOST
    ∧ (set_notify_disable_run u ((NOTIFY_BLOCK_TYPE_HOST : Nat) : Int)).c_status
        = NOTIFY_EVENT_BLOCKED
    ∧ test_bit NOTIFY_BLOCK_TYPE_HOST
        (set_notify_disable_run u ((NOTIFY_BLOCK_TYPE_HOST : Nat) : Int)).udev_disable_state
        = true
    ∧ (effects_since u (set_notify_disable_run u ((NOTIFY_BLOCK_TYPE_HOST : Nat) : Int))).count
        (Effect.set_host false) = 1
    ∧ (effects_since u (set_notify_disable_run u ((NOTIFY_BLOCK_TYPE_HOST : Nat) : Int))).count
        (Effect.set_host true) = 0
    ∧ test_bit NOTIFY_BLOCK_TYPE_HOST
        (set_notify_disable_run
          (set_notify_disable_run u ((NOTIFY_BLOCK_TYPE_HOST : Nat) : Int))
          ((NOTIFY_BLOCK_TYPE_NONE : Nat) : Int)).udev_disable_state = false
    ∧ test_bit NOTIFY_BLOCK_TYPE_CLIENT
        (set_notify_disable_run
          (set_notify_disable_run u ((NOTIFY_BLOCK_TYPE_HOST : Nat) : Int))
          ((NOTIFY_BLOCK_TYPE_NONE : Nat) : Int)).udev_disable_state = false
    ∧ Effect.atomic_notifier_call_chain (VIRT_EVENT NOTIFY_EVENT_HOST) 1 ∈
        effects_since (set_notify_disable_run u ((NOTIFY_BLOCK_TYPE_HOST : Nat) : Int))
          (set_notify_disable_run
            (set_notify_disable_run u ((NOTIFY_BLOCK_TYPE_HOST : Nat) : Int))
            ((NOTIFY_BLOCK_TYPE_NONE : Nat) : Int))
    ∧ (set_notify_disable_run
          (set_notify_disable_run u ((NOTIFY_BLOCK_TYPE_HOST : Nat) : Int))
          ((NOTIFY_BLOCK_TYPE_NONE : Nat) : Int)).c_type = NOTIFY_EVENT_HOST
    ∧ (set_notify_disable_run
          (set_notify_disable_run u ((NOTIFY_BLOCK_TYPE_HOST : Nat) : Int))
          ((NOTIFY_BLOCK_TYPE_NONE : Nat) : Int)).c_status = NOTIFY_EVENT_ENABLED
    ∧ (effects_since (set_notify_disable_run u ((NOTIFY_BLOCK_TYPE_HOST : Nat) : Int))
          (set_notify_disable_run
            (set_notify_disable_run u ((NOTIFY_BLOCK_TYPE_HOST : Nat) : Int))
            ((NOTIFY_BLOCK_TYPE_NONE : Nat) : Int))).count (Effect.set_host true) = 1
    ∧ (effects_since (set_notify_disable_run u ((NOTIFY_BLOCK_TYPE_HOST : Nat) : Int))
          (set_notify_disable_run
            (set_notify_disable_run u ((NOTIFY_BLOCK_TYPE_HOST : Nat) : Int))
            ((NOTIFY_BLOCK_TYPE_NONE : Nat) : Int))).count (Effect.set_host false) = 0 := by
  obtain ⟨a1, a2, a3, a4, a5, a6, a7, l1, a8, a9, a10⟩ :=
    set_notify_disable_run_host u hdc hsup hct hcs hds hbit hq hk
  obtain ⟨b1, b2, b3, b4, l2, b5, b6, b7, b8⟩ :=
    set_notify_disable_run_none
      (set_notify_disable_run u ((NOTIFY_BLOCK_TYPE_HOST : Nat) : Int))
      (by rw [a4]; exact hdc) (by rw [a4]; exact hsup) a1 a2
      (by rw [a5]; decide) a6 a7
  rw [a4, if_pos hhook] at b7
  rw [if_pos hhook] at a9
  rw [effects_since_of_append a8, effects_since_of_append b5]
  exact ⟨a1, a2, a3, a9, a10, b3, b4, b6, b1, b2, b7, b8⟩

/-- Witness of `block_unblock_round_trip`: the round trip on an enabled Host
connection tears the host down once and brings it up once. -/
theorem block_unblock_round_trip_witness :
    host_enabled_state.o_notify.disable_control ≠ 0
    ∧ host_enabled_state.c_type = NOTIFY_EVENT_HOST
    ∧ host_enabled_state.c_status = NOTIFY_EVENT_ENABLED
    ∧ (set_notify_disable_run host_enabled_state
        ((NOTIFY_BLOCK_TYPE_HOST : Nat) : Int)).c_status = NOTIFY_EVENT_BLOCKED
    ∧ (set_notify_disable_run
          (set_notify_disable_run host_enabled_state ((NOTIFY_BLOCK_TYPE_HOST : Nat) : Int))
          ((NOTIFY_BLOCK_TYPE_NONE : Nat) : Int)).c_status = NOTIFY_EVENT_ENABLED :=
  ⟨by decide, rfl, rfl,
    (block_unblock_round_trip host_enabled_state (by decide) rfl rfl rfl rfl (by decide) rfl
      rfl rfl).2.1,
    (block_unblock_round_trip host_enabled_state (by decide) rfl rfl rfl rfl (by decide) rfl
      rfl rfl).2.2.2.2.2.2.2.2.2.1⟩

/-- C33: effect of the disable events on the disable bitmask. With disable
control on, an enable of AllDisable sets the host and the client disable bit
and a disable of AllDisable clears both; an enable of HostDisable sets the
host bit and clears the client bit; an enable of ClientDisable sets the client
bit and clears the host bit; a disable of HostDisable or of ClientDisable
leaves the bitmask as it was. With disable control off none of these requests
changes the bitmask. -/
theorem disable_events_bitmask (u : usb_notify) (enable : Int) :
    (u.o_notify.disable_control ≠ 0 →
      (enable ≠ 0 →
        (test_bit NOTIFY_BLOCK_TYPE_HOST
            (otg_notify_state u NOTIFY_EVENT_ALL_DISABLE enable).udev_disable_state = true
          ∧ test_bit NOTIFY_BLOCK_TYPE_CLIENT
            (otg_notify_state u NOTIFY_EVENT_ALL_DISABLE enable).udev_disable_state = true)
        ∧ (test_bit NOTIFY_BLOCK_TYPE_HOST
            (otg_notify_state u NOTIFY_EVENT_HOST_DISABLE enable).udev_disable_state = true
          ∧ test_bit NOTIFY_BLOCK_TYPE_CLIENT
            (otg_notify_state u NOTIFY_EVENT_HOST_DISABLE enable).udev_disable_state = false)
        ∧ (test_bit NOTIFY_BLOCK_TYPE_CLIENT
            (otg_notify_state u NOTIFY_EVENT_CLIENT_DISABLE enable).udev_disable_state = true
          ∧ test_bit NOTIFY_BLOCK_TYPE_HOST
            (otg_notify_state u NOTIFY_EVENT_CLIENT_DISABLE enable).udev_disable_state = false))
      ∧ (enable = 0 →
        (test_bit NOTIFY_BLOCK_TYPE_HOST
            (otg_notify_state u NOTIFY_EVENT_ALL_DISABLE enable).udev_disable_state = false
          ∧ test_bit NOTIFY_BLOCK_TYPE_CLIENT
            (otg_notify_state u NOTIFY_EVENT_ALL_DISABLE enable).udev_disable_state = false)
        ∧ (otg_notify_state u NOTIFY_EVENT_HOST_DISABLE enable).udev_disable_state
            = u.udev_disable_state
        ∧ (otg_notify_state u NOTIFY_EVENT_CLIENT_DISABLE enable).udev_disable_state
            = u.udev_disable_state))
    ∧ (u.o_notify.disable_control = 0 →
        (otg_notify_state u NOTIFY_EVENT_ALL_DISABLE enable).udev_disable_state
            = u.udev_disable_state
        ∧ (otg_notify_state u NOTIFY_EVENT_HOST_DISABLE enable).udev_disable_state
            = u.udev_disable_state
        ∧ (otg_notify_state u NOTIFY_EVENT_CLIENT_DISABLE enable).udev_disable_state
            = u.udev_disable_state) := by
  refine ⟨fun hdc => ⟨fun hen => ?_, fun hen => ?_⟩, fun hdc => ?_⟩
  · rw [otg_notify_state_all_disable_event u enable hdc, otg_notify_state_host_disable_event u enable hdc,
      otg_notify_state_client_disable_event u enable hdc, if_pos hen, if_pos hen, if_pos hen]
    exact ⟨test_bit_set_set _, test_bit_host_only _, test_bit_client_only _⟩
  · have hen2 : ¬ (enable ≠ 0) := not_not_intro hen
    rw [otg_notify_state_all_disable_event u enable hdc, otg_notify_state_host_disable_event u enable hdc,
      otg_notify_state_client_disable_event u enable hdc, if_neg hen2, if_neg hen2, if_neg hen2]
    exact ⟨⟨test_bit_host_clear _, test_bit_client_clear _⟩, rfl, rfl⟩
  · rw [otg_notify_state_disable_control_off u _ enable (Or.inl rfl) hdc,
      otg_notify_state_disable_control_off u _ enable (Or.inr (Or.inl rfl)) hdc,
      otg_notify_state_disable_control_off u _ enable (Or.inr (Or.inr rfl)) hdc]
    exact ⟨rfl, rfl, rfl⟩

/-- Witness of `disable_events_bitmask`: on a model with disable control and
the host bit set, an enable of ClientDisable sets the client bit and clears the
host bit. -/
theorem disable_events_bitmask_witness :
    ({ udev_disable_state := 2, o_notify := { disable_control := 1 } }
        : usb_notify).o_notify.disable_control ≠ 0
    ∧ (1 : Int) ≠ 0
    ∧ test_bit NOTIFY_BLOCK_TYPE_CLIENT
        (otg_notify_state { udev_disable_state := 2, o_notify := { disable_control := 1 } }
          NOTIFY_EVENT_CLIENT_DISABLE 1).udev_disable_state = true
    ∧ test_bit NOTIFY_BLOCK_TYPE_HOST
        (otg_notify_state { udev_disable_state := 2, o_notify := { disable_control := 1 } }
          NOTIFY_EVENT_CLIENT_DISABLE 1).udev_disable_state = false :=
  ⟨by decide, by decide,
    (((disable_events_bitmask { udev_disable_state := 2, o_notify := { disable_control := 1 } }
      1).1 (by decide)).1 (by decide)).2.2⟩

/-- C34 (the code at the failing input): the scan of
`usb_match_any_interface_for_id` reads past the end of both arrays its callers
pass. The loop condition reads `whitelist_array[i]` before it compares `i` with
`MAX_WHITELIST_STR_LEN` (256), and the same bound is used for the lock-screen
array of 200 entries. When the 256 entries of `whitelist_array_for_mdm_for_id`
are all non-zero and none is the vendor id of the device, the scan reads index
256; when the 200 entries of `allowlist_array_lockscreen_enabled_id` are all
non-zero and none is the vendor id, the scan reads index 200. -/
theorem id_scan_reads_past_the_array (udev : usb_device) (whitelist_array : Nat → Int) :
    MAX_WHITELIST_STR_LEN = 256 ∧ MAX_ALLOWLIST_DEVICE_BUFFER_INDEX = 200
    ∧ ((∀ i, i < MAX_WHITELIST_STR_LEN →
          whitelist_array i ≠ 0 ∧ whitelist_array i ≠ (udev.idVendor : Int)) →
        MAX_WHITELIST_STR_LEN ∈
          usb_match_any_interface_for_id_reads udev whitelist_array
            (MAX_WHITELIST_STR_LEN / 2 + 1) 0)
    ∧ ((∀ i, i < MAX_ALLOWLIST_DEVICE_BUFFER_INDEX →
          whitelist_array i ≠ 0 ∧ whitelist_array i ≠ (udev.idVendor : Int)) →
        MAX_ALLOWLIST_DEVICE_BUFFER_INDEX ∈
          usb_match_any_interface_for_id_reads udev whitelist_array
            (MAX_WHITELIST_STR_LEN / 2 + 1) 0) := by
  refine ⟨rfl, rfl, fun h => ?_, fun h => ?_⟩
  · exact usb_match_any_interface_for_id_reads_mem udev whitelist_array _ (le_refl _) h _ 0
      (Nat.zero_le _) (by decide) (by decide)
  · exact usb_match_any_interface_for_id_reads_mem udev whitelist_array _ (by decide) h _ 0
      (Nat.zero_le _) (by decide) (by decide)

/-- Witness of `id_scan_reads_past_the_array`: an array whose entries are all 1
and a device with the vendor id 0x04e8. -/
theorem id_scan_reads_past_the_array_witness :
    (∀ i, i < MAX_WHITELIST_STR_LEN →
        (fun _ : Nat => (1 : Int)) i ≠ 0
        ∧ (fun _ : Nat => (1 : Int)) i
            ≠ ((({ idVendor := 0x04e8, idProduct := 0x6860 } : usb_device).idVendor : Nat) : Int))
    ∧ MAX_WHITELIST_STR_LEN ∈
        usb_match_any_interface_for_id_reads { idVendor := 0x04e8, idProduct := 0x6860 }
          (fun _ => 1) (MAX_WHITELIST_STR_LEN / 2 + 1) 0 :=
  ⟨fun _ _ => (show (1 : Int) ≠ 0 ∧ (1 : Int) ≠ ((0x04e8 : Nat) : Int) from by decide),
    (id_scan_reads_past_the_array { idVendor := 0x04e8, idProduct := 0x6860 }
      (fun _ => 1)).2.2.1
      (fun _ _ => (show (1 : Int) ≠ 0 ∧ (1 : Int) ≠ ((0x04e8 : Nat) : Int) from by decide))⟩

/-- C35: the lock-screen allow-list counter. In a state whose counter
`allowlist_restricted` is in the range 0 to 0x7FFFFFFF:
`usb_check_allowlist_for_lockscreen_enabled_id` returns 1 and changes nothing
when the lock state is not Restricted or the matcher finds the device id in the
lock-screen allow-list; otherwise it returns 0 and adds one to the counter
unless the counter equals 0x7FFFFFFF, which it keeps.
`disconnect_unauthorized_device` subtracts one exactly when the counter is
positive and returns 0. The range is kept by the check, by the disconnect and
by every request `otg_notify_state` runs, which leaves the counter as it was
or sets it to 0 (the host disable). -/
theorem allowlist_restricted_counter (u : usb_notify) (dev : usb_device) (ev : Nat)
    (enable : Int) (hinv : allowlist_restricted_in_range u) :
    MAX_VAL = 0x7FFFFFFF
    ∧ ((u.lock_state ≠ USB_NOTIFY_LOCK_USB_RESTRICT
          ∨ usb_match_any_interface_for_id dev u.udev_allowlist_array_lockscreen_enabled_id
              = true) →
        usb_check_allowlist_for_lockscreen_enabled_id u dev = (u, 1))
    ∧ ((u.lock_state = USB_NOTIFY_LOCK_USB_RESTRICT
          ∧ usb_match_any_interface_for_id dev u.udev_allowlist_array_lockscreen_enabled_id
              = false) →
        (usb_check_allowlist_for_lockscreen_enabled_id u dev).2 = 0
        ∧ (usb_check_allowlist_for_lockscreen_enabled_id u dev).1.allowlist_restricted =
            (if u.allowlist_restricted = MAX_VAL then MAX_VAL
             else u.allowlist_restricted + 1))
    ∧ (disconnect_unauthorized_device u dev).1.allowlist_restricted =
        (if 0 < u.allowlist_restricted then u.allowlist_restricted - 1
         else u.allowlist_restricted)
    ∧ (disconnect_unauthorized_device u dev).2 = 0
    ∧ allowlist_restricted_in_range (usb_check_allowlist_for_lockscreen_enabled_id u dev).1
    ∧ allowlist_restricted_in_range (disconnect_unauthorized_device u dev).1
    ∧ ((otg_notify_state u ev enable).allowlist_restricted = u.allowlist_restricted
        ∨ (otg_notify_state u ev enable).allowlist_restricted = 0)
    ∧ allowlist_restricted_in_range (otg_notify_state u ev enable) := by
  obtain ⟨h0, hmax⟩ := hinv
  have hcheck : (usb_check_allowlist_for_lockscreen_enabled_id u dev).1.allowlist_restricted =
      (if u.lock_state = USB_NOTIFY_LOCK_USB_RESTRICT
          ∧ usb_match_any_interface_for_id dev u.udev_allowlist_array_lockscreen_enabled_id
              = false then
         (if u.allowlist_restricted = MAX_VAL then MAX_VAL else u.allowlist_restricted + 1)
       else u.allowlist_restricted) := by
    unfold usb_check_allowlist_for_lockscreen_enabled_id
    dsimp only
    by_cases hl : u.lock_state = USB_NOTIFY_LOCK_USB_RESTRICT
    · cases hm : usb_match_any_interface_for_id dev u.udev_allowlist_array_lockscreen_enabled_id
      · have e1 : ¬ ((false : Bool) = true) := by decide
        have e2 : u.lock_state = USB_NOTIFY_LOCK_USB_RESTRICT ∧ (false : Bool) = false :=
          ⟨hl, rfl⟩
        rw [if_pos hl, if_neg e1, if_pos e2]
        by_cases hlt : u.allowlist_restricted < MAX_VAL
        · rw [if_pos hlt, if_neg (ne_of_lt hlt)]; rfl
        · rw [if_neg hlt, if_pos (le_antisymm hmax (not_lt.1 hlt))]
          exact le_antisymm hmax (not_lt.1 hlt)
      · have e1 : (true : Bool) = true := rfl
        have e2 : ¬ (u.lock_state = USB_NOTIFY_LOCK_USB_RESTRICT ∧ (true : Bool) = false) :=
          fun h => Bool.noConfusion h.2
        rw [if_pos hl, if_pos e1, if_neg e2]
    · rw [if_neg hl, if_neg (fun h => hl h.1)]
  have hdisc : (disconnect_unauthorized_device u dev).1.allowlist_restricted =
      (if 0 < u.allowlist_restricted then u.allowlist_restricted - 1
       else u.allowlist_restricted) := by
    unfold disconnect_unauthorized_device
    dsimp only
    by_cases hz : u.allowlist_restricted = 0
    · rw [if_neg (not_not_intro hz), if_neg (by rw [hz]; decide)]
    · rw [if_pos hz, if_pos (lt_of_le_of_ne h0 (Ne.symm hz))]
      split_ifs <;> rfl
  have hreq := otg_notify_state_allowlist_restricted u ev enable
  have hM : (0 : Int) ≤ MAX_VAL := by decide
  refine ⟨rfl, ?_, ?_, hdisc, rfl, ?_, ?_, hreq, ?_⟩
  · intro h
    unfold usb_check_allowlist_for_lockscreen_enabled_id
    dsimp only
    rcases h with h | h
    · rw [if_neg h]
    · rw [h]
      simp
  · intro h
    refine ⟨?_, ?_⟩
    · unfold usb_check_allowlist_for_lockscreen_enabled_id
      dsimp only
      rw [if_pos h.1, h.2, if_neg (by decide)]
    · rw [hcheck, if_pos h]
  · unfold allowlist_restricted_in_range
    rw [hcheck]
    split_ifs with h1 h2
    · exact ⟨hM, le_refl _⟩
    · exact ⟨by omega, by
        have := lt_of_le_of_ne hmax h2
        omega⟩
    · exact ⟨h0, hmax⟩
  · unfold allowlist_restricted_in_range
    rw [hdisc]
    split_ifs with h1
    · exact ⟨by omega, by omega⟩
    · exact ⟨h0, hmax⟩
  · unfold allowlist_restricted_in_range
    rcases hreq with h | h
    · rw [h]; exact ⟨h0, hmax⟩
    · rw [h]; exact ⟨le_refl _, hM⟩

/-- Witness of `allowlist_restricted_counter`: on a restricted lock screen with
an empty allow-list the check of a device returns 0 and counts it. -/
theorem allowlist_restricted_counter_witness :
    allowlist_restricted_in_range lockscreen_restricted_state
    ∧ (usb_check_allowlist_for_lockscreen_enabled_id lockscreen_restricted_state
        { bDeviceClass := 0, idVendor := 1256, idProduct := 26720, serial := none,
          config := [] }).2 = 0
    ∧ (usb_check_allowlist_for_lockscreen_enabled_id lockscreen_restricted_state
        { bDeviceClass := 0, idVendor := 1256, idProduct := 26720, serial := none,
          config := [] }).1.allowlist_restricted =
        (if lockscreen_restricted_state.allowlist_restricted = MAX_VAL then MAX_VAL
         else lockscreen_restricted_state.allowlist_restricted + 1) :=
  ⟨by decide,
    (allowlist_restricted_counter lockscreen_restricted_state
      { bDeviceClass := 0, idVendor := 1256, idProduct := 26720, serial := none,
        config := [] } NOTIFY_EVENT_HOST 0 (by decide)).2.2.1 ⟨rfl, by decide⟩⟩

/-- C36: illegal-condition detection. `detect_illegal_condition` sets the
restricted flag for the type AudioDescriptor in every state; for the type
SecureDisconnection it sets the flag if and only if some counter of
`secure_connect_group` is at least `MAX_SECURE_CONNECTION` (10) and otherwise
changes nothing; for any other type it changes nothing. It never clears the
flag. When it sets the flag and a host cable is enabled it sends the virtual
disable of the current cable type (the request goes on the work queue) before
the two host-block notifications; with no host cable enabled it sends the two
notifications only. -/
theorem detect_illegal_condition_sets_restricted (u : usb_notify)
    (type : illegal_condition_type) :
    (detect_illegal_condition u illegal_condition_type.NOTIFY_EVENT_AUDIO_DESCRIPTOR).restricted
        = 1
    ∧ MAX_SECURE_CONNECTION = 10
    ∧ ((∃ c ∈ u.secure_connect_group, MAX_SECURE_CONNECTION ≤ c) →
        (detect_illegal_condition u
          illegal_condition_type.NOTIFY_EVENT_SECURE_DISCONNECTION).restricted = 1)
    ∧ ((¬ ∃ c ∈ u.secure_connect_group, MAX_SECURE_CONNECTION ≤ c) →
        detect_illegal_condition u illegal_condition_type.NOTIFY_EVENT_SECURE_DISCONNECTION = u)
    ∧ detect_illegal_condition u illegal_condition_type.other = u
    ∧ (u.restricted ≠ 0 → (detect_illegal_condition u type).restricted ≠ 0)
    ∧ (¬ sets_restricted u type → detect_illegal_condition u type = u)
    ∧ (sets_restricted u type →
        (detect_illegal_condition u type).restricted = 1
        ∧ (is_host_cable_enable u = true →
            effects_since u (detect_illegal_condition u type) =
              [Effect.atomic_notifier_call_chain (VIRT_EVENT u.c_type) 0,
               Effect.send_external_notify EXTERNAL_NOTIFY_HOSTBLOCK_PRE 1,
               Effect.send_external_notify EXTERNAL_NOTIFY_HOSTBLOCK_POST 1]
            ∧ (u.kmalloc_ok = true →
                (detect_illegal_condition u type).notifier_wq =
                  u.notifier_wq ++ [{ event := VIRT_EVENT u.c_type, enable := 0 }]))
        ∧ (is_host_cable_enable u = false →
            effects_since u (detect_illegal_condition u type) =
              [Effect.send_external_notify EXTERNAL_NOTIFY_HOSTBLOCK_PRE 1,
               Effect.send_external_notify EXTERNAL_NOTIFY_HOSTBLOCK_POST 1]
            ∧ (detect_illegal_condition u type).notifier_wq = u.notifier_wq)) := by
  have hset : ∀ t, sets_restricted u t →
      detect_illegal_condition u t =
        send_external_notify
          (send_external_notify
            (if is_host_cable_enable u = true then
               send_otg_notify_chain (fun v _ _ => (v, notifier_ret.NOTIFY_DONE))
                 { u with restricted := 1 } (VIRT_EVENT u.c_type) 0
             else { u with restricted := 1 })
            EXTERNAL_NOTIFY_HOSTBLOCK_PRE 1)
          EXTERNAL_NOTIFY_HOSTBLOCK_POST 1 := by
    intro t ht
    rcases ht with h | ⟨h, hc⟩
    · subst h
      unfold detect_illegal_condition
      dsimp only
      rw [if_pos (by decide)]
      rfl
    · subst h
      unfold detect_illegal_condition
      dsimp only
      rw [if_pos ((check_secure_connection_iff u).2 hc), if_pos (by decide)]
      rfl
  have hnot : ∀ t, ¬ sets_restricted u t → detect_illegal_condition u t = u := by
    intro t ht
    cases t with
    | NOTIFY_EVENT_AUDIO_DESCRIPTOR => exact absurd (Or.inl rfl) ht
    | NOTIFY_EVENT_SECURE_DISCONNECTION =>
        have hc : ¬ (check_secure_connection u = true) := fun hc =>
          ht (Or.inr ⟨rfl, (check_secure_connection_iff u).1 hc⟩)
        unfold detect_illegal_condition
        dsimp only
        rw [if_neg hc, if_neg (by decide)]
    | other =>
        unfold detect_illegal_condition
        dsimp only
        rw [if_neg (by decide)]
  have hres : ∀ t, sets_restricted u t → (detect_illegal_condition u t).restricted = 1 := by
    intro t ht
    rw [hset t ht]
    by_cases hh : is_host_cable_enable u = true
    · rw [if_pos hh, send_otg_notify_chain_virtual _ _ _ _ (is_host_cable_enable_lt u hh)]
      by_cases hk : u.kmalloc_ok = true
      · rw [if_pos hk]; rfl
      · rw [if_neg hk]; rfl
    · rw [if_neg hh]; rfl
  refine ⟨hres _ (Or.inl rfl), rfl, fun hc => hres _ (Or.inr ⟨rfl, hc⟩),
    fun hc => hnot _ (fun h => ?_), hnot _ (fun h => ?_), fun hr => ?_, hnot type,
    fun ht => ⟨hres type ht, fun hh => ?_, fun hh => ?_⟩⟩
  · rcases h with h | ⟨_, h⟩
    · cases h
    · exact hc h
  · rcases h with h | ⟨h, _⟩ <;> cases h
  · by_cases ht : sets_restricted u type
    · rw [hres type ht]; decide
    · rw [hnot type ht]; exact hr
  · rw [hset type ht, if_pos hh,
      send_otg_notify_chain_virtual _ _ _ _ (is_host_cable_enable_lt u hh)]
    by_cases hk : u.kmalloc_ok = true
    · rw [if_pos hk]
      exact ⟨effects_since_of_append (by
        simp only [send_external_notify, emit_trace, List.append_assoc]; rfl), fun _ => rfl⟩
    · rw [if_neg hk]
      exact ⟨effects_since_of_append (by
        simp only [send_external_notify, emit_trace, List.append_assoc]; rfl),
        fun hk2 => absurd hk2 hk⟩
  · have hh2 : ¬ (is_host_cable_enable u = true) := by rw [hh]; decide
    rw [hset type ht, if_neg hh2]
    exact ⟨effects_since_of_append (by
      simp only [send_external_notify, emit_trace, List.append_assoc]; rfl), rfl⟩

/-- Witness of `detect_illegal_condition_sets_restricted`: a secure
disconnection on an enabled Gamepad connection whose second counter is at the
limit sends the virtual disable of Gamepad and the two notifications. -/
theorem detect_illegal_condition_sets_restricted_witness :
    sets_restricted secure_limit_state
      illegal_condition_type.NOTIFY_EVENT_SECURE_DISCONNECTION
    ∧ is_host_cable_enable secure_limit_state = true
    ∧ effects_since secure_limit_state
        (detect_illegal_condition secure_limit_state
          illegal_condition_type.NOTIFY_EVENT_SECURE_DISCONNECTION) =
          [Effect.atomic_notifier_call_chain (VIRT_EVENT secure_limit_state.c_type) 0,
           Effect.send_external_notify EXTERNAL_NOTIFY_HOSTBLOCK_PRE 1,
           Effect.send_external_notify EXTERNAL_NOTIFY_HOSTBLOCK_POST 1] :=
  ⟨Or.inr ⟨rfl, 10, by decide, by decide⟩, by decide,
    (((detect_illegal_condition_sets_restricted secure_limit_state
      illegal_condition_type.NOTIFY_EVENT_SECURE_DISCONNECTION).2.2.2.2.2.2.2
        (Or.inr ⟨rfl, 10, by decide, by decide⟩)).2.1 (by decide)).1⟩

/-- C37: reverse-bypass staging. In the state reached by any sequence of
ReverseBypassAttach, ReverseBypassConnect and DriveVbus events, the next event
invokes `reverse_bypass_drive(1)` only if it is a ReverseBypassConnect received
in status Prepare, and it then moves the status to On; with the hook registered
a ReverseBypassConnect in status Prepare does invoke it, once. A
ReverseBypassConnect received in another status (Off or On) invokes nothing and
changes nothing. An enabling ReverseBypassAttach sets the status Prepare and
invokes nothing; a disabling one sets the status Off and, with the hook
registered, invokes `reverse_bypass_drive(0)`. -/
theorem reverse_bypass_staging (u : usb_notify) (events : List reverse_bypass_event)
    (ev : reverse_bypass_event) (enable : Int) :
    (Effect.reverse_bypass_drive 1 ∈
        effects_since (reverse_bypass_run u events)
          (reverse_bypass_step (reverse_bypass_run u events) ev) →
      (∃ en, ev = reverse_bypass_event.connect en)
      ∧ (reverse_bypass_run u events).reverse_bypass_status
          = NOTIFY_EVENT_REVERSE_BYPASS_PREPARE
      ∧ (reverse_bypass_step (reverse_bypass_run u events) ev).reverse_bypass_status
          = NOTIFY_EVENT_REVERSE_BYPASS_ON)
    ∧ ((reverse_bypass_run u events).o_notify.reverse_bypass_drive = true →
        (reverse_bypass_run u events).reverse_bypass_status
          = NOTIFY_EVENT_REVERSE_BYPASS_PREPARE →
        effects_since (reverse_bypass_run u events)
            (reverse_bypass_step (reverse_bypass_run u events)
              (reverse_bypass_event.connect enable))
          = [Effect.reverse_bypass_drive 1]
        ∧ (reverse_bypass_step (reverse_bypass_run u events)
              (reverse_bypass_event.connect enable)).reverse_bypass_status
            = NOTIFY_EVENT_REVERSE_BYPASS_ON)
    ∧ ((reverse_bypass_run u events).reverse_bypass_status
          ≠ NOTIFY_EVENT_REVERSE_BYPASS_PREPARE →
        reverse_bypass_step (reverse_bypass_run u events)
            (reverse_bypass_event.connect enable)
          = reverse_bypass_run u events)
    ∧ (enable ≠ 0 →
        (reverse_bypass_step (reverse_bypass_run u events)
            (reverse_bypass_event.attach enable)).reverse_bypass_status
          = NOTIFY_EVENT_REVERSE_BYPASS_PREPARE
        ∧ effects_since (reverse_bypass_run u events)
            (reverse_bypass_step (reverse_bypass_run u events)
              (reverse_bypass_event.attach enable)) = [])
    ∧ (reverse_bypass_step (reverse_bypass_run u events)
          (reverse_bypass_event.attach 0)).reverse_bypass_status
        = NOTIFY_EVENT_REVERSE_BYPASS_OFF
    ∧ ((reverse_bypass_run u events).o_notify.reverse_bypass_drive = true →
        effects_since (reverse_bypass_run u events)
            (reverse_bypass_step (reverse_bypass_run u events)
              (reverse_bypass_event.attach 0))
          = [Effect.reverse_bypass_drive 0]) := by
  generalize reverse_bypass_run u events = s
  refine ⟨?_, ?_, ?_, ?_, ?_, ?_⟩
  · intro hmem
    cases ev with
    | attach en =>
        exfalso
        revert hmem
        simp only [reverse_bypass_step, extra_notify_state, effects_since]
        split_ifs <;> simp [usb_notify.emit]
    | connect en =>
        by_cases hc : s.o_notify.reverse_bypass_drive = true
            ∧ s.reverse_bypass_status = NOTIFY_EVENT_REVERSE_BYPASS_PREPARE
        · refine ⟨⟨en, rfl⟩, hc.2, ?_⟩
          simp only [reverse_bypass_step, extra_notify_state]
          rw [if_pos hc]
          rfl
        · exfalso
          revert hmem
          simp only [reverse_bypass_step, extra_notify_state]
          rw [if_neg hc, effects_since_self]
          simp
    | drive_vbus en =>
        exfalso
        obtain ⟨l, hl, hnot⟩ := otg_notify_state_drive_vbus_trace s en
        have he : effects_since s (reverse_bypass_step s (reverse_bypass_event.drive_vbus en))
            = l := effects_since_of_append hl
        rw [he] at hmem
        exact hnot hmem
  · intro hh hp
    simp only [reverse_bypass_step, extra_notify_state]
    rw [if_pos ⟨hh, hp⟩]
    exact ⟨effects_since_of_append rfl, rfl⟩
  · intro hp
    simp only [reverse_bypass_step, extra_notify_state]
    rw [if_neg (fun h => hp h.2)]
  · intro hen
    simp only [reverse_bypass_step, extra_notify_state]
    rw [if_pos hen]
    exact ⟨rfl, effects_since_of_append (List.append_nil _).symm⟩
  · simp only [reverse_bypass_step, extra_notify_state]
    rw [if_neg (by decide)]
    split_ifs <;> rfl
  · intro hh
    simp only [reverse_bypass_step, extra_notify_state]
    rw [if_neg (by decide), if_pos hh]
    exact effects_since_of_append rfl

/-- Witness of `reverse_bypass_staging`: after an enabling attach, a connect
invokes `reverse_bypass_drive(1)` and the status is On. -/
theorem reverse_bypass_staging_witness :
    (reverse_bypass_run drive_vbus_state
        [reverse_bypass_event.attach 1]).o_notify.reverse_bypass_drive = true
    ∧ (reverse_bypass_run drive_vbus_state
        [reverse_bypass_event.attach 1]).reverse_bypass_status
          = NOTIFY_EVENT_REVERSE_BYPASS_PREPARE
    ∧ effects_since (reverse_bypass_run drive_vbus_state [reverse_bypass_event.attach 1])
        (reverse_bypass_step (reverse_bypass_run drive_vbus_state [reverse_bypass_event.attach 1])
          (reverse_bypass_event.connect 1))
        = [Effect.reverse_bypass_drive 1] :=
  ⟨rfl, rfl,
    ((reverse_bypass_staging drive_vbus_state [reverse_bypass_event.attach 1]
      (reverse_bypass_event.connect 1) 1).2.1 rfl rfl).1⟩

/-- C38 (the code at the failing input): `set_otg_notify` reports success on
an aborted registration. On a model with host support whose `vbus_drive` hook
is NULL, with every service succeeding and `host_notify_dev_register`
returning 0, the function logs "vbus_drive is null" and jumps to `err6`
without assigning `ret`: the per-device state is freed, the `o_notify` of the
core is set back to NULL, and the return value is 0. This is the only way in
which a run that frees the per-device state returns 0. -/
theorem set_otg_notify_null_vbus_drive (k : set_otg_notify_calls) (n : otg_notify)
    (m : Option otg_notify) :
    ((k.u_notify_core = true ∧ k.core_o_notify = false ∧ k.kzalloc = true
        ∧ k.create_singlethread_workqueue = true
        ∧ 0 ≤ k.atomic_notifier_chain_register ∧ 0 ≤ k.blocking_notifier_chain_register
        ∧ n.unsupport_host = 0 ∧ n.vbus_drive = false ∧ k.host_notify_dev_register = 0) →
      set_otg_notify k (some n) = (0, set_otg_notify_exit.err6)
      ∧ set_otg_notify_frees_state (set_otg_notify k (some n)).2 = true
      ∧ set_otg_notify_clears_core (set_otg_notify k (some n)).2 = true)
    ∧ (set_otg_notify_frees_state (set_otg_notify k m).2 = true →
        (set_otg_notify k m).1 = 0 →
        ∃ n', m = some n' ∧ n'.unsupport_host = 0 ∧ n'.vbus_drive = false
          ∧ k.host_notify_dev_register = 0) := by
  constructor
  · rintro ⟨h1, h2, h3, h4, h5, h6, h7, h8, h9⟩
    have hres : set_otg_notify k (some n) = (0, set_otg_notify_exit.err6) := by
      simp only [set_otg_notify, h1, h2, h3, h4, h7, h8, h9, not_lt.2 h5, not_lt.2 h6,
        Option.isSome_some, ne_eq, not_true_eq_false, not_false_eq_true, if_false, if_true,
        false_and, and_false, and_true, Bool.false_eq_true, lt_self_iff_false]
    rw [hres]
    exact ⟨rfl, rfl, rfl⟩
  · cases m with
    | none =>
        intro hf
        exfalso
        revert hf
        simp only [set_otg_notify]
        split_ifs <;> simp [set_otg_notify_frees_state]
    | some n' =>
        intro hf hz
        exact ⟨n', rfl, set_otg_notify_freed_zero k n' _ rfl hf hz⟩

/-- Witness of `set_otg_notify_null_vbus_drive`: the default model (host
supported, no `vbus_drive` hook) with every service succeeding. -/
theorem set_otg_notify_null_vbus_drive_witness :
    (({} : set_otg_notify_calls).u_notify_core = true
      ∧ ({} : set_otg_notify_calls).core_o_notify = false
      ∧ ({} : set_otg_notify_calls).kzalloc = true
      ∧ ({} : set_otg_notify_calls).create_singlethread_workqueue = true
      ∧ 0 ≤ ({} : set_otg_notify_calls).atomic_notifier_chain_register
      ∧ 0 ≤ ({} : set_otg_notify_calls).blocking_notifier_chain_register
      ∧ ({} : otg_notify).unsupport_host = 0 ∧ ({} : otg_notify).vbus_drive = false
      ∧ ({} : set_otg_notify_calls).host_notify_dev_register = 0)
    ∧ set_otg_notify {} (some {}) = (0, set_otg_notify_exit.err6) :=
  ⟨by decide, ((set_otg_notify_null_vbus_drive {} {} none).1 (by decide)).1⟩

/-- C39 (the code at the failing input): an exact match is lost when the
matching row holds the temperature -1. `find_appropriate_temp` returns the
temperature of the row it finds and -1 for "not found", and
`convert_adc_to_temp` takes -1 for "not found". In a table of five rows with
strictly increasing ADC values whose second row is (200, -1), the search for
the ADC value 200 ends on that row with `low = high = 1`; the caller goes on
to `calculate_temp(1, 1, ...)`, which divides by
`adc_table[1].adc - adc_table[1].adc = 0`. In a table of three rows whose
middle row is (200, -1) the search ends with `low = 0`, `high = 2` and the
function returns the interpolation -5 between the outer rows. With any other
temperature in the row (here 7) the same lookups return it. -/
theorem exact_match_lost_at_minus_one :
    strictly_increasing_adc minus_one_table
    ∧ adc_table_at minus_one_table 1 = some { adc := 200, temperature := -1 }
    ∧ find_appropriate_temp minus_one_table 200 6 0 4 = (1, 1, therm_result.value (-1))
    ∧ convert_adc_to_temp { adc_table := some minus_one_table, adc_arr_size := 5 } 200
        = therm_result.division_by_zero
    ∧ strictly_increasing_adc minus_one_short_table
    ∧ adc_table_at minus_one_short_table 1 = some { adc := 200, temperature := -1 }
    ∧ convert_adc_to_temp { adc_table := some minus_one_short_table, adc_arr_size := 3 } 200
        = therm_result.value (-5)
    ∧ convert_adc_to_temp
        { adc_table := some [{ adc := 100, temperature := 10 }, { adc := 200, temperature := 7 },
            { adc := 300, temperature := -20 }], adc_arr_size := 3 } 200
        = therm_result.value 7 := by
  decide

end UsbNotify
